import Mathlib

/-!
# Mintaro audio mixer: a shallow embedding of `mintaro.h`

The development follows the audio part of `mintaro.h`: the sound source,
sound, sound group and context records, the sound and group operations,
the mixing function `mo_sound__read_and_accumulate_frames` and the device
callback `mo_on_send_frames__mal`, the registry operations
`mo_sound_create`, `mo_sound_delete` and `mo_sound_mark_for_deletion`, and the
loading of sound sources: `mo_sound_source_create`, `mo_sound_source_load`
and the WAV decoder `mo_sound_source_load__wav`, together with the table
generator `tools/mintaro_gen_law.c`.  Of the device layer it follows the null
backend and the state machine of a device: `mal_device_init`,
`mal_device_start`, `mal_device_stop`, `mal_device_uninit` and
`mal_worker_thread`.

Conventions of the embedding.

* Machine integers are natural numbers or integers; every C expression that is
  evaluated in `mo_uint32` or `mo_uint64` carries its reduction modulo
  `2 ^ 32` or `2 ^ 64`.
* C `float` is IEEE-754 binary32, see `F32`.
* Behaviour that C leaves undefined (out-of-bounds access, division by zero,
  conversion of a NaN to an integer, a shift count outside the width of the
  operand, a read through a NULL pointer), a failed `mo_assert` and a loop
  that has not finished within its fuel are reported as a `Fault`.
* Pointers that an operation tests against `NULL` are `Option`s.  The
  back-pointer `pSound->pContext` is implicit: an operation that follows it
  takes the part of the context it touches as an argument.
* A file in memory is the list of its bytes; a decoder works on the bytes from
  its read position to the end of the buffer, and a load behind the end of the
  buffer is a `Fault`.  Results of allocations, of the file system and of the
  external Vorbis and FLAC decoders are arguments.
* Threads are interleaved: every access to the device record, to its mutex
  and to its events is one step of the thread that makes it, and a system of
  threads moves by the steps of its threads in any order.
-/

namespace Mintaro

/-! ## C `float` -/

/-- IEEE-754 binary32 values.  A finite value is the rational number it
denotes; the two zeros are identified, which no operation used by the mixer
(`*`, `+`, `<`, `>`, conversion to an integer) can tell apart. -/
inductive F32 where
  | fin (q : ℚ)
  | inf (neg : Bool)
  | nan
deriving DecidableEq

/-- Whether a rational number is exactly a binary32 value: `m * 2 ^ e` with
`|m| < 2 ^ 24`, `-149 ≤ e` and magnitude below `2 ^ 128`. -/
def isBinary32 (q : ℚ) : Bool :=
  decide (2 ^ 149 % q.den = 0)
    && decide (q.num.natAbs / Nat.gcd q.num.natAbs (2 ^ 128) < 2 ^ 24)
    && decide (q.num.natAbs < 2 ^ 128 * q.den)

/-- Nearest integer, ties to even. -/
def roundHalfEven (x : ℚ) : ℤ :=
  let f := ⌊x⌋
  let d := x - f
  if d < 1 / 2 then f else if 1 / 2 < d then f + 1 else if f % 2 = 0 then f else f + 1

namespace F32

/-- Rounding of an exact result to binary32 (round to nearest, ties to even,
overflow to infinity). -/
def round (q : ℚ) : F32 :=
  if isBinary32 q then fin q
  else
    let e : ℤ := max (Int.log 2 |q| - 23) (-149)
    let r : ℚ := (roundHalfEven (q / (2 : ℚ) ^ e) : ℚ) * (2 : ℚ) ^ e
    if (2 : ℚ) ^ 128 ≤ |r| then inf (decide (q < 0)) else fin r

/-- Conversion of a 16-bit (or any small) integer to `float`: exact. -/
def ofInt (n : Int) : F32 := fin n

/-- C `a * b` on `float`. -/
def mul : F32 → F32 → F32
  | nan, _ => nan
  | _, nan => nan
  | inf s, inf t => inf (s != t)
  | inf s, fin b => if b = 0 then nan else inf (s != decide (b < 0))
  | fin a, inf t => if a = 0 then nan else inf (decide (a < 0) != t)
  | fin a, fin b => round (a * b)

/-- C `a + b` on `float`. -/
def add : F32 → F32 → F32
  | nan, _ => nan
  | _, nan => nan
  | inf s, inf t => if s = t then inf s else nan
  | inf s, fin _ => inf s
  | fin _, inf t => inf t
  | fin a, fin b => round (a + b)

/-- C `a < b` on `float`. -/
def lt : F32 → F32 → Bool
  | nan, _ => false
  | _, nan => false
  | inf s, inf t => s && !t
  | inf s, fin _ => s
  | fin _, inf t => !t
  | fin a, fin b => decide (a < b)

/-- C `a > b` on `float`. -/
def gt (a b : F32) : Bool := lt b a

/-- C `(mo_int16)a`: truncation toward zero; undefined when the truncated
value is not a 16-bit integer (in particular for NaN and the infinities). -/
def toInt16 : F32 → Option Int
  | fin q =>
    let t : Int := Int.tdiv q.num q.den
    if -32768 ≤ t ∧ t ≤ 32767 then some t else none
  | _ => none

end F32

/-- `mo_clampf`. -/
def mo_clampf (a lo hi : F32) : F32 :=
  if F32.gt a hi then hi else (if F32.lt a lo then lo else a)

/-! ## Constants -/

def MO_SOUND_GROUP_MASTER : Nat := 0
def MO_SOUND_GROUP_EFFECTS : Nat := 1
def MO_SOUND_GROUP_MUSIC : Nat := 2
def MO_SOUND_GROUP_VOICE : Nat := 3
def MO_SOUND_GROUP_COUNT : Nat := 4

def MO_SOUND_GROUP_FLAG_PAUSED : Nat := 1

def MO_SOUND_FLAG_PLAYING : Nat := 1
def MO_SOUND_FLAG_PAUSED : Nat := 2
def MO_SOUND_FLAG_LOOPING : Nat := 4
def MO_SOUND_FLAG_STREAMING : Nat := 8
def MO_SOUND_FLAG_STOP_ON_NEXT_CHUNK : Nat := 16
def MO_SOUND_FLAG_INLINED : Nat := 32

/-- The C expression `~flag` converted to `mo_uint32`. -/
def notU32 (flag : Nat) : Nat := (2 ^ 32 - 1) ^^^ flag

/-! ## Records -/

/-- `struct mo_sound_source`; `pSampleData` is the trailing sample array. -/
structure mo_sound_source where
  channels : Nat
  sampleRate : Nat
  sampleCount : Nat
  pSampleData : List Int
deriving DecidableEq

/-- `struct mo_sound` (without the back-pointer `pContext`). -/
structure mo_sound where
  pSource : mo_sound_source
  group : Nat
  linearVolume : F32
  pan : F32
  flags : Nat
  currentSample : Nat
  isMarkedForDeletion : Bool
deriving DecidableEq

/-- `struct mo_sound_group`. -/
structure mo_sound_group where
  linearVolume : F32
  flags : Nat
deriving DecidableEq

/-- The audio fields of `struct mo_context`: `playbackDevice2.channels`, the
group table, the registry `ppSounds[0 .. soundCount)` with its capacity, and
the garbage flag. -/
structure mo_context where
  deviceChannels : Nat
  soundGroups : List mo_sound_group
  ppSounds : List mo_sound
  soundBufferSize : Nat
  isSoundMarkedForDeletion : Bool
deriving DecidableEq

/-- What stops an execution short of a result. -/
inductive Fault where
  | outOfFuel
  | assertFailed
  | divByZero
  | srcOutOfBounds
  | dstOutOfBounds
  | groupOutOfBounds
  | floatToIntUB
  | shiftOutOfRange
  | nullDereference
deriving DecidableEq

deriving instance DecidableEq for Except

/-! ## Sound operations -/

/-- `mo_sound_play`; `loop` is the truth value of the `mo_bool32` argument. -/
def mo_sound_play (pSound : Option mo_sound) (loop : Bool) : Option mo_sound :=
  match pSound with
  | none => none
  | some s =>
    let flags :=
      if loop then s.flags ||| MO_SOUND_FLAG_LOOPING
      else s.flags &&& notU32 MO_SOUND_FLAG_LOOPING
    some { s with flags := flags ||| MO_SOUND_FLAG_PLAYING }

/-- `mo_sound_stop`. -/
def mo_sound_stop (pSound : Option mo_sound) : Option mo_sound :=
  match pSound with
  | none => none
  | some s => some { s with flags := s.flags &&& notU32 MO_SOUND_FLAG_PLAYING }

/-- `mo_sound_is_playing`. -/
def mo_sound_is_playing (pSound : Option mo_sound) : Bool :=
  match pSound with
  | none => false
  | some s => s.flags &&& MO_SOUND_FLAG_PLAYING != 0

/-- `mo_sound_is_looping`. -/
def mo_sound_is_looping (pSound : Option mo_sound) : Bool :=
  match pSound with
  | none => false
  | some s => s.flags &&& MO_SOUND_FLAG_LOOPING != 0

/-- `mo_sound_mark_for_deletion`.  The first component is
`pSound->pContext->isSoundMarkedForDeletion`, given and returned. -/
def mo_sound_mark_for_deletion (isSoundMarkedForDeletion : Bool) (pSound : Option mo_sound) :
    Bool × Option mo_sound :=
  match pSound with
  | none => (isSoundMarkedForDeletion, none)
  | some s =>
    if s.isMarkedForDeletion then (isSoundMarkedForDeletion, some s)
    else (true, mo_sound_stop (some { s with isMarkedForDeletion := true }))

/-- `mo_sound_set_volume`. -/
def mo_sound_set_volume (pSound : Option mo_sound) (linearVolume : F32) : Option mo_sound :=
  match pSound with
  | none => none
  | some s =>
    let linearVolume := if F32.lt linearVolume (F32.ofInt 0) then F32.ofInt 0 else linearVolume
    some { s with linearVolume := linearVolume }

/-- `mo_result` codes. -/
def MO_SUCCESS : Int := 0
def MO_ERROR : Int := -1
def MO_INVALID_ARGS : Int := -2
def MO_OUT_OF_MEMORY : Int := -3

/-- `mo_sound_create`.  `hasOut` tells whether `ppSound` is non-NULL;
`callocOk` and `reallocOk` tell whether the two allocations succeed.  The
result is the returned code, the context after the call and `*ppSound` after
the call (`none` for NULL); the created sound is the last entry of the
registry. -/
def mo_sound_create (pContext : Option mo_context) (pSource : Option mo_sound_source)
    (group : Nat) (hasOut callocOk reallocOk : Bool) :
    Except Fault (Int × Option mo_context × Option mo_sound) :=
  if !hasOut then .ok (MO_INVALID_ARGS, pContext, none)
  else
    match pContext, pSource with
    | some ctx, some src =>
      if group ≥ MO_SOUND_GROUP_COUNT then .ok (MO_INVALID_ARGS, pContext, none)
      else if !callocOk then .ok (MO_OUT_OF_MEMORY, pContext, none)
      else
        let pSound : mo_sound :=
          { pSource := src, group := group, linearVolume := F32.ofInt 1, pan := F32.ofInt 0,
            flags := 0, currentSample := 0, isMarkedForDeletion := false }
        let grow := decide (ctx.soundBufferSize = ctx.ppSounds.length)
        if grow && !reallocOk then .ok (MO_OUT_OF_MEMORY, pContext, none)
        else
          let newSoundBufferSize :=
            if ctx.soundBufferSize = 0 then 8 else (ctx.soundBufferSize * 2) % 2 ^ 32
          let soundBufferSize := if grow then newSoundBufferSize else ctx.soundBufferSize
          if soundBufferSize > ctx.ppSounds.length then
            .ok (MO_SUCCESS,
                 some { ctx with ppSounds := ctx.ppSounds ++ [pSound],
                                 soundBufferSize := soundBufferSize },
                 some pSound)
          else .error .assertFailed
    | _, _ => .ok (MO_INVALID_ARGS, pContext, none)

/-- `mo_play_sound_source`: the returned code and the context after the call.
The sound it creates is the last entry of the registry. -/
def mo_play_sound_source (pContext : Option mo_context) (pSource : Option mo_sound_source)
    (group : Nat) (callocOk reallocOk : Bool) : Except Fault (Int × Option mo_context) :=
  match pContext, pSource with
  | some _, some _ =>
    match mo_sound_create pContext pSource group true callocOk reallocOk with
    | .error e => .error e
    | .ok (result, ctx, pSound) =>
      if result ≠ MO_SUCCESS then .ok (result, ctx)
      else
        match ctx, pSound with
        | some ctx, some s =>
          match mo_sound_play (some { s with flags := s.flags ||| MO_SOUND_FLAG_INLINED }) false with
          | some s =>
            .ok (MO_SUCCESS,
                 some { ctx with ppSounds := ctx.ppSounds.set (ctx.ppSounds.length - 1) s })
          | none => .error .assertFailed
        | _, _ => .error .assertFailed
  | _, _ => .ok (MO_INVALID_ARGS, pContext)

/-! ## Sound group operations -/

/-- `mo_sound_group_pause`. -/
def mo_sound_group_pause (pContext : Option mo_context) (group : Nat) :
    Except Fault (Option mo_context) :=
  match pContext with
  | none => .ok none
  | some ctx =>
    if group < MO_SOUND_GROUP_COUNT then .ok (some ctx)
    else
      match ctx.soundGroups[group]? with
      | none => .error .groupOutOfBounds
      | some g =>
        let g := { g with flags := g.flags ||| MO_SOUND_GROUP_FLAG_PAUSED }
        .ok (some { ctx with soundGroups := ctx.soundGroups.set group g })

/-- `mo_sound_group_resume`. -/
def mo_sound_group_resume (pContext : Option mo_context) (group : Nat) :
    Except Fault (Option mo_context) :=
  match pContext with
  | none => .ok none
  | some ctx =>
    if group < MO_SOUND_GROUP_COUNT then .ok (some ctx)
    else
      match ctx.soundGroups[group]? with
      | none => .error .groupOutOfBounds
      | some g =>
        let g := { g with flags := g.flags &&& notU32 MO_SOUND_GROUP_FLAG_PAUSED }
        .ok (some { ctx with soundGroups := ctx.soundGroups.set group g })

/-- `mo_sound_group_is_paused`. -/
def mo_sound_group_is_paused (pContext : Option mo_context) (group : Nat) : Except Fault Bool :=
  match pContext with
  | none => .ok false
  | some ctx =>
    if group < MO_SOUND_GROUP_COUNT then .ok false
    else
      match ctx.soundGroups[group]? with
      | none => .error .groupOutOfBounds
      | some g => .ok (g.flags &&& MO_SOUND_GROUP_FLAG_PAUSED != 0)

/-- `mo_sound_group_set_volume`. -/
def mo_sound_group_set_volume (pContext : Option mo_context) (group : Nat) (linearVolume : F32) :
    Except Fault (Option mo_context) :=
  match pContext with
  | none => .ok none
  | some ctx =>
    if group < MO_SOUND_GROUP_COUNT then .ok (some ctx)
    else
      let linearVolume := if F32.lt linearVolume (F32.ofInt 0) then F32.ofInt 0 else linearVolume
      match ctx.soundGroups[group]? with
      | none => .error .groupOutOfBounds
      | some g =>
        let g := { g with linearVolume := linearVolume }
        .ok (some { ctx with soundGroups := ctx.soundGroups.set group g })

/-! ## The mixer -/

/-- Read of `pSound->pSource->pSampleData[i]`. -/
def loadSample (src : mo_sound_source) (i : Nat) : Except Fault Int :=
  match src.pSampleData[i]? with
  | some s => .ok s
  | none => .error .srcOutOfBounds

/-- Read of `pFrames[i]`, `pFrames` pointing `off` samples into the buffer. -/
def loadFrame (buf : List Int) (off i : Nat) : Except Fault Int :=
  match buf[off + i]? with
  | some s => .ok s
  | none => .error .dstOutOfBounds

/-- Write of `pFrames[i]`, `pFrames` pointing `off` samples into the buffer. -/
def storeFrame (buf : List Int) (off i : Nat) (v : Int) : Except Fault (List Int) :=
  if off + i < buf.length then .ok (buf.set (off + i) v) else .error .dstOutOfBounds

/-- The C expression `(mo_int16)(mo_clampf(x, -32768.0f, 32767.0f))`. -/
def clampToInt16 (x : F32) : Except Fault Int :=
  match F32.toInt16 (mo_clampf x (F32.fin (-32768)) (F32.fin 32767)) with
  | some v => .ok v
  | none => .error .floatToIntUB

/-- Body of the frame loop of the mono branch. -/
def mixFrameMono (src : mo_sound_source) (currentSample : Nat) (linearVolume : F32)
    (deviceChannels off : Nat) (buf : List Int) (iFrame : Nat) : Except Fault (List Int) := do
  let s ← loadSample src ((currentSample + iFrame) % 2 ^ 64)
  let scaledSample0 := F32.mul (F32.ofInt s) linearVolume
  let old0 ← loadFrame buf off ((iFrame * deviceChannels + 0) % 2 ^ 32)
  let outputSample0 := F32.add (F32.ofInt old0) scaledSample0
  let v0 ← clampToInt16 outputSample0
  let buf ← storeFrame buf off ((iFrame * deviceChannels + 0) % 2 ^ 32) v0
  let v1 ← clampToInt16 outputSample0
  storeFrame buf off ((iFrame * deviceChannels + 1) % 2 ^ 32) v1

/-- Body of the frame loop of the stereo branch. -/
def mixFrameStereo (src : mo_sound_source) (currentSample : Nat) (linearVolume : F32)
    (soundChannels deviceChannels off : Nat) (buf : List Int) (iFrame : Nat) :
    Except Fault (List Int) := do
  let s0 ← loadSample src ((currentSample + (iFrame * soundChannels) % 2 ^ 32 + 0) % 2 ^ 64)
  let scaledSample0 := F32.mul (F32.ofInt s0) linearVolume
  let s1 ← loadSample src ((currentSample + (iFrame * soundChannels) % 2 ^ 32 + 1) % 2 ^ 64)
  let scaledSample1 := F32.mul (F32.ofInt s1) linearVolume
  let old0 ← loadFrame buf off ((iFrame * deviceChannels + 0) % 2 ^ 32)
  let outputSample0 := F32.add (F32.ofInt old0) scaledSample0
  let old1 ← loadFrame buf off ((iFrame * deviceChannels + 1) % 2 ^ 32)
  let outputSample1 := F32.add (F32.ofInt old1) scaledSample1
  let v0 ← clampToInt16 outputSample0
  let buf ← storeFrame buf off ((iFrame * deviceChannels + 0) % 2 ^ 32) v0
  let v1 ← clampToInt16 outputSample1
  storeFrame buf off ((iFrame * deviceChannels + 1) % 2 ^ 32) v1

/-- Body of the channel loop of the branch for more than two channels. -/
def mixChannelMulti (src : mo_sound_source) (currentSample : Nat) (linearVolume : F32)
    (soundChannels deviceChannels off iFrame : Nat) (buf : List Int) (iChannel : Nat) :
    Except Fault (List Int) := do
  let s ← loadSample src
    ((currentSample + (iFrame * soundChannels) % 2 ^ 32 + iChannel) % 2 ^ 64)
  let scaledSample0 := F32.mul (F32.ofInt s) linearVolume
  let old ← loadFrame buf off ((iFrame * deviceChannels + iChannel) % 2 ^ 32)
  let outputSample0 := F32.add (F32.ofInt old) scaledSample0
  let v ← clampToInt16 outputSample0
  storeFrame buf off ((iFrame * deviceChannels + iChannel) % 2 ^ 32) v

/-- Body of the frame loop of the branch for more than two channels. -/
def mixFrameMulti (src : mo_sound_source) (currentSample : Nat) (linearVolume : F32)
    (soundChannels deviceChannels off : Nat) (buf : List Int) (iFrame : Nat) :
    Except Fault (List Int) :=
  (List.range deviceChannels).foldlM
    (mixChannelMulti src currentSample linearVolume soundChannels deviceChannels off iFrame) buf

/-- The three frame loops `for (iFrame = 0; iFrame < framesAvailable; ++iFrame)`,
selected by the channel count of the source. -/
def mixFrames (src : mo_sound_source) (currentSample : Nat) (linearVolume : F32)
    (deviceChannels off framesAvailable : Nat) (buf : List Int) : Except Fault (List Int) :=
  if src.channels = 1 then
    (List.range framesAvailable).foldlM
      (mixFrameMono src currentSample linearVolume deviceChannels off) buf
  else if src.channels = 2 then
    (List.range framesAvailable).foldlM
      (mixFrameStereo src currentSample linearVolume src.channels deviceChannels off) buf
  else
    (List.range framesAvailable).foldlM
      (mixFrameMulti src currentSample linearVolume src.channels deviceChannels off) buf

/-- State of one run of `mo_sound__read_and_accumulate_frames`: the returned
count, the context's garbage flag, the sound, and the whole buffer. -/
structure MixState where
  totalFramesRead : Nat
  isSoundMarkedForDeletion : Bool
  sound : mo_sound
  buf : List Int
deriving DecidableEq

/-- The loop `while (frameCount > 0)` of `mo_sound__read_and_accumulate_frames`;
`off` is the distance of `pFrames` from the start of the buffer. -/
def accumulateLoop (deviceChannels : Nat) (linearVolume : F32) :
    Nat → MixState → Nat → Nat → Except Fault MixState
  | 0, st, frameCount, _ => if frameCount > 0 then .error .outOfFuel else .ok st
  | fuel + 1, st, frameCount, off =>
    if frameCount > 0 then
      let src := st.sound.pSource
      if src.channels = 0 then .error .divByZero
      else
        let framesAvailable :=
          ((src.sampleCount + 2 ^ 64 - st.sound.currentSample) % 2 ^ 64) / src.channels
        let framesAvailable := if framesAvailable > frameCount then frameCount else framesAvailable
        match mixFrames src st.sound.currentSample linearVolume deviceChannels off
            framesAvailable st.buf with
        | .error e => .error e
        | .ok buf =>
          let sound := { st.sound with
            currentSample := (st.sound.currentSample + framesAvailable * src.channels) % 2 ^ 64 }
          let reachedEnd := decide (framesAvailable < frameCount)
          let frameCount := frameCount - framesAvailable
          let off := off + framesAvailable * deviceChannels
          if reachedEnd then
            if mo_sound_is_looping (some sound) then
              accumulateLoop deviceChannels linearVolume fuel
                { st with sound := { sound with currentSample := 0 }, buf := buf } frameCount off
            else if sound.flags &&& MO_SOUND_FLAG_INLINED != 0 then
              match mo_sound_mark_for_deletion st.isSoundMarkedForDeletion (some sound) with
              | (garbage, some sound) =>
                .ok { st with isSoundMarkedForDeletion := garbage, sound := sound, buf := buf }
              | (_, none) => .error .assertFailed
            else
              match mo_sound_stop (some sound) with
              | some sound => .ok { st with sound := sound, buf := buf }
              | none => .error .assertFailed
          else
            accumulateLoop deviceChannels linearVolume fuel
              { st with sound := sound, buf := buf } frameCount off
    else .ok st

/-- `mo_sound__read_and_accumulate_frames`.  `deviceChannels` is
`pSound->pContext->playbackDevice2.channels`, `garbage` is
`pSound->pContext->isSoundMarkedForDeletion`, `buf` is the buffer `pFrames`
points to; `fuel` bounds the iterations of the `while` loop. -/
def mo_sound__read_and_accumulate_frames (fuel deviceChannels : Nat) (garbage : Bool)
    (pSound : mo_sound) (linearVolume : F32) (frameCount : Nat) (buf : List Int) :
    Except Fault MixState :=
  if deviceChannels = 2 then
    accumulateLoop deviceChannels linearVolume fuel
      { totalFramesRead := 0, isSoundMarkedForDeletion := garbage, sound := pSound, buf := buf }
      frameCount 0
  else .error .assertFailed

/-- `mo_zero_memory(pFrames, frameCount * pDevice->channels * sizeof(mo_int16))`:
the product of the two `mal_uint32` values is taken modulo `2 ^ 32`. -/
def zeroFrames (frameCount channels : Nat) (buf : List Int) : Except Fault (List Int) :=
  let n := (frameCount * channels) % 2 ^ 32
  if n ≤ buf.length then .ok (List.replicate n 0 ++ buf.drop n) else .error .dstOutOfBounds

/-- Body of the sound loop of `mo_on_send_frames__mal`. -/
def mixSound (fuel frameCount : Nat) (st : mo_context × List Int) (iSound : Nat) :
    Except Fault (mo_context × List Int) :=
  let ctx := st.1
  match ctx.ppSounds[iSound]? with
  | none => .error .assertFailed
  | some pSound =>
    if mo_sound_is_playing (some pSound) then
      match mo_sound_group_is_paused (some ctx) pSound.group with
      | .error e => .error e
      | .ok true => .ok st
      | .ok false =>
        match ctx.soundGroups[pSound.group]?, ctx.soundGroups[MO_SOUND_GROUP_MASTER]? with
        | some g, some master =>
          let linearVolume :=
            F32.mul (F32.mul pSound.linearVolume g.linearVolume) master.linearVolume
          if F32.gt linearVolume (F32.ofInt 0) then
            match mo_sound__read_and_accumulate_frames fuel ctx.deviceChannels
                ctx.isSoundMarkedForDeletion pSound linearVolume frameCount st.2 with
            | .error e => .error e
            | .ok r =>
              .ok ({ ctx with
                      ppSounds := ctx.ppSounds.set iSound r.sound,
                      isSoundMarkedForDeletion := r.isSoundMarkedForDeletion }, r.buf)
          else .ok st
        | _, _ => .error .groupOutOfBounds
    else .ok st

/-- `mo_on_send_frames__mal`: the context after the call, the buffer after the
call, and the returned frame count.  `pDevice` is `&pContext->playbackDevice2`;
`fuel` bounds the iterations of each sound's `while` loop. -/
def mo_on_send_frames__mal (fuel : Nat) (pContext : mo_context) (frameCount : Nat)
    (pFrames : List Int) : Except Fault (mo_context × List Int × Nat) :=
  match zeroFrames frameCount pContext.deviceChannels pFrames with
  | .error e => .error e
  | .ok buf =>
    match (List.range pContext.ppSounds.length).foldlM (mixSound fuel frameCount)
        (pContext, buf) with
    | .error e => .error e
    | .ok st => .ok (st.1, st.2, frameCount)


/-! ## Operations on a sound of the registry -/

/-- A call `mo_sound_mark_for_deletion(pSound)` for the sound at position
`iSound` of the registry: the operation works on the sound and on the garbage
flag of the context `pSound->pContext`, and both are written back.  `none`
when the registry has no entry `iSound`. -/
def markForDeletionAt (ctx : mo_context) (iSound : Nat) : Option mo_context :=
  match ctx.ppSounds[iSound]? with
  | none => none
  | some s =>
    match mo_sound_mark_for_deletion ctx.isSoundMarkedForDeletion (some s) with
    | (flag, some s1) =>
      some { ctx with ppSounds := ctx.ppSounds.set iSound s1, isSoundMarkedForDeletion := flag }
    | (_, none) => none

/-- The registry as it lies in memory, for the operation that compares
pointers: the cells of the array `ppSounds` (the address each one holds) and
`soundCount`.  The cells from `soundCount` on are spare capacity. -/
structure SoundArray where
  ppSounds : List Nat
  soundCount : Nat
deriving DecidableEq

/-- The inner loop of `mo_sound_delete`,
`for (; iSound < soundCount-1; ++iSound) ppSounds[iSound] = ppSounds[iSound+1];`
with `soundCount-1` evaluated in `mo_uint32`. -/
def shiftSounds (soundCount : Nat) : Nat → Nat → List Nat → Except Fault (List Nat)
  | fuel, iSound, cells =>
    if iSound < (soundCount + 2 ^ 32 - 1) % 2 ^ 32 then
      match fuel with
      | 0 => .error .outOfFuel
      | fuel + 1 =>
        match cells[iSound + 1]? with
        | none => .error .srcOutOfBounds
        | some p =>
          if iSound < cells.length then
            shiftSounds soundCount fuel (iSound + 1) (cells.set iSound p)
          else .error .dstOutOfBounds
    else .ok cells

/-- The outer loop of `mo_sound_delete`, from index `iSound` on. -/
def findAndRemove (pSound : Nat) (arr : SoundArray) : Nat → Nat → Except Fault SoundArray
  | fuel, iSound =>
    if iSound < arr.soundCount then
      match fuel with
      | 0 => .error .outOfFuel
      | fuel + 1 =>
        match arr.ppSounds[iSound]? with
        | none => .error .srcOutOfBounds
        | some p =>
          if p = pSound then
            match shiftSounds arr.soundCount arr.soundCount iSound arr.ppSounds with
            | .error e => .error e
            | .ok cells =>
              .ok { ppSounds := cells, soundCount := (arr.soundCount + 2 ^ 32 - 1) % 2 ^ 32 }
          else findAndRemove pSound arr fuel (iSound + 1)
    else .ok arr

/-- `mo_sound_delete` on the registry of `pSound->pContext`; `pSound` is the
address of the sound (`none` for NULL).  Both loops make at most `soundCount`
passes, which is the fuel they are given.  The final `mo_free(pSound)` does not
touch the registry. -/
def mo_sound_delete (pSound : Option Nat) (arr : SoundArray) : Except Fault SoundArray :=
  match pSound with
  | none => .ok arr
  | some p => findAndRemove p arr arr.soundCount 0

/-! ## Sound sources -/

def MO_DOES_NOT_EXIST : Int := -5
def MO_INVALID_RESOURCE : Int := -6
def MO_UNSUPPORTED_IMAGE_FORMAT : Int := -7

/-- `mo_sound_source_create`.  `SIZE_MAX` is the platform constant; `hasOut`
tells whether `ppSource` is non-NULL and `callocOk` whether the allocation
succeeds; `pSampleData` is the caller's array (`none` for NULL), from which
`sampleCount` samples are copied.  The result is the returned code and
`*ppSource` after the call (`none` for NULL). -/
def mo_sound_source_create (SIZE_MAX : Nat) (pContext : Option mo_context)
    (channels sampleRate sampleCount : Nat) (pSampleData : Option (List Int))
    (hasOut callocOk : Bool) : Except Fault (Int × Option mo_sound_source) :=
  if !hasOut then .ok (MO_INVALID_ARGS, none)
  else if pContext.isNone || channels == 0 || sampleRate == 0 || sampleCount == 0 then
    .ok (MO_INVALID_ARGS, none)
  else if sampleCount > SIZE_MAX / 2 then .ok (MO_INVALID_ARGS, none)
  else if !callocOk then .ok (MO_OUT_OF_MEMORY, none)
  else
    match pSampleData with
    | none => .error .srcOutOfBounds
    | some samples =>
      if samples.length < sampleCount then .error .srcOutOfBounds
      else
        .ok (MO_SUCCESS,
             some { channels := channels, sampleRate := sampleRate, sampleCount := sampleCount,
                    pSampleData := samples.take sampleCount })

/-! ## The WAV decoder -/

/-- What a decoder (`mo_sound_source_load__wav`, `__vorbis`, `__flac`) hands
back: the returned sample array (`none` for NULL) and the values stored to
`*pChannels`, `*pSampleRate` and `*pSampleCount`. -/
structure Decoded where
  pSamples : Option (List Int)
  channels : Nat
  sampleRate : Nat
  sampleCount : Nat
deriving DecidableEq

/-- The result of every `return NULL` of a decoder: the three outputs were
zeroed on entry. -/
def decodeFailed : Decoded := { pSamples := none, channels := 0, sampleRate := 0, sampleCount := 0 }

/-- Little-endian value of a byte string. -/
def leValue : List Nat → Nat
  | [] => 0
  | b :: bs => b + 256 * leValue bs

/-- `MO_WAV_READ_UINT16`, `MO_WAV_READ_UINT32`, `MO_WAV_READ_UINT64` for `n` = 2,
4, 8: the value of the `n` bytes at `pFileData8`, and the bytes after them.
The argument is the buffer from `pFileData8` to its end (its length is the C
variable `fileSize`); loading `n` bytes where fewer are left is a fault. -/
def readUInt (n : Nat) (data : List Nat) : Except Fault (Nat × List Nat) :=
  if data.length < n then .error .srcOutOfBounds else .ok (leValue (data.take n), data.drop n)

/-- `MO_WAV_READ_GUID`. -/
def readGUID (data : List Nat) : Except Fault (List Nat × List Nat) :=
  if data.length < 16 then .error .srcOutOfBounds else .ok (data.take 16, data.drop 16)

def wavGUID_W64_RIFF : List Nat :=
  [0x72, 0x69, 0x66, 0x66, 0x2E, 0x91, 0xCF, 0x11, 0xA5, 0xD6, 0x28, 0xDB, 0x04, 0xC1, 0x00, 0x00]

def wavGUID_W64_WAVE : List Nat :=
  [0x77, 0x61, 0x76, 0x65, 0xF3, 0xAC, 0xD3, 0x11, 0x8C, 0xD1, 0x00, 0xC0, 0x4F, 0x8E, 0xDB, 0x8A]

def wavGUID_W64_FMT : List Nat :=
  [0x66, 0x6D, 0x74, 0x20, 0xF3, 0xAC, 0xD3, 0x11, 0x8C, 0xD1, 0x00, 0xC0, 0x4F, 0x8E, 0xDB, 0x8A]

def wavGUID_W64_DATA : List Nat :=
  [0x64, 0x61, 0x74, 0x61, 0xF3, 0xAC, 0xD3, 0x11, 0x8C, 0xD1, 0x00, 0xC0, 0x4F, 0x8E, 0xDB, 0x8A]

/-- First stage of `mo_sound_source_load__wav`, from the read of `riffFOURCC`
to the check of the WAVE identifier: whether the file is Wave64, and the bytes
that follow.  `none` stands for `return NULL`, here and in the next stages. -/
def wavRiff (data : List Nat) : Except Fault (Option (Bool × List Nat)) := do
  let (riffFOURCC, data) ← readUInt 4 data
  if riffFOURCC = 0x46464952 then
    if data.length < 8 then pure none
    else do
      let (chunkSize, data) ← readUInt 4 data
      let (waveFOURCC, data) ← readUInt 4 data
      if chunkSize < 36 ∨ waveFOURCC ≠ 0x45564157 then pure none
      else pure (some (false, data))
  else if riffFOURCC = 0x66666972 then
    if data.length < 12 then pure none
    else if data.take 12 ≠ wavGUID_W64_RIFF.drop 4 then pure none
    else
      let data := data.drop 12
      if data.length < 24 then pure none
      else do
        let (chunkSize, data) ← readUInt 8 data
        if chunkSize < 84 then pure none
        else do
          let (waveGUID, data) ← readGUID data
          if waveGUID ≠ wavGUID_W64_WAVE then pure none
          else pure (some (true, data))
  else pure none

/-- The fields of the `fmt ` chunk that the decoder uses later. -/
structure WavFmt where
  formatTag : Nat
  channels : Nat
  sampleRate : Nat
  blockAlign : Nat
  bitsPerSample : Nat
  subformatGUID : List Nat
deriving DecidableEq

/-- The header of the `fmt ` chunk: `fmtSize`, `fmtPadding` and the bytes that
follow. -/
def wavFmtHeader (isWave64 : Bool) (data : List Nat) :
    Except Fault (Option (Nat × Nat × List Nat)) := do
  if !isWave64 then
    if data.length < 8 then pure none
    else do
      let (fmtFOURCC, data) ← readUInt 4 data
      let (fmtSize, data) ← readUInt 4 data
      let fmtPadding := fmtSize % 2
      if fmtFOURCC ≠ 0x20746d66 then pure none
      else pure (some (fmtSize, fmtPadding, data))
  else
    if data.length < 24 then pure none
    else do
      let (fmtGUID, data) ← readGUID data
      if fmtGUID ≠ wavGUID_W64_FMT then pure none
      else do
        let (fmtSize, data) ← readUInt 8 data
        let fmtSize := (fmtSize + 2 ^ 64 - 24) % 2 ^ 64
        let fmtPadding := fmtSize % 8
        pure (some (fmtSize, fmtPadding, data))

/-- The part of the `fmt ` chunk after its first 16 bytes, entered when
`fmtSize > 16`: the sub-format identifier and the bytes after the chunk.  The
read of `extendedSize` follows a check against `fmtSize-16` only. -/
def wavFmtExtension (fmtSize : Nat) (data : List Nat) :
    Except Fault (Option (List Nat × List Nat)) := do
  if data.length < fmtSize - 16 then pure none
  else do
    let (extendedSize, data) ← readUInt 2 data
    if extendedSize > 0 then
      if extendedSize ≠ 22 ∨ data.length < 22 then pure none
      else do
        let (_, data) ← readUInt 2 data
        let (_, data) ← readUInt 4 data
        let (subformatGUID, data) ← readGUID data
        let leftover := (fmtSize + 2 ^ 64 - 40) % 2 ^ 64
        if data.length < leftover then pure none
        else pure (some (subformatGUID, data.drop leftover))
    else
      let leftover := (fmtSize + 2 ^ 64 - 18) % 2 ^ 64
      if data.length < leftover then pure none
      else pure (some (List.replicate 16 0, data.drop leftover))

/-- Second stage: the `fmt ` chunk, up to and including the skip of its
padding. -/
def wavFmt (isWave64 : Bool) (data : List Nat) : Except Fault (Option (WavFmt × List Nat)) := do
  match ← wavFmtHeader isWave64 data with
  | none => pure none
  | some (fmtSize, fmtPadding, data) =>
    if data.length < 16 then pure none
    else do
      let (formatTag, data) ← readUInt 2 data
      let (channels, data) ← readUInt 2 data
      let (sampleRate, data) ← readUInt 4 data
      let (_, data) ← readUInt 4 data
      let (blockAlign, data) ← readUInt 2 data
      let (bitsPerSample, data) ← readUInt 2 data
      let ext ← (if fmtSize > 16 then wavFmtExtension fmtSize data
                 else pure (some (List.replicate 16 0, data)))
      match ext with
      | none => pure none
      | some (subformatGUID, data) =>
        if data.length < fmtPadding then pure none
        else
          pure (some ({ formatTag := formatTag, channels := channels, sampleRate := sampleRate,
                        blockAlign := blockAlign, bitsPerSample := bitsPerSample,
                        subformatGUID := subformatGUID }, data.drop fmtPadding))

/-- Third stage: the `for (;;)` loop that looks for the data chunk; `dataSize`
and the bytes after the chunk header.  Every pass consumes at least 8 bytes,
so that a fuel above the number of bytes is never used up. -/
def wavFindData (isWave64 : Bool) : Nat → List Nat → Except Fault (Option (Nat × List Nat))
  | 0, _ => .error .outOfFuel
  | fuel + 1, data =>
    if !isWave64 then
      if data.length < 8 then .ok none
      else do
        let (dataFOURCC, data) ← readUInt 4 data
        let (dataSize, data) ← readUInt 4 data
        let dataPadding := dataSize % 2
        if dataFOURCC = 0x61746164 then pure (some (dataSize, data))
        else
          let dataSize := (dataSize + dataPadding) % 2 ^ 64
          if data.length < dataSize then pure none
          else wavFindData isWave64 fuel (data.drop dataSize)
    else
      if data.length < 24 then .ok none
      else do
        let (dataGUID, data) ← readGUID data
        let isDataChunk := decide (dataGUID = wavGUID_W64_DATA)
        let (dataSize, data) ← readUInt 8 data
        let dataSize := (dataSize + 2 ^ 64 - 24) % 2 ^ 64
        let dataPadding := dataSize % 8
        if isDataChunk then pure (some (dataSize, data))
        else
          let dataSize := (dataSize + dataPadding) % 2 ^ 64
          if data.length < dataSize then pure none
          else wavFindData isWave64 fuel (data.drop dataSize)

/-- Conversion of an integer to `mo_int16` (store into `pSamples[i]`): the
value modulo `2 ^ 16` in the signed range. -/
def toInt16Wrap (v : Int) : Int := (v + 32768) % 65536 - 32768

/-- Conversion of a `mo_uint32` to `int32_t`. -/
def toInt32 (u : Nat) : Int := if u < 2 ^ 31 then u else (u : Int) - 2 ^ 32

/-- Conversion of an `int32_t` to `mo_uint32`. -/
def toUInt32 (v : Int) : Nat := (v % 2 ^ 32).toNat

/-- The byte `pFileData8[i]`. -/
def byteAt (data : List Nat) (i : Nat) : Except Fault Nat :=
  match data[i]? with
  | none => .error .srcOutOfBounds
  | some b => .ok b

/-- A loop `for (i = 0; i < sampleCount; ++i) pSamples[i] = f(i);`. -/
def forSamples (sampleCount : Nat) (f : Nat → Except Fault Int) : Except Fault (List Int) :=
  (List.range sampleCount).mapM f

/-- Sample `i` of the 16-bit copy `MO_WAV_COPY(pSamples, pFileData8, sampleCount * 2)`:
the little-endian `mo_int16` at byte `2 * i`. -/
def pcm16At (data : List Nat) (i : Nat) : Except Fault Int := do
  let b0 ← byteAt data (i * 2 + 0)
  let b1 ← byteAt data (i * 2 + 1)
  pure (toInt16Wrap ((b0 + 256 * b1 : Nat) : Int))

/-- Sample `i` of 8-bit data: `((mo_int16)pFileData8[i] - 128) << 8`.  The shift
of the `int` operand by 8 is the multiplication by `2 ^ 8`, also for a negative
operand. -/
def pcm8At (data : List Nat) (i : Nat) : Except Fault Int := do
  let b ← byteAt data i
  pure (toInt16Wrap (((b : Int) - 128) * 2 ^ 8))

/-- Sample `i` of 24-bit data:
`sample32 = (int32_t)((s0 << 8) | (s1 << 16) | (s2 << 24)); sample32 >> 16`. -/
def pcm24At (data : List Nat) (i : Nat) : Except Fault Int := do
  let s0 ← byteAt data (i * 3 + 0)
  let s1 ← byteAt data (i * 3 + 1)
  let s2 ← byteAt data (i * 3 + 2)
  let sample32 := toInt32 (((s0 <<< 8) % 2 ^ 32) ||| ((s1 <<< 16) % 2 ^ 32) ||| ((s2 <<< 24) % 2 ^ 32))
  pure (toInt16Wrap (sample32 >>> (16 : Nat)))

/-- Sample `i` of 32-bit data: `((mo_uint32*)pFileData8)[i] >> 16`. -/
def pcm32At (data : List Nat) (i : Nat) : Except Fault Int := do
  let b0 ← byteAt data (i * 4 + 0)
  let b1 ← byteAt data (i * 4 + 1)
  let b2 ← byteAt data (i * 4 + 2)
  let b3 ← byteAt data (i * 4 + 3)
  pure (toInt16Wrap ((leValue [b0, b1, b2, b3] >>> 16 : Nat) : Int))

/-- One pass of the inner loop of the generic conversion,
`sample32 |= (mo_uint32)(pFileData8[j]) << shift; shift += 8;`.  A shift count
outside `0 .. 31` is undefined. -/
def genericStep (data : List Nat) (st : Int × Int) (j : Nat) : Except Fault (Int × Int) := do
  let (sample32, shift) := st
  let b ← byteAt data j
  if shift < 0 ∨ 32 ≤ shift then .error .shiftOutOfRange
  else pure (toInt32 (toUInt32 sample32 ||| (b <<< shift.toNat) % 2 ^ 32), shift + 8)

/-- The generic conversion, for the `sampleCount` samples that are left. -/
def genericSamples (bytesPerSample : Nat) : Nat → List Nat → Except Fault (Option (List Int))
  | 0, _ => .ok (some [])
  | sampleCount + 1, data =>
    if data.length < bytesPerSample then .ok none
    else do
      let shift := toInt32 ((((8 + 2 ^ 32 - bytesPerSample) % 2 ^ 32) * 8) % 2 ^ 32)
      let (sample32, _) ← (List.range (min bytesPerSample 4)).foldlM (genericStep data) (0, shift)
      match ← genericSamples bytesPerSample sampleCount (data.drop bytesPerSample) with
      | none => pure none
      | some rest => pure (some (toInt16Wrap (sample32 >>> (16 : Nat)) :: rest))

/-- The `float` with the given bit pattern. -/
def F32.ofBits (u : Nat) : F32 :=
  let sign : Nat := u / 2 ^ 31 % 2
  let e : Nat := u / 2 ^ 23 % 256
  let m : Nat := u % 2 ^ 23
  if e = 255 then (if m = 0 then F32.inf (decide (sign = 1)) else F32.nan)
  else
    let mag : ℚ := if e = 0 then (m : ℚ) * 2 ^ (-149 : ℤ) else (((2 ^ 23 + m : Nat) : ℚ)) * 2 ^ ((e : ℤ) - 150)
    F32.fin (if sign = 1 then -mag else mag)

/-- The `double` product `x * 32768.0` for the `double` `x` with the given bit
pattern, as an extended rational number.  Scaling by a power of two is exact
unless it overflows to an infinity, and then the exact product is outside the
range of `mo_int16` as well, where the conversion that follows is undefined
either way. -/
def scaleDouble (u : Nat) : F32 :=
  let sign : Nat := u / 2 ^ 63 % 2
  let e : Nat := u / 2 ^ 52 % 2048
  let m : Nat := u % 2 ^ 52
  if e = 2047 then (if m = 0 then F32.inf (decide (sign = 1)) else F32.nan)
  else
    let mag : ℚ := if e = 0 then (m : ℚ) * 2 ^ (-1074 : ℤ) else ((2 ^ 52 + m : Nat) : ℚ) * 2 ^ ((e : ℤ) - 1075)
    F32.fin ((if sign = 1 then -mag else mag) * 32768)

/-- The conversion `(mo_int16)x` of a floating-point value as a step of the
decoder. -/
def floatToSample (x : F32) : Except Fault Int :=
  match F32.toInt16 x with
  | none => .error .floatToIntUB
  | some v => .ok v

/-- The 32-bit float conversion:
`pSamples[i] = (mo_int16)((*(float*)pFileData8) * 32768.0f)`. -/
def float32Samples : Nat → List Nat → Except Fault (Option (List Int))
  | 0, _ => .ok (some [])
  | sampleCount + 1, data =>
    if data.length < 4 then .ok none
    else do
      let (u, data) ← readUInt 4 data
      let v ← floatToSample (F32.mul (F32.ofBits u) (F32.fin 32768))
      match ← float32Samples sampleCount data with
      | none => pure none
      | some rest => pure (some (v :: rest))

/-- The 64-bit float conversion. -/
def float64Samples : Nat → List Nat → Except Fault (Option (List Int))
  | 0, _ => .ok (some [])
  | sampleCount + 1, data =>
    if data.length < 8 then .ok none
    else do
      let (u, data) ← readUInt 8 data
      let v ← floatToSample (scaleDouble u)
      match ← float64Samples sampleCount data with
      | none => pure none
      | some rest => pure (some (v :: rest))

/-- The `mo_uint16 table[256]` of the `WAVE_FORMAT_ALAW` case. -/
def alawTable : List Nat :=
  [
   0xEA80, 0xEB80, 0xE880, 0xE980, 0xEE80, 0xEF80, 0xEC80, 0xED80, 0xE280, 0xE380, 0xE080, 0xE180, 0xE680, 0xE780, 0xE480, 0xE580,
   0xF540, 0xF5C0, 0xF440, 0xF4C0, 0xF740, 0xF7C0, 0xF640, 0xF6C0, 0xF140, 0xF1C0, 0xF040, 0xF0C0, 0xF340, 0xF3C0, 0xF240, 0xF2C0,
   0xAA00, 0xAE00, 0xA200, 0xA600, 0xBA00, 0xBE00, 0xB200, 0xB600, 0x8A00, 0x8E00, 0x8200, 0x8600, 0x9A00, 0x9E00, 0x9200, 0x9600,
   0xD500, 0xD700, 0xD100, 0xD300, 0xDD00, 0xDF00, 0xD900, 0xDB00, 0xC500, 0xC700, 0xC100, 0xC300, 0xCD00, 0xCF00, 0xC900, 0xCB00,
   0xFEA8, 0xFEB8, 0xFE88, 0xFE98, 0xFEE8, 0xFEF8, 0xFEC8, 0xFED8, 0xFE28, 0xFE38, 0xFE08, 0xFE18, 0xFE68, 0xFE78, 0xFE48, 0xFE58,
   0xFFA8, 0xFFB8, 0xFF88, 0xFF98, 0xFFE8, 0xFFF8, 0xFFC8, 0xFFD8, 0xFF28, 0xFF38, 0xFF08, 0xFF18, 0xFF68, 0xFF78, 0xFF48, 0xFF58,
   0xFAA0, 0xFAE0, 0xFA20, 0xFA60, 0xFBA0, 0xFBE0, 0xFB20, 0xFB60, 0xF8A0, 0xF8E0, 0xF820, 0xF860, 0xF9A0, 0xF9E0, 0xF920, 0xF960,
   0xFD50, 0xFD70, 0xFD10, 0xFD30, 0xFDD0, 0xFDF0, 0xFD90, 0xFDB0, 0xFC50, 0xFC70, 0xFC10, 0xFC30, 0xFCD0, 0xFCF0, 0xFC90, 0xFCB0,
   0x1580, 0x1480, 0x1780, 0x1680, 0x1180, 0x1080, 0x1380, 0x1280, 0x1D80, 0x1C80, 0x1F80, 0x1E80, 0x1980, 0x1880, 0x1B80, 0x1A80,
   0x0AC0, 0x0A40, 0x0BC0, 0x0B40, 0x08C0, 0x0840, 0x09C0, 0x0940, 0x0EC0, 0x0E40, 0x0FC0, 0x0F40, 0x0CC0, 0x0C40, 0x0DC0, 0x0D40,
   0x5600, 0x5200, 0x5E00, 0x5A00, 0x4600, 0x4200, 0x4E00, 0x4A00, 0x7600, 0x7200, 0x7E00, 0x7A00, 0x6600, 0x6200, 0x6E00, 0x6A00,
   0x2B00, 0x2900, 0x2F00, 0x2D00, 0x2300, 0x2100, 0x2700, 0x2500, 0x3B00, 0x3900, 0x3F00, 0x3D00, 0x3300, 0x3100, 0x3700, 0x3500,
   0x0158, 0x0148, 0x0178, 0x0168, 0x0118, 0x0108, 0x0138, 0x0128, 0x01D8, 0x01C8, 0x01F8, 0x01E8, 0x0198, 0x0188, 0x01B8, 0x01A8,
   0x0058, 0x0048, 0x0078, 0x0068, 0x0018, 0x0008, 0x0038, 0x0028, 0x00D8, 0x00C8, 0x00F8, 0x00E8, 0x0098, 0x0088, 0x00B8, 0x00A8,
   0x0560, 0x0520, 0x05E0, 0x05A0, 0x0460, 0x0420, 0x04E0, 0x04A0, 0x0760, 0x0720, 0x07E0, 0x07A0, 0x0660, 0x0620, 0x06E0, 0x06A0,
   0x02B0, 0x0290, 0x02F0, 0x02D0, 0x0230, 0x0210, 0x0270, 0x0250, 0x03B0, 0x0390, 0x03F0, 0x03D0, 0x0330, 0x0310, 0x0370, 0x0350
  ]

/-- The `mo_uint16 table[256]` of the `WAVE_FORMAT_MULAW` case. -/
def mulawTable : List Nat :=
  [
   0x8284, 0x8684, 0x8A84, 0x8E84, 0x9284, 0x9684, 0x9A84, 0x9E84, 0xA284, 0xA684, 0xAA84, 0xAE84, 0xB284, 0xB684, 0xBA84, 0xBE84,
   0xC184, 0xC384, 0xC584, 0xC784, 0xC984, 0xCB84, 0xCD84, 0xCF84, 0xD184, 0xD384, 0xD584, 0xD784, 0xD984, 0xDB84, 0xDD84, 0xDF84,
   0xE104, 0xE204, 0xE304, 0xE404, 0xE504, 0xE604, 0xE704, 0xE804, 0xE904, 0xEA04, 0xEB04, 0xEC04, 0xED04, 0xEE04, 0xEF04, 0xF004,
   0xF0C4, 0xF144, 0xF1C4, 0xF244, 0xF2C4, 0xF344, 0xF3C4, 0xF444, 0xF4C4, 0xF544, 0xF5C4, 0xF644, 0xF6C4, 0xF744, 0xF7C4, 0xF844,
   0xF8A4, 0xF8E4, 0xF924, 0xF964, 0xF9A4, 0xF9E4, 0xFA24, 0xFA64, 0xFAA4, 0xFAE4, 0xFB24, 0xFB64, 0xFBA4, 0xFBE4, 0xFC24, 0xFC64,
   0xFC94, 0xFCB4, 0xFCD4, 0xFCF4, 0xFD14, 0xFD34, 0xFD54, 0xFD74, 0xFD94, 0xFDB4, 0xFDD4, 0xFDF4, 0xFE14, 0xFE34, 0xFE54, 0xFE74,
   0xFE8C, 0xFE9C, 0xFEAC, 0xFEBC, 0xFECC, 0xFEDC, 0xFEEC, 0xFEFC, 0xFF0C, 0xFF1C, 0xFF2C, 0xFF3C, 0xFF4C, 0xFF5C, 0xFF6C, 0xFF7C,
   0xFF88, 0xFF90, 0xFF98, 0xFFA0, 0xFFA8, 0xFFB0, 0xFFB8, 0xFFC0, 0xFFC8, 0xFFD0, 0xFFD8, 0xFFE0, 0xFFE8, 0xFFF0, 0xFFF8, 0x0000,
   0x7D7C, 0x797C, 0x757C, 0x717C, 0x6D7C, 0x697C, 0x657C, 0x617C, 0x5D7C, 0x597C, 0x557C, 0x517C, 0x4D7C, 0x497C, 0x457C, 0x417C,
   0x3E7C, 0x3C7C, 0x3A7C, 0x387C, 0x367C, 0x347C, 0x327C, 0x307C, 0x2E7C, 0x2C7C, 0x2A7C, 0x287C, 0x267C, 0x247C, 0x227C, 0x207C,
   0x1EFC, 0x1DFC, 0x1CFC, 0x1BFC, 0x1AFC, 0x19FC, 0x18FC, 0x17FC, 0x16FC, 0x15FC, 0x14FC, 0x13FC, 0x12FC, 0x11FC, 0x10FC, 0x0FFC,
   0x0F3C, 0x0EBC, 0x0E3C, 0x0DBC, 0x0D3C, 0x0CBC, 0x0C3C, 0x0BBC, 0x0B3C, 0x0ABC, 0x0A3C, 0x09BC, 0x093C, 0x08BC, 0x083C, 0x07BC,
   0x075C, 0x071C, 0x06DC, 0x069C, 0x065C, 0x061C, 0x05DC, 0x059C, 0x055C, 0x051C, 0x04DC, 0x049C, 0x045C, 0x041C, 0x03DC, 0x039C,
   0x036C, 0x034C, 0x032C, 0x030C, 0x02EC, 0x02CC, 0x02AC, 0x028C, 0x026C, 0x024C, 0x022C, 0x020C, 0x01EC, 0x01CC, 0x01AC, 0x018C,
   0x0174, 0x0164, 0x0154, 0x0144, 0x0134, 0x0124, 0x0114, 0x0104, 0x00F4, 0x00E4, 0x00D4, 0x00C4, 0x00B4, 0x00A4, 0x0094, 0x0084,
   0x0078, 0x0070, 0x0068, 0x0060, 0x0058, 0x0050, 0x0048, 0x0040, 0x0038, 0x0030, 0x0028, 0x0020, 0x0018, 0x0010, 0x0008, 0x0000
  ]

/-- Sample `i` of A-law or mu-law data: `pSamples[i] = table[pFileData8[i]]`. -/
def lawAt (table : List Nat) (data : List Nat) (i : Nat) : Except Fault Int := do
  let b ← byteAt data i
  match table[b]? with
  | none => .error .srcOutOfBounds
  | some v => pure (toInt16Wrap v)

/-- Fourth stage: the `switch (actualFormatTag)`, which fills `pSamples`.
`sampleCount` is at most `0x7FFFFFFF` here, so that the products
`sampleCount*3` and `sampleCount*4` are exact in `mo_uint64`. -/
def wavSamples (actualFormatTag : Nat) (fmt : WavFmt) (sampleCount : Nat) (data : List Nat) :
    Except Fault (Option (List Int)) :=
  if actualFormatTag = 0x0001 then
    if fmt.bitsPerSample = 16 then (forSamples sampleCount (pcm16At data)).map some
    else if fmt.bitsPerSample = 8 then
      if data.length < sampleCount * 1 then .ok none
      else (forSamples sampleCount (pcm8At data)).map some
    else if fmt.bitsPerSample = 24 then
      if data.length < sampleCount * 3 then .ok none
      else (forSamples sampleCount (pcm24At data)).map some
    else if fmt.bitsPerSample = 32 then
      if data.length < sampleCount * 4 then .ok none
      else (forSamples sampleCount (pcm32At data)).map some
    else genericSamples (fmt.blockAlign / fmt.channels) sampleCount data
  else if actualFormatTag = 0x0003 then
    if fmt.bitsPerSample = 32 then float32Samples sampleCount data
    else if fmt.bitsPerSample = 64 then float64Samples sampleCount data
    else .ok none
  else if actualFormatTag = 0x0006 then
    if data.length < sampleCount * 1 then .ok none
    else (forSamples sampleCount (lawAt alawTable data)).map some
  else if actualFormatTag = 0x0007 then
    if data.length < sampleCount * 1 then .ok none
    else (forSamples sampleCount (lawAt mulawTable data)).map some
  else .ok none

/-- The part of `mo_sound_source_load__wav` after the data chunk was found:
`sampleCount = dataSize / (blockAlign / channels)`, the allocation and the
conversion. -/
def wavConvert (mallocOk : Bool) (fmt : WavFmt) (dataSize : Nat) (data : List Nat) :
    Except Fault Decoded :=
  if fmt.channels = 0 then .error .divByZero
  else if fmt.blockAlign / fmt.channels = 0 then .error .divByZero
  else
    let sampleCount := dataSize / (fmt.blockAlign / fmt.channels)
    if sampleCount > 0x7FFFFFFF then .ok decodeFailed
    else
      let actualFormatTag :=
        if fmt.formatTag = 0xFFFE then leValue (fmt.subformatGUID.take 2) else fmt.formatTag
      if !mallocOk then .ok decodeFailed
      else
        match wavSamples actualFormatTag fmt sampleCount data with
        | .error e => .error e
        | .ok none => .ok decodeFailed
        | .ok (some pSamples) =>
          .ok { pSamples := some pSamples, channels := fmt.channels,
                sampleRate := fmt.sampleRate, sampleCount := sampleCount }

/-- `mo_sound_source_load__wav` on the buffer `pFileData` (`none` for NULL) of
`fileSize` bytes, with `size_t` of 64 bits; `mallocOk` tells whether the
allocation of the sample array succeeds. -/
def mo_sound_source_load__wav (mallocOk : Bool) (pFileData : Option (List Nat)) :
    Except Fault Decoded :=
  match pFileData with
  | none => .ok decodeFailed
  | some data =>
    if data.length < 4 then .ok decodeFailed
    else do
      match ← wavRiff data with
      | none => pure decodeFailed
      | some (isWave64, data) =>
        match ← wavFmt isWave64 data with
        | none => pure decodeFailed
        | some (fmt, data) =>
          match ← wavFindData isWave64 (data.length + 1) data with
          | none => pure decodeFailed
          | some (dataSize, data) => wavConvert mallocOk fmt dataSize data

/-! ## The table generator `tools/mintaro_gen_law.c` -/

/-- The value the generator prints for the A-law byte `i`. -/
def genALaw (i : Nat) : Nat :=
  let a := ((i % 256) ^^^ 0x55) % 256
  let t : Int := (((a &&& 0x0F) <<< 4 : Nat) : Int)
  let s := (a &&& 0x70) >>> 4
  let t : Int := if s = 0 then t + 8 else (t + 0x108) * 2 ^ (s - 1)
  let t : Int := if a &&& 0x80 = 0 then -t else t
  (t % 65536).toNat

/-- The value the generator prints for the mu-law byte `i`. -/
def genMuLaw (i : Nat) : Nat :=
  let u := notU32 i % 256
  let t : Int := (((((u &&& 0x0F) <<< 3) + 0x84) <<< ((u &&& 0x70) >>> 4) : Nat) : Int)
  let t : Int := if u &&& 0x80 ≠ 0 then 0x84 - t else t - 0x84
  (t % 65536).toNat

/-! ## Loading a sound source from a file -/

/-- The decoders of `mo_sound_source_load`. -/
inductive DecoderKind where
  | wav
  | vorbis
  | flac
deriving DecidableEq

/-- What `stb_vorbis_decode_memory` hands back: its return value and its three
outputs. -/
structure VorbisOut where
  sampleCount : Int
  channels : Int
  sampleRate : Int
  pTempSamples : List Int
deriving DecidableEq

/-- `mo_sound_source_load__vorbis`, over the result of the external decoder. -/
def mo_sound_source_load__vorbis (stb_vorbis_decode_memory : List Nat → VorbisOut)
    (mallocOk : Bool) (pFileData : List Nat) : Except Fault Decoded :=
  let out := stb_vorbis_decode_memory pFileData
  if out.sampleCount = -1 then .ok decodeFailed
  else if !mallocOk then .ok decodeFailed
  else if out.sampleCount < 0 then .error .dstOutOfBounds
  else if out.pTempSamples.length < out.sampleCount.toNat then .error .srcOutOfBounds
  else
    .ok { pSamples := some (out.pTempSamples.take out.sampleCount.toNat),
          channels := (out.channels % 2 ^ 32).toNat,
          sampleRate := (out.sampleRate % 2 ^ 32).toNat,
          sampleCount := (out.sampleCount % 2 ^ 64).toNat }

/-- What `drflac_open_and_decode_memory_s32` hands back when it succeeds. -/
structure FlacOut where
  channels : Nat
  sampleRate : Nat
  sampleCount : Nat
  pTempSamples : List Int
deriving DecidableEq

/-- `mo_sound_source_load__flac`, over the result of the external decoder
(`none` for NULL). -/
def mo_sound_source_load__flac (drflac_open_and_decode_memory_s32 : List Nat → Option FlacOut)
    (mallocOk : Bool) (pFileData : List Nat) : Except Fault Decoded :=
  match drflac_open_and_decode_memory_s32 pFileData with
  | none => .ok decodeFailed
  | some out =>
    if !mallocOk then .ok decodeFailed
    else if out.pTempSamples.length < out.sampleCount then .error .srcOutOfBounds
    else
      .ok { pSamples := some ((out.pTempSamples.take out.sampleCount).map
                                (fun (s : Int) => toInt16Wrap (s >>> (16 : Nat)))),
            channels := out.channels, sampleRate := out.sampleRate,
            sampleCount := out.sampleCount }

/-- What `mo_sound_source_load` shows to its caller: the returned code,
`*ppSource` after the call, and (for the statements about the order of the
decoders) the decoders that were called, in call order. -/
structure LoadResult where
  result : Int
  ppSource : Option mo_sound_source
  called : List DecoderKind
deriving DecidableEq

/-- `mo_sound_source_load`.  `hasPath` and `hasOut` tell whether `filePath` and
`ppSource` are non-NULL, `pFileData` is what `mo_open_and_read_file` returns
for the path (`none` for NULL), `hasVorbis` and `hasFlac` tell whether
`MO_HAS_STB_VORBIS` and `MO_HAS_DR_FLAC` are defined, `vorbis` and `flac` are
the two decoders behind them, and the last two arguments tell whether the
allocations of the WAV decoder and of `mo_sound_source_create` succeed. -/
def mo_sound_source_load (SIZE_MAX : Nat) (pContext : Option mo_context) (hasPath hasOut : Bool)
    (pFileData : Option (List Nat)) (hasVorbis hasFlac : Bool)
    (vorbis flac : List Nat → Except Fault Decoded) (mallocOk callocOk : Bool) :
    Except Fault LoadResult :=
  if !hasOut then .ok { result := MO_INVALID_ARGS, ppSource := none, called := [] }
  else if pContext.isNone || !hasPath then
    .ok { result := MO_INVALID_ARGS, ppSource := none, called := [] }
  else
    match pFileData with
    | none => .ok { result := MO_DOES_NOT_EXIST, ppSource := none, called := [] }
    | some data => do
      let d ← mo_sound_source_load__wav mallocOk (some data)
      let called := [DecoderKind.wav]
      let (d, called) ←
        (if hasVorbis && d.pSamples.isNone then do
           let d ← vorbis data
           pure (d, called ++ [DecoderKind.vorbis])
         else pure (d, called))
      let (d, called) ←
        (if hasFlac && d.pSamples.isNone then do
           let d ← flac data
           pure (d, called ++ [DecoderKind.flac])
         else pure (d, called))
      match d.pSamples with
      | none => pure { result := MO_INVALID_RESOURCE, ppSource := none, called := called }
      | some pSampleDataS16 =>
        if d.sampleCount > SIZE_MAX then
          pure { result := MO_INVALID_RESOURCE, ppSource := none, called := called }
        else do
          let (result, ppSource) ←
            mo_sound_source_create SIZE_MAX pContext d.channels d.sampleRate d.sampleCount
              (some pSampleDataS16) true callocOk
          pure { result := result, ppSource := ppSource, called := called }

/-! ## The null backend of the device layer -/

/-- `mal_get_sample_size_in_bytes`: the table `sizes[format]` for the formats
`mal_format_u8 = 0` to `mal_format_f32 = 4`. -/
def mal_get_sample_size_in_bytes (format : Nat) : Except Fault Nat :=
  match [1, 2, 3, 4, 4][format]? with
  | some size => .ok size
  | none => .error .srcOutOfBounds

/-- The fields of `struct mal_device` that the main loop of the null backend
uses: whether `type` is `mal_device_type_playback`, `format`, `channels`,
`bufferSizeInFrames` and `null_device.lastProcessedFrame`.  The buffer
`null_device.pBuffer` has the size `mal_device_init__null` allocates,
`bufferSizeInFrames * channels * mal_get_sample_size_in_bytes(format)` bytes. -/
structure mal_device_null where
  isPlayback : Bool
  format : Nat
  channels : Nat
  bufferSizeInFrames : Nat
  lastProcessedFrame : Nat
deriving DecidableEq

/-- `mal_device__get_current_frame__null`: the value stored to `*pCurrentPos`.
`currentFrameAbs` is the `mal_uint64` frame count derived from the timer. -/
def mal_device__get_current_frame__null (pDevice : mal_device_null) (currentFrameAbs : Nat) :
    Except Fault Nat :=
  if pDevice.bufferSizeInFrames = 0 then .error .divByZero
  else .ok ((currentFrameAbs % pDevice.bufferSizeInFrames) % 2 ^ 32)

/-- `mal_device__get_available_frames__null`, all arithmetic in `mal_uint32`. -/
def mal_device__get_available_frames__null (pDevice : mal_device_null) (currentFrameAbs : Nat) :
    Except Fault Nat := do
  let currentFrame ← mal_device__get_current_frame__null pDevice currentFrameAbs
  let totalFrameCount := pDevice.bufferSizeInFrames
  if pDevice.isPlayback then
    let committedBeg := currentFrame
    let committedEnd := pDevice.lastProcessedFrame
    let committedEnd :=
      if committedEnd ≤ committedBeg then (committedEnd + totalFrameCount) % 2 ^ 32
      else committedEnd
    let committedSize := (committedEnd + 2 ^ 32 - committedBeg) % 2 ^ 32
    if committedSize ≤ totalFrameCount then
      pure ((totalFrameCount + 2 ^ 32 - committedSize) % 2 ^ 32)
    else .error .assertFailed
  else
    let validBeg := pDevice.lastProcessedFrame
    let validEnd := currentFrame
    let validEnd :=
      if validEnd < validBeg then (validEnd + totalFrameCount) % 2 ^ 32 else validEnd
    let validSize := (validEnd + 2 ^ 32 - validBeg) % 2 ^ 32
    if validSize ≤ totalFrameCount then pure validSize else .error .assertFailed

/-- One pass of the loop of `mal_device__main_loop__null` during which
`breakFromMainLoop` stays false; `currentFrameAbs` is the timer reading of the
poll in `mal_device__wait_for_frames__null`.  With no frame available the
device is left as it is (the poll is repeated).  Otherwise `lockSize` bytes at
`pBuffer + lockOffset` are written, by the client and the zero fill of
`mal_device__read_frames_from_client` for a playback device and by
`mal_zero_memory` for a capture device, which is a fault when they do not lie
inside the buffer; then `lastProcessedFrame` is advanced. -/
def mainLoopPass__null (pDevice : mal_device_null) (currentFrameAbs : Nat) :
    Except Fault mal_device_null := do
  let framesAvailable ← mal_device__get_available_frames__null pDevice currentFrameAbs
  if framesAvailable = 0 then pure pDevice
  else
    let sampleSize ← mal_get_sample_size_in_bytes pDevice.format
    let sampleCount := (framesAvailable * pDevice.channels) % 2 ^ 32
    let lockOffset := (((pDevice.lastProcessedFrame * pDevice.channels) % 2 ^ 32) * sampleSize) % 2 ^ 32
    let lockSize := (sampleCount * sampleSize) % 2 ^ 32
    let bufferSizeInBytes :=
      (((pDevice.bufferSizeInFrames * pDevice.channels) % 2 ^ 32) * sampleSize) % 2 ^ 32
    if lockOffset + lockSize ≤ bufferSizeInBytes then
      pure { pDevice with
        lastProcessedFrame :=
          ((pDevice.lastProcessedFrame + framesAvailable) % 2 ^ 32) % pDevice.bufferSizeInFrames }
    else .error .dstOutOfBounds

/-! ## The state machine of a device -/

def MAL_SUCCESS : Int := 0
def MAL_ERROR : Int := -1
def MAL_INVALID_ARGS : Int := -2
def MAL_NO_BACKEND : Int := -5
def MAL_DEVICE_BUSY : Int := -8
def MAL_DEVICE_NOT_INITIALIZED : Int := -9
def MAL_DEVICE_ALREADY_STARTED : Int := -10
def MAL_DEVICE_ALREADY_STARTING : Int := -11
def MAL_DEVICE_ALREADY_STOPPED : Int := -12
def MAL_DEVICE_ALREADY_STOPPING : Int := -13
def MAL_FAILED_TO_START_BACKEND_DEVICE : Int := -17
def MAL_FAILED_TO_STOP_BACKEND_DEVICE : Int := -18
def MAL_FAILED_TO_CREATE_MUTEX : Int := -19
def MAL_FAILED_TO_CREATE_EVENT : Int := -20
def MAL_FAILED_TO_CREATE_THREAD : Int := -21

def MAL_STATE_UNINITIALIZED : Nat := 0
def MAL_STATE_STOPPED : Nat := 1
def MAL_STATE_STARTED : Nat := 2
def MAL_STATE_STARTING : Nat := 3
def MAL_STATE_STOPPING : Nat := 4

def MAL_DEFAULT_BUFFER_SIZE_IN_MILLISECONDS : Nat := 25
def MAL_DEFAULT_PERIODS : Nat := 2
def MAL_DEVICE_FLAG_USING_DEFAULT_BUFFER_SIZE : Nat := 1
def MAL_DEVICE_FLAG_USING_DEFAULT_PERIODS : Nat := 2

/-- The enumeration `mal_api`. -/
inductive mal_api where
  | mal_api_null
  | mal_api_dsound
  | mal_api_alsa
  | mal_api_sles
deriving DecidableEq

/-- The fields of `mal_device` that the state machine works on.  `lock` tells
whether the mutex is held; an event is the value of its auto-reset flag
(`mal_event_signal` sets it, `mal_event_wait` waits until it is set and clears
it); `breakFromMainLoop` is the flag of that name of the backend in use. -/
structure mal_device where
  api : mal_api
  state : Nat
  workResult : Int
  lock : Bool
  wakeupEvent : Bool
  startEvent : Bool
  stopEvent : Bool
  breakFromMainLoop : Bool
deriving DecidableEq

/-- The object after `mal_zero_object(pDevice)`: every field 0. -/
def zeroDevice : mal_device :=
  { api := .mal_api_null, state := 0, workResult := 0, lock := false, wakeupEvent := false,
    startEvent := false, stopEvent := false, breakFromMainLoop := false }

/-- What the routines of the backend in use return, which the operating system
decides: `start` is the result of the start routine
(`mal_device__start_backend__dsound`, `__alsa`, `__sles`), `stopOk` tells
whether the stop routine of OpenSL|ES succeeds. -/
structure Backend where
  start : Int
  stopOk : Bool
deriving DecidableEq

/-- `mal_device__start_backend`, called by the worker thread: the result of the
start routine of the backend in use.  The routine of the null backend always
returns `MAL_SUCCESS`; the function has no branch for `mal_api_sles`, for
which `result` keeps its initial value `MAL_NO_BACKEND`. -/
def mal_device__start_backend (b : Backend) (api : mal_api) : Int :=
  match api with
  | .mal_api_dsound => b.start
  | .mal_api_alsa => b.start
  | .mal_api_null => MAL_SUCCESS
  | .mal_api_sles => MAL_NO_BACKEND

/-- Positions in the body of `mal_device_start` (for a non-NULL `pDevice`),
each named after the statement that is executed next.  `unlockAndReturn code`
is the `mal_mutex_unlock` of a rejecting branch, followed by
`return mal_post_error(..., code)`; `unlock result` is the final
`mal_mutex_unlock`, with the value of the local variable `result`, followed by
`return result`. -/
inductive StartAt where
  | checkUninitialized
  | lock
  | checkStarting
  | checkStarted
  | checkStopped
  | unlockAndReturn (code : Int)
  | setStarting
  | chooseBackend
  | startBackendSles
  | setStarted
  | signalWakeup
  | waitStartEvent
  | readWorkResult
  | unlock (result : Int)
  | returned (result : Int)
deriving DecidableEq

/-- One step of `mal_device_start`: the device and the position after the
statement at the given position; `none` when the thread cannot move, because
it waits for the mutex or for an event, or has returned.  The local variable
`result` is initialised to `MAL_ERROR`; the OpenSL|ES branch does not assign
it, and discards what `mal_device__start_backend__sles` returns. -/
def mal_device_start (d : mal_device) : StartAt → Option (mal_device × StartAt)
  | .checkUninitialized =>
    if d.state = MAL_STATE_UNINITIALIZED then some (d, .returned MAL_DEVICE_NOT_INITIALIZED)
    else some (d, .lock)
  | .lock => if d.lock then none else some ({ d with lock := true }, .checkStarting)
  | .checkStarting =>
    if d.state = MAL_STATE_STARTING then some (d, .unlockAndReturn MAL_DEVICE_ALREADY_STARTING)
    else some (d, .checkStarted)
  | .checkStarted =>
    if d.state = MAL_STATE_STARTED then some (d, .unlockAndReturn MAL_DEVICE_ALREADY_STARTED)
    else some (d, .checkStopped)
  | .checkStopped =>
    if d.state ≠ MAL_STATE_STOPPED then some (d, .unlockAndReturn MAL_DEVICE_BUSY)
    else some (d, .setStarting)
  | .unlockAndReturn code => some ({ d with lock := false }, .returned code)
  | .setStarting => some ({ d with state := MAL_STATE_STARTING }, .chooseBackend)
  | .chooseBackend =>
    if d.api = .mal_api_sles then some (d, .startBackendSles) else some (d, .signalWakeup)
  | .startBackendSles => some (d, .setStarted)
  | .setStarted => some ({ d with state := MAL_STATE_STARTED }, .unlock MAL_ERROR)
  | .signalWakeup => some ({ d with wakeupEvent := true }, .waitStartEvent)
  | .waitStartEvent =>
    if d.startEvent then some ({ d with startEvent := false }, .readWorkResult) else none
  | .readWorkResult => some (d, .unlock d.workResult)
  | .unlock result => some ({ d with lock := false }, .returned result)
  | .returned _ => none

/-- Positions in the body of `mal_device_stop`, as for `mal_device_start`. -/
inductive StopAt where
  | checkUninitialized
  | lock
  | checkStopping
  | checkStopped
  | checkStarted
  | unlockAndReturn (code : Int)
  | setStopping
  | chooseBackend
  | stopBackendSles
  | breakMainLoop
  | waitStopEvent
  | unlock (result : Int)
  | returned (result : Int)
deriving DecidableEq

/-- One step of `mal_device_stop`.  `mal_device__stop_backend__sles` sets the
state to `MAL_STATE_STOPPED` when the backend stops, and leaves it when the
backend fails; its result is discarded and `result` keeps its initial value
`MAL_ERROR`.  In the other branch `mal_device__break_main_loop` sets the flag
`breakFromMainLoop` of the backend, and `result` is `MAL_SUCCESS` after the
wait. -/
def mal_device_stop (b : Backend) (d : mal_device) : StopAt → Option (mal_device × StopAt)
  | .checkUninitialized =>
    if d.state = MAL_STATE_UNINITIALIZED then some (d, .returned MAL_DEVICE_NOT_INITIALIZED)
    else some (d, .lock)
  | .lock => if d.lock then none else some ({ d with lock := true }, .checkStopping)
  | .checkStopping =>
    if d.state = MAL_STATE_STOPPING then some (d, .unlockAndReturn MAL_DEVICE_ALREADY_STOPPING)
    else some (d, .checkStopped)
  | .checkStopped =>
    if d.state = MAL_STATE_STOPPED then some (d, .unlockAndReturn MAL_DEVICE_ALREADY_STOPPED)
    else some (d, .checkStarted)
  | .checkStarted =>
    if d.state ≠ MAL_STATE_STARTED then some (d, .unlockAndReturn MAL_DEVICE_BUSY)
    else some (d, .setStopping)
  | .unlockAndReturn code => some ({ d with lock := false }, .returned code)
  | .setStopping => some ({ d with state := MAL_STATE_STOPPING }, .chooseBackend)
  | .chooseBackend =>
    if d.api = .mal_api_sles then some (d, .stopBackendSles) else some (d, .breakMainLoop)
  | .stopBackendSles =>
    if b.stopOk then some ({ d with state := MAL_STATE_STOPPED }, .unlock MAL_ERROR)
    else some (d, .unlock MAL_ERROR)
  | .breakMainLoop => some ({ d with breakFromMainLoop := true }, .waitStopEvent)
  | .waitStopEvent =>
    if d.stopEvent then some ({ d with stopEvent := false }, .unlock MAL_SUCCESS) else none
  | .unlock result => some ({ d with lock := false }, .returned result)
  | .returned _ => none

/-- Positions in the body of `mal_worker_thread`.  `enterMainLoop` and
`mainLoop` are inside `mal_device__main_loop`: the assignment
`breakFromMainLoop = MAL_FALSE` with which the main loop of every backend
starts, and its loop `while (!breakFromMainLoop)`. -/
inductive WorkerAt where
  | stopBackend
  | stopCallback
  | setStopped
  | signalStopEvent
  | waitWakeupEvent
  | clearWorkResult
  | checkUninitialized
  | assertStarting
  | startBackend
  | checkWorkResult
  | signalStartEventFailed
  | setStarted
  | signalStartEvent
  | enterMainLoop
  | mainLoop
  | signalStopEventLast
  | returned
deriving DecidableEq

/-- The worker thread: its position and its local variable. -/
structure Worker where
  pc : WorkerAt
  skipNextStopEvent : Bool
deriving DecidableEq

/-- The worker thread as `mal_thread_create` starts it. -/
def Worker.entry : Worker := { pc := .stopBackend, skipNextStopEvent := true }

/-- One step of `mal_worker_thread`.  The stop routines of the backends and the
callback `onStop` do not touch the fields of the model.  A pass of the main
loop that finds the flag clear leaves the device as it is. -/
def mal_worker_thread (b : Backend) (d : mal_device) (w : Worker) :
    Except Fault (Option (mal_device × Worker)) :=
  match w.pc with
  | .stopBackend => .ok (some (d, { w with pc := .stopCallback }))
  | .stopCallback =>
    if !w.skipNextStopEvent then .ok (some (d, { w with pc := .setStopped }))
    else .ok (some (d, { pc := .setStopped, skipNextStopEvent := false }))
  | .setStopped =>
    .ok (some ({ d with state := MAL_STATE_STOPPED }, { w with pc := .signalStopEvent }))
  | .signalStopEvent =>
    .ok (some ({ d with stopEvent := true }, { w with pc := .waitWakeupEvent }))
  | .waitWakeupEvent =>
    if d.wakeupEvent then
      .ok (some ({ d with wakeupEvent := false }, { w with pc := .clearWorkResult }))
    else .ok none
  | .clearWorkResult =>
    .ok (some ({ d with workResult := MAL_SUCCESS }, { w with pc := .checkUninitialized }))
  | .checkUninitialized =>
    if d.state = MAL_STATE_UNINITIALIZED then
      .ok (some (d, { w with pc := .signalStopEventLast }))
    else .ok (some (d, { w with pc := .assertStarting }))
  | .assertStarting =>
    if d.state = MAL_STATE_STARTING then .ok (some (d, { w with pc := .startBackend }))
    else .error .assertFailed
  | .startBackend =>
    .ok (some ({ d with workResult := mal_device__start_backend b d.api },
      { w with pc := .checkWorkResult }))
  | .checkWorkResult =>
    if d.workResult ≠ MAL_SUCCESS then .ok (some (d, { w with pc := .signalStartEventFailed }))
    else .ok (some (d, { w with pc := .setStarted }))
  | .signalStartEventFailed =>
    .ok (some ({ d with startEvent := true }, { w with pc := .stopBackend }))
  | .setStarted =>
    .ok (some ({ d with state := MAL_STATE_STARTED }, { w with pc := .signalStartEvent }))
  | .signalStartEvent =>
    .ok (some ({ d with startEvent := true }, { w with pc := .enterMainLoop }))
  | .enterMainLoop =>
    .ok (some ({ d with breakFromMainLoop := false }, { w with pc := .mainLoop }))
  | .mainLoop =>
    if d.breakFromMainLoop then .ok (some (d, { w with pc := .stopBackend }))
    else .ok (some (d, w))
  | .signalStopEventLast => .ok (some ({ d with stopEvent := true }, { w with pc := .returned }))
  | .returned => .ok none

/-- Positions in the body of `mal_device_uninit` (for a non-NULL `pDevice`).
`stopping` is inside the call of `mal_device_stop` in the loop
`while (mal_device_stop(pDevice) == MAL_DEVICE_BUSY)`; `teardown` is the
deletion of the events and of the mutex, the uninitialisation of the backend
and `mal_zero_object(pDevice)`. -/
inductive UninitAt where
  | checkInitialized
  | checkStarted
  | stopping (pc : StopAt)
  | setUninitialized
  | chooseBackend
  | signalWakeupEvent
  | waitThread
  | teardown
  | returned
deriving DecidableEq

/-- One step of `mal_device_uninit`; `workerReturned` tells whether the worker
thread has returned, for which `mal_thread_wait` waits.  The function does not
use the mutex outside its call of `mal_device_stop`. -/
def mal_device_uninit (b : Backend) (workerReturned : Bool) (d : mal_device) :
    UninitAt → Option (mal_device × UninitAt)
  | .checkInitialized =>
    if d.state ≠ MAL_STATE_UNINITIALIZED then some (d, .checkStarted) else some (d, .returned)
  | .checkStarted =>
    if d.state = MAL_STATE_STARTED then some (d, .stopping .checkUninitialized)
    else some (d, .setUninitialized)
  | .stopping (.returned result) =>
    if result = MAL_DEVICE_BUSY then some (d, .stopping .checkUninitialized)
    else some (d, .setUninitialized)
  | .stopping pc =>
    match mal_device_stop b d pc with
    | some (d', pc') => some (d', .stopping pc')
    | none => none
  | .setUninitialized => some ({ d with state := MAL_STATE_UNINITIALIZED }, .chooseBackend)
  | .chooseBackend =>
    if d.api ≠ .mal_api_sles then some (d, .signalWakeupEvent) else some (d, .teardown)
  | .signalWakeupEvent => some ({ d with wakeupEvent := true }, .waitThread)
  | .waitThread => if workerReturned then some (d, .teardown) else none
  | .teardown => some (zeroDevice, .returned)
  | .returned => none

/-- Positions at the end of `mal_device_init`, after the worker thread was
created: the wait for the stop event, the assertion that the state is
`MAL_STATE_STOPPED`, and the return of `MAL_SUCCESS`. -/
inductive InitAt where
  | waitStopEvent
  | assertStopped
  | returned (result : Int)
deriving DecidableEq

/-- One step of the end of `mal_device_init`. -/
def mal_device_init_end (d : mal_device) : InitAt → Except Fault (Option (mal_device × InitAt))
  | .waitStopEvent =>
    if d.stopEvent then .ok (some ({ d with stopEvent := false }, .assertStopped))
    else .ok none
  | .assertStopped =>
    if d.state = MAL_STATE_STOPPED then .ok (some (d, .returned MAL_SUCCESS))
    else .error .assertFailed
  | .returned _ => .ok none

/-- A thread of the application inside a call on the device. -/
inductive Client where
  | init (pc : InitAt)
  | start (pc : StartAt)
  | stop (pc : StopAt)
  | uninit (pc : UninitAt)
deriving DecidableEq

/-- One step of a client thread. -/
def clientStep (b : Backend) (workerReturned : Bool) (d : mal_device) :
    Client → Except Fault (Option (mal_device × Client))
  | .init pc =>
    match mal_device_init_end d pc with
    | .error e => .error e
    | .ok none => .ok none
    | .ok (some (d', pc')) => .ok (some (d', .init pc'))
  | .start pc =>
    match mal_device_start d pc with
    | none => .ok none
    | some (d', pc') => .ok (some (d', .start pc'))
  | .stop pc =>
    match mal_device_stop b d pc with
    | none => .ok none
    | some (d', pc') => .ok (some (d', .stop pc'))
  | .uninit pc =>
    match mal_device_uninit b workerReturned d pc with
    | none => .ok none
    | some (d', pc') => .ok (some (d', .uninit pc'))

/-- A device with its worker thread (`none` for a device without one) and the
client threads that are inside a call on it. -/
structure System where
  dev : mal_device
  worker : Option Worker
  clients : List Client
deriving DecidableEq

/-- The threads of a system: the worker and the clients, by position. -/
inductive Thread where
  | worker
  | client (i : Nat)
deriving DecidableEq

/-- Whether the worker thread has returned (there is nothing to wait for when
the device has no worker thread). -/
def System.workerReturned (s : System) : Bool :=
  match s.worker with
  | none => true
  | some w => w.pc == .returned

/-- One step of thread `t` of the system; `none` when `t` cannot move. -/
def System.step (b : Backend) (s : System) : Thread → Except Fault (Option System)
  | .worker =>
    match s.worker with
    | none => .ok none
    | some w =>
      match mal_worker_thread b s.dev w with
      | .error e => .error e
      | .ok none => .ok none
      | .ok (some (d, w')) => .ok (some { s with dev := d, worker := some w' })
  | .client i =>
    match s.clients[i]? with
    | none => .ok none
    | some c =>
      match clientStep b s.workerReturned s.dev c with
      | .error e => .error e
      | .ok none => .ok none
      | .ok (some (d, c')) => .ok (some { s with dev := d, clients := s.clients.set i c' })

/-- The system after the threads of the schedule have moved, one step each, in
the order of the schedule; a thread that cannot move when it is scheduled is
passed over. -/
def System.run (b : Backend) : List Thread → System → Except Fault System
  | [], s => .ok s
  | t :: rest, s =>
    match s.step b t with
    | .error e => .error e
    | .ok none => System.run b rest s
    | .ok (some s') => System.run b rest s'

/-- A call made while no other thread moves: the client's steps are taken
until the call has returned or cannot go on. -/
def callAlone (b : Backend) : Nat → mal_device → Client → Except Fault (mal_device × Client)
  | 0, _, _ => .error .outOfFuel
  | fuel + 1, d, c =>
    match clientStep b true d c with
    | .error e => .error e
    | .ok none => .ok (d, c)
    | .ok (some (d', c')) => callAlone b fuel d' c'

/-! ## Initialisation of a device -/

/-- The fields of `mal_device_config` that `mal_device_init` reads. -/
structure mal_device_config where
  format : Nat
  channels : Nat
  sampleRate : Nat
  bufferSizeInFrames : Nat
  periods : Nat
deriving DecidableEq

/-- What `mal_device_init` asks of the operating system: whether the mutex, the
three events and the worker thread can be created, and what the
initialisation routine of each backend returns (`none` for a backend that is
not compiled in). -/
structure InitEnv where
  mutexCreated : Bool
  wakeupEventCreated : Bool
  startEventCreated : Bool
  stopEventCreated : Bool
  dsound : Option Int
  alsa : Option Int
  sles : Option Int
  null : Option Int
  threadCreated : Bool
deriving DecidableEq

/-- What a device holds of the operating system. -/
inductive Resource where
  | mutex
  | wakeupEvent
  | startEvent
  | stopEvent
  | backend
  | thread
deriving DecidableEq

/-- The object `*pDevice`: the fields of the state machine, the copies of the
fields of the configuration, and what the device holds. -/
structure DeviceObject where
  dev : mal_device
  format : Nat
  channels : Nat
  sampleRate : Nat
  bufferSizeInFrames : Nat
  periods : Nat
  flags : Nat
  resources : List Resource
deriving DecidableEq

/-- The object after `mal_zero_object(pDevice)`. -/
def zeroObject : DeviceObject :=
  { dev := zeroDevice, format := 0, channels := 0, sampleRate := 0, bufferSizeInFrames := 0,
    periods := 0, flags := 0, resources := [] }

/-- The chain of backend initialisations of `mal_device_init`: starting from
`result = MAL_NO_BACKEND`, every backend that is compiled in is tried, in the
order DirectSound, ALSA, OpenSL|ES, null, as long as `result != MAL_SUCCESS`;
the routine of a backend writes `pDevice->api` first.  The value is
`pDevice->api` and `result` after the chain. -/
def initBackends (env : InitEnv) : mal_api × Int :=
  [(mal_api.mal_api_dsound, env.dsound), (mal_api.mal_api_alsa, env.alsa),
   (mal_api.mal_api_sles, env.sles), (mal_api.mal_api_null, env.null)].foldl
    (fun acc entry =>
      match entry.2 with
      | some code => if acc.2 ≠ MAL_SUCCESS then (entry.1, code) else acc
      | none => acc)
    (mal_api.mal_api_null, MAL_NO_BACKEND)

/-- `mal_device_init`, up to the creation of the worker thread.  `pDevice` is
the object the pointer refers to (`none` for NULL), whose content the function
overwrites; `pConfig` likewise.  The value is the position at which the call
goes on (`returned code` when it has returned; `waitStopEvent` when the worker
thread was created, and the call waits for it) and the object `*pDevice` after
that.  The callbacks are read from `pConfig` before `pConfig` is compared with
NULL.  `mal_device_uninit`, called when the thread cannot be created, returns
at once, the state being `MAL_STATE_UNINITIALIZED`.  What the initialisation
routine of a backend does to the buffer size and the period count is left
out. -/
def mal_device_init (env : InitEnv) (pDevice : Option DeviceObject)
    (pConfig : Option mal_device_config) : Except Fault (InitAt × Option DeviceObject) :=
  match pDevice with
  | none => .ok (.returned MAL_INVALID_ARGS, none)
  | some _ =>
    let o := zeroObject
    match pConfig with
    | none => .error .nullDereference
    | some config =>
      if config.channels = 0 ∨ config.sampleRate = 0 then .ok (.returned MAL_INVALID_ARGS, some o)
      else
        let defaultSize := config.bufferSizeInFrames = 0
        let bufferSizeInFrames :=
          if defaultSize then
            ((config.sampleRate / 1000) * MAL_DEFAULT_BUFFER_SIZE_IN_MILLISECONDS) % 2 ^ 32
          else config.bufferSizeInFrames
        let flags := if defaultSize then MAL_DEVICE_FLAG_USING_DEFAULT_BUFFER_SIZE else 0
        let defaultPeriods := config.periods = 0
        let periods := if defaultPeriods then MAL_DEFAULT_PERIODS else config.periods
        let flags := if defaultPeriods then flags ||| MAL_DEVICE_FLAG_USING_DEFAULT_PERIODS else flags
        let o := { o with format := config.format, channels := config.channels,
                          sampleRate := config.sampleRate,
                          bufferSizeInFrames := bufferSizeInFrames, periods := periods,
                          flags := flags }
        if !env.mutexCreated then .ok (.returned MAL_FAILED_TO_CREATE_MUTEX, some o)
        else if !env.wakeupEventCreated then .ok (.returned MAL_FAILED_TO_CREATE_EVENT, some o)
        else if !env.startEventCreated then .ok (.returned MAL_FAILED_TO_CREATE_EVENT, some o)
        else if !env.stopEventCreated then .ok (.returned MAL_FAILED_TO_CREATE_EVENT, some o)
        else
          let o := { o with resources := [.mutex, .wakeupEvent, .startEvent, .stopEvent] }
          let chain := initBackends env
          let o := { o with dev := { o.dev with api := chain.1 } }
          if chain.2 ≠ MAL_SUCCESS then .ok (.returned MAL_NO_BACKEND, some o)
          else
            let o := { o with resources := o.resources ++ [.backend] }
            if o.dev.api ≠ .mal_api_sles then
              if !env.threadCreated then .ok (.returned MAL_FAILED_TO_CREATE_THREAD, some o)
              else .ok (.waitStopEvent, some { o with resources := o.resources ++ [.thread] })
            else
              let o := { o with dev := { o.dev with state := MAL_STATE_STOPPED } }
              if o.dev.state = MAL_STATE_STOPPED then .ok (.returned MAL_SUCCESS, some o)
              else .error .assertFailed

/-- The system that `mal_device_init` leaves when it has created the worker
thread: the worker at its entry, and the initialising client in its wait. -/
def System.ofInit (result : InitAt × Option DeviceObject) : Option System :=
  match result with
  | (.waitStopEvent, some o) =>
    some { dev := o.dev, worker := some Worker.entry, clients := [.init .waitStopEvent] }
  | _ => none
/-! ## Closed forms and predicates used in the statements -/

/-- Truncation toward zero of the clamp to `[-32768, 32767]`: the value of
`(mo_int16)(mo_clampf(x, -32768.0f, 32767.0f))` for every `x` that is not a NaN. -/
def clampTrunc : F32 → Int
  | .fin q => if 32767 < q then 32767 else if q < -32768 then -32768 else Int.tdiv q.num q.den
  | .inf neg => if neg then -32768 else 32767
  | .nan => 0

/-- The destination value after accumulating source sample `s` at volume `vol`
onto the old destination value `old`. -/
def mixSample (vol : F32) (old s : Int) : Int :=
  clampTrunc (F32.add (F32.ofInt old) (F32.mul (F32.ofInt s) vol))

/-- Index of the source sample read for device channel `ch` of frame `i` of
a chunk that starts at cursor `cur` (the index expressions of the three
branches). -/
def srcIndex (channels cur i ch : Nat) : Nat :=
  if channels = 1 then (cur + i) % 2 ^ 64 else (cur + (i * channels) % 2 ^ 32 + ch) % 2 ^ 64

/-- Device channel whose old value is accumulated into device channel `ch`:
the channel itself, except in the mono branch, which reads channel 0 only. -/
def oldChannel (channels ch : Nat) : Nat := if channels = 1 then 0 else ch

/-- Value stored into channel `ch` of the destination frame at buffer position
`pos`, when that frame is read as frame `i` of a chunk starting at cursor `cur`. -/
def frameValue (src : mo_sound_source) (vol : F32) (cur i : Nat) (buf : List Int)
    (pos ch : Nat) : Int :=
  mixSample vol (buf.getD (pos + oldChannel src.channels ch) 0)
    (src.pSampleData.getD (srcIndex src.channels cur i ch) 0)

/-- Whole frames between cursor `cur` and the end of the source. -/
def framesLeft (src : mo_sound_source) (cur : Nat) : Nat := (src.sampleCount - cur) / src.channels

/-- Where output frame `j` of one call is read from: the starting cursor of
its chunk and the frame within the chunk; `none` when the call leaves output
frame `j` untouched. -/
def framePos (src : mo_sound_source) (cur : Nat) (looping : Bool) (j : Nat) : Option (Nat × Nat) :=
  if j < framesLeft src cur then some (cur, j)
  else if looping then some (0, (j - framesLeft src cur) % framesLeft src 0)
  else none

/-- The sound with its cursor moved forward by `n` frames. -/
def advanced (s : mo_sound) (n : Nat) : mo_sound :=
  { s with currentSample := s.currentSample + n * s.pSource.channels }

/-- What reaching the end of a source that does not loop does to the garbage
flag and the sound. -/
def endPlayback (garbage : Bool) (s : mo_sound) : Bool × mo_sound :=
  if s.flags &&& MO_SOUND_FLAG_INLINED != 0 then
    if s.isMarkedForDeletion then (garbage, s)
    else (true, { s with isMarkedForDeletion := true,
                         flags := s.flags &&& notU32 MO_SOUND_FLAG_PLAYING })
  else (garbage, { s with flags := s.flags &&& notU32 MO_SOUND_FLAG_PLAYING })

/-- Garbage flag and sound after one call for `frameCount` frames. -/
def soundAfter (garbage : Bool) (s : mo_sound) (frameCount : Nat) : Bool × mo_sound :=
  let r := framesLeft s.pSource s.currentSample
  if frameCount ≤ r then
    (garbage, advanced s frameCount)
  else if mo_sound_is_looping (some s) then
    (garbage, { s with currentSample :=
      ((frameCount - r - 1) % framesLeft s.pSource 0 + 1) * s.pSource.channels })
  else
    endPlayback garbage (advanced s r)

/-- Content of the buffer after one call, frame by frame. -/
def bufAfter (s : mo_sound) (vol : F32) (buf : List Int) (off j ch : Nat) : Option Int :=
  match framePos s.pSource s.currentSample (mo_sound_is_looping (some s)) j with
  | some (cu, i) => some (frameValue s.pSource vol cu i buf (off + 2 * j) ch)
  | none => buf[off + 2 * j + ch]?

/-- Linear volume of group `g` in the table (NaN outside the table). -/
def groupVolume (groups : List mo_sound_group) (g : Nat) : F32 :=
  match groups[g]? with
  | some e => e.linearVolume
  | none => F32.nan

/-- Effective linear volume of a sound, in the words of the specification: the
volume of the instance × the volume of its group × the volume of the master
group. -/
def effectiveVolume (groups : List mo_sound_group) (s : mo_sound) : F32 :=
  F32.mul (F32.mul s.linearVolume (groupVolume groups s.group))
    (groupVolume groups MO_SOUND_GROUP_MASTER)

/-- The mixing pass over a list of sounds, by recursion on the list: every
playing sound whose volume `vol s` is greater than 0 is accumulated at that
volume into the buffer; every other sound is passed over. -/
def mixEach (fuel deviceChannels frameCount : Nat) (vol : mo_sound → F32) :
    List mo_sound → Bool → List Int → Except Fault (List mo_sound × Bool × List Int)
  | [], garbage, buf => .ok ([], garbage, buf)
  | s :: rest, garbage, buf =>
    if mo_sound_is_playing (some s) && F32.gt (vol s) (F32.ofInt 0) then
      match mo_sound__read_and_accumulate_frames fuel deviceChannels garbage s (vol s)
          frameCount buf with
      | .error e => .error e
      | .ok r =>
        match mixEach fuel deviceChannels frameCount vol rest r.isSoundMarkedForDeletion r.buf with
        | .error e => .error e
        | .ok (rest', garbage', buf') => .ok (r.sound :: rest', garbage', buf')
    else
      match mixEach fuel deviceChannels frameCount vol rest garbage buf with
      | .error e => .error e
      | .ok (rest', garbage', buf') => .ok (s :: rest', garbage', buf')

/-- The callback expressed with `mixEach`. -/
def mixRegistry (fuel : Nat) (ctx : mo_context) (frameCount : Nat) (pFrames : List Int) :
    Except Fault (mo_context × List Int × Nat) :=
  match zeroFrames frameCount ctx.deviceChannels pFrames with
  | .error e => .error e
  | .ok buf =>
    match mixEach fuel ctx.deviceChannels frameCount (effectiveVolume ctx.soundGroups)
        ctx.ppSounds ctx.isSoundMarkedForDeletion buf with
    | .error e => .error e
    | .ok (sounds, garbage, buf') =>
      .ok ({ ctx with ppSounds := sounds, isSoundMarkedForDeletion := garbage }, buf', frameCount)

/-- Clamp of an integer to the signed 16-bit range. -/
def clampInt16 (n : Int) : Int := if 32767 < n then 32767 else if n < -32768 then -32768 else n

/-- A sound on which the mixer is defined: the source has at least one
channel and a sample array of `sampleCount < 2 ^ 64` entries, the cursor is
within the source, and a looping sound has a source of at least one whole
frame. -/
def mo_sound.wellFormed (s : mo_sound) : Prop :=
  1 ≤ s.pSource.channels
    ∧ s.pSource.pSampleData.length = s.pSource.sampleCount
    ∧ s.pSource.sampleCount < 2 ^ 64
    ∧ s.currentSample ≤ s.pSource.sampleCount
    ∧ (mo_sound_is_looping (some s) = true → s.pSource.channels ≤ s.pSource.sampleCount)

instance (s : mo_sound) : Decidable s.wellFormed := by
  unfold mo_sound.wellFormed; infer_instance

/-- Whether a `float` is a finite number. -/
def F32.isFinite : F32 → Bool
  | .fin _ => true
  | _ => false

/-- The sound after one call of the callback for `frameCount` frames, `vol`
being its effective volume: moved by the mixer when it is playing with a
volume greater than 0, left as it is otherwise. -/
def soundAfterCall (vol : mo_sound → F32) (frameCount : Nat) (s : mo_sound) : mo_sound :=
  if mo_sound_is_playing (some s) && F32.gt (vol s) (F32.ofInt 0) then
    (soundAfter false s frameCount).2
  else s

/-- Body of the sound loop of a mixer that does not skip: as `mixSound`,
except that a playing sound whose effective volume is not greater than 0 is
run through `mo_sound__read_and_accumulate_frames` with volume 0. -/
def mixSoundNoSkip (fuel frameCount : Nat) (st : mo_context × List Int) (iSound : Nat) :
    Except Fault (mo_context × List Int) :=
  let ctx := st.1
  match ctx.ppSounds[iSound]? with
  | none => .error .assertFailed
  | some pSound =>
    if mo_sound_is_playing (some pSound) then
      match mo_sound_group_is_paused (some ctx) pSound.group with
      | .error e => .error e
      | .ok true => .ok st
      | .ok false =>
        match ctx.soundGroups[pSound.group]?, ctx.soundGroups[MO_SOUND_GROUP_MASTER]? with
        | some g, some master =>
          let linearVolume :=
            F32.mul (F32.mul pSound.linearVolume g.linearVolume) master.linearVolume
          let linearVolume :=
            if F32.gt linearVolume (F32.ofInt 0) then linearVolume else F32.ofInt 0
          match mo_sound__read_and_accumulate_frames fuel ctx.deviceChannels
              ctx.isSoundMarkedForDeletion pSound linearVolume frameCount st.2 with
          | .error e => .error e
          | .ok r =>
            .ok ({ ctx with
                    ppSounds := ctx.ppSounds.set iSound r.sound,
                    isSoundMarkedForDeletion := r.isSoundMarkedForDeletion }, r.buf)
        | _, _ => .error .groupOutOfBounds
    else .ok st

/-- The callback of a mixer that does not skip sounds of volume 0. -/
def mo_on_send_frames__noskip (fuel : Nat) (pContext : mo_context) (frameCount : Nat)
    (pFrames : List Int) : Except Fault (mo_context × List Int × Nat) :=
  match zeroFrames frameCount pContext.deviceChannels pFrames with
  | .error e => .error e
  | .ok buf =>
    match (List.range pContext.ppSounds.length).foldlM (mixSoundNoSkip fuel frameCount)
        (pContext, buf) with
    | .error e => .error e
    | .ok st => .ok (st.1, st.2, frameCount)


/-- The 16-bit pattern `u` read as a signed (two's complement) number. -/
def signed16 (u : Nat) : Int := if u < 32768 then (u : Int) else (u : Int) - 65536

/-- The source sample that one call of the mixer reads for channel `ch` of
output frame `j` of a sound that is playing, 0 when the sound is not playing or
the call leaves output frame `j` untouched (the source has ended and the sound
does not loop). -/
def contribution (s : mo_sound) (j ch : Nat) : Int :=
  if mo_sound_is_playing (some s) then
    match framePos s.pSource s.currentSample (mo_sound_is_looping (some s)) j with
    | some (cu, i) => s.pSource.pSampleData.getD (srcIndex s.pSource.channels cu i ch) 0
    | none => 0
  else 0
/-! ## Concrete inputs -/

/-- A mono source with the three samples `10, 20, 30`. -/
def monoSource : mo_sound_source :=
  { channels := 1, sampleRate := 44100, sampleCount := 3, pSampleData := [10, 20, 30] }

/-- A stereo source with the two frames `(100, 200)` and `(300, 400)`. -/
def stereoSource : mo_sound_source :=
  { channels := 2, sampleRate := 44100, sampleCount := 4, pSampleData := [100, 200, 300, 400] }

/-- A sound as `mo_sound_create` leaves it (volume 1, pan 0, cursor 0), with
the given source, group and flags. -/
def freshSound (src : mo_sound_source) (group flags : Nat) : mo_sound :=
  { pSource := src, group := group, linearVolume := F32.ofInt 1, pan := F32.ofInt 0,
    flags := flags, currentSample := 0, isMarkedForDeletion := false }

/-- The group table as `mo_init_audio` leaves it: every volume 1, no flag. -/
def initialGroups : List mo_sound_group :=
  List.replicate MO_SOUND_GROUP_COUNT { linearVolume := F32.ofInt 1, flags := 0 }

/-- A stereo device context with the initial group table and the given registry. -/
def contextWith (sounds : List mo_sound) : mo_context :=
  { deviceChannels := 2, soundGroups := initialGroups, ppSounds := sounds,
    soundBufferSize := 8, isSoundMarkedForDeletion := false }

/-- A context whose only sound is a playing, looping mono sound over the
three samples `10, 20, 30`, at cursor 0. -/
def loopingContext : mo_context :=
  contextWith [freshSound monoSource MO_SOUND_GROUP_EFFECTS
    (MO_SOUND_FLAG_PLAYING ||| MO_SOUND_FLAG_LOOPING)]

/-- A playing mono sound over `10, 20, 30` whose volume was set to 0. -/
def mutedSound : mo_sound :=
  { freshSound monoSource MO_SOUND_GROUP_EFFECTS MO_SOUND_FLAG_PLAYING with
    linearVolume := F32.ofInt 0 }

/-- A source of `frames` frames of `channels` channels whose samples all equal `v`. -/
def constantSource (channels frames : Nat) (v : Int) : mo_sound_source :=
  { channels := channels, sampleRate := 44100, sampleCount := channels * frames,
    pSampleData := List.replicate (channels * frames) v }

/-- A three-channel source with the two frames `(1, 2, 3)` and `(4, 5, 6)`. -/
def threeChannelSource : mo_sound_source :=
  { channels := 3, sampleRate := 44100, sampleCount := 6, pSampleData := [1, 2, 3, 4, 5, 6] }

/-- A group table with master volume 1/2 and effects volume 1/2. -/
def halfGroups : List mo_sound_group :=
  [{ linearVolume := F32.fin (1 / 2), flags := 0 }, { linearVolume := F32.fin (1 / 2), flags := 0 },
   { linearVolume := F32.ofInt 1, flags := 0 }, { linearVolume := F32.ofInt 1, flags := 0 }]

/-- A stereo device context with the table `halfGroups` and one playing mono
sound of volume 1 and constant sample value 1000 in the given group. -/
def quarterContext (group : Nat) : mo_context :=
  { deviceChannels := 2, soundGroups := halfGroups,
    ppSounds := [freshSound (constantSource 1 2 1000) group MO_SOUND_FLAG_PLAYING],
    soundBufferSize := 8, isSoundMarkedForDeletion := false }

/-- Two playing sounds of constant sample value 20000, one stereo and one
mono, over two frames each. -/
def clippingContext : mo_context :=
  contextWith [freshSound (constantSource 2 2 20000) MO_SOUND_GROUP_EFFECTS MO_SOUND_FLAG_PLAYING,
               freshSound (constantSource 1 2 20000) MO_SOUND_GROUP_MUSIC MO_SOUND_FLAG_PLAYING]

/-- The sound that `mo_play_sound_source` creates for the source `monoSource`. -/
def inlinedSound : mo_sound :=
  freshSound monoSource MO_SOUND_GROUP_EFFECTS (MO_SOUND_FLAG_INLINED ||| MO_SOUND_FLAG_PLAYING)


/-- The sound `mo_sound_create` makes for `monoSource` in an empty registry. -/
def createdSound : Option mo_sound :=
  match mo_sound_create (some (contextWith [])) (some monoSource) MO_SOUND_GROUP_EFFECTS
      true true true with
  | .ok (_, _, pSound) => pSound
  | .error _ => none

/-- The garbage flag of the context and the sound `createdSound` after the
calls `mo_sound_mark_for_deletion`, `mo_sound_play` (not looping) and
`mo_sound_mark_for_deletion` again. -/
def markedPlayedMarked : Bool × Option mo_sound :=
  let marked := mo_sound_mark_for_deletion false createdSound
  mo_sound_mark_for_deletion marked.1 (mo_sound_play marked.2 false)

/-- A playing stereo sound at cursor 2. -/
def playingStereo : mo_sound :=
  { freshSound stereoSource MO_SOUND_GROUP_MUSIC MO_SOUND_FLAG_PLAYING with currentSample := 2 }

/-- The sound `playingStereo` stopped and marked for deletion. -/
def markedStereo : mo_sound :=
  { freshSound stereoSource MO_SOUND_GROUP_MUSIC 0 with
    currentSample := 2, isMarkedForDeletion := true }

/-- A registry of three sounds: a stopped one, a playing one at cursor 2 and a
looping one. -/
def threeSounds : mo_context :=
  contextWith [freshSound monoSource MO_SOUND_GROUP_EFFECTS 0, playingStereo,
               freshSound monoSource MO_SOUND_GROUP_VOICE
                 (MO_SOUND_FLAG_PLAYING ||| MO_SOUND_FLAG_LOOPING)]

/-- A full registry: capacity 2 and two sounds. -/
def fullContext : mo_context :=
  { contextWith [freshSound monoSource MO_SOUND_GROUP_EFFECTS 0,
                 freshSound stereoSource MO_SOUND_GROUP_MUSIC 0] with soundBufferSize := 2 }

/-- A context before the first sound: no array yet. -/
def emptyContext : mo_context := { contextWith [] with soundBufferSize := 0 }

/-- A playing, looping sound of `mo_play_sound_source` at cursor 2 with volume
1/2 and a deletion mark. -/
def busySound : mo_sound :=
  { pSource := monoSource, group := MO_SOUND_GROUP_VOICE, linearVolume := F32.fin (1 / 2),
    pan := F32.ofInt 0,
    flags := MO_SOUND_FLAG_INLINED ||| MO_SOUND_FLAG_PLAYING ||| MO_SOUND_FLAG_LOOPING,
    currentSample := 2, isMarkedForDeletion := true }

/-- An array of capacity 6 with four live sounds at the addresses 40, 10, 30
and 20; the two spare cells hold 0. -/
def fourSounds : SoundArray := { ppSounds := [40, 10, 30, 20, 0, 0], soundCount := 4 }

/-- The two bytes of a 16-bit value, low byte first. -/
def le16 (v : Nat) : List Nat := [v % 256, v / 256 % 256]

/-- The four bytes of a 32-bit value, low byte first. -/
def le32 (v : Nat) : List Nat := [v % 256, v / 256 % 256, v / 65536 % 256, v / 16777216 % 256]

/-- A RIFF/WAVE file of one channel at 8000 Hz: the 12-byte RIFF header, a
`fmt ` chunk of 16 bytes with the given format tag, block alignment and bits
per sample, and a data chunk whose header declares `dataSize` bytes and which
holds the bytes `samples`. -/
def riffFile (formatTag blockAlign bitsPerSample dataSize : Nat) (samples : List Nat) :
    List Nat :=
  [0x52, 0x49, 0x46, 0x46] ++ le32 (36 + samples.length) ++ [0x57, 0x41, 0x56, 0x45]
    ++ [0x66, 0x6D, 0x74, 0x20] ++ le32 16
    ++ le16 formatTag ++ le16 1 ++ le32 8000 ++ le32 (8000 * blockAlign) ++ le16 blockAlign
    ++ le16 bitsPerSample
    ++ [0x64, 0x61, 0x74, 0x61] ++ le32 dataSize ++ samples

/-- A RIFF/WAVE file that ends inside its `fmt ` chunk: the chunk declares 17
bytes, and one byte follows the 16 bytes of the format fields. -/
def riffShortFmt : List Nat :=
  [0x52, 0x49, 0x46, 0x46] ++ le32 36 ++ [0x57, 0x41, 0x56, 0x45]
    ++ [0x66, 0x6D, 0x74, 0x20] ++ le32 17
    ++ le16 1 ++ le16 1 ++ le32 8000 ++ le32 16000 ++ le16 2 ++ le16 16
    ++ [0]

/-- A `fmt ` record of one channel at 8000 Hz. -/
def monoFmt (formatTag blockAlign bitsPerSample : Nat) : WavFmt :=
  { formatTag := formatTag, channels := 1, sampleRate := 8000, blockAlign := blockAlign,
    bitsPerSample := bitsPerSample, subformatGUID := List.replicate 16 0 }

/-- An external Vorbis decoder that recognises nothing: it returns -1. -/
def vorbisRejects (_ : List Nat) : VorbisOut :=
  { sampleCount := -1, channels := 0, sampleRate := 0, pTempSamples := [] }

/-- An external FLAC decoder that recognises nothing: it returns NULL. -/
def flacRejects (_ : List Nat) : Option FlacOut := none

/-- An external FLAC decoder that decodes every input to the two 32-bit
samples `0x00010000` and `-0x00020000` of one channel at 8000 Hz. -/
def flacTwoSamples (_ : List Nat) : Option FlacOut :=
  some { channels := 1, sampleRate := 8000, sampleCount := 2, pTempSamples := [65536, -131072] }

/-- A RIFF/WAVE file as `riffFile`, with the channel count of the `fmt ` chunk
as a further argument. -/
def riffFileChannels (formatTag channels blockAlign bitsPerSample dataSize : Nat)
    (samples : List Nat) : List Nat :=
  [0x52, 0x49, 0x46, 0x46] ++ le32 (36 + samples.length) ++ [0x57, 0x41, 0x56, 0x45]
    ++ [0x66, 0x6D, 0x74, 0x20] ++ le32 16
    ++ le16 formatTag ++ le16 channels ++ le32 8000 ++ le32 (8000 * blockAlign)
    ++ le16 blockAlign ++ le16 bitsPerSample
    ++ [0x64, 0x61, 0x74, 0x61] ++ le32 dataSize ++ samples

/-- A stereo source that holds a single sample, less than one frame. -/
def halfFrameSource : mo_sound_source :=
  { channels := 2, sampleRate := 44100, sampleCount := 1, pSampleData := [5] }

/-- A playing, looping sound over `halfFrameSource`. -/
def halfFrameLoop : mo_sound :=
  freshSound halfFrameSource MO_SOUND_GROUP_EFFECTS (MO_SOUND_FLAG_PLAYING ||| MO_SOUND_FLAG_LOOPING)

/-- A stereo 16-bit playback device of the null backend with a buffer of 10
frames (40 bytes), at the start of playback. -/
def nullPlayback : mal_device_null :=
  { isPlayback := true, format := 1, channels := 2, bufferSizeInFrames := 10,
    lastProcessedFrame := 0 }

/-- A playing stereo sound of one frame whose two samples equal `v`. -/
def constantSound (v : Int) : mo_sound :=
  freshSound (constantSource 2 1 v) MO_SOUND_GROUP_EFFECTS MO_SOUND_FLAG_PLAYING

/-- The sound `constantSound 1` at linear volume 1/2. -/
def halfVolumeSound : mo_sound :=
  { constantSound 1 with linearVolume := F32.fin (1 / 2) }

/-- A configuration of two channels at 44100 Hz, with the default buffer size
and period count. -/
def stereoConfig : mal_device_config :=
  { format := 1, channels := 2, sampleRate := 44100, bufferSizeInFrames := 0, periods := 0 }

/-- An environment in which everything can be created and the only backend is
the null backend. -/
def nullEnv : InitEnv :=
  { mutexCreated := true, wakeupEventCreated := true, startEventCreated := true,
    stopEventCreated := true, dsound := none, alsa := none, sles := none, null := some MAL_SUCCESS,
    threadCreated := true }

/-- A backend whose routines succeed. -/
def goodBackend : Backend := { start := MAL_SUCCESS, stopOk := true }

/-- A device with a worker thread, as `mal_device_init` leaves it: stopped,
the mutex free, no event signalled. -/
def stoppedDevice (api : mal_api) : mal_device :=
  { zeroDevice with api := api, state := MAL_STATE_STOPPED }

/-- The worker thread in its wait for the wakeup event. -/
def idleWorker : Worker := { pc := .waitWakeupEvent, skipNextStopEvent := false }

/-! ## Predicates and configurations of the device state machine -/

/-- The number of steps that are taken when the threads of the schedule move
in the order of the schedule (a thread that cannot move takes no step). -/
def System.moves (b : Backend) : List Thread → System → Nat
  | [], _ => 0
  | t :: rest, s =>
    match s.step b t with
    | .ok (some s') => System.moves b rest s' + 1
    | .ok none => System.moves b rest s
    | .error _ => 0

/-- Whether a call of `mal_device_start` is between its `mal_mutex_lock` and
its `mal_mutex_unlock`. -/
def StartAt.holdsLock : StartAt → Bool
  | .checkUninitialized => false
  | .lock => false
  | .returned _ => false
  | _ => true

/-- Whether a call of `mal_device_stop` is between its `mal_mutex_lock` and
its `mal_mutex_unlock`. -/
def StopAt.holdsLock : StopAt → Bool
  | .checkUninitialized => false
  | .lock => false
  | .returned _ => false
  | _ => true

/-- Whether a client is between the `mal_mutex_lock` and the
`mal_mutex_unlock` of a call of `mal_device_start` or `mal_device_stop`. -/
def Client.holdsLock : Client → Bool
  | .start pc => pc.holdsLock
  | .stop pc => pc.holdsLock
  | _ => false

/-- Whether a client is inside a call of `mal_device_start` or of
`mal_device_stop`. -/
def Client.isStartOrStop : Client → Bool
  | .start _ => true
  | .stop _ => true
  | _ => false

/-- The worker thread when it has set the state to `MAL_STATE_STOPPED` and is
about to signal the stop event, on its way to its wait. -/
def settlingWorker : Worker := { pc := .signalStopEvent, skipNextStopEvent := false }

/-- A device, its worker thread, and one client at the entry of
`mal_device_start`. -/
def startRequest (d : mal_device) (w : Worker) : System :=
  { dev := d, worker := some w, clients := [.start .checkUninitialized] }

/-- The system after a start on the device `d` that the backend refused with
code `e`: the device as it was, with `e` in `workResult` and the stop event
signalled, the worker in its wait, and the call returned with `e`. -/
def startRefused (d : mal_device) (e : Int) : System :=
  { dev := { d with workResult := e, stopEvent := true },
    worker := some idleWorker,
    clients := [.start (.returned e)] }

/-- The positions that a call of `mal_device_start` on a stopped device with a
worker thread passes, in order, when the worker reports `e`. -/
def startPath (e : Int) : List StartAt :=
  [.checkUninitialized, .lock, .checkStarting, .checkStarted, .checkStopped, .setStarting,
   .chooseBackend, .signalWakeup, .waitStartEvent, .readWorkResult, .unlock e, .returned e]

/-- The positions that the worker thread passes, in order, from the signal of
the stop event that precedes its wait to its next wait, when the backend
refuses to start. -/
def refusalPath : List WorkerAt :=
  [.signalStopEvent, .waitWakeupEvent, .clearWorkResult, .checkUninitialized, .assertStarting,
   .startBackend, .checkWorkResult, .signalStartEventFailed, .stopBackend, .stopCallback,
   .setStopped, .signalStopEvent, .waitWakeupEvent]

/-- The system of a start request on the stopped device `d` when the client has
taken `i` steps and the worker is at position `j` of `refusalPath`, the backend
refusing to start with code `e`; `early` tells whether the worker began at
position 0, before its signal of the stop event, or at position 1, in its
wait. -/
def refusedAfter (d : mal_device) (e : Int) (early : Bool) (i j : Nat) : System :=
  { dev :=
      { api := d.api,
        state := if 11 ≤ j then MAL_STATE_STOPPED else if 6 ≤ i then MAL_STATE_STARTING
                 else MAL_STATE_STOPPED,
        workResult := if 6 ≤ j then e else if 3 ≤ j then MAL_SUCCESS else d.workResult,
        lock := decide (2 ≤ i ∧ i < 11),
        wakeupEvent := decide (8 ≤ i ∧ j ≤ 1),
        startEvent := decide (8 ≤ j ∧ i < 9),
        stopEvent := d.stopEvent || (early && decide (1 ≤ j)) || decide (12 ≤ j),
        breakFromMainLoop := d.breakFromMainLoop },
    worker := some { pc := refusalPath.getD j .returned, skipNextStopEvent := false },
    clients := [.start ((startPath e).getD i (.returned e))] }

/-- The pairs of a step count of the client and a position of the worker that
the two threads can reach: the worker waits at position 1 until the client has
signalled the wakeup event (8 steps), and the client waits then until the
worker has signalled the start event (position 8). -/
def refusedValid (early : Bool) (i j : Nat) : Bool :=
  (i ≤ 8 && (early || j == 1) && j ≤ 1) || (i == 8 && 1 ≤ j && j ≤ 8)
    || (8 ≤ i && i ≤ 11 && 8 ≤ j && j ≤ 12)

/-- The system of a start request on the stopped device `d` after the call has
taken the mutex, has found the state `MAL_STATE_STOPPED` and has set it to
`MAL_STATE_STARTING`. -/
def startAccepted (d : mal_device) : System :=
  { dev := { d with state := MAL_STATE_STARTING, lock := true },
    worker := some idleWorker,
    clients := [.start .chooseBackend] }

/-- A stopped device after a start and a stop: the flag `breakFromMainLoop`, set
by `mal_device_stop`, is still set. -/
def cycledDevice (api : mal_api) : mal_device :=
  { stoppedDevice api with breakFromMainLoop := true }

/-- A stopped device of the null backend with its worker in its wait and two
clients, each at the entry of `mal_device_start`. -/
def twoStarts : System :=
  { dev := stoppedDevice .mal_api_null, worker := some idleWorker,
    clients := [.start .checkUninitialized, .start .checkUninitialized] }

/-- The system `twoStarts` when the first client has taken the mutex and has
set the state to `MAL_STATE_STARTING`, and the second one waits for the
mutex. -/
def twoStartsLater : System :=
  { dev := { stoppedDevice .mal_api_null with lock := true, state := MAL_STATE_STARTING },
    worker := some idleWorker,
    clients := [.start .chooseBackend, .start .lock] }

/-- A stopped device of the null backend with its worker in its wait and two
clients, one at the entry of `mal_device_start` and one at the entry of
`mal_device_uninit`. -/
def startAndUninit : System :=
  { dev := stoppedDevice .mal_api_null, worker := some idleWorker,
    clients := [.start .checkUninitialized, .uninit .checkInitialized] }

/-- A backend whose start routine fails. -/
def refusingBackend : Backend := { start := MAL_FAILED_TO_START_BACKEND_DEVICE, stopOk := true }

/-- A started device: the mutex free, no event signalled. -/
def startedDevice (api : mal_api) : mal_device :=
  { zeroDevice with api := api, state := MAL_STATE_STARTED }

/-- The worker thread inside the main loop of the backend. -/
def runningWorker : Worker := { pc := .mainLoop, skipNextStopEvent := false }

/-- An environment in which everything can be created and the only backend is
DirectSound. -/
def dsoundEnv : InitEnv :=
  { mutexCreated := true, wakeupEventCreated := true, startEventCreated := true,
    stopEventCreated := true, dsound := some MAL_SUCCESS, alsa := none, sles := none,
    null := none, threadCreated := true }

/-- A schedule that lets a call of `mal_device_start` and the worker run to the
end of a refused start: the client up to its wait, the worker up to its wait,
and the client to its return. -/
def refusedSchedule : List Thread :=
  List.replicate 8 (.client 0) ++ List.replicate 11 .worker ++ List.replicate 3 (.client 0)

/-- The system when `mal_device_init` has created the worker thread of a
device of the given backend and waits for the stop event. -/
def initWaiting (api : mal_api) : System :=
  { dev := { zeroDevice with api := api }, worker := some Worker.entry,
    clients := [.init .waitStopEvent] }

/-- The system when `mal_device_init` has returned `MAL_SUCCESS`. -/
def initDone (api : mal_api) : System :=
  { dev := stoppedDevice api, worker := some idleWorker,
    clients := [.init (.returned MAL_SUCCESS)] }

/-- The system after a start that succeeded, when the worker has signalled the
start event and has not yet entered the main loop of the backend, with the
client at the entry of `mal_device_stop`. -/
def stopAfterStart : System :=
  { dev := startedDevice .mal_api_null,
    worker := some { pc := .enterMainLoop, skipNextStopEvent := false },
    clients := [.stop .checkUninitialized] }

/-- The system in which a stop request is lost: the client holds the mutex and
waits for the stop event, and the worker is in the main loop with the flag
`breakFromMainLoop` clear. -/
def stopLost : System :=
  { dev := { api := .mal_api_null, state := MAL_STATE_STOPPING, workResult := 0, lock := true,
             wakeupEvent := false, startEvent := false, stopEvent := false,
             breakFromMainLoop := false },
    worker := some runningWorker,
    clients := [.stop .waitStopEvent] }
/-! ## Lemmas on binary32 arithmetic -/

theorem isBinary32_intCast (n : ℤ) (h : n.natAbs < 2 ^ 24) : isBinary32 (n : ℚ) = true := by
  have h1 : n.natAbs / Nat.gcd n.natAbs (2 ^ 128) < 2 ^ 24 :=
    lt_of_le_of_lt (Nat.div_le_self _ _) h
  have h2 : n.natAbs < 2 ^ 128 * 1 := lt_trans h (by norm_num)
  unfold isBinary32
  rw [Rat.den_intCast, Rat.num_intCast, Nat.mod_one]
  rw [decide_eq_true h1, decide_eq_true h2]
  rfl

theorem F32.round_intCast (n : ℤ) (h : n.natAbs < 2 ^ 24) : F32.round (n : ℚ) = F32.fin n := by
  unfold F32.round
  rw [isBinary32_intCast n h]
  rfl

theorem F32.mul_ofInt_one (s : ℤ) (h : s.natAbs < 2 ^ 24) :
    F32.mul (F32.ofInt s) (F32.ofInt 1) = F32.ofInt s := by
  simp only [F32.mul, F32.ofInt, Int.cast_one, mul_one]
  exact F32.round_intCast s h

theorem F32.add_ofInt (a b : ℤ) (h : (a + b).natAbs < 2 ^ 24) :
    F32.add (F32.ofInt a) (F32.ofInt b) = F32.ofInt (a + b) := by
  have := F32.round_intCast (a + b) h
  simp only [Int.cast_add] at this
  simp only [F32.add, F32.ofInt, Int.cast_add]
  exact this

theorem tdiv_bounds (q : ℚ) (hlo : -32768 ≤ q) (hhi : q ≤ 32767) :
    -32768 ≤ Int.tdiv q.num q.den ∧ Int.tdiv q.num q.den ≤ 32767 := by
  have hd : (0 : ℤ) < q.den := by exact_mod_cast q.den_pos
  have hdq : (0 : ℚ) < q.den := by exact_mod_cast q.den_pos
  have hq : (q.num : ℚ) = q * q.den := by
    have := Rat.num_div_den q
    rw [div_eq_iff (ne_of_gt hdq)] at this
    exact this
  have h1 : q.num ≤ 32767 * (q.den : ℤ) := by
    have : (q.num : ℚ) ≤ 32767 * q.den := by rw [hq]; exact mul_le_mul_of_nonneg_right hhi hdq.le
    exact_mod_cast this
  have h2 : -32768 * (q.den : ℤ) ≤ q.num := by
    have : -32768 * (q.den : ℚ) ≤ q.num := by rw [hq]; exact mul_le_mul_of_nonneg_right hlo hdq.le
    exact_mod_cast this
  rcases le_or_lt 0 q.num with hn | hn
  · rw [Int.tdiv_eq_ediv hn hd.le]
    exact ⟨le_trans (by norm_num) (Int.ediv_nonneg hn hd.le), Int.ediv_le_of_le_mul hd h1⟩
  · have hn' : 0 ≤ -q.num := by omega
    have e : Int.tdiv q.num q.den = -((-q.num) / (q.den : ℤ)) := by
      rw [← Int.tdiv_eq_ediv hn' hd.le, Int.neg_tdiv, neg_neg]
    rw [e]
    have h3 : (-q.num) / (q.den : ℤ) ≤ 32768 := Int.ediv_le_of_le_mul hd (by linarith)
    have h4 : 0 ≤ (-q.num) / (q.den : ℤ) := Int.ediv_nonneg hn' hd.le
    constructor <;> omega

theorem toInt16_hi : F32.toInt16 (F32.fin 32767) = some 32767 := by decide!
theorem toInt16_lo : F32.toInt16 (F32.fin (-32768)) = some (-32768) := by decide!

theorem clampToInt16_eq (x : F32) (hx : x ≠ F32.nan) : clampToInt16 x = .ok (clampTrunc x) := by
  cases x with
  | nan => exact absurd rfl hx
  | inf neg =>
    cases neg
    · simp [clampToInt16, mo_clampf, F32.gt, F32.lt, clampTrunc, toInt16_hi]
    · simp [clampToInt16, mo_clampf, F32.gt, F32.lt, clampTrunc, toInt16_lo]
  | fin q =>
    unfold clampToInt16 mo_clampf F32.gt clampTrunc
    simp only [F32.lt]
    by_cases h1 : (32767 : ℚ) < q
    · simp [h1, toInt16_hi]
    · by_cases h2 : q < (-32768 : ℚ)
      · simp [h1, h2, toInt16_lo]
      · have hb := tdiv_bounds q (not_lt.mp h2) (not_lt.mp h1)
        simp [h1, h2, F32.toInt16, hb.1, hb.2]

theorem clampTrunc_ofInt (n : ℤ) :
    clampTrunc (F32.ofInt n) = if 32767 < n then 32767 else if n < -32768 then -32768 else n := by
  unfold clampTrunc F32.ofInt
  have e1 : ((32767 : ℚ) < (n : ℚ)) ↔ (32767 < n) := by exact_mod_cast Iff.rfl
  have e2 : ((n : ℚ) < (-32768 : ℚ)) ↔ (n < -32768) := by exact_mod_cast Iff.rfl
  simp only [e1, e2, Rat.num_intCast, Rat.den_intCast, Nat.cast_one, Int.tdiv_one]

theorem F32.round_ne_nan (q : ℚ) : F32.round q ≠ F32.nan := by
  unfold F32.round
  split
  · simp
  · simp only []
    split <;> simp

theorem mix_ne_nan (q : ℚ) (old s : Int) :
    F32.add (F32.ofInt old) (F32.mul (F32.ofInt s) (F32.fin q)) ≠ F32.nan := by
  simp only [F32.ofInt, F32.mul]
  cases h : F32.round (↑s * q) with
  | nan => exact absurd h (F32.round_ne_nan _)
  | inf neg => simp [F32.add]
  | fin r => simp only [F32.add]; exact F32.round_ne_nan _

theorem mix_ok (q : ℚ) (old s : Int) :
    clampToInt16 (F32.add (F32.ofInt old) (F32.mul (F32.ofInt s) (F32.fin q)))
      = .ok (mixSample (F32.fin q) old s) :=
  clampToInt16_eq _ (mix_ne_nan q old s)

/-! ## The frame loops -/

theorem loadSample_ok (src : mo_sound_source) (i : Nat) (h : i < src.pSampleData.length) :
    loadSample src i = .ok (src.pSampleData.getD i 0) := by
  simp [loadSample, List.getElem?_eq_getElem h, List.getD_eq_getElem _ _ h]

theorem loadFrame_ok (buf : List Int) (off i : Nat) (h : off + i < buf.length) :
    loadFrame buf off i = .ok (buf.getD (off + i) 0) := by
  simp [loadFrame, List.getElem?_eq_getElem h, List.getD_eq_getElem _ _ h]

theorem storeFrame_ok (buf : List Int) (off i : Nat) (v : Int) (h : off + i < buf.length) :
    storeFrame buf off i v = .ok (buf.set (off + i) v) := by
  simp [storeFrame, h]

theorem dstIndex_eq (i k : Nat) (hi : i < 2 ^ 31) (hk : k < 2) : (i * 2 + k) % 2 ^ 32 = 2 * i + k := by
  omega

theorem mixFrameMono_ok (src : mo_sound_source) (cur : Nat) (q : ℚ) (off : Nat) (b : List Int)
    (i : Nat) (hc : src.channels = 1) (hi : i < 2 ^ 31) (hb : off + 2 * i + 2 ≤ b.length)
    (hs : srcIndex src.channels cur i 0 < src.pSampleData.length) :
    mixFrameMono src cur (F32.fin q) 2 off b i
      = .ok ((b.set (off + 2 * i) (frameValue src (F32.fin q) cur i b (off + 2 * i) 0)).set
              (off + 2 * i + 1) (frameValue src (F32.fin q) cur i b (off + 2 * i) 1)) := by
  have hs' : (cur + i) % 2 ^ 64 < src.pSampleData.length := by
    simpa [srcIndex, hc] using hs
  unfold mixFrameMono
  rw [loadSample_ok src _ hs', dstIndex_eq i 0 hi (by norm_num), dstIndex_eq i 1 hi (by norm_num)]
  simp only [bind, Except.bind]
  rw [loadFrame_ok b off _ (by omega)]
  simp only [mix_ok]
  rw [storeFrame_ok b off _ _ (by omega)]
  simp only []
  rw [storeFrame_ok _ off _ _ (by simp; omega)]
  simp [frameValue, srcIndex, oldChannel, hc, Nat.add_assoc]

theorem mixFrameStereo_ok (src : mo_sound_source) (cur : Nat) (q : ℚ) (off : Nat) (b : List Int)
    (i : Nat) (hc : src.channels = 2) (hi : i < 2 ^ 31) (hb : off + 2 * i + 2 ≤ b.length)
    (hs0 : srcIndex src.channels cur i 0 < src.pSampleData.length)
    (hs1 : srcIndex src.channels cur i 1 < src.pSampleData.length) :
    mixFrameStereo src cur (F32.fin q) src.channels 2 off b i
      = .ok ((b.set (off + 2 * i) (frameValue src (F32.fin q) cur i b (off + 2 * i) 0)).set
              (off + 2 * i + 1) (frameValue src (F32.fin q) cur i b (off + 2 * i) 1)) := by
  have hs0' : (cur + (i * src.channels) % 2 ^ 32 + 0) % 2 ^ 64 < src.pSampleData.length := by
    simpa [srcIndex, hc] using hs0
  have hs1' : (cur + (i * src.channels) % 2 ^ 32 + 1) % 2 ^ 64 < src.pSampleData.length := by
    simpa [srcIndex, hc] using hs1
  unfold mixFrameStereo
  rw [loadSample_ok src _ hs0', loadSample_ok src _ hs1', dstIndex_eq i 0 hi (by norm_num),
    dstIndex_eq i 1 hi (by norm_num)]
  simp only [bind, Except.bind]
  rw [loadFrame_ok b off _ (by omega), loadFrame_ok b off _ (by omega)]
  simp only [mix_ok]
  rw [storeFrame_ok b off _ _ (by omega)]
  simp only []
  rw [storeFrame_ok _ off _ _ (by simp; omega)]
  simp [frameValue, srcIndex, oldChannel, hc, Nat.add_assoc]

theorem mixFrameMulti_ok (src : mo_sound_source) (cur : Nat) (q : ℚ) (off : Nat) (b : List Int)
    (i : Nat) (hc1 : src.channels ≠ 1) (hi : i < 2 ^ 31) (hb : off + 2 * i + 2 ≤ b.length)
    (hs0 : srcIndex src.channels cur i 0 < src.pSampleData.length)
    (hs1 : srcIndex src.channels cur i 1 < src.pSampleData.length) :
    mixFrameMulti src cur (F32.fin q) src.channels 2 off b i
      = .ok ((b.set (off + 2 * i) (frameValue src (F32.fin q) cur i b (off + 2 * i) 0)).set
              (off + 2 * i + 1) (frameValue src (F32.fin q) cur i b (off + 2 * i) 1)) := by
  have hs0' : (cur + (i * src.channels) % 2 ^ 32 + 0) % 2 ^ 64 < src.pSampleData.length := by
    simpa [srcIndex, hc1] using hs0
  have hs1' : (cur + (i * src.channels) % 2 ^ 32 + 1) % 2 ^ 64 < src.pSampleData.length := by
    simpa [srcIndex, hc1] using hs1
  have hr : List.range 2 = [0, 1] := by decide
  unfold mixFrameMulti
  rw [hr]
  simp only [List.foldlM, mixChannelMulti, bind, Except.bind, pure, Except.pure]
  rw [loadSample_ok src _ hs0', dstIndex_eq i 0 hi (by norm_num)]
  simp only []
  rw [loadFrame_ok b off _ (by omega)]
  simp only [mix_ok]
  rw [storeFrame_ok b off _ _ (by omega)]
  simp only []
  rw [loadSample_ok src _ hs1', dstIndex_eq i 1 hi (by norm_num)]
  simp only []
  rw [loadFrame_ok _ off _ (by simp; omega)]
  simp only [mix_ok]
  rw [storeFrame_ok _ off _ _ (by simp; omega)]
  have hne : off + 2 * i ≠ off + (2 * i + 1) := by omega
  simp [frameValue, srcIndex, oldChannel, hc1, Nat.add_assoc, List.getD_eq_getElem?_getD,
    List.getElem?_set, hne]


theorem frameValue_congr (src : mo_sound_source) (vol : F32) (cur i : Nat) (b buf : List Int)
    (pos ch : Nat) (h : ∀ idx, pos ≤ idx → b[idx]? = buf[idx]?) :
    frameValue src vol cur i b pos ch = frameValue src vol cur i buf pos ch := by
  unfold frameValue
  simp only [List.getD_eq_getElem?_getD]
  rw [h _ (by omega)]

theorem foldlM_frames (src : mo_sound_source) (vol : F32) (cur : Nat)
    (f : List Int → Nat → Except Fault (List Int)) (buf : List Int) (off n : Nat)
    (hlen : off + 2 * n ≤ buf.length)
    (hf : ∀ i < n, ∀ b : List Int, b.length = buf.length →
      f b i = .ok ((b.set (off + 2 * i) (frameValue src vol cur i b (off + 2 * i) 0)).set
              (off + 2 * i + 1) (frameValue src vol cur i b (off + 2 * i) 1))) :
    ∃ b', (List.range n).foldlM f buf = .ok b' ∧ b'.length = buf.length
      ∧ (∀ idx, idx < off ∨ off + 2 * n ≤ idx → b'[idx]? = buf[idx]?)
      ∧ ∀ i < n, ∀ ch < 2, b'[off + 2 * i + ch]? = some (frameValue src vol cur i buf (off + 2 * i) ch) := by
  induction n with
  | zero =>
    refine ⟨buf, by simp [List.foldlM, pure, Except.pure], rfl, fun _ _ => rfl, ?_⟩
    intro i hi; omega
  | succ n ih =>
    obtain ⟨b, hb, hbl, hout, hin⟩ := ih (by omega) (fun i hi b hb => hf i (by omega) b hb)
    have hstep := hf n (by omega) b hbl
    have hcongr : ∀ ch < 2, frameValue src vol cur n b (off + 2 * n) ch = frameValue src vol cur n buf (off + 2 * n) ch :=
      fun ch _ => frameValue_congr src vol cur n b buf (off + 2 * n) ch
        (fun idx hidx => hout idx (Or.inr hidx))
    rw [hcongr 0 (by norm_num), hcongr 1 (by norm_num)] at hstep
    refine ⟨(b.set (off + 2 * n) (frameValue src vol cur n buf (off + 2 * n) 0)).set (off + 2 * n + 1)
        (frameValue src vol cur n buf (off + 2 * n) 1), ?_, ?_, ?_, ?_⟩
    · rw [List.range_succ, List.foldlM_append, hb]
      simp only [bind, Except.bind, List.foldlM, pure, Except.pure]
      rw [hstep]
    · simp [hbl]
    · intro idx hidx
      rw [List.getElem?_set_ne (by omega), List.getElem?_set_ne (by omega)]
      exact hout idx (by omega)
    · intro i hi ch hch
      rcases Nat.lt_succ_iff_lt_or_eq.mp hi with hlt | heq
      · rw [List.getElem?_set_ne (by omega), List.getElem?_set_ne (by omega)]
        exact hin i hlt ch hch
      · subst heq
        have : ch = 0 ∨ ch = 1 := by omega
        rcases this with rfl | rfl
        · rw [List.getElem?_set_ne (by omega), Nat.add_zero, List.getElem?_set_self (by omega)]
        · rw [List.getElem?_set_self (by simp; omega)]

theorem mixFrames_spec (src : mo_sound_source) (q : ℚ) (cur off n : Nat) (buf : List Int)
    (hn : n ≤ 2 ^ 31) (hlen : off + 2 * n ≤ buf.length)
    (hs : ∀ i < n, ∀ ch < 2, srcIndex src.channels cur i ch < src.pSampleData.length) :
    ∃ b', mixFrames src cur (F32.fin q) 2 off n buf = .ok b' ∧ b'.length = buf.length
      ∧ (∀ idx, idx < off ∨ off + 2 * n ≤ idx → b'[idx]? = buf[idx]?)
      ∧ ∀ i < n, ∀ ch < 2,
          b'[off + 2 * i + ch]? = some (frameValue src (F32.fin q) cur i buf (off + 2 * i) ch) := by
  unfold mixFrames
  by_cases h1 : src.channels = 1
  · rw [if_pos h1]
    exact foldlM_frames src _ cur _ buf off n hlen (fun i hi b hb =>
      mixFrameMono_ok src cur q off b i h1 (by omega) (by omega) (hs i hi 0 (by norm_num)))
  · rw [if_neg h1]
    by_cases h2 : src.channels = 2
    · rw [if_pos h2]
      exact foldlM_frames src _ cur _ buf off n hlen (fun i hi b hb =>
        mixFrameStereo_ok src cur q off b i h2 (by omega) (by omega) (hs i hi 0 (by norm_num))
          (hs i hi 1 (by norm_num)))
    · rw [if_neg h2]
      exact foldlM_frames src _ cur _ buf off n hlen (fun i hi b hb =>
        mixFrameMulti_ok src cur q off b i h1 (by omega) (by omega) (hs i hi 0 (by norm_num))
          (hs i hi 1 (by norm_num)))

/-! ## The `while` loop -/

theorem srcIndex_lt (src : mo_sound_source) (cur i ch : Nat) (hc : 1 ≤ src.channels)
    (hN : src.sampleCount < 2 ^ 64) (hcur : cur ≤ src.sampleCount)
    (hi : i < framesLeft src cur) (hch : ch < 2) :
    srcIndex src.channels cur i ch < src.sampleCount := by
  have h1 : framesLeft src cur * src.channels ≤ src.sampleCount - cur := Nat.div_mul_le_self _ _
  have h2 : (i + 1) * src.channels ≤ framesLeft src cur * src.channels :=
    Nat.mul_le_mul_right _ hi
  have h3 : (i + 1) * src.channels = i * src.channels + src.channels := by ring
  have h4 : (i * src.channels) % 2 ^ 32 ≤ i * src.channels := Nat.mod_le _ _
  unfold srcIndex
  by_cases h : src.channels = 1
  · rw [if_pos h]
    rw [h] at h1 h2 h3
    have : cur + i < src.sampleCount := by omega
    rw [Nat.mod_eq_of_lt (by omega)]
    exact this
  · rw [if_neg h]
    have : cur + (i * src.channels) % 2 ^ 32 + ch < src.sampleCount := by omega
    rw [Nat.mod_eq_of_lt (by omega)]
    exact this

theorem accumulateLoop_zero (vol : F32) (fuel : Nat) (st : MixState) (off : Nat) :
    accumulateLoop 2 vol fuel st 0 off = .ok st := by
  cases fuel <;> simp [accumulateLoop]


theorem framesAvailable_eq (src : mo_sound_source) (cur : Nat) (hN : src.sampleCount < 2 ^ 64)
    (hcur : cur ≤ src.sampleCount) :
    ((src.sampleCount + 2 ^ 64 - cur) % 2 ^ 64) / src.channels = framesLeft src cur := by
  unfold framesLeft
  congr 1
  omega

theorem cursor_advance_eq (src : mo_sound_source) (cur n : Nat) (hN : src.sampleCount < 2 ^ 64)
    (hcur : cur ≤ src.sampleCount) (hn : n ≤ framesLeft src cur) :
    (cur + n * src.channels) % 2 ^ 64 = cur + n * src.channels
      ∧ cur + n * src.channels ≤ src.sampleCount := by
  have h1 : framesLeft src cur * src.channels ≤ src.sampleCount - cur := Nat.div_mul_le_self _ _
  have h2 : n * src.channels ≤ framesLeft src cur * src.channels := Nat.mul_le_mul_right _ hn
  constructor
  · apply Nat.mod_eq_of_lt; omega
  · omega

theorem accumulateLoop_within (vol : F32) (fuel : Nat) (st : MixState) (fc off : Nat) (b : List Int)
    (hc : 1 ≤ st.sound.pSource.channels) (hN : st.sound.pSource.sampleCount < 2 ^ 64)
    (hcur : st.sound.currentSample ≤ st.sound.pSource.sampleCount)
    (hfc : 0 < fc) (hr : fc ≤ framesLeft st.sound.pSource st.sound.currentSample)
    (hb : mixFrames st.sound.pSource st.sound.currentSample vol 2 off fc st.buf = .ok b) :
    accumulateLoop 2 vol (fuel + 1) st fc off
      = .ok { st with sound := advanced st.sound fc, buf := b } := by
  have hadv := (cursor_advance_eq _ _ fc hN hcur hr).1
  unfold accumulateLoop
  simp only [framesAvailable_eq _ _ hN hcur]
  have hc0 : ¬ st.sound.pSource.channels = 0 := by omega
  by_cases hlt : framesLeft st.sound.pSource st.sound.currentSample > fc
  · simp only [hfc, hc0, hlt, if_true, if_false, hb, hadv, lt_irrefl, decide_False, Nat.sub_self]
    simp [accumulateLoop_zero, advanced]
  · have he : framesLeft st.sound.pSource st.sound.currentSample = fc := by omega
    simp only [hfc, hc0, he, if_true, if_false, hb, hadv, lt_irrefl, decide_False, Nat.sub_self,
      gt_iff_lt]
    simp [accumulateLoop_zero, advanced]

theorem accumulateLoop_wrap (vol : F32) (fuel : Nat) (st : MixState) (fc off : Nat) (b : List Int)
    (hc : 1 ≤ st.sound.pSource.channels) (hN : st.sound.pSource.sampleCount < 2 ^ 64)
    (hcur : st.sound.currentSample ≤ st.sound.pSource.sampleCount)
    (hr : framesLeft st.sound.pSource st.sound.currentSample < fc)
    (hloop : mo_sound_is_looping (some st.sound) = true)
    (hb : mixFrames st.sound.pSource st.sound.currentSample vol 2 off
      (framesLeft st.sound.pSource st.sound.currentSample) st.buf = .ok b) :
    accumulateLoop 2 vol (fuel + 1) st fc off
      = accumulateLoop 2 vol fuel
          { st with sound := { st.sound with currentSample := 0 }, buf := b }
          (fc - framesLeft st.sound.pSource st.sound.currentSample)
          (off + framesLeft st.sound.pSource st.sound.currentSample * 2) := by
  have hfc : 0 < fc := by omega
  have hc0 : ¬ st.sound.pSource.channels = 0 := by omega
  have hgt : ¬ framesLeft st.sound.pSource st.sound.currentSample > fc := by omega
  have hl : ∀ x, mo_sound_is_looping (some { st.sound with currentSample := x }) = true :=
    fun _ => hloop
  conv => lhs; unfold accumulateLoop
  simp only [framesAvailable_eq _ _ hN hcur, hfc, hc0, hgt, if_true, if_false, hb, hr,
    decide_True, hl]

theorem accumulateLoop_end (vol : F32) (fuel : Nat) (st : MixState) (fc off : Nat) (b : List Int)
    (hc : 1 ≤ st.sound.pSource.channels) (hN : st.sound.pSource.sampleCount < 2 ^ 64)
    (hcur : st.sound.currentSample ≤ st.sound.pSource.sampleCount)
    (hr : framesLeft st.sound.pSource st.sound.currentSample < fc)
    (hloop : mo_sound_is_looping (some st.sound) = false)
    (hb : mixFrames st.sound.pSource st.sound.currentSample vol 2 off
      (framesLeft st.sound.pSource st.sound.currentSample) st.buf = .ok b) :
    accumulateLoop 2 vol (fuel + 1) st fc off
      = .ok { st with
          isSoundMarkedForDeletion := (endPlayback st.isSoundMarkedForDeletion
            (advanced st.sound (framesLeft st.sound.pSource st.sound.currentSample))).1,
          sound := (endPlayback st.isSoundMarkedForDeletion
            (advanced st.sound (framesLeft st.sound.pSource st.sound.currentSample))).2,
          buf := b } := by
  have hadv := (cursor_advance_eq _ _ _ hN hcur (le_refl (framesLeft st.sound.pSource st.sound.currentSample))).1
  have hfc : 0 < fc := by omega
  have hc0 : ¬ st.sound.pSource.channels = 0 := by omega
  have hgt : ¬ framesLeft st.sound.pSource st.sound.currentSample > fc := by omega
  have hl : ∀ x, mo_sound_is_looping (some { st.sound with currentSample := x }) = false :=
    fun _ => hloop
  conv => lhs; unfold accumulateLoop
  simp only [framesAvailable_eq _ _ hN hcur, hfc, hc0, hgt, if_true, if_false, hb, hr,
    decide_True, hadv, hl]
  unfold endPlayback mo_sound_mark_for_deletion mo_sound_stop advanced
  by_cases hin : (st.sound.flags &&& MO_SOUND_FLAG_INLINED != 0) = true
  · by_cases hm : st.sound.isMarkedForDeletion = true
    · simp [hin, hm]
    · simp [hin, hm]
  · simp [hin]


theorem soundAfter_zero (g : Bool) (s : mo_sound) : soundAfter g s 0 = (g, s) := by
  simp [soundAfter, advanced]

theorem framePos_rewound (src : mo_sound_source) (j : Nat) :
    framePos src 0 true j = some (0, j % framesLeft src 0) := by
  unfold framePos
  by_cases h : j < framesLeft src 0
  · rw [if_pos h, Nat.mod_eq_of_lt h]
  · rw [if_neg h]
    simp only [if_true]
    rw [← Nat.mod_eq_sub_mod (not_lt.mp h)]

theorem soundAfter_wrap (g : Bool) (s : mo_sound) (fc : Nat)
    (hl : mo_sound_is_looping (some s) = true)
    (hlt : framesLeft s.pSource s.currentSample < fc) :
    soundAfter g { s with currentSample := 0 } (fc - framesLeft s.pSource s.currentSample)
      = soundAfter g s fc := by
  have hl' : mo_sound_is_looping (some { s with currentSample := 0 }) = true := hl
  unfold soundAfter
  simp only [hl, hl', if_true, not_le.mpr hlt, if_false]
  generalize framesLeft s.pSource s.currentSample = r at hlt
  generalize framesLeft s.pSource 0 = L
  by_cases hm : fc - r ≤ L
  · rw [if_pos hm]
    have : (fc - r - 1) % L = fc - r - 1 := Nat.mod_eq_of_lt (by omega)
    rw [this]
    have e : fc - r - 1 + 1 = fc - r := by omega
    simp [advanced, e]
  · rw [if_neg hm]
    have : (fc - r - 1) % L = (fc - r - L - 1) % L := by
      have e : fc - r - 1 = fc - r - L - 1 + L := by omega
      rw [e, Nat.add_mod_right]
    rw [this]

theorem accumulateLoop_spec (q : ℚ) (fuel : Nat) :
    ∀ (st : MixState) (fc off : Nat),
      1 ≤ st.sound.pSource.channels →
      st.sound.pSource.pSampleData.length = st.sound.pSource.sampleCount →
      st.sound.pSource.sampleCount < 2 ^ 64 →
      st.sound.currentSample ≤ st.sound.pSource.sampleCount →
      (mo_sound_is_looping (some st.sound) = true → 1 ≤ framesLeft st.sound.pSource 0) →
      fc ≤ 2 ^ 31 →
      off + 2 * fc ≤ st.buf.length →
      fc + (if framesLeft st.sound.pSource st.sound.currentSample = 0 then 1 else 0) ≤ fuel →
      ∃ buf', accumulateLoop 2 (F32.fin q) fuel st fc off
          = .ok { st with
              isSoundMarkedForDeletion := (soundAfter st.isSoundMarkedForDeletion st.sound fc).1,
              sound := (soundAfter st.isSoundMarkedForDeletion st.sound fc).2,
              buf := buf' }
        ∧ buf'.length = st.buf.length
        ∧ (∀ idx, idx < off ∨ off + 2 * fc ≤ idx → buf'[idx]? = st.buf[idx]?)
        ∧ ∀ j < fc, ∀ ch < 2,
            buf'[off + 2 * j + ch]? = bufAfter st.sound (F32.fin q) st.buf off j ch := by
  induction fuel with
  | zero =>
    intro st fc off _ _ _ _ _ _ _ hfuel
    have h0 : fc = 0 := by omega
    subst h0
    refine ⟨st.buf, ?_, rfl, fun _ _ => rfl, fun j hj => absurd hj (by omega)⟩
    rw [accumulateLoop_zero, soundAfter_zero]
  | succ fuel ih =>
    intro st fc off hc hd hN hcur hloop hfc hlen hfuel
    rcases Nat.eq_zero_or_pos fc with h0 | hpos
    · subst h0
      refine ⟨st.buf, ?_, rfl, fun _ _ => rfl, fun j hj => absurd hj (by omega)⟩
      rw [accumulateLoop_zero, soundAfter_zero]
    · have hs : ∀ n, n ≤ framesLeft st.sound.pSource st.sound.currentSample → ∀ i < n, ∀ ch < 2,
          srcIndex st.sound.pSource.channels st.sound.currentSample i ch
            < st.sound.pSource.pSampleData.length := by
        intro n hn i hi ch hch
        rw [hd]
        exact srcIndex_lt _ _ _ _ hc hN hcur (by omega) hch
      rcases le_or_lt fc (framesLeft st.sound.pSource st.sound.currentSample) with hle | hlt
      · obtain ⟨b, hb, hbl, hout, hin⟩ :=
          mixFrames_spec st.sound.pSource q st.sound.currentSample off fc st.buf hfc hlen
            (hs fc hle)
        refine ⟨b, ?_, hbl, hout, ?_⟩
        · rw [accumulateLoop_within _ _ _ _ _ _ hc hN hcur hpos hle hb]
          simp [soundAfter, hle]
        · intro j hj ch hch
          rw [hin j hj ch hch]
          have hjr : j < framesLeft st.sound.pSource st.sound.currentSample := by omega
          simp [bufAfter, framePos, hjr]
      · obtain ⟨b, hb, hbl, hout, hin⟩ :=
          mixFrames_spec st.sound.pSource q st.sound.currentSample off
            (framesLeft st.sound.pSource st.sound.currentSample) st.buf (by omega) (by omega)
            (hs _ (le_refl _))
        cases hl : mo_sound_is_looping (some st.sound) with
        | false =>
          refine ⟨b, ?_, hbl, ?_, ?_⟩
          · rw [accumulateLoop_end _ _ _ _ _ _ hc hN hcur hlt hl hb]
            simp [soundAfter, not_le.mpr hlt, hl]
          · intro idx hidx
            exact hout idx (by omega)
          · intro j hj ch hch
            by_cases hjr : j < framesLeft st.sound.pSource st.sound.currentSample
            · rw [hin j hjr ch hch]
              simp [bufAfter, framePos, hjr]
            · rw [hout _ (Or.inr (by omega))]
              simp [bufAfter, framePos, hjr, hl]
        | true =>
          have hL := hloop hl
          rw [accumulateLoop_wrap _ _ _ _ _ _ hc hN hcur hlt hl hb]
          obtain ⟨b2, hb2, hbl2, hout2, hin2⟩ :=
            ih { st with sound := { st.sound with currentSample := 0 }, buf := b }
              (fc - framesLeft st.sound.pSource st.sound.currentSample)
              (off + framesLeft st.sound.pSource st.sound.currentSample * 2)
              hc hd hN (Nat.zero_le _) (fun _ => hL) (by omega)
              (by simp only [hbl]; omega)
              (by
                have : framesLeft st.sound.pSource 0 ≠ 0 := by omega
                simp only [this, if_false]
                split at hfuel <;> omega)
          refine ⟨b2, ?_, ?_, ?_, ?_⟩
          · rw [hb2]
            simp only [soundAfter_wrap _ _ _ hl hlt]
          · rw [hbl2]; exact hbl
          · intro idx hidx
            rw [hout2 idx (by omega)]
            exact hout idx (by omega)
          · intro j hj ch hch
            by_cases hjr : j < framesLeft st.sound.pSource st.sound.currentSample
            · have e := hout2 (off + 2 * j + ch) (Or.inl (by omega))
              simp only at e
              rw [e, hin j hjr ch hch]
              simp [bufAfter, framePos, hjr]
            · have e := hin2 (j - framesLeft st.sound.pSource st.sound.currentSample) (by omega)
                ch hch
              have epos : off + framesLeft st.sound.pSource st.sound.currentSample * 2 +
                  2 * (j - framesLeft st.sound.pSource st.sound.currentSample) = off + 2 * j := by
                omega
              rw [epos] at e
              rw [e]
              have hl0 : mo_sound_is_looping (some { st.sound with currentSample := 0 }) = true :=
                hl
              simp only [bufAfter, hl0, hl, framePos_rewound]
              rw [epos]
              simp only [framePos, hjr, if_false, if_true]
              congr 1
              exact frameValue_congr _ _ _ _ _ _ _ _ (fun idx hidx => hout idx (Or.inr (by omega)))

/-! ## The loop over the registry -/

theorem mixSound_at (fuel fc : Nat) (ctx : mo_context) (done rest : List mo_sound) (s : mo_sound)
    (g : Bool) (buf : List Int)
    (hg : ctx.soundGroups.length = MO_SOUND_GROUP_COUNT) (hs : s.group < MO_SOUND_GROUP_COUNT) :
    mixSound fuel fc ({ ctx with ppSounds := done ++ s :: rest, isSoundMarkedForDeletion := g }, buf)
        done.length
      = if mo_sound_is_playing (some s) && F32.gt (effectiveVolume ctx.soundGroups s) (F32.ofInt 0)
        then
          match mo_sound__read_and_accumulate_frames fuel ctx.deviceChannels g s
              (effectiveVolume ctx.soundGroups s) fc buf with
          | .error e => .error e
          | .ok r => .ok ({ ctx with ppSounds := (done ++ [r.sound]) ++ rest,
                                      isSoundMarkedForDeletion := r.isSoundMarkedForDeletion },
                           r.buf)
        else .ok ({ ctx with ppSounds := (done ++ [s]) ++ rest, isSoundMarkedForDeletion := g },
                  buf) := by
  have hget : (done ++ s :: rest)[done.length]? = some s := by
    rw [List.getElem?_append_right (le_refl _)]; simp
  have hset : ∀ x, (done ++ s :: rest).set done.length x = (done ++ [x]) ++ rest := by
    intro x; simp
  have hcount : MO_SOUND_GROUP_COUNT = 4 := rfl
  have hmaster : MO_SOUND_GROUP_MASTER = 0 := rfl
  obtain ⟨e1, he1⟩ : ∃ e, ctx.soundGroups[s.group]? = some e :=
    ⟨ctx.soundGroups[s.group], List.getElem?_eq_getElem (by omega)⟩
  obtain ⟨e0, he0⟩ : ∃ e, ctx.soundGroups[MO_SOUND_GROUP_MASTER]? = some e :=
    ⟨ctx.soundGroups[0], List.getElem?_eq_getElem (by omega)⟩
  unfold mixSound
  simp only [hget, mo_sound_group_is_paused, hs, if_true, he1, he0, effectiveVolume, groupVolume,
    hset]
  by_cases hp : mo_sound_is_playing (some s) = true
  · by_cases hv : F32.gt (F32.mul (F32.mul s.linearVolume e1.linearVolume) e0.linearVolume)
        (F32.ofInt 0) = true
    · simp only [hp, hv, if_true, Bool.and_self]
    · simp [hp, hv]
  · simp [hp]

theorem foldlM_mixSound (fuel fc : Nat) (ctx : mo_context)
    (hg : ctx.soundGroups.length = MO_SOUND_GROUP_COUNT) :
    ∀ (rest done : List mo_sound) (g : Bool) (buf : List Int),
      (∀ s ∈ rest, s.group < MO_SOUND_GROUP_COUNT) →
      (List.range' done.length rest.length).foldlM (mixSound fuel fc)
          ({ ctx with ppSounds := done ++ rest, isSoundMarkedForDeletion := g }, buf)
        = match mixEach fuel ctx.deviceChannels fc (effectiveVolume ctx.soundGroups) rest g buf with
          | .error e => .error e
          | .ok (rest', g', buf') =>
            .ok ({ ctx with ppSounds := done ++ rest', isSoundMarkedForDeletion := g' }, buf') := by
  intro rest
  induction rest with
  | nil =>
    intro done g buf _
    simp [mixEach, List.foldlM, pure, Except.pure]
  | cons s rest ih =>
    intro done g buf hs
    have hs0 := hs s (List.mem_cons_self _ _)
    have hrest : ∀ x ∈ rest, x.group < MO_SOUND_GROUP_COUNT :=
      fun x hx => hs x (List.mem_cons_of_mem _ hx)
    have hlen : ∀ x : mo_sound, (done ++ [x]).length = done.length + 1 := by intro x; simp
    rw [List.length_cons, List.range'_succ, List.foldlM_cons, mixSound_at fuel fc ctx done rest s g
      buf hg hs0]
    unfold mixEach
    by_cases hc : (mo_sound_is_playing (some s) &&
        F32.gt (effectiveVolume ctx.soundGroups s) (F32.ofInt 0)) = true
    · simp only [hc, if_true]
      cases hr : mo_sound__read_and_accumulate_frames fuel ctx.deviceChannels g s
          (effectiveVolume ctx.soundGroups s) fc buf with
      | error e => simp [bind, Except.bind]
      | ok r =>
        simp only [bind, Except.bind]
        have := ih (done ++ [r.sound]) r.isSoundMarkedForDeletion r.buf hrest
        rw [hlen] at this
        rw [this]
        cases mixEach fuel ctx.deviceChannels fc (effectiveVolume ctx.soundGroups) rest
            r.isSoundMarkedForDeletion r.buf with
        | error e => rfl
        | ok x => simp
    · simp only [hc, if_false, bind, Except.bind]
      have := ih (done ++ [s]) g buf hrest
      rw [hlen] at this
      simp only [Bool.false_eq_true, if_false]
      rw [this]
      cases mixEach fuel ctx.deviceChannels fc (effectiveVolume ctx.soundGroups) rest g buf with
      | error e => rfl
      | ok x => simp

theorem mo_on_send_frames__mal_eq_mixRegistry (fuel : Nat) (ctx : mo_context) (fc : Nat)
    (pFrames : List Int) (hg : ctx.soundGroups.length = MO_SOUND_GROUP_COUNT)
    (hs : ∀ s ∈ ctx.ppSounds, s.group < MO_SOUND_GROUP_COUNT) :
    mo_on_send_frames__mal fuel ctx fc pFrames = mixRegistry fuel ctx fc pFrames := by
  unfold mo_on_send_frames__mal mixRegistry
  cases zeroFrames fc ctx.deviceChannels pFrames with
  | error e => rfl
  | ok buf =>
    simp only []
    have := foldlM_mixSound fuel fc ctx hg ctx.ppSounds [] ctx.isSoundMarkedForDeletion buf hs
    simp only [List.nil_append, List.length_nil] at this
    rw [List.range_eq_range', this]
    cases mixEach fuel ctx.deviceChannels fc (effectiveVolume ctx.soundGroups) ctx.ppSounds
        ctx.isSoundMarkedForDeletion buf with
    | error e => rfl
    | ok x => rfl

theorem mixEach_length (fuel dev fc : Nat) (vol : mo_sound → F32) :
    ∀ (l : List mo_sound) (g : Bool) (buf : List Int) (l' : List mo_sound) (g' : Bool)
      (buf' : List Int), mixEach fuel dev fc vol l g buf = .ok (l', g', buf') →
      l'.length = l.length := by
  intro l
  induction l with
  | nil =>
    intro g buf l' g' buf' h
    simp only [mixEach, Except.ok.injEq, Prod.mk.injEq] at h
    rw [← h.1]
  | cons s rest ih =>
    intro g buf l' g' buf' h
    unfold mixEach at h
    split at h
    · split at h
      · exact absurd h (by simp)
      · rename_i r hr
        split at h
        · exact absurd h (by simp)
        · rename_i rest' g1 b1 hrest
          simp only [Except.ok.injEq, Prod.mk.injEq] at h
          rw [← h.1, List.length_cons, List.length_cons, ih _ _ _ _ _ hrest]
    · split at h
      · exact absurd h (by simp)
      · rename_i rest' g1 b1 hrest
        simp only [Except.ok.injEq, Prod.mk.injEq] at h
        rw [← h.1, List.length_cons, List.length_cons, ih _ _ _ _ _ hrest]

theorem mixEach_cons (fuel dev fc : Nat) (vol : mo_sound → F32) (s : mo_sound)
    (rest : List mo_sound) (g : Bool) (buf : List Int) :
    mixEach fuel dev fc vol (s :: rest) g buf
      = if mo_sound_is_playing (some s) && F32.gt (vol s) (F32.ofInt 0) then
          match mo_sound__read_and_accumulate_frames fuel dev g s (vol s) fc buf with
          | .error e => .error e
          | .ok r =>
            match mixEach fuel dev fc vol rest r.isSoundMarkedForDeletion r.buf with
            | .error e => .error e
            | .ok (rest', g', buf') => .ok (r.sound :: rest', g', buf')
        else
          match mixEach fuel dev fc vol rest g buf with
          | .error e => .error e
          | .ok (rest', g', buf') => .ok (s :: rest', g', buf') := by
  rw [mixEach]

theorem mixEach_append (fuel dev fc : Nat) (vol : mo_sound → F32) (l2 : List mo_sound) :
    ∀ (l1 : List mo_sound) (g : Bool) (buf : List Int),
      mixEach fuel dev fc vol (l1 ++ l2) g buf
        = match mixEach fuel dev fc vol l1 g buf with
          | .error e => .error e
          | .ok (l1', g1, b1) =>
            match mixEach fuel dev fc vol l2 g1 b1 with
            | .error e => .error e
            | .ok (l2', g2, b2) => .ok (l1' ++ l2', g2, b2) := by
  intro l1
  induction l1 with
  | nil =>
    intro g buf
    simp only [List.nil_append, mixEach]
    cases mixEach fuel dev fc vol l2 g buf with
    | error e => rfl
    | ok x => rfl
  | cons s rest ih =>
    intro g buf
    rw [List.cons_append, mixEach_cons, mixEach_cons]
    split
    · cases mo_sound__read_and_accumulate_frames fuel dev g s (vol s) fc buf with
      | error e => rfl
      | ok r =>
        simp only []
        rw [ih]
        cases mixEach fuel dev fc vol rest r.isSoundMarkedForDeletion r.buf with
        | error e => rfl
        | ok x =>
          simp only []
          cases mixEach fuel dev fc vol l2 x.2.1 x.2.2 with
          | error e => rfl
          | ok y => rfl
    · rw [ih]
      cases mixEach fuel dev fc vol rest g buf with
      | error e => rfl
      | ok x =>
        simp only []
        cases mixEach fuel dev fc vol l2 x.2.1 x.2.2 with
        | error e => rfl
        | ok y => rfl


/-! ## One call of the mixing function -/

theorem mixSample_one (old s : Int) (hold : old.natAbs ≤ 2 ^ 15) (hs : s.natAbs ≤ 2 ^ 15) :
    mixSample (F32.ofInt 1) old s = clampInt16 (old + s) := by
  unfold mixSample
  rw [F32.mul_ofInt_one s (by omega), F32.add_ofInt old s (by omega), clampTrunc_ofInt]
  rfl

theorem framesLeft_zero_pos (s : mo_sound) (hc : 1 ≤ s.pSource.channels)
    (h : s.pSource.channels ≤ s.pSource.sampleCount) : 1 ≤ framesLeft s.pSource 0 := by
  unfold framesLeft
  exact Nat.div_pos (by simpa using h) (by omega)

theorem read_and_accumulate_spec (q : ℚ) (fuel : Nat) (g : Bool) (s : mo_sound) (fc : Nat)
    (buf : List Int) (hwf : s.wellFormed) (hfc : fc ≤ 2 ^ 31) (hlen : 2 * fc ≤ buf.length)
    (hfuel : fc < fuel) :
    ∃ buf', mo_sound__read_and_accumulate_frames fuel 2 g s (F32.fin q) fc buf
        = .ok { totalFramesRead := 0, isSoundMarkedForDeletion := (soundAfter g s fc).1,
                sound := (soundAfter g s fc).2, buf := buf' }
      ∧ buf'.length = buf.length
      ∧ (∀ idx, 2 * fc ≤ idx → buf'[idx]? = buf[idx]?)
      ∧ ∀ j < fc, ∀ ch < 2, buf'[2 * j + ch]? = bufAfter s (F32.fin q) buf 0 j ch := by
  obtain ⟨hc, hd, hN, hcur, hloop⟩ := hwf
  obtain ⟨b, hb, hbl, hout, hin⟩ := accumulateLoop_spec q fuel
    { totalFramesRead := 0, isSoundMarkedForDeletion := g, sound := s, buf := buf } fc 0
    hc hd hN hcur (fun hl => framesLeft_zero_pos s hc (hloop hl)) hfc (by simpa using hlen)
    (by simp only []; split <;> omega)
  refine ⟨b, ?_, hbl, ?_, ?_⟩
  · unfold mo_sound__read_and_accumulate_frames
    rw [if_pos rfl, hb]
  · intro idx hidx
    exact hout idx (Or.inr (by omega))
  · intro j hj ch hch
    have := hin j hj ch hch
    simpa using this

/-! ## Constant sources and unit volume -/

theorem ofInt_one_eq : F32.ofInt 1 = F32.fin 1 := by simp [F32.ofInt]

theorem le_framesLeft (src : mo_sound_source) (cur fc : Nat) (hc : 1 ≤ src.channels)
    (h : cur + fc * src.channels ≤ src.sampleCount) : fc ≤ framesLeft src cur := by
  unfold framesLeft
  rw [Nat.le_div_iff_mul_le (by omega)]
  omega

theorem getD_replicate_of_lt (n i : Nat) (a d : Int) (h : i < n) :
    (List.replicate n a).getD i d = a := by
  simp [List.getD_eq_getElem?_getD, List.getElem?_replicate_of_lt h]

theorem eq_replicate_of_getElem? (l : List Int) (n : Nat) (a : Int) (hl : l.length = n)
    (h : ∀ i < n, l[i]? = some a) : l = List.replicate n a := by
  apply List.ext_getElem?
  intro i
  by_cases hi : i < n
  · rw [h i hi, List.getElem?_replicate_of_lt hi]
  · rw [List.getElem?_eq_none (by omega), List.getElem?_eq_none (by simp; omega)]

theorem accumulate_constant (fuel : Nat) (g : Bool) (s : mo_sound) (fc : Nat) (w v : Int)
    (hwf : s.wellFormed)
    (hconst : s.pSource.pSampleData = List.replicate s.pSource.sampleCount v)
    (hv : v.natAbs ≤ 2 ^ 15) (hw : w.natAbs ≤ 2 ^ 15) (hfc : fc ≤ 2 ^ 31)
    (hun : s.currentSample + fc * s.pSource.channels ≤ s.pSource.sampleCount)
    (hfuel : fc < fuel) :
    mo_sound__read_and_accumulate_frames fuel 2 g s (F32.ofInt 1) fc (List.replicate (2 * fc) w)
      = .ok { totalFramesRead := 0, isSoundMarkedForDeletion := g, sound := advanced s fc,
              buf := List.replicate (2 * fc) (clampInt16 (w + v)) } := by
  have hwf' := hwf
  obtain ⟨hc, hd, hN, hcur, _⟩ := hwf'
  have hle := le_framesLeft s.pSource s.currentSample fc hc hun
  obtain ⟨b, hb, hbl, _, hin⟩ := read_and_accumulate_spec 1 fuel g s fc
    (List.replicate (2 * fc) w) hwf hfc (by simp) hfuel
  rw [ofInt_one_eq, hb]
  have hsa : soundAfter g s fc = (g, advanced s fc) := by simp [soundAfter, hle]
  have hbuf : b = List.replicate (2 * fc) (clampInt16 (w + v)) := by
    apply eq_replicate_of_getElem? _ _ _ (by simpa using hbl)
    intro i hi
    have e : i = 2 * (i / 2) + i % 2 := by omega
    have hj : i / 2 < fc := by omega
    have hch : i % 2 < 2 := by omega
    rw [e, hin (i / 2) hj (i % 2) hch]
    have hjr : i / 2 < framesLeft s.pSource s.currentSample := by omega
    have hsrc := srcIndex_lt s.pSource s.currentSample (i / 2) (i % 2) hc hN hcur hjr hch
    have hold : oldChannel s.pSource.channels (i % 2) < 2 := by
      unfold oldChannel; split <;> omega
    simp only [bufAfter, framePos, hjr, if_true, frameValue, hconst]
    rw [getD_replicate_of_lt _ _ _ _ (by omega), getD_replicate_of_lt _ _ _ _ hsrc,
      ← ofInt_one_eq, mixSample_one w v hw hv]
  rw [hsa, hbuf]


theorem zeroFrames_exact (fc : Nat) (pFrames : List Int) (hfc : fc < 2 ^ 31)
    (hbuf : pFrames.length = 2 * fc) :
    zeroFrames fc 2 pFrames = .ok (List.replicate (2 * fc) 0) := by
  unfold zeroFrames
  have e : (fc * 2) % 2 ^ 32 = 2 * fc := by omega
  simp only [e]
  rw [if_pos (by omega), List.drop_of_length_le (by omega), List.append_nil]

theorem groupVolume_one (groups : List mo_sound_group) (g : Nat)
    (hlen : groups.length = MO_SOUND_GROUP_COUNT) (hg : g < MO_SOUND_GROUP_COUNT)
    (hvol : ∀ e ∈ groups, e.linearVolume = F32.ofInt 1) : groupVolume groups g = F32.ofInt 1 := by
  unfold groupVolume
  have hlt : g < groups.length := by omega
  rw [List.getElem?_eq_getElem hlt]
  exact hvol _ (List.getElem_mem _)

theorem effectiveVolume_one (groups : List mo_sound_group) (s : mo_sound)
    (hlen : groups.length = MO_SOUND_GROUP_COUNT) (hg : s.group < MO_SOUND_GROUP_COUNT)
    (hvol : ∀ e ∈ groups, e.linearVolume = F32.ofInt 1) (hs : s.linearVolume = F32.ofInt 1) :
    effectiveVolume groups s = F32.ofInt 1 := by
  unfold effectiveVolume
  rw [groupVolume_one groups s.group hlen hg hvol,
    groupVolume_one groups MO_SOUND_GROUP_MASTER hlen (by decide) hvol, hs,
    F32.mul_ofInt_one 1 (by decide), F32.mul_ofInt_one 1 (by decide)]

theorem gt_one_zero : F32.gt (F32.ofInt 1) (F32.ofInt 0) = true := by
  simp [F32.gt, F32.lt, F32.ofInt]

theorem clampInt16_of_mem (v : Int) (h : -32768 ≤ v ∧ v ≤ 32767) : clampInt16 v = v := by
  unfold clampInt16
  rw [if_neg (by omega), if_neg (by omega)]

theorem srcIndex_eq (src : mo_sound_source) (cur i ch : Nat) (hc : 1 ≤ src.channels)
    (hN : src.sampleCount < 2 ^ 64) (hw : i * src.channels < 2 ^ 32) (hcur : cur ≤ src.sampleCount)
    (hi : i < framesLeft src cur) (hch : ch < 2) :
    srcIndex src.channels cur i ch
      = cur + i * src.channels + (if src.channels = 1 then 0 else ch) := by
  have h1 : framesLeft src cur * src.channels ≤ src.sampleCount - cur := Nat.div_mul_le_self _ _
  have h2 : (i + 1) * src.channels ≤ framesLeft src cur * src.channels :=
    Nat.mul_le_mul_right _ hi
  have h3 : (i + 1) * src.channels = i * src.channels + src.channels := by ring
  unfold srcIndex
  by_cases h : src.channels = 1
  · rw [if_pos h, if_pos h, h, Nat.mul_one]
    rw [h] at h1 h2 h3
    apply Nat.mod_eq_of_lt
    omega
  · rw [if_neg h, if_neg h, Nat.mod_eq_of_lt (a := i * src.channels) (by omega)]
    apply Nat.mod_eq_of_lt
    omega

theorem frameValue_unit_on_zeros (src : mo_sound_source) (cur i n pos ch : Nat)
    (hc : 1 ≤ src.channels) (hd : src.pSampleData.length = src.sampleCount)
    (hN : src.sampleCount < 2 ^ 64) (hw : i * src.channels < 2 ^ 32)
    (hcur : cur ≤ src.sampleCount)
    (hdata : ∀ x ∈ src.pSampleData, -32768 ≤ x ∧ x ≤ 32767)
    (hi : i < framesLeft src cur) (hch : ch < 2) :
    some (frameValue src (F32.fin 1) cur i (List.replicate n 0) pos ch)
      = src.pSampleData[cur + i * src.channels + (if src.channels = 1 then 0 else ch)]? := by
  have hlt := srcIndex_lt src cur i ch hc hN hcur hi hch
  rw [srcIndex_eq src cur i ch hc hN hw hcur hi hch] at hlt
  have hold : (List.replicate n (0 : Int)).getD (pos + oldChannel src.channels ch) 0 = 0 := by
    rw [List.getD_eq_getElem?_getD, List.getElem?_replicate]
    split <;> rfl
  unfold frameValue
  rw [hold, srcIndex_eq src cur i ch hc hN hw hcur hi hch, List.getElem?_eq_getElem (by omega),
    List.getD_eq_getElem _ _ (by omega)]
  have hx := hdata _ (List.getElem_mem (l := src.pSampleData) (by omega : cur + i * src.channels + (if src.channels = 1 then 0 else ch) < src.pSampleData.length))
  rw [← ofInt_one_eq, mixSample_one _ _ (by decide) (by omega), zero_add, clampInt16_of_mem _ hx]

theorem frameValue_zeros (src : mo_sound_source) (vol : F32) (cur i n pos ch : Nat) :
    frameValue src vol cur i (List.replicate n 0) pos ch
      = mixSample vol 0 (src.pSampleData.getD (srcIndex src.channels cur i ch) 0) := by
  have hold : (List.replicate n (0 : Int)).getD (pos + oldChannel src.channels ch) 0 = 0 := by
    rw [List.getD_eq_getElem?_getD, List.getElem?_replicate]
    split <;> rfl
  unfold frameValue
  rw [hold]

theorem getElem?_flatten_replicate (p : List Int) (m : Nat) (hm : p.length = m) :
    ∀ (k x : Nat), x < k * m → ((List.replicate k p).flatten)[x]? = p[x % m]? := by
  intro k
  induction k with
  | zero => intro x hx; omega
  | succ k ih =>
    intro x hx
    rw [List.replicate_succ, List.flatten_cons]
    by_cases hlt : x < m
    · rw [List.getElem?_append_left (by omega), Nat.mod_eq_of_lt hlt]
    · rw [List.getElem?_append_right (by omega), hm, ih (x - m) (by
        have : (k + 1) * m = k * m + m := by ring
        omega)]
      rw [Nat.mod_eq_sub_mod (not_lt.mp hlt)]

theorem length_flatten_replicate (p : List Int) (m : Nat) (hm : p.length = m) (k : Nat) :
    ((List.replicate k p).flatten).length = k * m := by
  induction k with
  | zero => simp
  | succ k ih =>
    rw [List.replicate_succ, List.flatten_cons, List.length_append, ih, hm]
    ring

theorem two_mul_add_mod (j ch L : Nat) (hch : ch < 2) (hL : 0 < L) :
    (2 * j + ch) % (2 * L) = 2 * (j % L) + ch := by
  have h1 : j % L < L := Nat.mod_lt _ hL
  have h2 : 2 * j + ch = 2 * (j % L) + ch + (2 * L) * (j / L) := by
    have := Nat.div_add_mod j L
    calc 2 * j + ch = 2 * (L * (j / L) + j % L) + ch := by rw [this]
      _ = 2 * (j % L) + ch + (2 * L) * (j / L) := by ring
  rw [h2, Nat.add_mul_mod_self_left, Nat.mod_eq_of_lt (by omega)]

theorem is_playing_cleared (s : mo_sound) (x : Nat) (m : Bool) :
    mo_sound_is_playing (some { s with flags := s.flags &&& notU32 MO_SOUND_FLAG_PLAYING,
                                       currentSample := x, isMarkedForDeletion := m }) = false := by
  have h : notU32 MO_SOUND_FLAG_PLAYING &&& MO_SOUND_FLAG_PLAYING = 0 := by decide
  simp [mo_sound_is_playing, Nat.land_assoc, h]

/-! ## Fault-freedom for every frame count -/

theorem dstIndex_le (i k : Nat) : (i * 2 + k) % 2 ^ 32 ≤ 2 * i + k := by
  have := Nat.mod_le (i * 2 + k) (2 ^ 32)
  omega

theorem mixChannelMulti_runs (src : mo_sound_source) (cur : Nat) (q : ℚ) (c off i k : Nat)
    (b : List Int) (hb : off + 2 * i + 2 ≤ b.length) (hk : k < 2)
    (hs : (cur + (i * c) % 2 ^ 32 + k) % 2 ^ 64 < src.pSampleData.length) :
    ∃ b', mixChannelMulti src cur (F32.fin q) c 2 off i b k = .ok b' ∧ b'.length = b.length := by
  have hd := dstIndex_le i k
  unfold mixChannelMulti
  rw [loadSample_ok src _ hs]
  simp only [bind, Except.bind]
  rw [loadFrame_ok b off _ (by omega)]
  simp only [mix_ok]
  rw [storeFrame_ok b off _ _ (by omega)]
  exact ⟨_, rfl, by simp⟩

theorem mixFrameMulti_runs (src : mo_sound_source) (cur : Nat) (q : ℚ) (c off i : Nat)
    (b : List Int) (hb : off + 2 * i + 2 ≤ b.length)
    (hs : ∀ k < 2, (cur + (i * c) % 2 ^ 32 + k) % 2 ^ 64 < src.pSampleData.length) :
    ∃ b', mixFrameMulti src cur (F32.fin q) c 2 off b i = .ok b' ∧ b'.length = b.length := by
  have hr : List.range 2 = [0, 1] := by decide
  obtain ⟨b0, h0, l0⟩ := mixChannelMulti_runs src cur q c off i 0 b hb (by norm_num)
    (hs 0 (by norm_num))
  obtain ⟨b1, h1, l1⟩ := mixChannelMulti_runs src cur q c off i 1 b0 (by omega) (by norm_num)
    (hs 1 (by norm_num))
  unfold mixFrameMulti
  rw [hr]
  simp only [List.foldlM, bind, Except.bind, pure, Except.pure, h0, h1]
  exact ⟨_, rfl, by omega⟩

theorem mixFrameStereo_runs (src : mo_sound_source) (cur : Nat) (q : ℚ) (c off i : Nat)
    (b : List Int) (hb : off + 2 * i + 2 ≤ b.length)
    (hs : ∀ k < 2, (cur + (i * c) % 2 ^ 32 + k) % 2 ^ 64 < src.pSampleData.length) :
    ∃ b', mixFrameStereo src cur (F32.fin q) c 2 off b i = .ok b' ∧ b'.length = b.length := by
  have hd0 := dstIndex_le i 0
  have hd1 := dstIndex_le i 1
  unfold mixFrameStereo
  rw [loadSample_ok src _ (hs 0 (by norm_num)), loadSample_ok src _ (hs 1 (by norm_num))]
  simp only [bind, Except.bind]
  rw [loadFrame_ok b off _ (by omega), loadFrame_ok b off _ (by omega)]
  simp only [mix_ok]
  rw [storeFrame_ok b off _ _ (by omega)]
  simp only []
  rw [storeFrame_ok _ off _ _ (by simp; omega)]
  exact ⟨_, rfl, by simp⟩

theorem mixFrameMono_runs (src : mo_sound_source) (cur : Nat) (q : ℚ) (off i : Nat)
    (b : List Int) (hb : off + 2 * i + 2 ≤ b.length)
    (hs : (cur + i) % 2 ^ 64 < src.pSampleData.length) :
    ∃ b', mixFrameMono src cur (F32.fin q) 2 off b i = .ok b' ∧ b'.length = b.length := by
  have hd0 := dstIndex_le i 0
  have hd1 := dstIndex_le i 1
  unfold mixFrameMono
  rw [loadSample_ok src _ hs]
  simp only [bind, Except.bind]
  rw [loadFrame_ok b off _ (by omega)]
  simp only [mix_ok]
  rw [storeFrame_ok b off _ _ (by omega)]
  simp only []
  rw [storeFrame_ok _ off _ _ (by simp; omega)]
  exact ⟨_, rfl, by simp⟩

theorem foldlM_runs (f : List Int → Nat → Except Fault (List Int)) (len n : Nat)
    (hf : ∀ i < n, ∀ b : List Int, b.length = len → ∃ b', f b i = .ok b' ∧ b'.length = len) :
    ∀ buf : List Int, buf.length = len →
      ∃ b', (List.range n).foldlM f buf = .ok b' ∧ b'.length = len := by
  induction n with
  | zero => intro buf hl; exact ⟨buf, by simp [List.foldlM, pure, Except.pure], hl⟩
  | succ n ih =>
    intro buf hl
    obtain ⟨b, hb, hbl⟩ := ih (fun i hi b hb => hf i (by omega) b hb) buf hl
    obtain ⟨b', hb', hbl'⟩ := hf n (by omega) b hbl
    refine ⟨b', ?_, hbl'⟩
    rw [List.range_succ, List.foldlM_append, hb]
    simp only [bind, Except.bind, List.foldlM, pure, Except.pure]
    rw [hb']

theorem mixFrames_runs (src : mo_sound_source) (q : ℚ) (cur off n : Nat) (buf : List Int)
    (hlen : off + 2 * n ≤ buf.length)
    (hs : ∀ i < n, ∀ ch < 2, srcIndex src.channels cur i ch < src.pSampleData.length) :
    ∃ b', mixFrames src cur (F32.fin q) 2 off n buf = .ok b' ∧ b'.length = buf.length := by
  unfold mixFrames
  by_cases h1 : src.channels = 1
  · rw [if_pos h1]
    refine foldlM_runs _ buf.length n (fun i hi b hb => ?_) buf rfl
    have := hs i hi 0 (by norm_num)
    simp only [srcIndex, h1, if_true] at this
    obtain ⟨b', h, l⟩ := mixFrameMono_runs src cur q off i b (by omega) this
    exact ⟨b', h, by omega⟩
  · have hs' : ∀ i < n, ∀ k < 2,
        (cur + (i * src.channels) % 2 ^ 32 + k) % 2 ^ 64 < src.pSampleData.length := by
      intro i hi k hk
      have := hs i hi k hk
      simpa [srcIndex, h1] using this
    rw [if_neg h1]
    by_cases h2 : src.channels = 2
    · rw [if_pos h2]
      refine foldlM_runs _ buf.length n (fun i hi b hb => ?_) buf rfl
      obtain ⟨b', h, l⟩ := mixFrameStereo_runs src cur q src.channels off i b (by omega) (hs' i hi)
      exact ⟨b', h, by omega⟩
    · rw [if_neg h2]
      refine foldlM_runs _ buf.length n (fun i hi b hb => ?_) buf rfl
      obtain ⟨b', h, l⟩ := mixFrameMulti_runs src cur q src.channels off i b (by omega) (hs' i hi)
      exact ⟨b', h, by omega⟩

theorem F32.eq_fin_of_isFinite (x : F32) (h : x.isFinite = true) : ∃ q, x = F32.fin q := by
  cases x with
  | fin q => exact ⟨q, rfl⟩
  | inf n => simp [F32.isFinite] at h
  | nan => simp [F32.isFinite] at h

theorem accumulateLoop_runs (q : ℚ) (fuel : Nat) :
    ∀ (st : MixState) (fc off : Nat),
      1 ≤ st.sound.pSource.channels →
      st.sound.pSource.pSampleData.length = st.sound.pSource.sampleCount →
      st.sound.pSource.sampleCount < 2 ^ 64 →
      st.sound.currentSample ≤ st.sound.pSource.sampleCount →
      (mo_sound_is_looping (some st.sound) = true → 1 ≤ framesLeft st.sound.pSource 0) →
      off + 2 * fc ≤ st.buf.length →
      fc + (if framesLeft st.sound.pSource st.sound.currentSample = 0 then 1 else 0) ≤ fuel →
      ∃ buf', accumulateLoop 2 (F32.fin q) fuel st fc off
          = .ok { st with
              isSoundMarkedForDeletion := (soundAfter st.isSoundMarkedForDeletion st.sound fc).1,
              sound := (soundAfter st.isSoundMarkedForDeletion st.sound fc).2,
              buf := buf' }
        ∧ buf'.length = st.buf.length := by
  induction fuel with
  | zero =>
    intro st fc off _ _ _ _ _ _ hfuel
    have h0 : fc = 0 := by omega
    subst h0
    refine ⟨st.buf, ?_, rfl⟩
    rw [accumulateLoop_zero, soundAfter_zero]
  | succ fuel ih =>
    intro st fc off hc hd hN hcur hloop hlen hfuel
    rcases Nat.eq_zero_or_pos fc with h0 | hpos
    · subst h0
      refine ⟨st.buf, ?_, rfl⟩
      rw [accumulateLoop_zero, soundAfter_zero]
    · have hs : ∀ n, n ≤ framesLeft st.sound.pSource st.sound.currentSample → ∀ i < n, ∀ ch < 2,
          srcIndex st.sound.pSource.channels st.sound.currentSample i ch
            < st.sound.pSource.pSampleData.length := by
        intro n hn i hi ch hch
        rw [hd]
        exact srcIndex_lt _ _ _ _ hc hN hcur (by omega) hch
      rcases le_or_lt fc (framesLeft st.sound.pSource st.sound.currentSample) with hle | hlt
      · obtain ⟨b, hb, hbl⟩ :=
          mixFrames_runs st.sound.pSource q st.sound.currentSample off fc st.buf hlen (hs fc hle)
        refine ⟨b, ?_, hbl⟩
        rw [accumulateLoop_within _ _ _ _ _ _ hc hN hcur hpos hle hb]
        simp [soundAfter, hle]
      · obtain ⟨b, hb, hbl⟩ :=
          mixFrames_runs st.sound.pSource q st.sound.currentSample off
            (framesLeft st.sound.pSource st.sound.currentSample) st.buf (by omega)
            (hs _ (le_refl _))
        cases hl : mo_sound_is_looping (some st.sound) with
        | false =>
          refine ⟨b, ?_, hbl⟩
          rw [accumulateLoop_end _ _ _ _ _ _ hc hN hcur hlt hl hb]
          simp [soundAfter, not_le.mpr hlt, hl]
        | true =>
          have hL := hloop hl
          rw [accumulateLoop_wrap _ _ _ _ _ _ hc hN hcur hlt hl hb]
          obtain ⟨b2, hb2, hbl2⟩ :=
            ih { st with sound := { st.sound with currentSample := 0 }, buf := b }
              (fc - framesLeft st.sound.pSource st.sound.currentSample)
              (off + framesLeft st.sound.pSource st.sound.currentSample * 2)
              hc hd hN (Nat.zero_le _) (fun _ => hL)
              (by simp only [hbl]; omega)
              (by
                have : framesLeft st.sound.pSource 0 ≠ 0 := by omega
                simp only [this, if_false]
                split at hfuel <;> omega)
          refine ⟨b2, ?_, ?_⟩
          · rw [hb2]
            simp only [soundAfter_wrap _ _ _ hl hlt]
          · rw [hbl2]; exact hbl

theorem read_and_accumulate_runs (q : ℚ) (fuel : Nat) (g : Bool) (s : mo_sound) (fc : Nat)
    (buf : List Int) (hwf : s.wellFormed) (hlen : 2 * fc ≤ buf.length) (hfuel : fc < fuel) :
    ∃ buf', mo_sound__read_and_accumulate_frames fuel 2 g s (F32.fin q) fc buf
        = .ok { totalFramesRead := 0, isSoundMarkedForDeletion := (soundAfter g s fc).1,
                sound := (soundAfter g s fc).2, buf := buf' }
      ∧ buf'.length = buf.length := by
  obtain ⟨hc, hd, hN, hcur, hloop⟩ := hwf
  obtain ⟨b, hb, hbl⟩ := accumulateLoop_runs q fuel
    { totalFramesRead := 0, isSoundMarkedForDeletion := g, sound := s, buf := buf } fc 0
    hc hd hN hcur (fun hl => framesLeft_zero_pos s hc (hloop hl)) (by simpa using hlen)
    (by simp only []; split <;> omega)
  refine ⟨b, ?_, hbl⟩
  unfold mo_sound__read_and_accumulate_frames
  rw [if_pos rfl, hb]

theorem is_looping_flags (s t : mo_sound)
    (h : t.flags = s.flags ∨ t.flags = s.flags &&& notU32 MO_SOUND_FLAG_PLAYING) :
    mo_sound_is_looping (some t) = mo_sound_is_looping (some s) := by
  have e : notU32 MO_SOUND_FLAG_PLAYING &&& MO_SOUND_FLAG_LOOPING = MO_SOUND_FLAG_LOOPING := by
    decide
  unfold mo_sound_is_looping
  rcases h with h | h
  · simp only [h]
  · simp only [h, Nat.land_assoc, e]

theorem soundAfter_source_flags (g : Bool) (s : mo_sound) (fc : Nat) :
    (soundAfter g s fc).2.pSource = s.pSource
      ∧ ((soundAfter g s fc).2.flags = s.flags
          ∨ (soundAfter g s fc).2.flags = s.flags &&& notU32 MO_SOUND_FLAG_PLAYING) := by
  unfold soundAfter endPlayback advanced
  simp only []
  split
  · exact ⟨rfl, Or.inl rfl⟩
  · split
    · exact ⟨rfl, Or.inl rfl⟩
    · split
      · split
        · exact ⟨rfl, Or.inl rfl⟩
        · exact ⟨rfl, Or.inr rfl⟩
      · exact ⟨rfl, Or.inr rfl⟩

theorem soundAfter_cursor_le (g : Bool) (s : mo_sound) (fc : Nat) (hwf : s.wellFormed) :
    (soundAfter g s fc).2.currentSample ≤ s.pSource.sampleCount := by
  obtain ⟨hc, _, hN, hcur, hloop⟩ := hwf
  have hr := (cursor_advance_eq s.pSource s.currentSample _ hN hcur (le_refl _)).2
  unfold soundAfter endPlayback advanced
  simp only []
  split
  · rename_i hle
    exact (cursor_advance_eq s.pSource s.currentSample fc hN hcur hle).2
  · split
    · rename_i hl
      have hL := framesLeft_zero_pos s hc (hloop hl)
      have h1 : framesLeft s.pSource 0 * s.pSource.channels ≤ s.pSource.sampleCount - 0 :=
        Nat.div_mul_le_self _ _
      have h2 : (fc - framesLeft s.pSource s.currentSample - 1) % framesLeft s.pSource 0 + 1
          ≤ framesLeft s.pSource 0 := Nat.mod_lt _ (by omega)
      have h3 := Nat.mul_le_mul_right s.pSource.channels h2
      simp only []
      omega
    · split
      · split <;> exact hr
      · exact hr

theorem soundAfter_wellFormed (g : Bool) (s : mo_sound) (fc : Nat) (hwf : s.wellFormed) :
    (soundAfter g s fc).2.wellFormed := by
  have hcur := soundAfter_cursor_le g s fc hwf
  obtain ⟨hsrc, hfl⟩ := soundAfter_source_flags g s fc
  have hl := is_looping_flags s (soundAfter g s fc).2 hfl
  obtain ⟨hc, hd, hN, _, hloop⟩ := hwf
  unfold mo_sound.wellFormed
  rw [hsrc, hl]
  exact ⟨hc, hd, hN, hcur, hloop⟩

theorem soundAfter_snd (g : Bool) (s : mo_sound) (fc : Nat) :
    (soundAfter g s fc).2 = (soundAfter false s fc).2 := by
  unfold soundAfter endPlayback
  simp only []
  split
  · rfl
  · split
    · rfl
    · split
      · split <;> rfl
      · rfl

theorem mixEach_runs (fuel fc : Nat) (vol : mo_sound → F32) (hfuel : fc < fuel) :
    ∀ (sounds : List mo_sound) (g : Bool) (buf : List Int),
      (∀ s ∈ sounds, s.wellFormed ∧ (vol s).isFinite = true) → 2 * fc ≤ buf.length →
      ∃ g' buf', mixEach fuel 2 fc vol sounds g buf
          = .ok (sounds.map (soundAfterCall vol fc), g', buf')
        ∧ buf'.length = buf.length := by
  intro sounds
  induction sounds with
  | nil => intro g buf _ _; exact ⟨g, buf, rfl, rfl⟩
  | cons s rest ih =>
    intro g buf hs hlen
    obtain ⟨hwf, hfin⟩ := hs s (List.mem_cons_self _ _)
    have hrest : ∀ x ∈ rest, x.wellFormed ∧ (vol x).isFinite = true :=
      fun x hx => hs x (List.mem_cons_of_mem _ hx)
    obtain ⟨q, hq⟩ := F32.eq_fin_of_isFinite _ hfin
    unfold mixEach
    by_cases hc : (mo_sound_is_playing (some s) && F32.gt (vol s) (F32.ofInt 0)) = true
    · obtain ⟨b, hb, hbl⟩ := read_and_accumulate_runs q fuel g s fc buf hwf hlen hfuel
      obtain ⟨g', buf', h', hl'⟩ := ih (soundAfter g s fc).1 b hrest (by omega)
      refine ⟨g', buf', ?_, by omega⟩
      rw [if_pos hc, hq, hb]
      simp only []
      rw [h']
      simp only [List.map_cons, soundAfterCall, hc, if_true, soundAfter_snd g s fc]
    · obtain ⟨g', buf', h', hl'⟩ := ih g buf hrest hlen
      refine ⟨g', buf', ?_, hl'⟩
      rw [if_neg hc, h']
      simp only [List.map_cons, soundAfterCall, hc, Bool.false_eq_true, if_false]

theorem zeroFrames_runs (fc : Nat) (pFrames : List Int) (hbuf : 2 * fc ≤ pFrames.length) :
    ∃ buf, zeroFrames fc 2 pFrames = .ok buf ∧ buf.length = pFrames.length := by
  have h := Nat.mod_le (fc * 2) (2 ^ 32)
  unfold zeroFrames
  simp only []
  rw [if_pos (by omega)]
  refine ⟨_, rfl, ?_⟩
  simp only [List.length_append, List.length_replicate, List.length_drop]
  omega

theorem callback_runs (fuel : Nat) (ctx : mo_context) (fc : Nat) (pFrames : List Int)
    (hdev : ctx.deviceChannels = 2)
    (hgroups : ctx.soundGroups.length = MO_SOUND_GROUP_COUNT)
    (hgrp : ∀ s ∈ ctx.ppSounds, s.group < MO_SOUND_GROUP_COUNT)
    (hwf : ∀ s ∈ ctx.ppSounds, s.wellFormed)
    (hvol : ∀ s ∈ ctx.ppSounds, (effectiveVolume ctx.soundGroups s).isFinite = true)
    (hbuf : 2 * fc ≤ pFrames.length) (hfuel : fc < fuel) :
    ∃ g' buf', mo_on_send_frames__mal fuel ctx fc pFrames
        = .ok ({ ctx with
                  ppSounds := ctx.ppSounds.map (soundAfterCall (effectiveVolume ctx.soundGroups) fc),
                  isSoundMarkedForDeletion := g' }, buf', fc)
      ∧ buf'.length = pFrames.length := by
  obtain ⟨buf0, h0, hl0⟩ := zeroFrames_runs fc pFrames hbuf
  obtain ⟨g', buf', h', hl'⟩ := mixEach_runs fuel fc (effectiveVolume ctx.soundGroups) hfuel
    ctx.ppSounds ctx.isSoundMarkedForDeletion buf0 (fun s hs => ⟨hwf s hs, hvol s hs⟩) (by omega)
  refine ⟨g', buf', ?_, by omega⟩
  rw [mo_on_send_frames__mal_eq_mixRegistry fuel ctx fc pFrames hgroups hgrp]
  unfold mixRegistry
  rw [hdev, h0]
  simp only []
  rw [h']

theorem soundAfterCall_wellFormed (vol : mo_sound → F32) (fc : Nat) (s : mo_sound)
    (hwf : s.wellFormed) : (soundAfterCall vol fc s).wellFormed := by
  unfold soundAfterCall
  split
  · exact soundAfter_wellFormed false s fc hwf
  · exact hwf

theorem soundAfter_loop_multiple (g : Bool) (s : mo_sound) (k : Nat)
    (hloop : mo_sound_is_looping (some s) = true) (hcur : s.currentSample = 0) (hk : 1 ≤ k)
    (hL : 1 ≤ framesLeft s.pSource 0) :
    (soundAfter g s (k * framesLeft s.pSource 0)).2
      = { s with currentSample := framesLeft s.pSource 0 * s.pSource.channels } := by
  unfold soundAfter
  simp only [hcur, hloop, if_true]
  generalize framesLeft s.pSource 0 = L at hL
  by_cases h1 : k * L ≤ L
  · have hk1 : k = 1 := by
      rcases Nat.lt_or_ge 1 k with h | h
      · have : 2 * L ≤ k * L := Nat.mul_le_mul_right _ h
        omega
      · omega
    subst hk1
    simp [advanced, hcur]
  · rw [if_neg h1]
    obtain ⟨k', rfl⟩ : ∃ k', k = k' + 2 := ⟨k - 2, by
      rcases Nat.lt_or_ge k 2 with h | h
      · have : k = 1 := by omega
        subst this
        simp at h1
      · omega⟩
    have e : (k' + 2) * L - L - 1 = (L - 1) + L * k' := by
      have : (k' + 2) * L = L * k' + L + L := by ring
      omega
    rw [e, Nat.add_mul_mod_self_left, Nat.mod_eq_of_lt (by omega)]
    have e2 : L - 1 + 1 = L := by omega
    rw [e2]

/-! ## Sounds created by `mo_play_sound_source` -/

theorem mo_sound_create_cases (ctx : mo_context) (src : mo_sound_source) (group : Nat)
    (callocOk reallocOk : Bool) :
    mo_sound_create (some ctx) (some src) group true callocOk reallocOk = .error .assertFailed
    ∨ (∃ code, code ≠ MO_SUCCESS
        ∧ mo_sound_create (some ctx) (some src) group true callocOk reallocOk
            = .ok (code, some ctx, none))
    ∨ (∃ n, mo_sound_create (some ctx) (some src) group true callocOk reallocOk
        = .ok (MO_SUCCESS,
               some { ctx with ppSounds := ctx.ppSounds ++ [freshSound src group 0],
                               soundBufferSize := n },
               some (freshSound src group 0))) := by
  have hne : MO_INVALID_ARGS ≠ MO_SUCCESS := by decide
  have hne2 : MO_OUT_OF_MEMORY ≠ MO_SUCCESS := by decide
  unfold mo_sound_create
  simp only [Bool.not_true, Bool.false_eq_true, if_false]
  by_cases h1 : group ≥ MO_SOUND_GROUP_COUNT
  · rw [if_pos h1]
    exact Or.inr (Or.inl ⟨_, hne, rfl⟩)
  · rw [if_neg h1]
    by_cases h2 : (!callocOk) = true
    · rw [if_pos h2]
      exact Or.inr (Or.inl ⟨_, hne2, rfl⟩)
    · rw [if_neg h2]
      by_cases h3 : (decide (ctx.soundBufferSize = ctx.ppSounds.length) && !reallocOk) = true
      · rw [if_pos h3]
        exact Or.inr (Or.inl ⟨_, hne2, rfl⟩)
      · rw [if_neg h3]
        by_cases h4 : (if decide (ctx.soundBufferSize = ctx.ppSounds.length) = true then
            (if ctx.soundBufferSize = 0 then 8 else ctx.soundBufferSize * 2 % 2 ^ 32)
            else ctx.soundBufferSize) > ctx.ppSounds.length
        · rw [if_pos h4]
          exact Or.inr (Or.inr ⟨_, rfl⟩)
        · rw [if_neg h4]
          exact Or.inl rfl

/-- A sound created by `mo_play_sound_source` is appended to the registry with
the INLINED and PLAYING flags only (so it does not loop), cursor 0 and no
deletion mark. -/
theorem mo_play_sound_source_creates (ctx ctx' : mo_context) (src : mo_sound_source) (group : Nat)
    (callocOk reallocOk : Bool)
    (h : mo_play_sound_source (some ctx) (some src) group callocOk reallocOk
      = .ok (MO_SUCCESS, some ctx')) :
    ctx'.ppSounds = ctx.ppSounds ++
      [freshSound src group (MO_SOUND_FLAG_INLINED ||| MO_SOUND_FLAG_PLAYING)] := by
  have hfl : (0 ||| MO_SOUND_FLAG_INLINED) &&& notU32 MO_SOUND_FLAG_LOOPING ||| MO_SOUND_FLAG_PLAYING
      = MO_SOUND_FLAG_INLINED ||| MO_SOUND_FLAG_PLAYING := by decide
  unfold mo_play_sound_source at h
  simp only [] at h
  rcases mo_sound_create_cases ctx src group callocOk reallocOk with hc | ⟨code, hcode, hc⟩ | ⟨n, hc⟩
  · rw [hc] at h
    simp at h
  · rw [hc] at h
    simp only [ne_eq, hcode, not_false_eq_true, if_true, Except.ok.injEq, Prod.mk.injEq] at h
    exact h.1.elim
  · rw [hc] at h
    simp only [ne_eq, not_true_eq_false, if_false, mo_sound_play, Bool.false_eq_true,
      Except.ok.injEq, Prod.mk.injEq, Option.some.injEq, true_and, freshSound, hfl] at h
    rw [← h]
    simp [freshSound]

/-! ## Findings on concrete inputs -/

/-- C1 (defect of the mono branch): a playing mono sound with first sample 10,
mixed at volume 1 for one frame into the buffer `[0, 100]`, leaves `[10, 10]`:
the second channel receives the value computed from the old FIRST channel,
although accumulating into the second channel itself gives
`clamp (100 + 10 * 1) = 110`. -/
theorem C1_mono_second_channel_not_accumulated :
    (mo_sound__read_and_accumulate_frames 2 2 false
        (freshSound monoSource MO_SOUND_GROUP_EFFECTS MO_SOUND_FLAG_PLAYING)
        (F32.ofInt 1) 1 [0, 100]).map (fun r => r.buf) = .ok [10, 10]
    ∧ clampToInt16 (F32.add (F32.ofInt 100) (F32.mul (F32.ofInt 10) (F32.ofInt 1))) = .ok 110 := by
  decide!

/-- C4 (defect of the group guard): pausing the valid group
`MO_SOUND_GROUP_EFFECTS` returns the context unchanged, and the playing sound
of that group is mixed all the same: the buffer receives its first sample and
its cursor advances from 0 to 1. -/
theorem C4_paused_group_still_mixed :
    mo_sound_group_pause
        (some (contextWith [freshSound monoSource MO_SOUND_GROUP_EFFECTS MO_SOUND_FLAG_PLAYING]))
        MO_SOUND_GROUP_EFFECTS
      = .ok (some (contextWith
          [freshSound monoSource MO_SOUND_GROUP_EFFECTS MO_SOUND_FLAG_PLAYING]))
    ∧ mo_on_send_frames__mal 2
        (contextWith [freshSound monoSource MO_SOUND_GROUP_EFFECTS MO_SOUND_FLAG_PLAYING])
        1 [0, 0]
      = .ok (contextWith
          [{ freshSound monoSource MO_SOUND_GROUP_EFFECTS MO_SOUND_FLAG_PLAYING with
              currentSample := 1 }], [10, 10], 1) := by
  decide!

/-- C10 (defect of the group guard): on the initial context, for the valid
group `MO_SOUND_GROUP_MUSIC`, `mo_sound_group_pause` and
`mo_sound_group_set_volume` with volume 1/2 return the context unchanged (the
table entry keeps volume 1 and no paused flag), and `mo_sound_group_is_paused`
answers false after the pause. -/
theorem C10_group_operations_ignore_valid_groups :
    mo_sound_group_pause (some (contextWith [])) MO_SOUND_GROUP_MUSIC
      = .ok (some (contextWith []))
    ∧ mo_sound_group_is_paused (some (contextWith [])) MO_SOUND_GROUP_MUSIC = .ok false
    ∧ mo_sound_group_set_volume (some (contextWith [])) MO_SOUND_GROUP_MUSIC (F32.fin (1 / 2))
      = .ok (some (contextWith []))
    ∧ (contextWith []).soundGroups[MO_SOUND_GROUP_MUSIC]?
      = some { linearVolume := F32.ofInt 1, flags := 0 } := by
  decide!

/-! ## Claims on the mixer -/

/-- C2: two playing, unexhausted sounds with constant sample values `v1` and
`v2`, instance, group and master volumes all 1, in a registry of a stereo
device: whatever the buffer of `frameCount` frames held before, the callback
writes `clamp (v1 + v2)` to the signed 16-bit range into every sample of it
(so `2 * v` for `v1 = v2 = v` without clipping, and exactly `32767` or
`-32768` when the sum leaves the range), advances both cursors by
`frameCount` frames and returns `frameCount`. -/
theorem C2_two_constant_sounds_add_and_saturate
    (ctx : mo_context) (s1 s2 : mo_sound) (v1 v2 : Int) (frameCount fuel : Nat)
    (pFrames : List Int)
    (hdev : ctx.deviceChannels = 2)
    (hreg : ctx.ppSounds = [s1, s2])
    (hgroups : ctx.soundGroups.length = MO_SOUND_GROUP_COUNT)
    (hgvol : ∀ e ∈ ctx.soundGroups, e.linearVolume = F32.ofInt 1)
    (hg1 : s1.group < MO_SOUND_GROUP_COUNT) (hg2 : s2.group < MO_SOUND_GROUP_COUNT)
    (hvol1 : s1.linearVolume = F32.ofInt 1) (hvol2 : s2.linearVolume = F32.ofInt 1)
    (hp1 : mo_sound_is_playing (some s1) = true) (hp2 : mo_sound_is_playing (some s2) = true)
    (hwf1 : s1.wellFormed) (hwf2 : s2.wellFormed)
    (hc1 : s1.pSource.pSampleData = List.replicate s1.pSource.sampleCount v1)
    (hc2 : s2.pSource.pSampleData = List.replicate s2.pSource.sampleCount v2)
    (hv1 : -32768 ≤ v1 ∧ v1 ≤ 32767) (hv2 : -32768 ≤ v2 ∧ v2 ≤ 32767)
    (hun1 : s1.currentSample + frameCount * s1.pSource.channels ≤ s1.pSource.sampleCount)
    (hun2 : s2.currentSample + frameCount * s2.pSource.channels ≤ s2.pSource.sampleCount)
    (hfc : frameCount < 2 ^ 31) (hbuf : pFrames.length = 2 * frameCount)
    (hfuel : frameCount < fuel) :
    mo_on_send_frames__mal fuel ctx frameCount pFrames
      = .ok ({ ctx with ppSounds := [advanced s1 frameCount, advanced s2 frameCount] },
             List.replicate (2 * frameCount) (clampInt16 (v1 + v2)), frameCount) := by
  have hs : ∀ s ∈ ctx.ppSounds, s.group < MO_SOUND_GROUP_COUNT := by
    intro s hs
    rw [hreg] at hs
    simp only [List.mem_cons, List.mem_singleton, List.not_mem_nil, or_false] at hs
    rcases hs with rfl | rfl
    · exact hg1
    · exact hg2
  have e1 := effectiveVolume_one ctx.soundGroups s1 hgroups hg1 hgvol hvol1
  have e2 := effectiveVolume_one ctx.soundGroups s2 hgroups hg2 hgvol hvol2
  have a1 := accumulate_constant fuel ctx.isSoundMarkedForDeletion s1 frameCount 0 v1 hwf1 hc1
    (by omega) (by decide) (by omega) hun1 hfuel
  have a2 := accumulate_constant fuel ctx.isSoundMarkedForDeletion s2 frameCount v1 v2 hwf2 hc2
    (by omega) (by omega) (by omega) hun2 hfuel
  rw [zero_add, clampInt16_of_mem v1 hv1] at a1
  rw [mo_on_send_frames__mal_eq_mixRegistry fuel ctx frameCount pFrames hgroups hs]
  unfold mixRegistry
  rw [hdev, zeroFrames_exact frameCount pFrames hfc hbuf, hreg]
  simp only [mixEach, hp1, hp2, e1, e2, gt_one_zero, Bool.and_self, if_true, a1, a2]

/-- C5: a sound mixed at volume 1 into a zeroed stereo buffer.  Every output
frame `i` read before the end of the source holds the source frame `i` frames
after the cursor: output channel 0 holds its channel 0, and output channel 1
holds its only channel for a mono source and its channel 1 for a source of two
or more channels (channels `2 .. N-1` are dropped).  When a looping sound has
passed the end of its source, the same mapping applies to the frames read
again from the start of the source. -/
theorem C5_channel_mapping (s : mo_sound) (g : Bool) (frameCount fuel : Nat)
    (hwf : s.wellFormed)
    (hsize : s.pSource.channels ≤ 2 ∨ s.pSource.sampleCount < 2 ^ 32)
    (hdata : ∀ x ∈ s.pSource.pSampleData, -32768 ≤ x ∧ x ≤ 32767)
    (hfc : frameCount ≤ 2 ^ 31) (hfuel : frameCount < fuel) :
    ∃ r, mo_sound__read_and_accumulate_frames fuel 2 g s (F32.ofInt 1) frameCount
          (List.replicate (2 * frameCount) 0) = .ok r
      ∧ (∀ i, i < frameCount → i < framesLeft s.pSource s.currentSample →
          r.buf[2 * i]? = s.pSource.pSampleData[s.currentSample + i * s.pSource.channels]?
          ∧ r.buf[2 * i + 1]? = s.pSource.pSampleData[s.currentSample + i * s.pSource.channels
                                  + (if s.pSource.channels = 1 then 0 else 1)]?)
      ∧ (mo_sound_is_looping (some s) = true →
          ∀ i, i < frameCount → framesLeft s.pSource s.currentSample ≤ i →
            r.buf[2 * i]? = s.pSource.pSampleData[
                ((i - framesLeft s.pSource s.currentSample) % framesLeft s.pSource 0)
                  * s.pSource.channels]?
            ∧ r.buf[2 * i + 1]? = s.pSource.pSampleData[
                ((i - framesLeft s.pSource s.currentSample) % framesLeft s.pSource 0)
                  * s.pSource.channels + (if s.pSource.channels = 1 then 0 else 1)]?) := by
  have hwf' := hwf
  obtain ⟨hc, hd, hN, hcur, hloop⟩ := hwf'
  have hw : ∀ cu i, cu ≤ s.pSource.sampleCount → i < frameCount → i < framesLeft s.pSource cu →
      i * s.pSource.channels < 2 ^ 32 := by
    intro cu i _ hi hir
    rcases hsize with h2 | h32
    · have : i * s.pSource.channels ≤ i * 2 := Nat.mul_le_mul_left _ h2
      omega
    · have h1 : framesLeft s.pSource cu * s.pSource.channels ≤ s.pSource.sampleCount - cu :=
        Nat.div_mul_le_self _ _
      have h2 : i * s.pSource.channels ≤ framesLeft s.pSource cu * s.pSource.channels :=
        Nat.mul_le_mul_right _ hir.le
      omega
  obtain ⟨b, hb, _, _, hin⟩ := read_and_accumulate_spec 1 fuel g s frameCount
    (List.replicate (2 * frameCount) 0) hwf hfc (by simp) hfuel
  rw [ofInt_one_eq, hb]
  refine ⟨_, rfl, ?_, ?_⟩
  · intro i hi hir
    have h0 := hin i hi 0 (by norm_num)
    have h1 := hin i hi 1 (by norm_num)
    simp only [bufAfter, framePos, hir, if_true, Nat.add_zero] at h0 h1
    have hwi := hw _ i hcur hi hir
    rw [h0, h1, frameValue_unit_on_zeros _ _ _ _ _ _ hc hd hN hwi hcur hdata hir (by norm_num),
      frameValue_unit_on_zeros _ _ _ _ _ _ hc hd hN hwi hcur hdata hir (by norm_num)]
    by_cases h : s.pSource.channels = 1 <;> simp [h]
  · intro hl i hi hir
    have hL := framesLeft_zero_pos s hc (hloop hl)
    have hlt : (i - framesLeft s.pSource s.currentSample) % framesLeft s.pSource 0
        < framesLeft s.pSource 0 := Nat.mod_lt _ (by omega)
    have h0 := hin i hi 0 (by norm_num)
    have h1 := hin i hi 1 (by norm_num)
    simp only [bufAfter, framePos, not_lt.mpr hir, if_false, hl, if_true, Nat.add_zero] at h0 h1
    have hle : (i - framesLeft s.pSource s.currentSample) % framesLeft s.pSource 0 ≤ i :=
      le_trans (Nat.mod_le _ _) (Nat.sub_le _ _)
    have hwi := hw 0 _ (Nat.zero_le _) (lt_of_le_of_lt hle hi) hlt
    rw [h0, h1, frameValue_unit_on_zeros _ _ _ _ _ _ hc hd hN hwi (Nat.zero_le _) hdata hlt
        (by norm_num),
      frameValue_unit_on_zeros _ _ _ _ _ _ hc hd hN hwi (Nat.zero_le _) hdata hlt (by norm_num)]
    by_cases h : s.pSource.channels = 1 <;> simp [h]

/-- C6: a looping sound at cursor 0 whose source holds `L ≥ 1` whole frames.
Mixing `k * L` frames in one call into a zeroed buffer produces `k`
back-to-back copies of the buffer that mixing `L` frames into a zeroed buffer
produces. -/
theorem C6_looping_repeats_pattern (s : mo_sound) (g : Bool) (q : ℚ) (L k fuel1 fuelk : Nat)
    (hwf : s.wellFormed) (hloop : mo_sound_is_looping (some s) = true)
    (hcur : s.currentSample = 0)
    (hL : s.pSource.sampleCount / s.pSource.channels = L) (hL1 : 1 ≤ L)
    (hL31 : L ≤ 2 ^ 31) (hkL31 : k * L ≤ 2 ^ 31)
    (hfuel1 : L < fuel1) (hfuelk : k * L < fuelk) :
    ∃ r1 rk,
      mo_sound__read_and_accumulate_frames fuel1 2 g s (F32.fin q) L
          (List.replicate (2 * L) 0) = .ok r1
      ∧ mo_sound__read_and_accumulate_frames fuelk 2 g s (F32.fin q) (k * L)
          (List.replicate (2 * (k * L)) 0) = .ok rk
      ∧ rk.buf = (List.replicate k r1.buf).flatten := by
  have hfl : framesLeft s.pSource 0 = L := by unfold framesLeft; simpa using hL
  obtain ⟨b1, hb1, hbl1, _, hin1⟩ := read_and_accumulate_spec q fuel1 g s L
    (List.replicate (2 * L) 0) hwf hL31 (by simp) hfuel1
  obtain ⟨bk, hbk, hblk, _, hink⟩ := read_and_accumulate_spec q fuelk g s (k * L)
    (List.replicate (2 * (k * L)) 0) hwf hkL31 (by simp) hfuelk
  rw [hb1, hbk]
  refine ⟨_, _, rfl, rfl, ?_⟩
  simp only []
  rw [List.length_replicate] at hbl1 hblk
  have hv1 : ∀ i < L, ∀ ch < 2, b1[2 * i + ch]?
      = some (mixSample (F32.fin q) 0
          (s.pSource.pSampleData.getD (srcIndex s.pSource.channels 0 i ch) 0)) := by
    intro i hi ch hch
    rw [hin1 i hi ch hch]
    simp only [bufAfter, framePos, hcur, hfl, hi, if_true, frameValue_zeros]
  have hvk : ∀ j < k * L, ∀ ch < 2, bk[2 * j + ch]?
      = some (mixSample (F32.fin q) 0
          (s.pSource.pSampleData.getD (srcIndex s.pSource.channels 0 (j % L) ch) 0)) := by
    intro j hj ch hch
    rw [hink j hj ch hch]
    simp only [bufAfter, hcur, hloop, framePos_rewound, hfl, frameValue_zeros]
  apply List.ext_getElem?
  intro x
  by_cases hx : x < 2 * (k * L)
  · have e : x = 2 * (x / 2) + x % 2 := by omega
    have hj : x / 2 < k * L := by omega
    have hch : x % 2 < 2 := by omega
    have hx' : x < k * (2 * L) := by
      have : k * (2 * L) = 2 * (k * L) := by ring
      omega
    rw [getElem?_flatten_replicate b1 (2 * L) hbl1 k x hx']
    rw [e, hvk (x / 2) hj (x % 2) hch, two_mul_add_mod (x / 2) (x % 2) L hch (by omega),
      hv1 ((x / 2) % L) (Nat.mod_lt _ (by omega)) (x % 2) hch]
  · rw [List.getElem?_eq_none (by omega), List.getElem?_eq_none (by
      rw [length_flatten_replicate b1 (2 * L) hbl1 k]
      have : k * (2 * L) = 2 * (k * L) := by ring
      omega)]

/-- C7: a sound that does not loop and has `r` whole frames left, fewer than
the requested `frameCount`.  One call accumulates the first `r` frames, leaves
every buffer sample from frame `r` on untouched, moves the cursor `r` frames
forward and ends playback.  A sound with the INLINED flag that is not yet
marked (as `mo_play_sound_source` creates it) gets `isMarkedForDeletion`, the
context's `isSoundMarkedForDeletion` becomes true and the playing flag is
cleared; a sound without the INLINED flag only has its playing flag cleared,
its deletion mark and the context's flag stay as they were. -/
theorem C7_non_looping_end_of_source (s : mo_sound) (g : Bool) (q : ℚ) (frameCount fuel : Nat)
    (buf : List Int)
    (hwf : s.wellFormed) (hloop : mo_sound_is_looping (some s) = false)
    (hr : framesLeft s.pSource s.currentSample < frameCount)
    (hfc : frameCount ≤ 2 ^ 31) (hlen : 2 * frameCount ≤ buf.length)
    (hfuel : frameCount < fuel) :
    ∃ r, mo_sound__read_and_accumulate_frames fuel 2 g s (F32.fin q) frameCount buf = .ok r
      ∧ (∀ i < framesLeft s.pSource s.currentSample, ∀ ch < 2,
          r.buf[2 * i + ch]?
            = some (frameValue s.pSource (F32.fin q) s.currentSample i buf (2 * i) ch))
      ∧ (∀ idx, 2 * framesLeft s.pSource s.currentSample ≤ idx → r.buf[idx]? = buf[idx]?)
      ∧ r.sound.currentSample
          = s.currentSample + framesLeft s.pSource s.currentSample * s.pSource.channels
      ∧ (s.flags &&& MO_SOUND_FLAG_INLINED ≠ 0 → s.isMarkedForDeletion = false →
          r.sound.isMarkedForDeletion = true ∧ r.isSoundMarkedForDeletion = true
          ∧ mo_sound_is_playing (some r.sound) = false
          ∧ r.sound.flags = s.flags &&& notU32 MO_SOUND_FLAG_PLAYING)
      ∧ (s.flags &&& MO_SOUND_FLAG_INLINED = 0 →
          r.sound.isMarkedForDeletion = s.isMarkedForDeletion ∧ r.isSoundMarkedForDeletion = g
          ∧ mo_sound_is_playing (some r.sound) = false
          ∧ r.sound.flags = s.flags &&& notU32 MO_SOUND_FLAG_PLAYING) := by
  obtain ⟨b, hb, _, hout, hin⟩ := read_and_accumulate_spec q fuel g s frameCount buf hwf hfc hlen
    hfuel
  rw [hb]
  refine ⟨_, rfl, ?_, ?_, ?_, ?_, ?_⟩
  · intro i hi ch hch
    have := hin i (by omega) ch hch
    simpa [bufAfter, framePos, hi] using this
  · intro idx hidx
    by_cases h2 : 2 * frameCount ≤ idx
    · exact hout idx h2
    · have e : idx = 2 * (idx / 2) + idx % 2 := by omega
      have hj : idx / 2 < frameCount := by omega
      have hjr : ¬ idx / 2 < framesLeft s.pSource s.currentSample := by omega
      have := hin (idx / 2) hj (idx % 2) (by omega)
      rw [← e] at this
      simp only []
      rw [this]
      simp only [bufAfter, framePos, hjr, if_false, hloop, Bool.false_eq_true, Nat.zero_add]
      rw [← e]
  · simp only [soundAfter, not_le.mpr hr, if_false, hloop, Bool.false_eq_true, endPlayback,
      advanced]
    split
    · split <;> rfl
    · rfl
  · intro hin1 hm
    have hin1' : (s.flags &&& MO_SOUND_FLAG_INLINED != 0) = true := by simpa using hin1
    simp only [soundAfter, not_le.mpr hr, if_false, hloop, Bool.false_eq_true, endPlayback,
      advanced, hin1', if_true, hm]
    refine ⟨?_, ?_, ?_, ?_⟩ <;> first | trivial | exact is_playing_cleared s _ _
  · intro hin0
    have hin0' : ¬ (s.flags &&& MO_SOUND_FLAG_INLINED != 0) = true := by simp [hin0]
    simp only [soundAfter, not_le.mpr hr, if_false, hloop, Bool.false_eq_true, endPlayback,
      advanced, hin0']
    refine ⟨?_, ?_, ?_, ?_⟩ <;> first | trivial | exact is_playing_cleared s _ _

/-- C8 (as stated, refuted): a playing, looping mono sound over a source of
`L = 3` frames at cursor 0, mixed for exactly 3 frames.  After the call the
sound is still playing and its cursor is 3: equal to `sampleCount`, not below
it, and not 0. -/
theorem C8_cursor_reaches_sampleCount :
    mo_on_send_frames__mal 4 loopingContext 3 [0, 0, 0, 0, 0, 0]
      = .ok (contextWith [{ freshSound monoSource MO_SOUND_GROUP_EFFECTS
                              (MO_SOUND_FLAG_PLAYING ||| MO_SOUND_FLAG_LOOPING) with
                            currentSample := 3 }],
             [10, 10, 20, 20, 30, 30], 3)
    ∧ mo_sound_is_playing (some { freshSound monoSource MO_SOUND_GROUP_EFFECTS
                                    (MO_SOUND_FLAG_PLAYING ||| MO_SOUND_FLAG_LOOPING) with
                                  currentSample := 3 }) = true
    ∧ ¬ (3 < monoSource.sampleCount) ∧ (3 : Nat) ≠ 0 := by
  decide!

/-- C8 (amended): on a stereo device, for a registry of well-formed sounds
(cursor at most `sampleCount`) with finite effective volumes and a buffer of
at least `frameCount` frames, the callback returns for every `frameCount`, and
afterwards every sound of the registry is again well-formed: its cursor is at
most `sampleCount` of its source.  The bound is reached: a playing, looping
sound at cursor 0 whose source holds `L` whole frames, mixed for a positive
multiple of `L` frames, ends the call unchanged except for its cursor, which
is `L * channels` (the end of the source), not 0. -/
theorem C8_cursor_at_most_sampleCount (fuel : Nat) (ctx : mo_context) (frameCount : Nat)
    (pFrames : List Int)
    (hdev : ctx.deviceChannels = 2)
    (hgroups : ctx.soundGroups.length = MO_SOUND_GROUP_COUNT)
    (hgrp : ∀ s ∈ ctx.ppSounds, s.group < MO_SOUND_GROUP_COUNT)
    (hwf : ∀ s ∈ ctx.ppSounds, s.wellFormed)
    (hvol : ∀ s ∈ ctx.ppSounds, (effectiveVolume ctx.soundGroups s).isFinite = true)
    (hbuf : 2 * frameCount ≤ pFrames.length) (hfuel : frameCount < fuel) :
    ∃ ctx' buf', mo_on_send_frames__mal fuel ctx frameCount pFrames = .ok (ctx', buf', frameCount)
      ∧ (∀ s' ∈ ctx'.ppSounds, s'.currentSample ≤ s'.pSource.sampleCount ∧ s'.wellFormed)
      ∧ (∀ (i : Nat) (s : mo_sound) (k : Nat), ctx.ppSounds[i]? = some s →
          mo_sound_is_playing (some s) = true → mo_sound_is_looping (some s) = true →
          F32.gt (effectiveVolume ctx.soundGroups s) (F32.ofInt 0) = true →
          s.currentSample = 0 → 1 ≤ k →
          frameCount = k * (s.pSource.sampleCount / s.pSource.channels) →
          ctx'.ppSounds[i]? = some { s with currentSample :=
            (s.pSource.sampleCount / s.pSource.channels) * s.pSource.channels }) := by
  obtain ⟨g', buf', h, _⟩ := callback_runs fuel ctx frameCount pFrames hdev hgroups hgrp hwf hvol
    hbuf hfuel
  refine ⟨_, buf', h, ?_, ?_⟩
  · intro s' hs'
    simp only [List.mem_map] at hs'
    obtain ⟨s, hs, rfl⟩ := hs'
    have := soundAfterCall_wellFormed (effectiveVolume ctx.soundGroups) frameCount s (hwf s hs)
    exact ⟨this.2.2.2.1, this⟩
  · intro i s k hi hp hl hv hcur hk hfc
    have hmem : s ∈ ctx.ppSounds := List.getElem?_mem hi
    obtain ⟨hc, _, _, _, hloop⟩ := hwf s hmem
    have hL := framesLeft_zero_pos s hc (hloop hl)
    have hfl : framesLeft s.pSource 0 = s.pSource.sampleCount / s.pSource.channels := by
      unfold framesLeft; simp
    simp only [List.getElem?_map, hi, Option.map_some', soundAfterCall, hp, hv, Bool.and_self,
      if_true, hfc, ← hfl]
    rw [soundAfter_loop_multiple false s k hl hcur hk hL]

/-- C9 (as stated, refuted): a registry with one playing sound of volume 0,
mixed for one frame.  The callback skips the sound and leaves its cursor at 0;
the mixer that runs it with volume 0 moves the cursor to 1.  The buffers agree,
the resulting sound states do not. -/
theorem C9_skip_differs_from_volume_zero :
    mo_on_send_frames__mal 2 (contextWith [mutedSound]) 1 [0, 0]
      = .ok (contextWith [mutedSound], [0, 0], 1)
    ∧ mo_on_send_frames__noskip 2 (contextWith [mutedSound]) 1 [0, 0]
      = .ok (contextWith [{ mutedSound with currentSample := 1 }], [0, 0], 1)
    ∧ mo_on_send_frames__mal 2 (contextWith [mutedSound]) 1 [0, 0]
      ≠ mo_on_send_frames__noskip 2 (contextWith [mutedSound]) 1 [0, 0] := by
  decide!

/-- C9 (amended): a sound of the registry whose effective volume is not
greater than 0 is skipped, and the skip leaves it exactly as it was (cursor,
flags and deletion mark; a run at volume 0 would have moved the cursor) and
contributes nothing to the buffer: the call behaves as the call on the
registry without that sound, with the sound put back unchanged at its
position. -/
theorem C9_skipped_sound_left_as_is (fuel : Nat) (ctx : mo_context) (pre post : List mo_sound)
    (s : mo_sound) (frameCount : Nat) (pFrames : List Int)
    (hreg : ctx.ppSounds = pre ++ s :: post)
    (hgroups : ctx.soundGroups.length = MO_SOUND_GROUP_COUNT)
    (hgrp : ∀ x ∈ ctx.ppSounds, x.group < MO_SOUND_GROUP_COUNT)
    (hvol : F32.gt (effectiveVolume ctx.soundGroups s) (F32.ofInt 0) = false) :
    mo_on_send_frames__mal fuel ctx frameCount pFrames
      = (mo_on_send_frames__mal fuel { ctx with ppSounds := pre ++ post } frameCount pFrames).map
          (fun r => ({ r.1 with ppSounds :=
                        r.1.ppSounds.take pre.length ++ s :: r.1.ppSounds.drop pre.length },
                     r.2)) := by
  have hgrp' : ∀ x ∈ ({ ctx with ppSounds := pre ++ post } : mo_context).ppSounds,
      x.group < MO_SOUND_GROUP_COUNT := by
    intro x hx
    apply hgrp x
    rw [hreg]
    simp only [List.mem_append, List.mem_cons] at hx ⊢
    rcases hx with h | h
    · exact Or.inl h
    · exact Or.inr (Or.inr h)
  rw [mo_on_send_frames__mal_eq_mixRegistry fuel ctx frameCount pFrames hgroups hgrp,
    mo_on_send_frames__mal_eq_mixRegistry fuel { ctx with ppSounds := pre ++ post } frameCount
      pFrames hgroups hgrp']
  unfold mixRegistry
  simp only [hreg]
  cases zeroFrames frameCount ctx.deviceChannels pFrames with
  | error e => rfl
  | ok buf =>
    simp only []
    rw [mixEach_append, mixEach_append]
    cases h1 : mixEach fuel ctx.deviceChannels frameCount (effectiveVolume ctx.soundGroups) pre
        ctx.isSoundMarkedForDeletion buf with
    | error e => rfl
    | ok x =>
      obtain ⟨pre', g1, b1⟩ := x
      have hlen := mixEach_length _ _ _ _ _ _ _ _ _ _ h1
      simp only []
      rw [mixEach_cons]
      simp only [hvol, Bool.and_false, Bool.false_eq_true, if_false]
      cases mixEach fuel ctx.deviceChannels frameCount (effectiveVolume ctx.soundGroups) post
          g1 b1 with
      | error e => rfl
      | ok y =>
        obtain ⟨post', g2, b2⟩ := y
        simp only [Except.map, ← hlen, List.take_left', List.drop_left', List.take_append_eq_append_take,
          List.drop_append_eq_append_drop, List.take_length, List.drop_length, Nat.sub_self,
          List.take_zero, List.drop_zero, List.append_nil, List.nil_append]

/-! ## The claims on concrete inputs -/

/-- C2, on a concrete input: two sounds of constant value 20000 saturate at
32767 in every sample of a two-frame buffer that held 7 before. -/
theorem C2_witness :
    mo_on_send_frames__mal 3 clippingContext 2 [7, 7, 7, 7]
      = .ok ({ clippingContext with ppSounds :=
                [advanced (freshSound (constantSource 2 2 20000) MO_SOUND_GROUP_EFFECTS
                    MO_SOUND_FLAG_PLAYING) 2,
                 advanced (freshSound (constantSource 1 2 20000) MO_SOUND_GROUP_MUSIC
                    MO_SOUND_FLAG_PLAYING) 2] },
             List.replicate (2 * 2) (clampInt16 (20000 + 20000)), 2)
    ∧ clampInt16 (20000 + 20000) = 32767 :=
  ⟨C2_two_constant_sounds_add_and_saturate clippingContext _ _ 20000 20000 2 3 [7, 7, 7, 7]
      rfl rfl (by decide) (by decide!) (by decide) (by decide) rfl rfl (by decide) (by decide)
      (by decide!) (by decide!) rfl rfl (by decide) (by decide) (by decide) (by decide)
      (by decide) rfl (by decide),
    by decide⟩

/-- C3: for a context with a group table of `MO_SOUND_GROUP_COUNT` entries and
sounds assigned to valid groups, the callback is the mixing pass `mixRegistry`,
which accumulates every playing sound at its effective volume (and passes
over the sound when that volume is not greater than 0); the effective volume
is the product, in this order, of the sound's linear volume, the linear
volume of the table entry of the sound's group and the linear volume of the
master entry. -/
theorem C3_effective_volume_is_product (fuel : Nat) (ctx : mo_context) (frameCount : Nat)
    (pFrames : List Int)
    (hgroups : ctx.soundGroups.length = MO_SOUND_GROUP_COUNT)
    (hgrp : ∀ s ∈ ctx.ppSounds, s.group < MO_SOUND_GROUP_COUNT) :
    mo_on_send_frames__mal fuel ctx frameCount pFrames = mixRegistry fuel ctx frameCount pFrames
    ∧ ∀ s ∈ ctx.ppSounds, ∃ g master,
        ctx.soundGroups[s.group]? = some g
        ∧ ctx.soundGroups[MO_SOUND_GROUP_MASTER]? = some master
        ∧ effectiveVolume ctx.soundGroups s
            = F32.mul (F32.mul s.linearVolume g.linearVolume) master.linearVolume := by
  refine ⟨mo_on_send_frames__mal_eq_mixRegistry fuel ctx frameCount pFrames hgroups hgrp, ?_⟩
  intro s hs
  have h1 : s.group < ctx.soundGroups.length := by rw [hgroups]; exact hgrp s hs
  have h0 : MO_SOUND_GROUP_MASTER < ctx.soundGroups.length := by rw [hgroups]; decide
  refine ⟨ctx.soundGroups[s.group], ctx.soundGroups[MO_SOUND_GROUP_MASTER],
    List.getElem?_eq_getElem h1, List.getElem?_eq_getElem h0, ?_⟩
  simp only [effectiveVolume, groupVolume, List.getElem?_eq_getElem h1,
    List.getElem?_eq_getElem h0]

/-- C3, on concrete inputs: instance volume 1, group volume 1/2 and master
volume 1/2 give the effective volume 1/4, and a constant source of value 1000
contributes 250; a sound assigned to the master group is scaled by the master
volume twice, giving 1/4 and 250 as well. -/
theorem C3_witness :
    (mo_on_send_frames__mal 2 (quarterContext MO_SOUND_GROUP_EFFECTS) 1 [0, 0]
      = mixRegistry 2 (quarterContext MO_SOUND_GROUP_EFFECTS) 1 [0, 0])
    ∧ effectiveVolume halfGroups
        (freshSound (constantSource 1 2 1000) MO_SOUND_GROUP_EFFECTS MO_SOUND_FLAG_PLAYING)
      = F32.fin (1 / 4)
    ∧ (mixRegistry 2 (quarterContext MO_SOUND_GROUP_EFFECTS) 1 [0, 0]).map (fun r => r.2.1)
      = .ok [250, 250]
    ∧ effectiveVolume halfGroups
        (freshSound (constantSource 1 2 1000) MO_SOUND_GROUP_MASTER MO_SOUND_FLAG_PLAYING)
      = F32.fin (1 / 4)
    ∧ (mo_on_send_frames__mal 2 (quarterContext MO_SOUND_GROUP_MASTER) 1 [0, 0]).map
        (fun r => r.2.1) = .ok [250, 250] :=
  ⟨(C3_effective_volume_is_product 2 (quarterContext MO_SOUND_GROUP_EFFECTS) 1 [0, 0]
      (by decide) (by decide)).1,
    by decide!, by decide!, by decide!, by decide!⟩

/-- C5, on a concrete input: a three-channel source with the frames
`(1, 2, 3)` and `(4, 5, 6)` gives the stereo frames `(1, 2)` and `(4, 5)`. -/
theorem C5_witness :
    ∃ r, mo_sound__read_and_accumulate_frames 3 2 false
          (freshSound threeChannelSource MO_SOUND_GROUP_EFFECTS MO_SOUND_FLAG_PLAYING)
          (F32.ofInt 1) 2 (List.replicate (2 * 2) 0) = .ok r
      ∧ r.buf[0]? = some 1 ∧ r.buf[1]? = some 2 ∧ r.buf[2]? = some 4 ∧ r.buf[3]? = some 5 := by
  obtain ⟨r, h, hmap, _⟩ := C5_channel_mapping
    (freshSound threeChannelSource MO_SOUND_GROUP_EFFECTS MO_SOUND_FLAG_PLAYING) false 2 3
    (by decide!) (by decide) (by decide) (by decide) (by decide)
  have h0 := hmap 0 (by decide) (by decide)
  have h1 := hmap 1 (by decide) (by decide)
  exact ⟨r, h, h0.1, h0.2, h1.1, h1.2⟩

/-- C6, on a concrete input: a looping mono sound over `10, 20, 30` at volume
1/2, mixed for `3 * 3` frames, gives three copies of the pattern of 3 frames. -/
theorem C6_witness :
    ∃ r1 rk,
      mo_sound__read_and_accumulate_frames 4 2 false
          (freshSound monoSource MO_SOUND_GROUP_EFFECTS
            (MO_SOUND_FLAG_PLAYING ||| MO_SOUND_FLAG_LOOPING))
          (F32.fin (1 / 2)) 3 (List.replicate (2 * 3) 0) = .ok r1
      ∧ mo_sound__read_and_accumulate_frames 10 2 false
          (freshSound monoSource MO_SOUND_GROUP_EFFECTS
            (MO_SOUND_FLAG_PLAYING ||| MO_SOUND_FLAG_LOOPING))
          (F32.fin (1 / 2)) (3 * 3) (List.replicate (2 * (3 * 3)) 0) = .ok rk
      ∧ rk.buf = (List.replicate 3 r1.buf).flatten :=
  C6_looping_repeats_pattern
    (freshSound monoSource MO_SOUND_GROUP_EFFECTS (MO_SOUND_FLAG_PLAYING ||| MO_SOUND_FLAG_LOOPING))
    false (1 / 2) 3 3 4 10 (by decide!) (by decide) rfl (by decide) (by decide) (by decide)
    (by decide) (by decide) (by decide)

/-- C7, on a concrete input: the sound that `mo_play_sound_source` creates
over a source of 3 frames, mixed for 5 frames into a buffer holding 7
everywhere: it is marked for deletion, the context's flag is set, it no
longer plays, and the last two frames still hold 7. -/
theorem C7_witness :
    mo_play_sound_source (some (contextWith [])) (some monoSource) MO_SOUND_GROUP_EFFECTS true true
      = .ok (MO_SUCCESS, some (contextWith [inlinedSound]))
    ∧ ∃ r, mo_sound__read_and_accumulate_frames 6 2 false inlinedSound (F32.ofInt 1) 5
          (List.replicate 10 7) = .ok r
        ∧ r.sound.isMarkedForDeletion = true ∧ r.isSoundMarkedForDeletion = true
        ∧ mo_sound_is_playing (some r.sound) = false
        ∧ r.buf[6]? = some 7 ∧ r.buf[9]? = some 7 := by
  refine ⟨by decide!, ?_⟩
  obtain ⟨r, h, _, hrest, _, hin, _⟩ := C7_non_looping_end_of_source inlinedSound false 1 5 6
    (List.replicate 10 7) (by decide!) (by decide) (by decide) (by decide) (by decide) (by decide)
  have hm := hin (by decide) rfl
  have h6 := hrest 6 (by decide)
  have h9 := hrest 9 (by decide)
  rw [ofInt_one_eq]
  exact ⟨r, h, hm.1, hm.2.1, hm.2.2.1, by rw [h6]; rfl, by rw [h9]; rfl⟩

/-- C8 (amended), on a concrete input: the looping sound over 3 frames, mixed
for 3 frames, ends the call with cursor `3 * 1`. -/
theorem C8_witness :
    ∃ ctx' buf', mo_on_send_frames__mal 4 loopingContext 3 [0, 0, 0, 0, 0, 0]
        = .ok (ctx', buf', 3)
      ∧ (∀ s' ∈ ctx'.ppSounds, s'.currentSample ≤ s'.pSource.sampleCount)
      ∧ ctx'.ppSounds[0]? = some { freshSound monoSource MO_SOUND_GROUP_EFFECTS
                                    (MO_SOUND_FLAG_PLAYING ||| MO_SOUND_FLAG_LOOPING) with
                                  currentSample := 3 / 1 * 1 } := by
  obtain ⟨ctx', buf', h, hall, hloop⟩ := C8_cursor_at_most_sampleCount 4 loopingContext 3
    [0, 0, 0, 0, 0, 0] rfl (by decide) (by decide) (by decide!) (by decide!) (by decide)
    (by decide)
  exact ⟨ctx', buf', h, fun s' hs' => (hall s' hs').1,
    hloop 0 _ 1 rfl (by decide) (by decide) (by decide!) rfl (by decide) (by decide)⟩

/-- C9 (amended), on a concrete input: a registry of a muted sound followed by
a playing sound behaves as the registry of the playing sound alone, with the
muted sound put back unchanged in front. -/
theorem C9_witness :
    mo_on_send_frames__mal 2
        (contextWith [mutedSound,
          freshSound stereoSource MO_SOUND_GROUP_MUSIC MO_SOUND_FLAG_PLAYING]) 1 [0, 0]
      = (mo_on_send_frames__mal 2
          { contextWith [mutedSound,
              freshSound stereoSource MO_SOUND_GROUP_MUSIC MO_SOUND_FLAG_PLAYING] with
            ppSounds := [] ++ [freshSound stereoSource MO_SOUND_GROUP_MUSIC MO_SOUND_FLAG_PLAYING] }
          1 [0, 0]).map
          (fun r => ({ r.1 with ppSounds :=
                        r.1.ppSounds.take ([] : List mo_sound).length
                          ++ mutedSound :: r.1.ppSounds.drop ([] : List mo_sound).length },
                     r.2)) :=
  C9_skipped_sound_left_as_is 2
    (contextWith [mutedSound, freshSound stereoSource MO_SOUND_GROUP_MUSIC MO_SOUND_FLAG_PLAYING])
    [] [freshSound stereoSource MO_SOUND_GROUP_MUSIC MO_SOUND_FLAG_PLAYING] mutedSound 1 [0, 0]
    rfl (by decide) (by decide) (by decide!)


/-! ## Flag bits -/

theorem testBit_notU32 (flag i : Nat) :
    (notU32 flag).testBit i = (decide (i < 32) ^^ flag.testBit i) := by
  unfold notU32
  rw [Nat.testBit_xor, Nat.testBit_two_pow_sub_one]

theorem testBit_u32_high (x i : Nat) (hx : x < 2 ^ 32) (hi : 32 ≤ i) : x.testBit i = false :=
  Nat.testBit_lt_two_pow (lt_of_lt_of_le hx (Nat.pow_le_pow_right (by decide) hi))

/-- Clearing one flag of a `mo_uint32`: the bit of the flag becomes 0 and every
other bit stays. -/
theorem testBit_clear (x k i : Nat) (hx : x < 2 ^ 32) :
    (x &&& notU32 (2 ^ k)).testBit i = (x.testBit i && !decide (k = i)) := by
  rw [Nat.testBit_land, testBit_notU32, Nat.testBit_two_pow]
  by_cases hi : i < 32
  · simp [hi]
  · have := testBit_u32_high x i hx (by omega)
    simp [this]

theorem testBit_set (x k i : Nat) :
    (x ||| 2 ^ k).testBit i = (x.testBit i || decide (k = i)) := by
  rw [Nat.testBit_lor, Nat.testBit_two_pow]

theorem land_flag_ne_zero (x k : Nat) : (x &&& 2 ^ k != 0) = x.testBit k := by
  rcases h : x.testBit k with _ | _
  · have : x &&& 2 ^ k = 0 := by
      apply Nat.eq_of_testBit_eq
      intro i
      rw [Nat.testBit_land, Nat.testBit_two_pow, Nat.zero_testBit]
      by_cases hi : k = i
      · subst hi; simp [h]
      · simp [hi]
    simp [this]
  · have : (x &&& 2 ^ k).testBit k = true := by
      rw [Nat.testBit_land, Nat.testBit_two_pow, h]; simp
    have hne : x &&& 2 ^ k ≠ 0 := by
      intro h0
      rw [h0, Nat.zero_testBit] at this
      exact absurd this (by decide)
    simp [hne]

theorem is_playing_testBit (s : mo_sound) : mo_sound_is_playing (some s) = s.flags.testBit 0 :=
  land_flag_ne_zero s.flags 0

theorem is_looping_testBit (s : mo_sound) : mo_sound_is_looping (some s) = s.flags.testBit 2 :=
  land_flag_ne_zero s.flags 2

/-- The flags after `mo_sound_play`, bit by bit. -/
theorem play_flags_testBit (x : Nat) (loop : Bool) (hflags : x < 2 ^ 32) (i : Nat) :
    ((if loop then x ||| MO_SOUND_FLAG_LOOPING
      else x &&& notU32 MO_SOUND_FLAG_LOOPING) ||| MO_SOUND_FLAG_PLAYING).testBit i
      = if i = 0 then true else if i = 2 then loop else x.testBit i := by
  have h0 : MO_SOUND_FLAG_PLAYING = 2 ^ 0 := rfl
  have h2 : MO_SOUND_FLAG_LOOPING = 2 ^ 2 := rfl
  rw [h0, h2, testBit_set]
  cases loop
  · simp only [Bool.false_eq_true, if_false]
    rw [testBit_clear _ _ _ hflags]
    by_cases hi0 : i = 0
    · subst hi0; simp
    · by_cases hi2 : i = 2
      · subst hi2; simp
      · have a : ¬ (0 = i) := fun h => hi0 h.symm
        have b : ¬ (2 = i) := fun h => hi2 h.symm
        simp [hi0, hi2, a, b]
  · simp only [if_true]
    rw [testBit_set]
    by_cases hi0 : i = 0
    · subst hi0; simp
    · by_cases hi2 : i = 2
      · subst hi2; simp
      · have a : ¬ (0 = i) := fun h => hi0 h.symm
        have b : ¬ (2 = i) := fun h => hi2 h.symm
        simp [hi0, hi2, a, b]

/-- The flags after `mo_sound_stop`, bit by bit. -/
theorem stop_flags_testBit (x : Nat) (hflags : x < 2 ^ 32) (i : Nat) :
    (x &&& notU32 MO_SOUND_FLAG_PLAYING).testBit i
      = if i = 0 then false else x.testBit i := by
  have h0 : MO_SOUND_FLAG_PLAYING = 2 ^ 0 := rfl
  rw [h0, testBit_clear _ _ _ hflags]
  by_cases hi0 : i = 0
  · subst hi0; simp
  · have a : ¬ (0 = i) := fun h => hi0 h.symm
    simp [hi0, a]

theorem flags_lt_of_testBit (x : Nat) (h : ∀ i, 32 ≤ i → x.testBit i = false) : x < 2 ^ 32 := by
  by_contra hx
  push_neg at hx
  obtain ⟨i, hi, hb⟩ := Nat.ge_two_pow_implies_high_bit_true hx
  rw [h i hi] at hb
  exact absurd hb (by decide)

theorem play_flags_lt (x : Nat) (loop : Bool) (hflags : x < 2 ^ 32) :
    (if loop then x ||| MO_SOUND_FLAG_LOOPING
      else x &&& notU32 MO_SOUND_FLAG_LOOPING) ||| MO_SOUND_FLAG_PLAYING < 2 ^ 32 := by
  apply flags_lt_of_testBit
  intro i hi
  rw [play_flags_testBit x loop hflags i, if_neg (by omega), if_neg (by omega)]
  exact testBit_u32_high x i hflags hi

theorem stop_flags_lt (x : Nat) (hflags : x < 2 ^ 32) :
    x &&& notU32 MO_SOUND_FLAG_PLAYING < 2 ^ 32 := by
  apply flags_lt_of_testBit
  intro i hi
  rw [stop_flags_testBit x hflags i, if_neg (by omega)]
  exact testBit_u32_high x i hflags hi

theorem pow_eq_flag_playing (i : Nat) : 2 ^ i = MO_SOUND_FLAG_PLAYING ↔ i = 0 := by
  constructor
  · intro h
    have h0 : MO_SOUND_FLAG_PLAYING = 2 ^ 0 := rfl
    rw [h0] at h
    exact Nat.pow_right_injective (le_refl 2) h
  · intro h; subst h; rfl

theorem pow_eq_flag_looping (i : Nat) : 2 ^ i = MO_SOUND_FLAG_LOOPING ↔ i = 2 := by
  constructor
  · intro h
    have h0 : MO_SOUND_FLAG_LOOPING = 2 ^ 2 := rfl
    rw [h0] at h
    exact Nat.pow_right_injective (le_refl 2) h
  · intro h; subst h; rfl

/-! ## Playing, stopping, marking and creating sounds -/

/-- C15: `mo_sound_play` and `mo_sound_stop` on a sound whose flags are a
`mo_uint32`.  After `mo_sound_play(s, loop)` the sound is playing and is
looping exactly when `loop` is true; after `mo_sound_stop(s)` it is not playing
and its looping state is as before.  In both cases the result differs from `s`
in the field `flags` only (source, group, volume, pan, cursor and deletion
mark are those of `s`), and in `flags` every bit other than
`MO_SOUND_FLAG_PLAYING` and `MO_SOUND_FLAG_LOOPING` (after stop: other than
`MO_SOUND_FLAG_PLAYING`) is unchanged; a play after the stop finds the cursor
of `s`. -/
theorem C15_play_and_stop_touch_two_flags (s : mo_sound) (loop : Bool)
    (hflags : s.flags < 2 ^ 32) :
    (∃ p, mo_sound_play (some s) loop = some p
        ∧ mo_sound_is_playing (some p) = true
        ∧ mo_sound_is_looping (some p) = loop
        ∧ p = { s with flags := p.flags }
        ∧ p.flags < 2 ^ 32
        ∧ ∀ i, 2 ^ i ≠ MO_SOUND_FLAG_PLAYING → 2 ^ i ≠ MO_SOUND_FLAG_LOOPING →
            p.flags.testBit i = s.flags.testBit i)
    ∧ (∃ q, mo_sound_stop (some s) = some q
        ∧ mo_sound_is_playing (some q) = false
        ∧ mo_sound_is_looping (some q) = mo_sound_is_looping (some s)
        ∧ q = { s with flags := q.flags }
        ∧ q.flags < 2 ^ 32
        ∧ (∀ i, 2 ^ i ≠ MO_SOUND_FLAG_PLAYING → q.flags.testBit i = s.flags.testBit i)
        ∧ ∃ r, mo_sound_play (some q) loop = some r
            ∧ mo_sound_is_playing (some r) = true
            ∧ r.currentSample = s.currentSample) := by
  constructor
  · refine ⟨_, rfl, ?_, ?_, rfl, play_flags_lt s.flags loop hflags, ?_⟩
    · rw [is_playing_testBit]
      exact (play_flags_testBit s.flags loop hflags 0).trans (if_pos rfl)
    · rw [is_looping_testBit]
      refine (play_flags_testBit s.flags loop hflags 2).trans ?_
      rw [if_neg (by decide), if_pos rfl]
    · intro i h0 h2
      have a : ¬ i = 0 := fun h => h0 ((pow_eq_flag_playing i).2 h)
      have b : ¬ i = 2 := fun h => h2 ((pow_eq_flag_looping i).2 h)
      refine (play_flags_testBit s.flags loop hflags i).trans ?_
      rw [if_neg a, if_neg b]
  · have hq := stop_flags_lt s.flags hflags
    refine ⟨_, rfl, ?_, ?_, rfl, hq, ?_, _, rfl, ?_, rfl⟩
    · rw [is_playing_testBit]
      exact (stop_flags_testBit s.flags hflags 0).trans (if_pos rfl)
    · rw [is_looping_testBit, is_looping_testBit]
      refine (stop_flags_testBit s.flags hflags 2).trans ?_
      rw [if_neg (by decide)]
    · intro i h0
      have a : ¬ i = 0 := fun h => h0 ((pow_eq_flag_playing i).2 h)
      refine (stop_flags_testBit s.flags hflags i).trans ?_
      rw [if_neg a]
    · rw [is_playing_testBit]
      exact (play_flags_testBit _ loop hq 0).trans (if_pos rfl)

/-- C15, on a concrete input: the marked, looping sound `busySound` of
`mo_play_sound_source` at cursor 2. -/
theorem C15_witness :
    busySound.flags < 2 ^ 32
    ∧ mo_sound_stop (some busySound)
        = some { busySound with flags := MO_SOUND_FLAG_INLINED ||| MO_SOUND_FLAG_LOOPING }
    ∧ mo_sound_play (mo_sound_stop (some busySound)) false
        = some { busySound with flags := MO_SOUND_FLAG_INLINED ||| MO_SOUND_FLAG_PLAYING }
    ∧ ((∃ p, mo_sound_play (some busySound) false = some p
        ∧ mo_sound_is_playing (some p) = true
        ∧ mo_sound_is_looping (some p) = false
        ∧ p = { busySound with flags := p.flags }
        ∧ p.flags < 2 ^ 32
        ∧ ∀ i, 2 ^ i ≠ MO_SOUND_FLAG_PLAYING → 2 ^ i ≠ MO_SOUND_FLAG_LOOPING →
            p.flags.testBit i = busySound.flags.testBit i)
      ∧ (∃ q, mo_sound_stop (some busySound) = some q
        ∧ mo_sound_is_playing (some q) = false
        ∧ mo_sound_is_looping (some q) = mo_sound_is_looping (some busySound)
        ∧ q = { busySound with flags := q.flags }
        ∧ q.flags < 2 ^ 32
        ∧ (∀ i, 2 ^ i ≠ MO_SOUND_FLAG_PLAYING → q.flags.testBit i = busySound.flags.testBit i)
        ∧ ∃ r, mo_sound_play (some q) false = some r
            ∧ mo_sound_is_playing (some r) = true
            ∧ r.currentSample = busySound.currentSample)) :=
  ⟨by decide, by decide!, by decide!,
    C15_play_and_stop_touch_two_flags busySound false (by decide)⟩

/-- C11 (counterexample): the sound created in a fresh context, marked for
deletion, started again with `mo_sound_play` and marked once more is still
playing after that last call: the call returns at once for a sound that
carries the mark. -/
theorem C11_marked_sound_played_again_stays_playing :
    createdSound = some (freshSound monoSource MO_SOUND_GROUP_EFFECTS 0)
    ∧ mo_sound_mark_for_deletion false createdSound
        = (true, some { freshSound monoSource MO_SOUND_GROUP_EFFECTS 0 with
                          isMarkedForDeletion := true })
    ∧ markedPlayedMarked
        = (true, some { freshSound monoSource MO_SOUND_GROUP_EFFECTS MO_SOUND_FLAG_PLAYING with
                          isMarkedForDeletion := true })
    ∧ mo_sound_is_playing markedPlayedMarked.2 = true := by
  decide!

/-- C11 (amended): `mo_sound_mark_for_deletion` on the sound `s` at position
`iSound` of the registry.  The call leaves the registry with the same length,
the same capacity and the same entries at every other position, and the entry
`iSound` differs from `s` at most in `flags` and `isMarkedForDeletion`; the
sound carries the mark afterwards, and a second call changes nothing.  When
`s` was not marked before, the call clears `MO_SOUND_FLAG_PLAYING`, so that the
sound is not playing, and sets the garbage flag of the context; when `s` was
marked already, the call changes nothing at all. -/
theorem C11_mark_for_deletion_effect (ctx : mo_context) (iSound : Nat) (s : mo_sound)
    (hs : ctx.ppSounds[iSound]? = some s) :
    ∃ ctx1 s1, markForDeletionAt ctx iSound = some ctx1
      ∧ ctx1 = { ctx with ppSounds := ctx.ppSounds.set iSound s1,
                          isSoundMarkedForDeletion := ctx1.isSoundMarkedForDeletion }
      ∧ ctx1.ppSounds.length = ctx.ppSounds.length
      ∧ ctx1.soundBufferSize = ctx.soundBufferSize
      ∧ ctx1.ppSounds[iSound]? = some s1
      ∧ (∀ j, j ≠ iSound → ctx1.ppSounds[j]? = ctx.ppSounds[j]?)
      ∧ s1 = { s with flags := s1.flags, isMarkedForDeletion := true }
      ∧ markForDeletionAt ctx1 iSound = some ctx1
      ∧ (s.isMarkedForDeletion = false →
          s1.flags = s.flags &&& notU32 MO_SOUND_FLAG_PLAYING
          ∧ mo_sound_is_playing (some s1) = false
          ∧ ctx1.isSoundMarkedForDeletion = true)
      ∧ (s.isMarkedForDeletion = true → ctx1 = ctx) := by
  have hlt : iSound < ctx.ppSounds.length := by
    by_contra h
    rw [List.getElem?_eq_none (by omega)] at hs
    exact absurd hs (by simp)
  cases hm : s.isMarkedForDeletion
  · let s1 : mo_sound :=
      { s with flags := s.flags &&& notU32 MO_SOUND_FLAG_PLAYING, isMarkedForDeletion := true }
    let c1 : mo_context :=
      { ctx with ppSounds := ctx.ppSounds.set iSound s1, isSoundMarkedForDeletion := true }
    refine ⟨c1, s1, ?_, rfl, ?_, rfl, ?_, ?_, rfl, ?_, ?_, ?_⟩
    · simp [markForDeletionAt, hs, mo_sound_mark_for_deletion, hm, mo_sound_stop]
    · simp
    · simp [List.getElem?_set, hlt]
    · intro j hj
      simp [List.getElem?_set, Ne.symm hj]
    · simp [markForDeletionAt, List.getElem?_set, hlt, mo_sound_mark_for_deletion]
    · intro _
      exact ⟨rfl, is_playing_cleared s s.currentSample true, rfl⟩
    · intro h; exact absurd h (by simp)
  · have hset : ctx.ppSounds.set iSound s = ctx.ppSounds := by
      apply List.ext_getElem?
      intro j
      by_cases hj : iSound = j
      · subst hj; simp [List.getElem?_set, hlt, hs]
      · simp [List.getElem?_set, hj]
    have hcall : markForDeletionAt ctx iSound = some ctx := by
      simp [markForDeletionAt, hs, mo_sound_mark_for_deletion, hm, hset]
    refine ⟨ctx, s, hcall, ?_, rfl, rfl, hs, fun _ _ => rfl, ?_, hcall, ?_, fun _ => rfl⟩
    · rw [hset]
    · cases s; simp at hm; simp [hm]
    · intro h; exact absurd h (by simp)
/-- The successful path of `mo_sound_create`, read off its result. -/
theorem mo_sound_create_success (ctx : mo_context) (src : mo_sound_source) (group : Nat)
    (hasOut callocOk reallocOk : Bool) (ctx1 : Option mo_context) (out : Option mo_sound)
    (h : mo_sound_create (some ctx) (some src) group hasOut callocOk reallocOk
          = .ok (MO_SUCCESS, ctx1, out)) :
    group < MO_SOUND_GROUP_COUNT
    ∧ ctx.ppSounds.length
        < (if ctx.soundBufferSize = ctx.ppSounds.length then
            (if ctx.soundBufferSize = 0 then 8 else (ctx.soundBufferSize * 2) % 2 ^ 32)
           else ctx.soundBufferSize)
    ∧ out = some (freshSound src group 0)
    ∧ ctx1 = some { ctx with
        ppSounds := ctx.ppSounds ++ [freshSound src group 0],
        soundBufferSize :=
          (if ctx.soundBufferSize = ctx.ppSounds.length then
            (if ctx.soundBufferSize = 0 then 8 else (ctx.soundBufferSize * 2) % 2 ^ 32)
           else ctx.soundBufferSize) } := by
  have hne : MO_INVALID_ARGS ≠ MO_SUCCESS := by decide
  have hne2 : MO_OUT_OF_MEMORY ≠ MO_SUCCESS := by decide
  unfold mo_sound_create at h
  by_cases h0 : (!hasOut) = true
  · rw [if_pos h0] at h
    simp only [Except.ok.injEq, Prod.mk.injEq] at h
    exact absurd h.1 hne
  · rw [if_neg h0] at h
    simp only at h
    by_cases h1 : group ≥ MO_SOUND_GROUP_COUNT
    · rw [if_pos h1] at h
      simp only [Except.ok.injEq, Prod.mk.injEq] at h
      exact absurd h.1 hne
    · rw [if_neg h1] at h
      by_cases h2 : (!callocOk) = true
      · rw [if_pos h2] at h
        simp only [Except.ok.injEq, Prod.mk.injEq] at h
        exact absurd h.1 hne2
      · rw [if_neg h2] at h
        by_cases h3 : (decide (ctx.soundBufferSize = ctx.ppSounds.length) && !reallocOk) = true
        · rw [if_pos h3] at h
          simp only [Except.ok.injEq, Prod.mk.injEq] at h
          exact absurd h.1 hne2
        · rw [if_neg h3] at h
          simp only [decide_eq_true_eq] at h
          by_cases h4 : (if ctx.soundBufferSize = ctx.ppSounds.length then
              (if ctx.soundBufferSize = 0 then 8 else (ctx.soundBufferSize * 2) % 2 ^ 32)
              else ctx.soundBufferSize) > ctx.ppSounds.length
          · rw [if_pos h4] at h
            simp only [Except.ok.injEq, Prod.mk.injEq] at h
            exact ⟨by omega, h4, h.2.2.symm, h.2.1.symm⟩
          · rw [if_neg h4] at h
            exact absurd h (by simp)


/-- C12: a successful `mo_sound_create` on a context whose capacity is a
`mo_uint32`.  The registry afterwards is the old registry with the new sound
appended: the new sound is its last entry, every earlier entry is where it
was, the count has grown by one and does not exceed the capacity.  The
capacity is unchanged unless it was equal to the count, and then it is 8 when
it was 0 and twice the old capacity otherwise.  The new sound has the given
source and group, volume 1, pan 0, no flag, cursor 0 and no deletion mark, and
nothing else in the context changes. -/
theorem C12_create_appends_to_registry (ctx : mo_context) (src : mo_sound_source) (group : Nat)
    (hasOut callocOk reallocOk : Bool) (ctx1 : Option mo_context) (out : Option mo_sound)
    (hsize : ctx.soundBufferSize < 2 ^ 32)
    (h : mo_sound_create (some ctx) (some src) group hasOut callocOk reallocOk
          = .ok (MO_SUCCESS, ctx1, out)) :
    ∃ c s, ctx1 = some c ∧ out = some s
      ∧ c.ppSounds = ctx.ppSounds ++ [s]
      ∧ c.ppSounds.getLast? = some s
      ∧ (∀ j, j < ctx.ppSounds.length → c.ppSounds[j]? = ctx.ppSounds[j]?)
      ∧ c.ppSounds.length = ctx.ppSounds.length + 1
      ∧ c.ppSounds.length ≤ c.soundBufferSize
      ∧ c.soundBufferSize
          = (if ctx.soundBufferSize = ctx.ppSounds.length then
              (if ctx.soundBufferSize = 0 then 8 else 2 * ctx.soundBufferSize)
             else ctx.soundBufferSize)
      ∧ c = { ctx with ppSounds := c.ppSounds, soundBufferSize := c.soundBufferSize }
      ∧ s = { pSource := src, group := group, linearVolume := F32.ofInt 1, pan := F32.ofInt 0,
              flags := 0, currentSample := 0, isMarkedForDeletion := false } := by
  obtain ⟨_, hcap, hout, hctx⟩ := mo_sound_create_success ctx src group hasOut callocOk
    reallocOk ctx1 out h
  have hcapeq : (if ctx.soundBufferSize = ctx.ppSounds.length then
            (if ctx.soundBufferSize = 0 then 8 else (ctx.soundBufferSize * 2) % 2 ^ 32)
           else ctx.soundBufferSize)
      = (if ctx.soundBufferSize = ctx.ppSounds.length then
              (if ctx.soundBufferSize = 0 then 8 else 2 * ctx.soundBufferSize)
             else ctx.soundBufferSize) := by
    by_cases hfull : ctx.soundBufferSize = ctx.ppSounds.length
    · rw [if_pos hfull, if_pos hfull]
      rw [if_pos hfull] at hcap
      by_cases hz : ctx.soundBufferSize = 0
      · rw [if_pos hz, if_pos hz]
      · rw [if_neg hz, if_neg hz]
        rw [if_neg hz] at hcap
        omega
    · rw [if_neg hfull, if_neg hfull]
  rw [hcapeq] at hcap hctx
  refine ⟨_, _, hctx, hout, rfl, ?_, ?_, ?_, ?_, rfl, rfl, rfl⟩
  · simp
  · intro j hj
    simp [List.getElem?_append_left hj]
  · simp
  · simp only [List.length_append, List.length_singleton]
    omega

/-- C12, on concrete inputs: a full registry of capacity 2 grows to capacity 4,
an empty one without an array to capacity 8, and one with spare capacity keeps
its capacity. -/
theorem C12_witness :
    mo_sound_create (some fullContext) (some monoSource) MO_SOUND_GROUP_VOICE true true true
      = .ok (MO_SUCCESS,
             some { fullContext with
                ppSounds := fullContext.ppSounds ++ [freshSound monoSource MO_SOUND_GROUP_VOICE 0],
                soundBufferSize := 4 },
             some (freshSound monoSource MO_SOUND_GROUP_VOICE 0))
    ∧ (mo_sound_create (some emptyContext) (some monoSource) MO_SOUND_GROUP_VOICE true true
        true).map (fun r => r.2.1.map (fun c => (c.ppSounds.length, c.soundBufferSize)))
        = .ok (some (1, 8))
    ∧ (mo_sound_create (some threeSounds) (some monoSource) MO_SOUND_GROUP_VOICE true true
        true).map (fun r => r.2.1.map (fun c => (c.ppSounds.length, c.soundBufferSize)))
        = .ok (some (4, 8))
    ∧ ∃ c s, some { fullContext with
                ppSounds := fullContext.ppSounds ++ [freshSound monoSource MO_SOUND_GROUP_VOICE 0],
                soundBufferSize := 4 } = some c
      ∧ some (freshSound monoSource MO_SOUND_GROUP_VOICE 0) = some s
      ∧ c.ppSounds = fullContext.ppSounds ++ [s]
      ∧ c.ppSounds.getLast? = some s
      ∧ (∀ j, j < fullContext.ppSounds.length → c.ppSounds[j]? = fullContext.ppSounds[j]?)
      ∧ c.ppSounds.length = fullContext.ppSounds.length + 1
      ∧ c.ppSounds.length ≤ c.soundBufferSize
      ∧ c.soundBufferSize
          = (if fullContext.soundBufferSize = fullContext.ppSounds.length then
              (if fullContext.soundBufferSize = 0 then 8 else 2 * fullContext.soundBufferSize)
             else fullContext.soundBufferSize)
      ∧ c = { fullContext with ppSounds := c.ppSounds, soundBufferSize := c.soundBufferSize }
      ∧ s = { pSource := monoSource, group := MO_SOUND_GROUP_VOICE, linearVolume := F32.ofInt 1,
              pan := F32.ofInt 0, flags := 0, currentSample := 0,
              isMarkedForDeletion := false } :=
  ⟨by decide!, by decide!, by decide!,
    C12_create_appends_to_registry fullContext monoSource MO_SOUND_GROUP_VOICE true true true _ _
      (by decide) (by decide!)⟩

/-- C13: `mo_sound_create` with an output handle and no allocation failure.
It returns `MO_INVALID_ARGS` exactly when the context is absent, the source is
absent or the group is not below `MO_SOUND_GROUP_COUNT`; and whenever it
returns `MO_INVALID_ARGS` the output handle is NULL and the context (registry,
count, capacity) is the one it was given. -/
theorem C13_create_invalid_args_iff (pContext : Option mo_context)
    (pSource : Option mo_sound_source) (group : Nat) :
    ((∃ c out, mo_sound_create pContext pSource group true true true
                = .ok (MO_INVALID_ARGS, c, out))
        ↔ (pContext = none ∨ pSource = none ∨ group ≥ MO_SOUND_GROUP_COUNT))
    ∧ ∀ c out, mo_sound_create pContext pSource group true true true
                = .ok (MO_INVALID_ARGS, c, out) → c = pContext ∧ out = none := by
  have hne : MO_SUCCESS ≠ MO_INVALID_ARGS := by decide
  have key : ∀ c out, mo_sound_create pContext pSource group true true true
                = .ok (MO_INVALID_ARGS, c, out) →
      (pContext = none ∨ pSource = none ∨ group ≥ MO_SOUND_GROUP_COUNT)
      ∧ c = pContext ∧ out = none := by
    intro c out h
    cases pContext with
    | none =>
      cases pSource <;>
      · simp only [mo_sound_create, Bool.not_true, Bool.false_eq_true, if_false, Except.ok.injEq,
          Prod.mk.injEq] at h
        exact ⟨Or.inl rfl, h.2.1.symm, h.2.2.symm⟩
    | some ctx =>
      cases pSource with
      | none =>
        simp only [mo_sound_create, Bool.not_true, Bool.false_eq_true, if_false, Except.ok.injEq,
          Prod.mk.injEq] at h
        exact ⟨Or.inr (Or.inl rfl), h.2.1.symm, h.2.2.symm⟩
      | some src =>
        by_cases hg : group ≥ MO_SOUND_GROUP_COUNT
        · simp only [mo_sound_create, Bool.not_true, Bool.false_eq_true, if_false, if_pos hg,
            Except.ok.injEq, Prod.mk.injEq] at h
          exact ⟨Or.inr (Or.inr hg), h.2.1.symm, h.2.2.symm⟩
        · exfalso
          unfold mo_sound_create at h
          simp only [Bool.not_true, Bool.false_eq_true, if_false, Bool.and_false] at h
          rw [if_neg hg] at h
          simp only [decide_eq_true_eq] at h
          by_cases h4 : (if ctx.soundBufferSize = ctx.ppSounds.length then
              (if ctx.soundBufferSize = 0 then 8 else (ctx.soundBufferSize * 2) % 2 ^ 32)
              else ctx.soundBufferSize) > ctx.ppSounds.length
          · rw [if_pos h4] at h
            simp only [Except.ok.injEq, Prod.mk.injEq] at h
            exact hne h.1
          · rw [if_neg h4] at h
            exact absurd h (by simp)
  refine ⟨⟨fun ⟨c, out, h⟩ => (key c out h).1, ?_⟩, fun c out h => (key c out h).2⟩
  intro h
  refine ⟨pContext, none, ?_⟩
  rcases h with h | h | h
  · subst h; cases pSource <;> rfl
  · subst h; cases pContext <;> rfl
  · cases pContext with
    | none => cases pSource <;> rfl
    | some ctx =>
      cases pSource with
      | none => rfl
      | some src =>
        simp only [mo_sound_create, Bool.not_true, Bool.false_eq_true, if_false, if_pos h]

/-- C13, on concrete inputs: group 4 is rejected and leaves the context as it
was, group 3 is accepted. -/
theorem C13_witness :
    mo_sound_create (some threeSounds) (some monoSource) 4 true true true
      = .ok (MO_INVALID_ARGS, some threeSounds, none)
    ∧ (mo_sound_create (some threeSounds) (some monoSource) 3 true true true).map (fun r => r.1)
      = .ok MO_SUCCESS
    ∧ mo_sound_create none (some monoSource) 0 true true true = .ok (MO_INVALID_ARGS, none, none)
    ∧ ((∃ c out, mo_sound_create (some threeSounds) (some monoSource) 4 true true true
                = .ok (MO_INVALID_ARGS, c, out))
        ↔ ((some threeSounds = none) ∨ (some monoSource = none) ∨ 4 ≥ MO_SOUND_GROUP_COUNT)) :=
  ⟨by decide!, by decide!, by decide!,
    (C13_create_invalid_args_iff (some threeSounds) (some monoSource) 4).1⟩

/-- C11, on a concrete input: marking the playing stereo sound at position 1 of
a registry of three sounds. -/
theorem C11_witness :
    threeSounds.ppSounds[1]? = some playingStereo
    ∧ markForDeletionAt threeSounds 1
      = some { threeSounds with ppSounds := threeSounds.ppSounds.set 1 markedStereo,
                                isSoundMarkedForDeletion := true }
    ∧ ∃ ctx1 s1, markForDeletionAt threeSounds 1 = some ctx1
      ∧ ctx1 = { threeSounds with ppSounds := threeSounds.ppSounds.set 1 s1,
                                  isSoundMarkedForDeletion := ctx1.isSoundMarkedForDeletion }
      ∧ ctx1.ppSounds.length = threeSounds.ppSounds.length
      ∧ ctx1.soundBufferSize = threeSounds.soundBufferSize
      ∧ ctx1.ppSounds[1]? = some s1
      ∧ (∀ j, j ≠ 1 → ctx1.ppSounds[j]? = threeSounds.ppSounds[j]?)
      ∧ s1 = { playingStereo with flags := s1.flags, isMarkedForDeletion := true }
      ∧ markForDeletionAt ctx1 1 = some ctx1
      ∧ (playingStereo.isMarkedForDeletion = false →
          s1.flags = playingStereo.flags &&& notU32 MO_SOUND_FLAG_PLAYING
          ∧ mo_sound_is_playing (some s1) = false
          ∧ ctx1.isSoundMarkedForDeletion = true)
      ∧ (playingStereo.isMarkedForDeletion = true → ctx1 = threeSounds) :=
  ⟨by decide!, by decide!, C11_mark_for_deletion_effect threeSounds 1 playingStereo (by decide!)⟩

/-- C16: `mo_sound_source_create` with an output handle.  Whenever `channels`,
`sampleRate` or `sampleCount` is 0 it returns `MO_INVALID_ARGS` and the output
handle is NULL.  Whenever it returns `MO_SUCCESS`, the output handle is a
source with the given channel count, sample rate and sample count whose sample
array has exactly `sampleCount` entries, entry `i` being entry `i` of the
input array.  And it does return `MO_SUCCESS` when the context is present,
the three numbers are not 0, `sampleCount` is at most `SIZE_MAX / 2`, the
allocation succeeds and the input array holds at least `sampleCount` samples. -/
theorem C16_source_create_rejects_degenerate (SIZE_MAX : Nat) (pContext : Option mo_context)
    (channels sampleRate sampleCount : Nat) (pSampleData : Option (List Int))
    (callocOk : Bool) :
    ((channels = 0 ∨ sampleRate = 0 ∨ sampleCount = 0) →
        mo_sound_source_create SIZE_MAX pContext channels sampleRate sampleCount pSampleData
          true callocOk = .ok (MO_INVALID_ARGS, none))
    ∧ (∀ out, mo_sound_source_create SIZE_MAX pContext channels sampleRate sampleCount
          pSampleData true callocOk = .ok (MO_SUCCESS, out) →
        channels ≠ 0 ∧ sampleRate ≠ 0 ∧ sampleCount ≠ 0
        ∧ ∃ src samples, out = some src ∧ pSampleData = some samples
          ∧ src.channels = channels ∧ src.sampleRate = sampleRate
          ∧ src.sampleCount = sampleCount
          ∧ src.pSampleData.length = sampleCount
          ∧ ∀ i, i < sampleCount → src.pSampleData[i]? = samples[i]?)
    ∧ (∀ samples, pContext ≠ none → channels ≠ 0 → sampleRate ≠ 0 → sampleCount ≠ 0 →
        sampleCount ≤ SIZE_MAX / 2 → callocOk = true → pSampleData = some samples →
        sampleCount ≤ samples.length →
        mo_sound_source_create SIZE_MAX pContext channels sampleRate sampleCount pSampleData
          true callocOk
          = .ok (MO_SUCCESS,
                 some { channels := channels, sampleRate := sampleRate,
                        sampleCount := sampleCount,
                        pSampleData := samples.take sampleCount })) := by
  have hne : MO_INVALID_ARGS ≠ MO_SUCCESS := by decide
  have hne2 : MO_OUT_OF_MEMORY ≠ MO_SUCCESS := by decide
  refine ⟨?_, ?_, ?_⟩
  · intro h
    unfold mo_sound_source_create
    have hc : (pContext.isNone || channels == 0 || sampleRate == 0 || sampleCount == 0) = true := by
      rcases h with h | h | h <;> subst h <;> simp
    simp only [Bool.not_true, Bool.false_eq_true, if_false]
    rw [if_pos hc]
  · intro out h
    unfold mo_sound_source_create at h
    simp only [Bool.not_true, Bool.false_eq_true, if_false] at h
    by_cases hc : (pContext.isNone || channels == 0 || sampleRate == 0 || sampleCount == 0) = true
    · rw [if_pos hc] at h
      simp only [Except.ok.injEq, Prod.mk.injEq] at h
      exact absurd h.1 hne
    · rw [if_neg hc] at h
      by_cases hbig : sampleCount > SIZE_MAX / 2
      · rw [if_pos hbig] at h
        simp only [Except.ok.injEq, Prod.mk.injEq] at h
        exact absurd h.1 hne
      · rw [if_neg hbig] at h
        by_cases hcal : (!callocOk) = true
        · rw [if_pos hcal] at h
          simp only [Except.ok.injEq, Prod.mk.injEq] at h
          exact absurd h.1 hne2
        · rw [if_neg hcal] at h
          simp only [Bool.or_eq_true, beq_iff_eq, not_or] at hc
          cases pSampleData with
          | none => exact absurd h (by simp)
          | some samples =>
            simp only at h
            by_cases hlen : samples.length < sampleCount
            · rw [if_pos hlen] at h
              exact absurd h (by simp)
            · rw [if_neg hlen] at h
              simp only [Except.ok.injEq, Prod.mk.injEq, true_and] at h
              refine ⟨hc.1.1.2, hc.1.2, hc.2, _, samples, h.symm, rfl, rfl, rfl, rfl, ?_, ?_⟩
              · simp only [List.length_take]
                omega
              · intro i hi
                simp only [List.getElem?_take, if_pos hi]
  · intro samples hctx hch hsr hsc hbig hcal hdata hlen
    subst hcal
    subst hdata
    unfold mo_sound_source_create
    have hc : ¬ (pContext.isNone || channels == 0 || sampleRate == 0 || sampleCount == 0) = true := by
      cases pContext with
      | none => exact absurd rfl hctx
      | some c => simp [hch, hsr, hsc]
    simp only [Bool.not_true, Bool.false_eq_true, if_false]
    rw [if_neg hc, if_neg (by omega), if_neg (by omega)]

/-- C16, on concrete inputs: zero channels are rejected, and three of four
given samples are copied. -/
theorem C16_witness :
    mo_sound_source_create (2 ^ 64 - 1) (some emptyContext) 0 44100 3 (some [10, 20, 30, 40])
        true true = .ok (MO_INVALID_ARGS, none)
    ∧ mo_sound_source_create (2 ^ 64 - 1) (some emptyContext) 1 44100 3 (some [10, 20, 30, 40])
        true true = .ok (MO_SUCCESS, some monoSource)
    ∧ (((0 : Nat) = 0 ∨ 44100 = 0 ∨ 3 = 0) →
        mo_sound_source_create (2 ^ 64 - 1) (some emptyContext) 0 44100 3 (some [10, 20, 30, 40])
          true true = .ok (MO_INVALID_ARGS, none)) :=
  ⟨by decide!, by decide!,
    (C16_source_create_rejects_degenerate (2 ^ 64 - 1) (some emptyContext) 0 44100 3
      (some [10, 20, 30, 40]) true).1⟩


/-! ## Deleting a sound -/

theorem erase_eq_eraseIdx_first (p : Nat) :
    ∀ (l : List Nat) (k : Nat), l[k]? = some p → (∀ j, j < k → l[j]? ≠ some p) →
      l.erase p = l.eraseIdx k
  | [], k, h, _ => by simp at h
  | a :: l, 0, h, _ => by
    simp only [List.getElem?_cons_zero, Option.some.injEq] at h
    subst h
    simp
  | a :: l, k + 1, h, hfirst => by
    have ha : a ≠ p := by
      intro e
      have := hfirst 0 (Nat.succ_pos k)
      simp [e] at this
    have hne : (a == p) = false := by simpa using ha
    rw [List.erase_cons, hne]
    simp only [List.eraseIdx_cons_succ, Bool.false_eq_true, if_false]
    congr 1
    apply erase_eq_eraseIdx_first p l k
    · simpa using h
    · intro j hj
      have := hfirst (j + 1) (Nat.succ_lt_succ hj)
      simpa using this

theorem shiftSounds_spec (n : Nat) (hn32 : n < 2 ^ 32) (hn1 : 1 ≤ n) :
    ∀ (fuel i : Nat) (cells : List Nat), n ≤ cells.length → n - 1 - i ≤ fuel →
      ∃ cells1, shiftSounds n fuel i cells = .ok cells1
        ∧ cells1.length = cells.length
        ∧ ∀ j, cells1[j]? = if i ≤ j ∧ j < n - 1 then cells[j + 1]? else cells[j]? := by
  have hm : (n + 2 ^ 32 - 1) % 2 ^ 32 = n - 1 := by omega
  intro fuel
  induction fuel with
  | zero =>
    intro i cells hlen hfuel
    have hi : ¬ i < n - 1 := by omega
    refine ⟨cells, ?_, rfl, ?_⟩
    · rw [shiftSounds, hm, if_neg hi]
    · intro j
      rw [if_neg (by omega)]
  | succ fuel ih =>
    intro i cells hlen hfuel
    by_cases hi : i < n - 1
    · have h1 : i + 1 < cells.length := by omega
      have h0 : i < cells.length := by omega
      obtain ⟨cells1, hrun, hl, hget⟩ := ih (i + 1) (cells.set i cells[i + 1])
        (by rw [List.length_set]; exact hlen) (by omega)
      refine ⟨cells1, ?_, ?_, ?_⟩
      · rw [shiftSounds, hm, if_pos hi]
        simp only [List.getElem?_eq_getElem h1, if_pos h0]
        exact hrun
      · rw [hl, List.length_set]
      · intro j
        rw [hget j]
        by_cases hj : i + 1 ≤ j ∧ j < n - 1
        · rw [if_pos hj, if_pos ⟨by omega, hj.2⟩, List.getElem?_set]
          rw [if_neg (by omega)]
        · rw [if_neg hj, List.getElem?_set]
          by_cases hij : i = j
          · subst hij
            rw [if_pos rfl, if_pos h0, if_pos ⟨le_refl _, hi⟩, List.getElem?_eq_getElem h1]
          · rw [if_neg hij, if_neg (by omega)]
    · refine ⟨cells, ?_, rfl, ?_⟩
      · rw [shiftSounds, hm, if_neg hi]
      · intro j
        rw [if_neg (by omega)]

theorem findAndRemove_spec (p : Nat) (arr : SoundArray) (hn32 : arr.soundCount < 2 ^ 32)
    (hlen : arr.soundCount ≤ arr.ppSounds.length) :
    ∀ (fuel i : Nat), arr.soundCount - i ≤ fuel → (∀ j, j < i → arr.ppSounds[j]? ≠ some p) →
      (∃ k cells1, k < arr.soundCount ∧ arr.ppSounds[k]? = some p
          ∧ (∀ j, j < k → arr.ppSounds[j]? ≠ some p)
          ∧ findAndRemove p arr fuel i
              = .ok { ppSounds := cells1, soundCount := arr.soundCount - 1 }
          ∧ cells1.length = arr.ppSounds.length
          ∧ ∀ j, cells1[j]?
              = if k ≤ j ∧ j < arr.soundCount - 1 then arr.ppSounds[j + 1]?
                else arr.ppSounds[j]?)
      ∨ ((∀ j, j < arr.soundCount → arr.ppSounds[j]? ≠ some p)
          ∧ findAndRemove p arr fuel i = .ok arr) := by
  intro fuel
  induction fuel with
  | zero =>
    intro i hfuel hbefore
    have hi : ¬ i < arr.soundCount := by omega
    refine Or.inr ⟨fun j hj => hbefore j (by omega), ?_⟩
    rw [findAndRemove, if_neg hi]
  | succ fuel ih =>
    intro i hfuel hbefore
    by_cases hi : i < arr.soundCount
    · have h0 : i < arr.ppSounds.length := by omega
      by_cases hp : arr.ppSounds[i] = p
      · obtain ⟨cells1, hrun, hl, hget⟩ := shiftSounds_spec arr.soundCount hn32 (by omega)
          arr.soundCount i arr.ppSounds hlen (by omega)
        have hm : (arr.soundCount + 2 ^ 32 - 1) % 2 ^ 32 = arr.soundCount - 1 := by omega
        refine Or.inl ⟨i, cells1, hi, ?_, hbefore, ?_, hl, hget⟩
        · rw [List.getElem?_eq_getElem h0, hp]
        · rw [findAndRemove, if_pos hi]
          simp only [List.getElem?_eq_getElem h0, if_pos hp, hrun, hm]
      · have hstep : findAndRemove p arr (fuel + 1) i = findAndRemove p arr fuel (i + 1) := by
          rw [findAndRemove, if_pos hi]
          simp only [List.getElem?_eq_getElem h0, if_neg hp]
        rw [hstep]
        apply ih (i + 1) (by omega)
        intro j hj
        by_cases hji : j = i
        · subst hji
          rw [List.getElem?_eq_getElem h0]
          intro e
          exact hp (Option.some.inj e)
        · exact hbefore j (by omega)
    · refine Or.inr ⟨fun j hj => hbefore j (by omega), ?_⟩
      rw [findAndRemove, if_neg hi]

theorem mem_take_iff (p n : Nat) (cells : List Nat) :
    p ∈ cells.take n ↔ ∃ j, j < n ∧ cells[j]? = some p := by
  rw [List.mem_iff_getElem?]
  constructor
  · rintro ⟨j, hj⟩
    rw [List.getElem?_take] at hj
    by_cases h : j < n
    · rw [if_pos h] at hj; exact ⟨j, h, hj⟩
    · rw [if_neg h] at hj; exact absurd hj (by simp)
  · rintro ⟨j, h, hj⟩
    exact ⟨j, by rw [List.getElem?_take, if_pos h]; exact hj⟩

/-- C14: `mo_sound_delete(pSound)` on a registry whose count is a `mo_uint32`
and does not exceed the length of the array.  The call returns, the array
keeps its length, and the live entries afterwards are the live entries before
with the first entry equal to `pSound` erased.  When `pSound` is among the
live entries, at position `k` and at no earlier position, the count goes down
by exactly 1, the entries before `k` are unchanged and every later live entry
has moved one position to the left; when it is not among them, array and
count are unchanged. -/
theorem C14_delete_removes_one_entry (arr : SoundArray) (p : Nat)
    (hcount : arr.soundCount ≤ arr.ppSounds.length) (h32 : arr.soundCount < 2 ^ 32) :
    ∃ arr1, mo_sound_delete (some p) arr = .ok arr1
      ∧ arr1.ppSounds.length = arr.ppSounds.length
      ∧ arr1.ppSounds.take arr1.soundCount = (arr.ppSounds.take arr.soundCount).erase p
      ∧ (p ∈ arr.ppSounds.take arr.soundCount →
          arr1.soundCount + 1 = arr.soundCount
          ∧ ∃ k, k < arr.soundCount ∧ arr.ppSounds[k]? = some p
            ∧ (∀ j, j < k → arr.ppSounds[j]? ≠ some p)
            ∧ (∀ j, j < k → arr1.ppSounds[j]? = arr.ppSounds[j]?)
            ∧ (∀ j, k ≤ j → j < arr1.soundCount → arr1.ppSounds[j]? = arr.ppSounds[j + 1]?))
      ∧ (p ∉ arr.ppSounds.take arr.soundCount → arr1 = arr) := by
  rcases findAndRemove_spec p arr h32 hcount arr.soundCount 0 (by omega)
      (fun j hj => absurd hj (Nat.not_lt_zero j)) with
    ⟨k, cells1, hk, hpk, hfirst, hrun, hl, hget⟩ | ⟨hnone, hrun⟩
  · have hmem : p ∈ arr.ppSounds.take arr.soundCount :=
      (mem_take_iff p _ _).2 ⟨k, hk, hpk⟩
    refine ⟨_, hrun, hl, ?_, ?_, fun h => absurd hmem h⟩
    · rw [erase_eq_eraseIdx_first p (arr.ppSounds.take arr.soundCount) k
        (by rw [List.getElem?_take, if_pos hk]; exact hpk)
        (fun j hj => by rw [List.getElem?_take, if_pos (by omega)]; exact hfirst j hj)]
      apply List.ext_getElem?
      intro j
      simp only [List.getElem?_take, List.getElem?_eraseIdx, hget]
      by_cases hj : j < arr.soundCount - 1
      · rw [if_pos hj]
        by_cases hjk : j < k
        · rw [if_neg (by omega), if_pos hjk, if_pos (by omega)]
        · rw [if_pos ⟨by omega, hj⟩, if_neg hjk, if_pos (by omega)]
      · rw [if_neg hj]
        by_cases hjk : j < k
        · omega
        · rw [if_neg hjk, if_neg (by omega)]
    · intro _
      refine ⟨by simp only; omega, k, hk, hpk, hfirst, ?_, ?_⟩
      · intro j hj
        simp only [hget]
        rw [if_neg (by omega)]
      · intro j hkj hj
        simp only [hget]
        simp only at hj
        rw [if_pos ⟨hkj, hj⟩]
  · have hnot : p ∉ arr.ppSounds.take arr.soundCount := by
      intro h
      obtain ⟨j, hj, hpj⟩ := (mem_take_iff p _ _).1 h
      exact hnone j hj hpj
    refine ⟨arr, hrun, rfl, (List.erase_of_not_mem hnot).symm, fun h => absurd h hnot,
      fun _ => rfl⟩

/-- C14, on concrete inputs: deleting the sound at address 10 from the live
entries 40, 10, 30, 20 leaves 40, 30, 20; deleting the last one, 20, leaves
40, 10, 30; deleting a sound that is not registered changes nothing. -/
theorem C14_witness :
    mo_sound_delete (some 10) fourSounds
      = .ok { ppSounds := [40, 30, 20, 20, 0, 0], soundCount := 3 }
    ∧ mo_sound_delete (some 20) fourSounds
      = .ok { ppSounds := [40, 10, 30, 20, 0, 0], soundCount := 3 }
    ∧ mo_sound_delete (some 50) fourSounds = .ok fourSounds
    ∧ ∃ arr1, mo_sound_delete (some 10) fourSounds = .ok arr1
      ∧ arr1.ppSounds.length = fourSounds.ppSounds.length
      ∧ arr1.ppSounds.take arr1.soundCount
          = (fourSounds.ppSounds.take fourSounds.soundCount).erase 10
      ∧ (10 ∈ fourSounds.ppSounds.take fourSounds.soundCount →
          arr1.soundCount + 1 = fourSounds.soundCount
          ∧ ∃ k, k < fourSounds.soundCount ∧ fourSounds.ppSounds[k]? = some 10
            ∧ (∀ j, j < k → fourSounds.ppSounds[j]? ≠ some 10)
            ∧ (∀ j, j < k → arr1.ppSounds[j]? = fourSounds.ppSounds[j]?)
            ∧ (∀ j, k ≤ j → j < arr1.soundCount →
                arr1.ppSounds[j]? = fourSounds.ppSounds[j + 1]?))
      ∧ (10 ∉ fourSounds.ppSounds.take fourSounds.soundCount → arr1 = fourSounds) :=
  ⟨by decide, by decide, by decide,
    C14_delete_removes_one_entry fourSounds 10 (by decide) (by decide)⟩

/-! ## The sample conversions of the WAV decoder -/

theorem mapM_ok (f : Nat → Except Fault Int) (g : Nat → Int) :
    ∀ (l : List Nat), (∀ i ∈ l, f i = .ok (g i)) → l.mapM f = .ok (l.map g)
  | [], _ => rfl
  | a :: l, h => by
    rw [List.mapM_cons, h a (List.mem_cons_self a l),
      mapM_ok f g l (fun i hi => h i (List.mem_cons_of_mem a hi))]
    rfl

/-- A sample loop whose passes all succeed yields the list of their values. -/
theorem forSamples_ok (n : Nat) (f : Nat → Except Fault Int) (g : Nat → Int)
    (h : ∀ i, i < n → f i = .ok (g i)) :
    forSamples n f = .ok ((List.range n).map g) :=
  mapM_ok f g (List.range n) (fun i hi => h i (List.mem_range.1 hi))

theorem byteAt_ok (data : List Nat) (i : Nat) (h : i < data.length) :
    byteAt data i = .ok (data.getD i 0) := by
  unfold byteAt
  rw [List.getD_eq_getElem?_getD, List.getElem?_eq_getElem h]
  rfl

theorem getD_lt (data : List Nat) (hbytes : ∀ b ∈ data, b < 256) (i : Nat) :
    data.getD i 0 < 256 := by
  rw [List.getD_eq_getElem?_getD]
  by_cases h : i < data.length
  · rw [List.getElem?_eq_getElem h]
    exact hbytes _ (List.getElem_mem h)
  · rw [List.getElem?_eq_none (by omega)]
    decide

theorem getElem?_getD (data : List Nat) (i : Nat) (h : i < data.length) :
    data[i]? = some (data.getD i 0) := by
  rw [List.getD_eq_getElem?_getD, List.getElem?_eq_getElem h]
  rfl

theorem range_map_getElem? (n : Nat) (g : Nat → Int) (i : Nat) (h : i < n) :
    ((List.range n).map g)[i]? = some (g i) := by
  rw [List.getElem?_map, List.getElem?_range h]
  rfl


theorem pcm8_value (b : Nat) (hb : b < 256) :
    toInt16Wrap (((b : Int) - 128) * 2 ^ 8) = ((b : Int) - 128) * 256 := by
  unfold toInt16Wrap
  norm_num
  omega

theorem pcm16_value (b0 b1 : Nat) (h0 : b0 < 256) (h1 : b1 < 256) :
    toInt16Wrap ((b0 + 256 * b1 : Nat) : Int) = signed16 (b0 + 256 * b1) := by
  unfold toInt16Wrap signed16
  split <;> omega

theorem pcm24_bits (s0 s1 s2 : Nat) (h0 : s0 < 256) (h1 : s1 < 256) (h2 : s2 < 256) :
    ((s0 <<< 8) % 2 ^ 32) ||| ((s1 <<< 16) % 2 ^ 32) ||| ((s2 <<< 24) % 2 ^ 32)
      = s0 * 256 + s1 * 65536 + s2 * 16777216 := by
  have e0 : (s0 <<< 8) % 2 ^ 32 = 2 ^ 8 * s0 := by
    rw [Nat.shiftLeft_eq, Nat.mul_comm]; apply Nat.mod_eq_of_lt; norm_num; omega
  have e1 : (s1 <<< 16) % 2 ^ 32 = 2 ^ 16 * s1 := by
    rw [Nat.shiftLeft_eq, Nat.mul_comm]; apply Nat.mod_eq_of_lt; norm_num; omega
  have e2 : (s2 <<< 24) % 2 ^ 32 = 2 ^ 24 * s2 := by
    rw [Nat.shiftLeft_eq, Nat.mul_comm]; apply Nat.mod_eq_of_lt; norm_num; omega
  rw [e0, e1, e2]
  have a : 2 ^ 16 * s1 + 2 ^ 8 * s0 = 2 ^ 16 * s1 ||| 2 ^ 8 * s0 :=
    Nat.mul_add_lt_is_or (by norm_num; omega) s1
  have hlt : 2 ^ 16 * s1 ||| 2 ^ 8 * s0 < 2 ^ 24 := by
    rw [← a]; norm_num; omega
  have b : 2 ^ 24 * s2 + (2 ^ 16 * s1 ||| 2 ^ 8 * s0)
      = 2 ^ 24 * s2 ||| (2 ^ 16 * s1 ||| 2 ^ 8 * s0) :=
    Nat.mul_add_lt_is_or hlt s2
  rw [Nat.lor_comm (2 ^ 8 * s0) (2 ^ 16 * s1), Nat.lor_comm _ (2 ^ 24 * s2), ← b, ← a]
  norm_num
  omega

theorem pcm24_value (s0 s1 s2 : Nat) (h0 : s0 < 256) (h1 : s1 < 256) (h2 : s2 < 256) :
    toInt16Wrap (toInt32 (((s0 <<< 8) % 2 ^ 32) ||| ((s1 <<< 16) % 2 ^ 32)
        ||| ((s2 <<< 24) % 2 ^ 32)) >>> (16 : Nat))
      = signed16 ((s0 + 256 * s1 + 65536 * s2) / 2 ^ 8) := by
  rw [pcm24_bits s0 s1 s2 h0 h1 h2, Int.shiftRight_eq_div_pow]
  have hq : (s0 + 256 * s1 + 65536 * s2) / 2 ^ 8 = s1 + 256 * s2 := by
    norm_num; omega
  rw [hq]
  unfold toInt16Wrap toInt32 signed16
  norm_num
  split <;> split <;> omega

theorem pcm32_value (b0 b1 b2 b3 : Nat) (h0 : b0 < 256) (h1 : b1 < 256) (h2 : b2 < 256)
    (h3 : b3 < 256) :
    toInt16Wrap ((leValue [b0, b1, b2, b3] >>> 16 : Nat) : Int)
      = signed16 ((b0 + 256 * b1 + 65536 * b2 + 16777216 * b3) / 2 ^ 16) := by
  have e : leValue [b0, b1, b2, b3] >>> 16 = b2 + 256 * b3 := by
    simp only [leValue, Nat.shiftRight_eq_div_pow]
    norm_num; omega
  have hq : (b0 + 256 * b1 + 65536 * b2 + 16777216 * b3) / 2 ^ 16 = b2 + 256 * b3 := by
    norm_num; omega
  rw [e, hq]
  unfold toInt16Wrap signed16
  split <;> omega


theorem pcm8At_ok (data : List Nat) (hbytes : ∀ b ∈ data, b < 256) (i : Nat)
    (h : i < data.length) :
    pcm8At data i = .ok ((((data.getD i 0 : Nat) : Int) - 128) * 256) := by
  unfold pcm8At
  rw [byteAt_ok data i h]
  simp only [bind, Except.bind, pure, Except.pure]
  rw [pcm8_value _ (getD_lt data hbytes i)]

theorem pcm16At_ok (data : List Nat) (hbytes : ∀ b ∈ data, b < 256) (i : Nat)
    (h : i * 2 + 1 < data.length) :
    pcm16At data i = .ok (signed16 (data.getD (i * 2) 0 + 256 * data.getD (i * 2 + 1) 0)) := by
  unfold pcm16At
  rw [byteAt_ok data (i * 2 + 0) (by omega), byteAt_ok data (i * 2 + 1) h]
  simp only [bind, Except.bind, pure, Except.pure, Nat.add_zero]
  rw [pcm16_value _ _ (getD_lt data hbytes _) (getD_lt data hbytes _)]

theorem pcm24At_ok (data : List Nat) (hbytes : ∀ b ∈ data, b < 256) (i : Nat)
    (h : i * 3 + 2 < data.length) :
    pcm24At data i
      = .ok (signed16 ((data.getD (i * 3) 0 + 256 * data.getD (i * 3 + 1) 0
              + 65536 * data.getD (i * 3 + 2) 0) / 2 ^ 8)) := by
  unfold pcm24At
  rw [byteAt_ok data (i * 3 + 0) (by omega), byteAt_ok data (i * 3 + 1) (by omega),
    byteAt_ok data (i * 3 + 2) h]
  simp only [bind, Except.bind, pure, Except.pure, Nat.add_zero]
  rw [pcm24_value _ _ _ (getD_lt data hbytes _) (getD_lt data hbytes _) (getD_lt data hbytes _)]

theorem pcm32At_ok (data : List Nat) (hbytes : ∀ b ∈ data, b < 256) (i : Nat)
    (h : i * 4 + 3 < data.length) :
    pcm32At data i
      = .ok (signed16 ((data.getD (i * 4) 0 + 256 * data.getD (i * 4 + 1) 0
              + 65536 * data.getD (i * 4 + 2) 0 + 16777216 * data.getD (i * 4 + 3) 0)
              / 2 ^ 16)) := by
  unfold pcm32At
  rw [byteAt_ok data (i * 4 + 0) (by omega), byteAt_ok data (i * 4 + 1) (by omega),
    byteAt_ok data (i * 4 + 2) (by omega), byteAt_ok data (i * 4 + 3) h]
  simp only [bind, Except.bind, pure, Except.pure, Nat.add_zero]
  rw [pcm32_value _ _ _ _ (getD_lt data hbytes _) (getD_lt data hbytes _)
    (getD_lt data hbytes _) (getD_lt data hbytes _)]

/-- C20: the integer PCM conversions of `mo_sound_source_load__wav`, for data
bytes that are bytes (below 256) and a buffer that holds the sample bytes of
`sampleCount` samples.  The conversion returns `sampleCount` samples; 8-bit:
sample `i` is `(b - 128) * 256` for the byte `b` at position `i`; 16-bit: sample
`i` is the signed 16-bit number with the bytes `b0`, `b1` at position `2 * i`
(low byte first), which is a plain copy; 24-bit and 32-bit: sample `i` is the
signed 16-bit number formed by the most significant 16 bits of the
little-endian number at position `3 * i` or `4 * i`. -/
theorem C20_integer_pcm_conversion (fmt : WavFmt) (data : List Nat) (sampleCount : Nat)
    (hbytes : ∀ b ∈ data, b < 256) :
    (fmt.bitsPerSample = 8 → sampleCount * 1 ≤ data.length →
      ∃ samples, wavSamples 0x0001 fmt sampleCount data = .ok (some samples)
        ∧ samples.length = sampleCount
        ∧ ∀ i, i < sampleCount → ∃ b, data[i]? = some b
            ∧ samples[i]? = some (((b : Int) - 128) * 256))
    ∧ (fmt.bitsPerSample = 16 → sampleCount * 2 ≤ data.length →
      ∃ samples, wavSamples 0x0001 fmt sampleCount data = .ok (some samples)
        ∧ samples.length = sampleCount
        ∧ ∀ i, i < sampleCount → ∃ b0 b1, data[i * 2]? = some b0 ∧ data[i * 2 + 1]? = some b1
            ∧ samples[i]? = some (signed16 (b0 + 256 * b1)))
    ∧ (fmt.bitsPerSample = 24 → sampleCount * 3 ≤ data.length →
      ∃ samples, wavSamples 0x0001 fmt sampleCount data = .ok (some samples)
        ∧ samples.length = sampleCount
        ∧ ∀ i, i < sampleCount → ∃ b0 b1 b2, data[i * 3]? = some b0
            ∧ data[i * 3 + 1]? = some b1 ∧ data[i * 3 + 2]? = some b2
            ∧ samples[i]? = some (signed16 ((b0 + 256 * b1 + 65536 * b2) / 2 ^ 8)))
    ∧ (fmt.bitsPerSample = 32 → sampleCount * 4 ≤ data.length →
      ∃ samples, wavSamples 0x0001 fmt sampleCount data = .ok (some samples)
        ∧ samples.length = sampleCount
        ∧ ∀ i, i < sampleCount → ∃ b0 b1 b2 b3, data[i * 4]? = some b0
            ∧ data[i * 4 + 1]? = some b1 ∧ data[i * 4 + 2]? = some b2
            ∧ data[i * 4 + 3]? = some b3
            ∧ samples[i]? = some (signed16
                ((b0 + 256 * b1 + 65536 * b2 + 16777216 * b3) / 2 ^ 16))) := by
  refine ⟨?_, ?_, ?_, ?_⟩
  · intro hbits hlen
    refine ⟨(List.range sampleCount).map
      (fun i => (((data.getD i 0 : Nat) : Int) - 128) * 256), ?_, ?_, ?_⟩
    · rw [wavSamples, if_pos rfl, hbits, if_neg (by decide), if_pos rfl, if_neg (by omega),
        forSamples_ok sampleCount _ _ (fun i hi => pcm8At_ok data hbytes i (by omega))]
      rfl
    · simp
    · intro i hi
      exact ⟨_, getElem?_getD data i (by omega), range_map_getElem? _ _ i hi⟩
  · intro hbits hlen
    refine ⟨(List.range sampleCount).map
      (fun i => signed16 (data.getD (i * 2) 0 + 256 * data.getD (i * 2 + 1) 0)), ?_, ?_, ?_⟩
    · rw [wavSamples, if_pos rfl, hbits, if_pos rfl,
        forSamples_ok sampleCount _ _ (fun i hi => pcm16At_ok data hbytes i (by omega))]
      rfl
    · simp
    · intro i hi
      exact ⟨_, _, getElem?_getD data _ (by omega), getElem?_getD data _ (by omega),
        range_map_getElem? _ _ i hi⟩
  · intro hbits hlen
    refine ⟨(List.range sampleCount).map
      (fun i => signed16 ((data.getD (i * 3) 0 + 256 * data.getD (i * 3 + 1) 0
        + 65536 * data.getD (i * 3 + 2) 0) / 2 ^ 8)), ?_, ?_, ?_⟩
    · rw [wavSamples, if_pos rfl, hbits, if_neg (by decide), if_neg (by decide), if_pos rfl,
        if_neg (by omega),
        forSamples_ok sampleCount _ _ (fun i hi => pcm24At_ok data hbytes i (by omega))]
      rfl
    · simp
    · intro i hi
      exact ⟨_, _, _, getElem?_getD data _ (by omega), getElem?_getD data _ (by omega),
        getElem?_getD data _ (by omega), range_map_getElem? _ _ i hi⟩
  · intro hbits hlen
    refine ⟨(List.range sampleCount).map
      (fun i => signed16 ((data.getD (i * 4) 0 + 256 * data.getD (i * 4 + 1) 0
        + 65536 * data.getD (i * 4 + 2) 0 + 16777216 * data.getD (i * 4 + 3) 0) / 2 ^ 16)), ?_, ?_, ?_⟩
    · rw [wavSamples, if_pos rfl, hbits, if_neg (by decide), if_neg (by decide),
        if_neg (by decide), if_pos rfl, if_neg (by omega),
        forSamples_ok sampleCount _ _ (fun i hi => pcm32At_ok data hbytes i (by omega))]
      rfl
    · simp
    · intro i hi
      exact ⟨_, _, _, _, getElem?_getD data _ (by omega), getElem?_getD data _ (by omega),
        getElem?_getD data _ (by omega), getElem?_getD data _ (by omega),
        range_map_getElem? _ _ i hi⟩


/-- C20, on concrete inputs: the four conversions inside complete files, and
the statement for four 8-bit samples. -/
theorem C20_witness :
    (∀ b ∈ [0, 128, 255, 7], b < 256)
    ∧ mo_sound_source_load__wav true (some (riffFile 1 1 8 3 [0, 128, 255]))
        = .ok { pSamples := some [-32768, 0, 32512], channels := 1, sampleRate := 8000,
                sampleCount := 3 }
    ∧ mo_sound_source_load__wav true (some (riffFile 1 2 16 4 [0x34, 0x12, 0x00, 0x80]))
        = .ok { pSamples := some [0x1234, -32768], channels := 1, sampleRate := 8000,
                sampleCount := 2 }
    ∧ mo_sound_source_load__wav true
          (some (riffFile 1 3 24 6 [0xFF, 0x34, 0x12, 0x01, 0xFF, 0xFF]))
        = .ok { pSamples := some [0x1234, -1], channels := 1, sampleRate := 8000,
                sampleCount := 2 }
    ∧ mo_sound_source_load__wav true
          (some (riffFile 1 4 32 8 [0xFF, 0xFF, 0x34, 0x12, 0x01, 0x00, 0x00, 0x80]))
        = .ok { pSamples := some [0x1234, -32768], channels := 1, sampleRate := 8000,
                sampleCount := 2 }
    ∧ ((monoFmt 1 1 8).bitsPerSample = 8 → 4 * 1 ≤ [0, 128, 255, 7].length →
      ∃ samples, wavSamples 0x0001 (monoFmt 1 1 8) 4 [0, 128, 255, 7] = .ok (some samples)
        ∧ samples.length = 4
        ∧ ∀ i, i < 4 → ∃ b : Nat, [0, 128, 255, 7][i]? = some b
            ∧ samples[i]? = some (((b : Int) - 128) * 256)) :=
  ⟨by decide, by decide!, by decide!, by decide!, by decide!,
    (C20_integer_pcm_conversion (monoFmt 1 1 8) [0, 128, 255, 7] 4 (by decide)).1⟩

theorem law_tables_eq :
    ∀ b, b < 256 →
      (alawTable[b]? = some (genALaw b) ∧ genALaw b < 65536)
      ∧ (mulawTable[b]? = some (genMuLaw b) ∧ genMuLaw b < 65536) := by
  decide!

theorem toInt16Wrap_eq_signed16 (v : Nat) (h : v < 65536) :
    toInt16Wrap (v : Int) = signed16 v := by
  unfold toInt16Wrap signed16
  split <;> omega

theorem lawAt_ok (table : List Nat) (g : Nat → Nat)
    (htable : ∀ b, b < 256 → table[b]? = some (g b) ∧ g b < 65536)
    (data : List Nat) (hbytes : ∀ b ∈ data, b < 256) (i : Nat) (h : i < data.length) :
    lawAt table data i = .ok (signed16 (g (data.getD i 0))) := by
  obtain ⟨ht, hg⟩ := htable _ (getD_lt data hbytes i)
  unfold lawAt
  rw [byteAt_ok data i h]
  simp only [bind, Except.bind, ht, pure, Except.pure]
  rw [toInt16Wrap_eq_signed16 _ hg]

/-- C19: the two lookup tables of `mo_sound_source_load__wav` against the
generator `tools/mintaro_gen_law.c`, and the conversion of A-law (format tag
6) and mu-law (format tag 7) data.  Each table has 256 entries, and for every
byte `b` the entry `b` is the 16-bit value the generator prints for `b`.  For
data bytes below 256 and a buffer of at least `sampleCount` bytes, the
conversion returns `sampleCount` samples, and sample `i` is the table entry of
the byte at position `i`, read as a signed 16-bit number. -/
theorem C19_law_tables_match_generator (fmt : WavFmt) (data : List Nat) (sampleCount : Nat)
    (hbytes : ∀ b ∈ data, b < 256) (hlen : sampleCount * 1 ≤ data.length) :
    alawTable.length = 256 ∧ mulawTable.length = 256
    ∧ (∀ b, b < 256 → alawTable[b]? = some (genALaw b) ∧ mulawTable[b]? = some (genMuLaw b))
    ∧ (∃ samples, wavSamples 0x0006 fmt sampleCount data = .ok (some samples)
        ∧ samples.length = sampleCount
        ∧ ∀ i, i < sampleCount → ∃ b entry, data[i]? = some b ∧ alawTable[b]? = some entry
            ∧ entry = genALaw b ∧ samples[i]? = some (signed16 entry))
    ∧ (∃ samples, wavSamples 0x0007 fmt sampleCount data = .ok (some samples)
        ∧ samples.length = sampleCount
        ∧ ∀ i, i < sampleCount → ∃ b entry, data[i]? = some b ∧ mulawTable[b]? = some entry
            ∧ entry = genMuLaw b ∧ samples[i]? = some (signed16 entry)) := by
  have ha : ∀ b, b < 256 → alawTable[b]? = some (genALaw b) ∧ genALaw b < 65536 :=
    fun b hb => (law_tables_eq b hb).1
  have hu : ∀ b, b < 256 → mulawTable[b]? = some (genMuLaw b) ∧ genMuLaw b < 65536 :=
    fun b hb => (law_tables_eq b hb).2
  refine ⟨by decide!, by decide!, fun b hb => ⟨(ha b hb).1, (hu b hb).1⟩, ?_, ?_⟩
  · refine ⟨(List.range sampleCount).map (fun i => signed16 (genALaw (data.getD i 0))),
      ?_, ?_, ?_⟩
    · rw [wavSamples, if_neg (by decide), if_neg (by decide), if_pos rfl, if_neg (by omega),
        forSamples_ok sampleCount _ _
          (fun i hi => lawAt_ok alawTable genALaw ha data hbytes i (by omega))]
      rfl
    · simp
    · intro i hi
      exact ⟨_, _, getElem?_getD data i (by omega), (ha _ (getD_lt data hbytes i)).1, rfl,
        range_map_getElem? _ _ i hi⟩
  · refine ⟨(List.range sampleCount).map (fun i => signed16 (genMuLaw (data.getD i 0))),
      ?_, ?_, ?_⟩
    · rw [wavSamples, if_neg (by decide), if_neg (by decide), if_neg (by decide), if_pos rfl,
        if_neg (by omega),
        forSamples_ok sampleCount _ _
          (fun i hi => lawAt_ok mulawTable genMuLaw hu data hbytes i (by omega))]
      rfl
    · simp
    · intro i hi
      exact ⟨_, _, getElem?_getD data i (by omega), (hu _ (getD_lt data hbytes i)).1, rfl,
        range_map_getElem? _ _ i hi⟩

/-- C19, on concrete inputs: an A-law and a mu-law file of four bytes, and the
statement for these four bytes. -/
theorem C19_witness :
    (∀ b ∈ [0x00, 0x55, 0x80, 0xFF], b < 256)
    ∧ mo_sound_source_load__wav true (some (riffFile 6 1 8 4 [0x00, 0x55, 0x80, 0xFF]))
        = .ok { pSamples := some [-5504, -8, 5504, 848], channels := 1, sampleRate := 8000,
                sampleCount := 4 }
    ∧ mo_sound_source_load__wav true (some (riffFile 7 1 8 4 [0x00, 0x55, 0x80, 0xFF]))
        = .ok { pSamples := some [-32124, -716, 32124, 0], channels := 1, sampleRate := 8000,
                sampleCount := 4 }
    ∧ (alawTable.length = 256 ∧ mulawTable.length = 256
    ∧ (∀ b, b < 256 → alawTable[b]? = some (genALaw b) ∧ mulawTable[b]? = some (genMuLaw b))
    ∧ (∃ samples, wavSamples 0x0006 (monoFmt 6 1 8) 4 [0x00, 0x55, 0x80, 0xFF]
          = .ok (some samples)
        ∧ samples.length = 4
        ∧ ∀ i, i < 4 → ∃ b entry, [0x00, 0x55, 0x80, 0xFF][i]? = some b
            ∧ alawTable[b]? = some entry
            ∧ entry = genALaw b ∧ samples[i]? = some (signed16 entry))
    ∧ (∃ samples, wavSamples 0x0007 (monoFmt 6 1 8) 4 [0x00, 0x55, 0x80, 0xFF]
          = .ok (some samples)
        ∧ samples.length = 4
        ∧ ∀ i, i < 4 → ∃ b entry, [0x00, 0x55, 0x80, 0xFF][i]? = some b
            ∧ mulawTable[b]? = some entry
            ∧ entry = genMuLaw b ∧ samples[i]? = some (signed16 entry))) :=
  ⟨by decide, by decide!, by decide!,
    C19_law_tables_match_generator (monoFmt 6 1 8) [0x00, 0x55, 0x80, 0xFF] 4 (by decide)
      (by decide)⟩


theorem readUInt_ok (n : Nat) (data : List Nat) (h : n ≤ data.length) :
    readUInt n data = .ok (leValue (data.take n), data.drop n) := by
  unfold readUInt
  rw [if_neg (by omega)]

theorem readGUID_ok (data : List Nat) (h : 16 ≤ data.length) :
    readGUID data = .ok (data.take 16, data.drop 16) := by
  unfold readGUID
  rw [if_neg (by omega)]

/-- The search for the data chunk ends before a fuel above the number of
bytes is used up. -/
theorem wavFindData_fuel (isWave64 : Bool) :
    ∀ (fuel : Nat) (data : List Nat), data.length < fuel →
      wavFindData isWave64 fuel data ≠ .error .outOfFuel := by
  intro fuel
  induction fuel with
  | zero => intro data h; omega
  | succ fuel ih =>
    intro data hlen
    rw [wavFindData]
    cases isWave64
    · simp only [Bool.not_false, if_true]
      by_cases h8 : data.length < 8
      · rw [if_pos h8]; simp
      · rw [if_neg h8, readUInt_ok 4 data (by omega)]
        simp only [bind, Except.bind]
        rw [readUInt_ok 4 (data.drop 4) (by rw [List.length_drop]; omega)]
        simp only
        split
        · simp [pure, Except.pure]
        · split
          · simp [pure, Except.pure]
          · apply ih
            simp only [List.length_drop]
            omega
    · simp only [Bool.not_true, Bool.false_eq_true, if_false]
      by_cases h24 : data.length < 24
      · rw [if_pos h24]; simp
      · rw [if_neg h24, readGUID_ok data (by omega)]
        simp only [bind, Except.bind]
        rw [readUInt_ok 8 (data.drop 16) (by rw [List.length_drop]; omega)]
        simp only
        split
        · simp [pure, Except.pure]
        · split
          · simp [pure, Except.pure]
          · apply ih
            simp only [List.length_drop]
            omega

/-- C17 (missing size check of the 16-bit branch): a RIFF/WAVE file of 44
bytes whose data chunk declares 4 bytes of 16-bit PCM and holds none makes the
decoder load bytes behind the end of the buffer, and so does the file with 3
of the 4 bytes; the same truncation is rejected with NULL in the 8-bit and in
the 24-bit branch, and the complete 16-bit file is decoded.  The read of
`extendedSize` is not covered either: in a file that ends one byte after the 16
format bytes of a `fmt ` chunk of declared size 17, two bytes are loaded where
one is left. -/
theorem C17_truncated_pcm16_read_past_end :
    (riffFile 1 2 16 4 []).length = 44
    ∧ mo_sound_source_load__wav true (some (riffFile 1 2 16 4 [])) = .error .srcOutOfBounds
    ∧ mo_sound_source_load__wav true (some (riffFile 1 2 16 4 [1, 0, 2])) = .error .srcOutOfBounds
    ∧ mo_sound_source_load__wav true (some (riffFile 1 1 8 4 [])) = .ok decodeFailed
    ∧ mo_sound_source_load__wav true (some (riffFile 1 3 24 6 [1, 2, 3, 4, 5])) = .ok decodeFailed
    ∧ mo_sound_source_load__wav true (some (riffFile 1 2 16 4 [1, 0, 2, 0]))
        = .ok { pSamples := some [1, 2], channels := 1, sampleRate := 8000, sampleCount := 2 }
    ∧ riffShortFmt.length = 37
    ∧ mo_sound_source_load__wav true (some riffShortFmt) = .error .srcOutOfBounds := by
  decide!

/-! ## Loading a sound source -/

theorem load_unfold (SIZE_MAX : Nat) (ctx : mo_context) (data : List Nat)
    (hasVorbis hasFlac : Bool) (vorbis flac : List Nat → Except Fault Decoded)
    (mallocOk callocOk : Bool) :
    mo_sound_source_load SIZE_MAX (some ctx) true true (some data) hasVorbis hasFlac vorbis flac
        mallocOk callocOk
      = (do
      let d ← mo_sound_source_load__wav mallocOk (some data)
      let called := [DecoderKind.wav]
      let (d, called) ←
        (if hasVorbis && d.pSamples.isNone then do
           let d ← vorbis data
           pure (d, called ++ [DecoderKind.vorbis])
         else pure (d, called))
      let (d, called) ←
        (if hasFlac && d.pSamples.isNone then do
           let d ← flac data
           pure (d, called ++ [DecoderKind.flac])
         else pure (d, called))
      match d.pSamples with
      | none => pure { result := MO_INVALID_RESOURCE, ppSource := none, called := called }
      | some pSampleDataS16 =>
        if d.sampleCount > SIZE_MAX then
          pure { result := MO_INVALID_RESOURCE, ppSource := none, called := called }
        else do
          let (result, ppSource) ←
            mo_sound_source_create SIZE_MAX (some ctx) d.channels d.sampleRate d.sampleCount
              (some pSampleDataS16) true callocOk
          pure { result := result, ppSource := ppSource, called := called }) := by
  rfl

/-- The last step of `mo_sound_source_load` keeps the list of called decoders. -/
theorem load_finish_called (SIZE_MAX : Nat) (ctx : mo_context) (callocOk : Bool) (d : Decoded)
    (called : List DecoderKind) (r : LoadResult)
    (h : (match d.pSamples with
      | none => (pure { result := MO_INVALID_RESOURCE, ppSource := none, called := called } :
          Except Fault LoadResult)
      | some pSampleDataS16 =>
        if d.sampleCount > SIZE_MAX then
          pure { result := MO_INVALID_RESOURCE, ppSource := none, called := called }
        else do
          let (result, ppSource) ←
            mo_sound_source_create SIZE_MAX (some ctx) d.channels d.sampleRate d.sampleCount
              (some pSampleDataS16) true callocOk
          pure { result := result, ppSource := ppSource, called := called }) = .ok r) :
    r.called = called
    ∧ (d.pSamples = none → r.result = MO_INVALID_RESOURCE ∧ r.ppSource = none) := by
  cases hp : d.pSamples with
  | none =>
    rw [hp] at h
    simp only [pure, Except.pure, Except.ok.injEq] at h
    subst h
    exact ⟨rfl, fun _ => ⟨rfl, rfl⟩⟩
  | some p =>
    rw [hp] at h
    simp only at h
    refine ⟨?_, fun h0 => absurd h0 (by simp)⟩
    split at h
    · simp only [pure, Except.pure, Except.ok.injEq] at h
      subst h; rfl
    · cases hc : mo_sound_source_create SIZE_MAX (some ctx) d.channels d.sampleRate
          d.sampleCount (some p) true callocOk with
      | error e => rw [hc] at h; simp [bind, Except.bind] at h
      | ok v =>
        rw [hc] at h
        simp only [bind, Except.bind, pure, Except.pure, Except.ok.injEq] at h
        subst h; rfl

theorem load_called (SIZE_MAX : Nat) (ctx : mo_context) (data : List Nat)
    (hasVorbis hasFlac : Bool) (vorbis flac : List Nat → Except Fault Decoded)
    (mallocOk callocOk : Bool) (r : LoadResult)
    (h : mo_sound_source_load SIZE_MAX (some ctx) true true (some data) hasVorbis hasFlac
          vorbis flac mallocOk callocOk = .ok r) :
    ∃ w, mo_sound_source_load__wav mallocOk (some data) = .ok w
      ∧ ((¬ (hasVorbis = true ∧ w.pSamples = none) ∧ ¬ (hasFlac = true ∧ w.pSamples = none)
            ∧ r.called = [DecoderKind.wav]
            ∧ (w.pSamples = none → r.result = MO_INVALID_RESOURCE ∧ r.ppSource = none))
        ∨ (hasVorbis = true ∧ w.pSamples = none
            ∧ ∃ v, vorbis data = .ok v
              ∧ ((¬ (hasFlac = true ∧ v.pSamples = none)
                    ∧ r.called = [DecoderKind.wav, DecoderKind.vorbis]
                    ∧ (v.pSamples = none → r.result = MO_INVALID_RESOURCE ∧ r.ppSource = none))
                ∨ (hasFlac = true ∧ v.pSamples = none
                    ∧ r.called = [DecoderKind.wav, DecoderKind.vorbis, DecoderKind.flac]
                    ∧ ∃ f, flac data = .ok f
                      ∧ (f.pSamples = none →
                          r.result = MO_INVALID_RESOURCE ∧ r.ppSource = none))))
        ∨ (hasVorbis = false ∧ hasFlac = true ∧ w.pSamples = none
            ∧ r.called = [DecoderKind.wav, DecoderKind.flac]
            ∧ ∃ f, flac data = .ok f
              ∧ (f.pSamples = none → r.result = MO_INVALID_RESOURCE ∧ r.ppSource = none))) := by
  rw [load_unfold] at h
  cases hw : mo_sound_source_load__wav mallocOk (some data) with
  | error e => rw [hw] at h; simp [bind, Except.bind] at h
  | ok w =>
    rw [hw] at h
    refine ⟨w, rfl, ?_⟩
    simp only [bind, Except.bind] at h
    by_cases hv : (hasVorbis && w.pSamples.isNone) = true
    · rw [if_pos hv] at h
      simp only [Bool.and_eq_true, Option.isNone_iff_eq_none] at hv
      cases hvr : vorbis data with
      | error e => rw [hvr] at h; simp at h
      | ok v =>
        rw [hvr] at h
        simp only [pure, Except.pure] at h
        refine Or.inr (Or.inl ⟨hv.1, hv.2, v, rfl, ?_⟩)
        by_cases hf : (hasFlac && v.pSamples.isNone) = true
        · rw [if_pos hf] at h
          simp only [Bool.and_eq_true, Option.isNone_iff_eq_none] at hf
          cases hfr : flac data with
          | error e => rw [hfr] at h; simp at h
          | ok f =>
            rw [hfr] at h
            simp only at h
            obtain ⟨hc, hres⟩ := load_finish_called SIZE_MAX ctx callocOk f _ r h
            exact Or.inr ⟨hf.1, hf.2, hc, f, rfl, hres⟩
        · rw [if_neg hf] at h
          simp only [Bool.and_eq_true, Option.isNone_iff_eq_none] at hf
          obtain ⟨hc, hres⟩ := load_finish_called SIZE_MAX ctx callocOk v _ r h
          exact Or.inl ⟨hf, hc, hres⟩
    · rw [if_neg hv] at h
      simp only [Bool.and_eq_true, Option.isNone_iff_eq_none] at hv
      simp only [pure, Except.pure] at h
      by_cases hf : (hasFlac && w.pSamples.isNone) = true
      · rw [if_pos hf] at h
        simp only [Bool.and_eq_true, Option.isNone_iff_eq_none] at hf
        cases hfr : flac data with
        | error e => rw [hfr] at h; simp at h
        | ok f =>
          rw [hfr] at h
          simp only at h
          obtain ⟨hc, hres⟩ := load_finish_called SIZE_MAX ctx callocOk f _ r h
          have hnv : hasVorbis = false := by
            cases hasVorbis
            · rfl
            · exact absurd ⟨rfl, hf.2⟩ hv
          exact Or.inr (Or.inr ⟨hnv, hf.1, hf.2, hc, f, rfl, hres⟩)
      · rw [if_neg hf] at h
        simp only [Bool.and_eq_true, Option.isNone_iff_eq_none] at hf
        obtain ⟨hc, hres⟩ := load_finish_called SIZE_MAX ctx callocOk w _ r h
        exact Or.inl ⟨hv, hf, hc, hres⟩

/-- When no decoder recognises the bytes, `mo_sound_source_load` returns
`MO_INVALID_RESOURCE` after calling every decoder that is compiled in. -/
theorem load_unrecognised (SIZE_MAX : Nat) (ctx : mo_context) (data : List Nat)
    (hasVorbis hasFlac : Bool) (vorbis flac : List Nat → Except Fault Decoded)
    (mallocOk callocOk : Bool) (w : Decoded)
    (hw : mo_sound_source_load__wav mallocOk (some data) = .ok w) (hwn : w.pSamples = none)
    (hv : hasVorbis = true → ∃ v, vorbis data = .ok v ∧ v.pSamples = none)
    (hf : hasFlac = true → ∃ f, flac data = .ok f ∧ f.pSamples = none) :
    mo_sound_source_load SIZE_MAX (some ctx) true true (some data) hasVorbis hasFlac vorbis flac
        mallocOk callocOk
      = .ok { result := MO_INVALID_RESOURCE, ppSource := none,
              called := DecoderKind.wav ::
                ((if hasVorbis then [DecoderKind.vorbis] else [])
                  ++ (if hasFlac then [DecoderKind.flac] else [])) } := by
  rw [load_unfold, hw]
  simp only [bind, Except.bind]
  cases hasVorbis
  · cases hasFlac
    · simp [pure, Except.pure, hwn]
    · obtain ⟨f, hfr, hfn⟩ := hf rfl
      simp [pure, Except.pure, hwn, hfr, hfn]
  · obtain ⟨v, hvr, hvn⟩ := hv rfl
    cases hasFlac
    · simp [pure, Except.pure, hwn, hvr, hvn]
    · obtain ⟨f, hfr, hfn⟩ := hf rfl
      simp [pure, Except.pure, hwn, hvr, hvn, hfr, hfn]

/-- C18 (amended): `mo_sound_source_load` with a context, a path, an output
handle and a file that could be read.  Whenever the call returns, the WAV
decoder was called first, and the decoders that were called form, in call
order, a sublist of WAV, Vorbis, FLAC; the Vorbis decoder was called exactly
when it is compiled in and the WAV decoder returned NULL; the FLAC decoder was
called exactly when it is compiled in, the WAV decoder returned NULL and the
Vorbis decoder, if compiled in, returned NULL as well.  When every decoder
that is compiled in returns NULL, the call returns `MO_INVALID_RESOURCE` with
the output handle NULL, after calling all of them. -/
theorem C18_decoders_tried_in_order (SIZE_MAX : Nat) (ctx : mo_context) (data : List Nat)
    (hasVorbis hasFlac : Bool) (vorbis flac : List Nat → Except Fault Decoded)
    (mallocOk callocOk : Bool) :
    (∀ r, mo_sound_source_load SIZE_MAX (some ctx) true true (some data) hasVorbis hasFlac
            vorbis flac mallocOk callocOk = .ok r →
      ∃ w, mo_sound_source_load__wav mallocOk (some data) = .ok w
        ∧ r.called.head? = some DecoderKind.wav
        ∧ List.Sublist r.called [DecoderKind.wav, DecoderKind.vorbis, DecoderKind.flac]
        ∧ (DecoderKind.vorbis ∈ r.called ↔ (hasVorbis = true ∧ w.pSamples = none))
        ∧ (DecoderKind.flac ∈ r.called ↔
            (hasFlac = true ∧ w.pSamples = none
              ∧ (hasVorbis = true → ∃ v, vorbis data = .ok v ∧ v.pSamples = none))))
    ∧ (∀ w, mo_sound_source_load__wav mallocOk (some data) = .ok w → w.pSamples = none →
        (hasVorbis = true → ∃ v, vorbis data = .ok v ∧ v.pSamples = none) →
        (hasFlac = true → ∃ f, flac data = .ok f ∧ f.pSamples = none) →
        mo_sound_source_load SIZE_MAX (some ctx) true true (some data) hasVorbis hasFlac
            vorbis flac mallocOk callocOk
          = .ok { result := MO_INVALID_RESOURCE, ppSource := none,
                  called := DecoderKind.wav ::
                    ((if hasVorbis then [DecoderKind.vorbis] else [])
                      ++ (if hasFlac then [DecoderKind.flac] else [])) }) := by
  refine ⟨?_, fun w hw hwn hv hf => load_unrecognised SIZE_MAX ctx data hasVorbis hasFlac
    vorbis flac mallocOk callocOk w hw hwn hv hf⟩
  intro r h
  obtain ⟨w, hw, hcases⟩ := load_called SIZE_MAX ctx data hasVorbis hasFlac vorbis flac
    mallocOk callocOk r h
  refine ⟨w, hw, ?_⟩
  rcases hcases with ⟨hnv, hnf, hc, _⟩ | ⟨hv, hwn, v, hvr, hrest⟩ | ⟨hnv, hf, hwn, hc, _⟩
  · rw [hc]
    refine ⟨rfl, by decide, ?_, ?_⟩
    · simp only [List.mem_singleton, reduceCtorEq, false_iff]
      exact hnv
    · simp only [List.mem_singleton, reduceCtorEq, false_iff]
      intro hx
      exact hnf ⟨hx.1, hx.2.1⟩
  · rcases hrest with ⟨hnf, hc, _⟩ | ⟨hf, hvn, hc, _⟩
    · rw [hc]
      refine ⟨rfl, by decide, ?_, ?_⟩
      · simp [hv, hwn]
      · simp only [List.mem_cons, reduceCtorEq, List.mem_singleton, or_self, false_iff,
          List.not_mem_nil]
        intro hx
        obtain ⟨v1, hv1, hv1n⟩ := hx.2.2 hv
        rw [hvr] at hv1
        cases hv1
        exact hnf ⟨hx.1, hv1n⟩
    · rw [hc]
      refine ⟨rfl, by decide, ?_, ?_⟩
      · simp [hv, hwn]
      · simp only [List.mem_cons, reduceCtorEq, List.mem_singleton, or_true, true_iff,
          List.not_mem_nil, or_false]
        exact ⟨hf, hwn, fun _ => ⟨v, hvr, hvn⟩⟩
  · rw [hc]
    refine ⟨rfl, by decide, ?_, ?_⟩
    · simp [hnv]
    · simp only [List.mem_cons, reduceCtorEq, List.mem_singleton, or_true, true_iff,
        List.not_mem_nil, or_false]
      exact ⟨hf, hwn, fun hx => by rw [hnv] at hx; exact absurd hx (by decide)⟩

/-- C18 (counterexample): for five bytes that none of the three decoders
recognises, `mo_sound_source_load` calls WAV, Vorbis and FLAC in this order and
returns `MO_INVALID_RESOURCE` (-6) with the output handle NULL.  The only
code of the library that speaks of an unsupported format is
`MO_UNSUPPORTED_IMAGE_FORMAT` (-7), and it is not the one returned. -/
theorem C18_unrecognised_bytes_give_invalid_resource :
    mo_sound_source_load (2 ^ 64 - 1) (some emptyContext) true true (some [1, 2, 3, 4, 5])
        true true (mo_sound_source_load__vorbis vorbisRejects true)
        (mo_sound_source_load__flac flacRejects true) true true
      = .ok { result := MO_INVALID_RESOURCE, ppSource := none,
              called := [DecoderKind.wav, DecoderKind.vorbis, DecoderKind.flac] }
    ∧ MO_INVALID_RESOURCE = -6
    ∧ MO_INVALID_RESOURCE ≠ MO_UNSUPPORTED_IMAGE_FORMAT := by
  decide!

/-- C18, on concrete inputs: a WAV file is decoded by the WAV decoder alone,
although the FLAC decoder would accept it; bytes that only the FLAC decoder
accepts pass through all three decoders; and bytes that no decoder accepts
give `MO_INVALID_RESOURCE`. -/
theorem C18_witness :
    mo_sound_source_load (2 ^ 64 - 1) (some emptyContext) true true
        (some (riffFile 1 1 8 3 [0, 128, 255])) true true
        (mo_sound_source_load__vorbis vorbisRejects true)
        (mo_sound_source_load__flac flacTwoSamples true) true true
      = .ok { result := MO_SUCCESS,
              ppSource := some { channels := 1, sampleRate := 8000, sampleCount := 3,
                                 pSampleData := [-32768, 0, 32512] },
              called := [DecoderKind.wav] }
    ∧ mo_sound_source_load (2 ^ 64 - 1) (some emptyContext) true true (some [1, 2, 3, 4, 5])
        true true (mo_sound_source_load__vorbis vorbisRejects true)
        (mo_sound_source_load__flac flacTwoSamples true) true true
      = .ok { result := MO_SUCCESS,
              ppSource := some { channels := 1, sampleRate := 8000, sampleCount := 2,
                                 pSampleData := [1, -2] },
              called := [DecoderKind.wav, DecoderKind.vorbis, DecoderKind.flac] }
    ∧ mo_sound_source_load (2 ^ 64 - 1) (some emptyContext) true true (some [1, 2, 3, 4, 5])
        true false (mo_sound_source_load__vorbis vorbisRejects true)
        (mo_sound_source_load__flac flacTwoSamples true) true true
      = .ok { result := MO_INVALID_RESOURCE, ppSource := none,
              called := DecoderKind.wav ::
                ((if true then [DecoderKind.vorbis] else [])
                  ++ (if false then [DecoderKind.flac] else [])) } :=
  ⟨by decide!, by decide!,
    (C18_decoders_tried_in_order (2 ^ 64 - 1) emptyContext [1, 2, 3, 4, 5] true false
      (mo_sound_source_load__vorbis vorbisRejects true)
      (mo_sound_source_load__flac flacTwoSamples true) true true).2 decodeFailed
      (by decide!) rfl (fun _ => ⟨decodeFailed, by decide!, rfl⟩)
      (fun h => absurd h (by decide))⟩

/-! ## Termination and index safety of the mixing loop -/

theorem mixFrames_none (src : mo_sound_source) (cur : Nat) (vol : F32) (dev off : Nat)
    (buf : List Int) : mixFrames src cur vol dev off 0 buf = .ok buf := by
  unfold mixFrames
  split
  · rfl
  · split <;> rfl

theorem framesLeft_le_zero (src : mo_sound_source) (cur : Nat) :
    framesLeft src cur ≤ framesLeft src 0 := by
  unfold framesLeft
  exact Nat.div_le_div_right (by omega)

/-- A looping sound whose source holds less than one whole frame keeps the
loop running: every pass reads no frame, rewinds the cursor and leaves
`frameCount` as it was, so that no amount of fuel suffices. -/
theorem accumulateLoop_never_ends (vol : F32) (fuel : Nat) :
    ∀ (st : MixState) (fc off : Nat),
      1 ≤ st.sound.pSource.channels →
      st.sound.pSource.sampleCount < 2 ^ 64 →
      st.sound.currentSample ≤ st.sound.pSource.sampleCount →
      mo_sound_is_looping (some st.sound) = true →
      framesLeft st.sound.pSource 0 = 0 →
      0 < fc →
      accumulateLoop 2 vol fuel st fc off = .error .outOfFuel := by
  induction fuel with
  | zero =>
    intro st fc off _ _ _ _ _ hfc
    simp [accumulateLoop, hfc]
  | succ fuel ih =>
    intro st fc off hc hN hcur hloop hL hfc
    have h0 : framesLeft st.sound.pSource st.sound.currentSample = 0 := by
      have := framesLeft_le_zero st.sound.pSource st.sound.currentSample
      omega
    have hb : mixFrames st.sound.pSource st.sound.currentSample vol 2 off
        (framesLeft st.sound.pSource st.sound.currentSample) st.buf = .ok st.buf := by
      rw [h0]; exact mixFrames_none _ _ _ _ _ _
    rw [accumulateLoop_wrap vol fuel st fc off st.buf hc hN hcur (by omega) hloop hb]
    exact ih _ _ _ hc hN (Nat.zero_le _) hloop hL (by omega)

/-- C26 (the loop does not terminate): the source of two channels and one
sample is accepted by `mo_sound_source_create`, and for a looping sound over it
`mo_sound__read_and_accumulate_frames` with one frame to mix does not return,
whatever the fuel: every pass of the `while` loop finds
`framesAvailable = (1 - 0) / 2 = 0`, so `frameCount` stays 1, and rewinds the
cursor to 0.  The same sound without the looping flag returns at once. -/
theorem C26_half_frame_loop_never_returns :
    mo_sound_source_create (2 ^ 64 - 1) (some emptyContext) 2 44100 1 (some [5]) true true
      = .ok (MO_SUCCESS, some halfFrameSource)
    ∧ (∀ fuel, mo_sound__read_and_accumulate_frames fuel 2 false halfFrameLoop (F32.ofInt 1)
        1 [0, 0] = .error .outOfFuel)
    ∧ mo_sound__read_and_accumulate_frames 1 2 false
        (freshSound halfFrameSource MO_SOUND_GROUP_EFFECTS MO_SOUND_FLAG_PLAYING) (F32.ofInt 1)
        1 [0, 0]
      = .ok { totalFramesRead := 0, isSoundMarkedForDeletion := false,
              sound := freshSound halfFrameSource MO_SOUND_GROUP_EFFECTS 0, buf := [0, 0] } := by
  refine ⟨by decide!, ?_, by decide!⟩
  intro fuel
  unfold mo_sound__read_and_accumulate_frames
  rw [if_pos rfl]
  exact accumulateLoop_never_ends _ fuel _ 1 0 (by decide) (by decide) (by decide) (by decide)
    (by decide) (by decide)

/-- C29 (division by zero): a RIFF/WAVE file whose `fmt ` chunk declares 0
channels reaches `dataSize / (blockAlign / channels)` and divides by zero
there, and so does a file that declares 4 channels with a block alignment
of 2, where `blockAlign / channels` is 0; the same file with 2 channels and
block alignment 4 is decoded. -/
theorem C29_zero_channels_divide_by_zero :
    mo_sound_source_load__wav true (some (riffFileChannels 1 0 2 16 4 [1, 0, 2, 0]))
      = .error .divByZero
    ∧ mo_sound_source_load__wav true (some (riffFileChannels 1 4 2 16 4 [1, 0, 2, 0]))
      = .error .divByZero
    ∧ mo_sound_source_load__wav true (some (riffFileChannels 1 2 4 16 4 [1, 0, 2, 0]))
      = .ok { pSamples := some [1, 2], channels := 2, sampleRate := 8000, sampleCount := 2 } := by
  decide!

/-- C30 (region behind the end of the buffer): a stereo 16-bit playback device
of the null backend with a buffer of 10 frames.  The first pass, at timer
frame 5, hands frames 0 to 4 to the client and sets `lastProcessedFrame` to 5.
At timer frame 13 the current position is 3, behind `lastProcessedFrame`;
`mal_device__get_available_frames__null` returns 8 (not more than 10, its
assertion holds), and the pass hands the 8 frames from frame 5 on to the
client, 32 bytes at offset 20 of a buffer of 40 bytes. -/
theorem C30_null_backend_region_past_buffer :
    mainLoopPass__null nullPlayback 5 = .ok { nullPlayback with lastProcessedFrame := 5 }
    ∧ mal_device__get_current_frame__null { nullPlayback with lastProcessedFrame := 5 } 13
        = .ok 3
    ∧ mal_device__get_available_frames__null { nullPlayback with lastProcessedFrame := 5 } 13
        = .ok 8
    ∧ 5 + 8 > nullPlayback.bufferSizeInFrames
    ∧ mainLoopPass__null { nullPlayback with lastProcessedFrame := 5 } 13
        = .error .dstOutOfBounds := by
  decide

/-! ## Index safety of the mixer -/


theorem clampToInt16_cases (x : F32) :
    (∃ v, clampToInt16 x = .ok v) ∨ clampToInt16 x = .error .floatToIntUB := by
  unfold clampToInt16
  split
  · exact Or.inl ⟨_, rfl⟩
  · exact Or.inr rfl

theorem mixChannelMulti_safe (src : mo_sound_source) (cur : Nat) (vol : F32) (c off i k : Nat)
    (b : List Int) (hb : off + 2 * i + 2 ≤ b.length) (hk : k < 2)
    (hs : (cur + (i * c) % 2 ^ 32 + k) % 2 ^ 64 < src.pSampleData.length) :
    (∃ b', mixChannelMulti src cur vol c 2 off i b k = .ok b' ∧ b'.length = b.length)
      ∨ mixChannelMulti src cur vol c 2 off i b k = .error .floatToIntUB := by
  have hd := dstIndex_le i k
  unfold mixChannelMulti
  rw [loadSample_ok src _ hs]
  simp only [bind, Except.bind]
  rw [loadFrame_ok b off _ (by omega)]
  simp only []
  rcases clampToInt16_cases
    (F32.add (F32.ofInt (b.getD (off + (i * 2 + k) % 2 ^ 32) 0))
      (F32.mul (F32.ofInt (src.pSampleData.getD ((cur + (i * c) % 2 ^ 32 + k) % 2 ^ 64) 0)) vol))
    with ⟨v, hv⟩ | hv
  · left
    rw [hv]
    simp only []
    rw [storeFrame_ok b off _ _ (by omega)]
    exact ⟨_, rfl, by simp⟩
  · right
    rw [hv]

theorem mixFrameMulti_safe (src : mo_sound_source) (cur : Nat) (vol : F32) (c off i : Nat)
    (b : List Int) (hb : off + 2 * i + 2 ≤ b.length)
    (hs : ∀ k < 2, (cur + (i * c) % 2 ^ 32 + k) % 2 ^ 64 < src.pSampleData.length) :
    (∃ b', mixFrameMulti src cur vol c 2 off b i = .ok b' ∧ b'.length = b.length)
      ∨ mixFrameMulti src cur vol c 2 off b i = .error .floatToIntUB := by
  have hr : List.range 2 = [0, 1] := by decide
  unfold mixFrameMulti
  rw [hr]
  rcases mixChannelMulti_safe src cur vol c off i 0 b hb (by norm_num) (hs 0 (by norm_num))
    with ⟨b0, h0, l0⟩ | h0
  · rcases mixChannelMulti_safe src cur vol c off i 1 b0 (by omega) (by norm_num)
      (hs 1 (by norm_num)) with ⟨b1, h1, l1⟩ | h1
    · left
      simp only [List.foldlM, bind, Except.bind, pure, Except.pure, h0, h1]
      exact ⟨_, rfl, by omega⟩
    · right
      simp only [List.foldlM, bind, Except.bind, pure, Except.pure, h0, h1]
  · right
    simp only [List.foldlM, bind, Except.bind, pure, Except.pure, h0]

theorem mixFrameStereo_safe (src : mo_sound_source) (cur : Nat) (vol : F32) (c off i : Nat)
    (b : List Int) (hb : off + 2 * i + 2 ≤ b.length)
    (hs : ∀ k < 2, (cur + (i * c) % 2 ^ 32 + k) % 2 ^ 64 < src.pSampleData.length) :
    (∃ b', mixFrameStereo src cur vol c 2 off b i = .ok b' ∧ b'.length = b.length)
      ∨ mixFrameStereo src cur vol c 2 off b i = .error .floatToIntUB := by
  have hd0 := dstIndex_le i 0
  have hd1 := dstIndex_le i 1
  unfold mixFrameStereo
  rw [loadSample_ok src _ (hs 0 (by norm_num)), loadSample_ok src _ (hs 1 (by norm_num))]
  simp only [bind, Except.bind]
  rw [loadFrame_ok b off _ (by omega), loadFrame_ok b off _ (by omega)]
  simp only []
  rcases clampToInt16_cases
    (F32.add (F32.ofInt (b.getD (off + (i * 2 + 0) % 2 ^ 32) 0))
      (F32.mul (F32.ofInt (src.pSampleData.getD ((cur + (i * c) % 2 ^ 32 + 0) % 2 ^ 64) 0)) vol))
    with ⟨v0, hv0⟩ | hv0
  · rw [hv0]
    simp only []
    rw [storeFrame_ok b off _ _ (by omega)]
    simp only []
    rcases clampToInt16_cases
      (F32.add (F32.ofInt (b.getD (off + (i * 2 + 1) % 2 ^ 32) 0))
        (F32.mul (F32.ofInt (src.pSampleData.getD ((cur + (i * c) % 2 ^ 32 + 1) % 2 ^ 64) 0)) vol))
      with ⟨v1, hv1⟩ | hv1
    · left
      rw [hv1]
      simp only []
      rw [storeFrame_ok _ off _ _ (by simp; omega)]
      exact ⟨_, rfl, by simp⟩
    · right
      rw [hv1]
  · right
    rw [hv0]

theorem mixFrameMono_safe (src : mo_sound_source) (cur : Nat) (vol : F32) (off i : Nat)
    (b : List Int) (hb : off + 2 * i + 2 ≤ b.length)
    (hs : (cur + i) % 2 ^ 64 < src.pSampleData.length) :
    (∃ b', mixFrameMono src cur vol 2 off b i = .ok b' ∧ b'.length = b.length)
      ∨ mixFrameMono src cur vol 2 off b i = .error .floatToIntUB := by
  have hd0 := dstIndex_le i 0
  have hd1 := dstIndex_le i 1
  unfold mixFrameMono
  rw [loadSample_ok src _ hs]
  simp only [bind, Except.bind]
  rw [loadFrame_ok b off _ (by omega)]
  simp only []
  rcases clampToInt16_cases
    (F32.add (F32.ofInt (b.getD (off + (i * 2 + 0) % 2 ^ 32) 0))
      (F32.mul (F32.ofInt (src.pSampleData.getD ((cur + i) % 2 ^ 64) 0)) vol))
    with ⟨v0, hv0⟩ | hv0
  · left
    rw [hv0]
    simp only []
    rw [storeFrame_ok b off _ _ (by omega)]
    simp only []
    rw [storeFrame_ok _ off _ _ (by simp; omega)]
    exact ⟨_, rfl, by simp⟩
  · right
    rw [hv0]

theorem foldlM_safe (f : List Int → Nat → Except Fault (List Int)) (len n : Nat)
    (hf : ∀ i < n, ∀ b : List Int, b.length = len →
      (∃ b', f b i = .ok b' ∧ b'.length = len) ∨ f b i = .error .floatToIntUB) :
    ∀ buf : List Int, buf.length = len →
      (∃ b', (List.range n).foldlM f buf = .ok b' ∧ b'.length = len)
        ∨ (List.range n).foldlM f buf = .error .floatToIntUB := by
  induction n with
  | zero => intro buf hl; exact Or.inl ⟨buf, by simp [List.foldlM, pure, Except.pure], hl⟩
  | succ n ih =>
    intro buf hl
    rw [List.range_succ, List.foldlM_append]
    rcases ih (fun i hi b hb => hf i (by omega) b hb) buf hl with ⟨b, hb, hbl⟩ | hb
    · rw [hb]
      simp only [bind, Except.bind, List.foldlM, pure, Except.pure]
      rcases hf n (by omega) b hbl with ⟨b', hb', hbl'⟩ | hb'
      · left
        exact ⟨b', by rw [hb'], hbl'⟩
      · right
        rw [hb']
    · right
      rw [hb]
      rfl

theorem mixFrames_safe (src : mo_sound_source) (vol : F32) (cur off n : Nat) (buf : List Int)
    (hlen : off + 2 * n ≤ buf.length)
    (hs : ∀ i < n, ∀ ch < 2, srcIndex src.channels cur i ch < src.pSampleData.length) :
    (∃ b', mixFrames src cur vol 2 off n buf = .ok b' ∧ b'.length = buf.length)
      ∨ mixFrames src cur vol 2 off n buf = .error .floatToIntUB := by
  unfold mixFrames
  by_cases h1 : src.channels = 1
  · rw [if_pos h1]
    refine foldlM_safe _ buf.length n (fun i hi b hb => ?_) buf rfl
    have := hs i hi 0 (by norm_num)
    simp only [srcIndex, h1, if_true] at this
    rw [← hb]
    exact mixFrameMono_safe src cur vol off i b (by omega) this
  · have hs' : ∀ i < n, ∀ k < 2,
        (cur + (i * src.channels) % 2 ^ 32 + k) % 2 ^ 64 < src.pSampleData.length := by
      intro i hi k hk
      have := hs i hi k hk
      simpa [srcIndex, h1] using this
    rw [if_neg h1]
    by_cases h2 : src.channels = 2
    · rw [if_pos h2]
      refine foldlM_safe _ buf.length n (fun i hi b hb => ?_) buf rfl
      rw [← hb]
      exact mixFrameStereo_safe src cur vol src.channels off i b (by omega) (hs' i hi)
    · rw [if_neg h2]
      refine foldlM_safe _ buf.length n (fun i hi b hb => ?_) buf rfl
      rw [← hb]
      exact mixFrameMulti_safe src cur vol src.channels off i b (by omega) (hs' i hi)

/-- A fault of the frame loops leaves the `while` loop at once. -/
theorem accumulateLoop_fault (vol : F32) (fuel : Nat) (st : MixState) (fc off : Nat) (e : Fault)
    (hc : 1 ≤ st.sound.pSource.channels) (hN : st.sound.pSource.sampleCount < 2 ^ 64)
    (hcur : st.sound.currentSample ≤ st.sound.pSource.sampleCount) (hfc : 0 < fc)
    (hb : mixFrames st.sound.pSource st.sound.currentSample vol 2 off
      (min fc (framesLeft st.sound.pSource st.sound.currentSample)) st.buf = .error e) :
    accumulateLoop 2 vol (fuel + 1) st fc off = .error e := by
  have hc0 : ¬ st.sound.pSource.channels = 0 := by omega
  unfold accumulateLoop
  simp only [framesAvailable_eq _ _ hN hcur, hfc, hc0, if_true, if_false]
  by_cases hgt : framesLeft st.sound.pSource st.sound.currentSample > fc
  · rw [Nat.min_eq_left (by omega)] at hb
    simp only [hgt, if_true, hb]
  · rw [Nat.min_eq_right (by omega)] at hb
    simp only [hgt, if_false, hb]

theorem accumulateLoop_safe (vol : F32) (fuel : Nat) :
    ∀ (st : MixState) (fc off : Nat),
      1 ≤ st.sound.pSource.channels →
      st.sound.pSource.pSampleData.length = st.sound.pSource.sampleCount →
      st.sound.pSource.sampleCount < 2 ^ 64 →
      st.sound.currentSample ≤ st.sound.pSource.sampleCount →
      off + 2 * fc ≤ st.buf.length →
      (∃ r, accumulateLoop 2 vol fuel st fc off = .ok r ∧ r.buf.length = st.buf.length)
        ∨ accumulateLoop 2 vol fuel st fc off = .error .floatToIntUB
        ∨ accumulateLoop 2 vol fuel st fc off = .error .outOfFuel := by
  induction fuel with
  | zero =>
    intro st fc off _ _ _ _ _
    rcases Nat.eq_zero_or_pos fc with h0 | hpos
    · subst h0
      exact Or.inl ⟨st, accumulateLoop_zero _ _ _ _, rfl⟩
    · right; right
      simp [accumulateLoop, hpos]
  | succ fuel ih =>
    intro st fc off hc hd hN hcur hlen
    rcases Nat.eq_zero_or_pos fc with h0 | hpos
    · subst h0
      exact Or.inl ⟨st, accumulateLoop_zero _ _ _ _, rfl⟩
    · have hs : ∀ n, n ≤ framesLeft st.sound.pSource st.sound.currentSample → ∀ i < n, ∀ ch < 2,
          srcIndex st.sound.pSource.channels st.sound.currentSample i ch
            < st.sound.pSource.pSampleData.length := by
        intro n hn i hi ch hch
        rw [hd]
        exact srcIndex_lt _ _ _ _ hc hN hcur (by omega) hch
      rcases le_or_lt fc (framesLeft st.sound.pSource st.sound.currentSample) with hle | hlt
      · rcases mixFrames_safe st.sound.pSource vol st.sound.currentSample off fc st.buf hlen
          (hs fc hle) with ⟨b, hb, hbl⟩ | hb
        · left
          rw [accumulateLoop_within _ _ _ _ _ _ hc hN hcur hpos hle hb]
          exact ⟨_, rfl, hbl⟩
        · right; left
          exact accumulateLoop_fault _ _ _ _ _ _ hc hN hcur hpos
            (by rw [Nat.min_eq_left hle]; exact hb)
      · rcases mixFrames_safe st.sound.pSource vol st.sound.currentSample off
            (framesLeft st.sound.pSource st.sound.currentSample) st.buf (by omega)
            (hs _ (le_refl _)) with ⟨b, hb, hbl⟩ | hb
        · cases hl : mo_sound_is_looping (some st.sound) with
          | false =>
            left
            rw [accumulateLoop_end _ _ _ _ _ _ hc hN hcur hlt hl hb]
            exact ⟨_, rfl, hbl⟩
          | true =>
            rw [accumulateLoop_wrap _ _ _ _ _ _ hc hN hcur hlt hl hb]
            rcases ih { st with sound := { st.sound with currentSample := 0 }, buf := b }
                (fc - framesLeft st.sound.pSource st.sound.currentSample)
                (off + framesLeft st.sound.pSource st.sound.currentSample * 2)
                hc hd hN (Nat.zero_le _) (by simp only [hbl]; omega)
              with ⟨r, hr, hrl⟩ | h
            · left
              exact ⟨r, hr, by rw [hrl]; exact hbl⟩
            · right
              exact h
        · right; left
          exact accumulateLoop_fault _ _ _ _ _ _ hc hN hcur hpos
            (by rw [Nat.min_eq_right (by omega)]; exact hb)

/-- C27 (index safety of the mixer): for a sound whose source has at least one
channel and a sample array of exactly `sampleCount` entries, with the cursor
not behind `sampleCount`, and a stereo buffer of `frameCount` frames,
`mo_sound__read_and_accumulate_frames` reads no sample at an index
`≥ sampleCount` and reads or writes no buffer entry at an index
`≥ frameCount * 2`: whatever the volume, the flags and the number of passes of
the `while` loop that are run, the call does not end in an index fault.  For a
finite volume, and a source of at least one whole frame when the sound is
looping, the call returns, and the buffer keeps its length. -/
theorem C27_mixer_index_safety (fuel : Nat) (g : Bool) (s : mo_sound) (vol : F32) (fc : Nat)
    (buf : List Int)
    (hc : 1 ≤ s.pSource.channels)
    (hd : s.pSource.pSampleData.length = s.pSource.sampleCount)
    (hN : s.pSource.sampleCount < 2 ^ 64)
    (hcur : s.currentSample ≤ s.pSource.sampleCount)
    (hlen : buf.length = fc * 2) :
    mo_sound__read_and_accumulate_frames fuel 2 g s vol fc buf ≠ .error .srcOutOfBounds
    ∧ mo_sound__read_and_accumulate_frames fuel 2 g s vol fc buf ≠ .error .dstOutOfBounds
    ∧ (∀ r, mo_sound__read_and_accumulate_frames fuel 2 g s vol fc buf = .ok r →
        r.buf.length = fc * 2)
    ∧ (vol.isFinite = true →
        (mo_sound_is_looping (some s) = true → s.pSource.channels ≤ s.pSource.sampleCount) →
        fc < fuel →
        ∃ r, mo_sound__read_and_accumulate_frames fuel 2 g s vol fc buf = .ok r) := by
  have hsafe := accumulateLoop_safe vol fuel
    { totalFramesRead := 0, isSoundMarkedForDeletion := g, sound := s, buf := buf } fc 0
    hc hd hN hcur (by simp only []; omega)
  have hrun : mo_sound__read_and_accumulate_frames fuel 2 g s vol fc buf
      = accumulateLoop 2 vol fuel
          { totalFramesRead := 0, isSoundMarkedForDeletion := g, sound := s, buf := buf } fc 0 := by
    unfold mo_sound__read_and_accumulate_frames
    rw [if_pos rfl]
  rw [hrun]
  refine ⟨?_, ?_, ?_, ?_⟩
  · rcases hsafe with ⟨r, h, _⟩ | h | h <;> rw [h] <;> simp
  · rcases hsafe with ⟨r, h, _⟩ | h | h <;> rw [h] <;> simp
  · intro r hr
    rcases hsafe with ⟨r', h, hl⟩ | h | h
    · rw [h] at hr
      cases hr
      rw [hl]
      exact hlen
    · rw [h] at hr; cases hr
    · rw [h] at hr; cases hr
  · intro hfin hloop hfuel
    obtain ⟨q, rfl⟩ := F32.eq_fin_of_isFinite vol hfin
    obtain ⟨b, hb, _⟩ := read_and_accumulate_runs q fuel g s fc buf ⟨hc, hd, hN, hcur, hloop⟩
      (by omega) hfuel
    rw [← hrun]
    exact ⟨_, hb⟩

/-- C27, on a concrete input: a looping sound over the three-channel source of
two frames, mixed into a buffer of three frames, so that the loop wraps
around once. -/
theorem C27_witness :
    (1 ≤ threeChannelSource.channels
      ∧ threeChannelSource.pSampleData.length = threeChannelSource.sampleCount
      ∧ threeChannelSource.sampleCount < 2 ^ 64
      ∧ (freshSound threeChannelSource MO_SOUND_GROUP_EFFECTS
          (MO_SOUND_FLAG_PLAYING ||| MO_SOUND_FLAG_LOOPING)).currentSample
          ≤ threeChannelSource.sampleCount
      ∧ [0, 0, 0, 0, 0, (0 : Int)].length = 3 * 2)
    ∧ mo_sound__read_and_accumulate_frames 4 2 false
        (freshSound threeChannelSource MO_SOUND_GROUP_EFFECTS
          (MO_SOUND_FLAG_PLAYING ||| MO_SOUND_FLAG_LOOPING)) (F32.ofInt 1) 3 [0, 0, 0, 0, 0, 0]
      ≠ .error .srcOutOfBounds
    ∧ (mo_sound__read_and_accumulate_frames 4 2 false
        (freshSound threeChannelSource MO_SOUND_GROUP_EFFECTS
          (MO_SOUND_FLAG_PLAYING ||| MO_SOUND_FLAG_LOOPING)) (F32.ofInt 1) 3
          [0, 0, 0, 0, 0, 0]).map (fun r => r.buf)
      = .ok [1, 2, 4, 5, 1, 2] :=
  ⟨by decide,
    (C27_mixer_index_safety 4 false
      (freshSound threeChannelSource MO_SOUND_GROUP_EFFECTS
        (MO_SOUND_FLAG_PLAYING ||| MO_SOUND_FLAG_LOOPING)) (F32.ofInt 1) 3 [0, 0, 0, 0, 0, 0]
      (by decide) (by decide) (by decide) (by decide) (by decide)).1,
    by decide!⟩

/-! ## Registry order and the mix -/


theorem clampInt16_mem (n : Int) : -32768 ≤ clampInt16 n ∧ clampInt16 n ≤ 32767 := by
  unfold clampInt16
  split
  · omega
  · split <;> omega

theorem getD_mem_range (l : List Int) (h : ∀ x ∈ l, -32768 ≤ x ∧ x ≤ 32767) (i : Nat) :
    -32768 ≤ l.getD i 0 ∧ l.getD i 0 ≤ 32767 := by
  by_cases hi : i < l.length
  · rw [List.getD_eq_getElem _ _ hi]
    exact h _ (List.getElem_mem hi)
  · rw [List.getD_eq_default _ _ (by omega)]
    omega

theorem getD_of_getElem? (l : List Int) (i : Nat) (v : Int) (h : l[i]? = some v) :
    l.getD i 0 = v := by
  rw [List.getD_eq_getElem?_getD, h]
  rfl

/-- One call of the mixer at volume 1 for a sound whose source is not mono, on
a buffer of 16-bit values: every output sample is the old one plus the sample
read, clamped to 16 bits. -/
theorem accumulate_unit (fuel : Nat) (g : Bool) (s : mo_sound) (fc : Nat) (buf : List Int)
    (hwf : s.wellFormed) (hch : s.pSource.channels ≠ 1)
    (hplay : mo_sound_is_playing (some s) = true)
    (hdata : ∀ x ∈ s.pSource.pSampleData, -32768 ≤ x ∧ x ≤ 32767)
    (hbuf : ∀ idx, -32768 ≤ buf.getD idx 0 ∧ buf.getD idx 0 ≤ 32767)
    (hfc : fc ≤ 2 ^ 31) (hlen : buf.length = 2 * fc) (hfuel : fc < fuel) :
    ∃ buf', mo_sound__read_and_accumulate_frames fuel 2 g s (F32.ofInt 1) fc buf
        = .ok { totalFramesRead := 0, isSoundMarkedForDeletion := (soundAfter g s fc).1,
                sound := (soundAfter g s fc).2, buf := buf' }
      ∧ buf'.length = 2 * fc
      ∧ ∀ j < fc, ∀ ch < 2,
          buf'[2 * j + ch]? = some (clampInt16 (buf.getD (2 * j + ch) 0 + contribution s j ch)) := by
  obtain ⟨b, hb, hbl, _, hin⟩ := read_and_accumulate_spec 1 fuel g s fc buf hwf hfc (by omega)
    hfuel
  refine ⟨b, by rw [ofInt_one_eq, hb], by omega, ?_⟩
  intro j hj ch hc
  rw [hin j hj ch hc]
  unfold bufAfter contribution
  rw [if_pos hplay]
  cases framePos s.pSource s.currentSample (mo_sound_is_looping (some s)) j with
  | none =>
    simp only [zero_add, add_zero]
    rw [clampInt16_of_mem _ (hbuf (2 * j + ch)), List.getElem?_eq_getElem (by omega),
      List.getD_eq_getElem _ _ (by omega)]
  | some p =>
    obtain ⟨cu, i⟩ := p
    simp only [frameValue, oldChannel, if_neg hch, zero_add]
    have h1 := hbuf (2 * j + ch)
    have h2 := getD_mem_range _ hdata (srcIndex s.pSource.channels cu i ch)
    rw [← ofInt_one_eq, mixSample_one _ _ (by omega) (by omega)]

theorem contribution_not_playing (s : mo_sound) (j ch : Nat)
    (h : ¬ mo_sound_is_playing (some s) = true) : contribution s j ch = 0 := by
  unfold contribution
  rw [if_neg h]

/-- The mixing pass at volume 1 over sounds whose sources are not mono: every
output sample is the fold, in the order of the list, of the clamped addition
of the sounds' samples. -/
theorem mixEach_unit (fuel fc : Nat) (vol : mo_sound → F32) (hfc : fc ≤ 2 ^ 31)
    (hfuel : fc < fuel) :
    ∀ (sounds : List mo_sound) (g : Bool) (buf : List Int),
      (∀ s ∈ sounds, s.wellFormed ∧ s.pSource.channels ≠ 1 ∧ vol s = F32.ofInt 1
        ∧ ∀ x ∈ s.pSource.pSampleData, -32768 ≤ x ∧ x ≤ 32767) →
      buf.length = 2 * fc →
      (∀ idx, -32768 ≤ buf.getD idx 0 ∧ buf.getD idx 0 ≤ 32767) →
      ∃ r, mixEach fuel 2 fc vol sounds g buf = .ok r
        ∧ r.2.2.length = 2 * fc
        ∧ ∀ j < fc, ∀ ch < 2,
            r.2.2[2 * j + ch]?
              = some (sounds.foldl (fun acc s => clampInt16 (acc + contribution s j ch))
                  (buf.getD (2 * j + ch) 0)) := by
  intro sounds
  induction sounds with
  | nil =>
    intro g buf _ hlen _
    refine ⟨([], g, buf), rfl, hlen, ?_⟩
    intro j hj ch hc
    simp only [List.foldl_nil]
    rw [List.getElem?_eq_getElem (by omega), List.getD_eq_getElem _ _ (by omega)]
  | cons s rest ih =>
    intro g buf hs hlen hbuf
    obtain ⟨hwf, hch, hvol, hdata⟩ := hs s (List.mem_cons_self _ _)
    have hrest : ∀ x ∈ rest, x.wellFormed ∧ x.pSource.channels ≠ 1 ∧ vol x = F32.ofInt 1
        ∧ ∀ y ∈ x.pSource.pSampleData, -32768 ≤ y ∧ y ≤ 32767 :=
      fun x hx => hs x (List.mem_cons_of_mem _ hx)
    rw [mixEach_cons, hvol, gt_one_zero, Bool.and_true]
    by_cases hplay : mo_sound_is_playing (some s) = true
    · obtain ⟨b, hb, hbl, hin⟩ := accumulate_unit fuel g s fc buf hwf hch hplay hdata hbuf hfc
        hlen hfuel
      have hbr : ∀ idx, -32768 ≤ b.getD idx 0 ∧ b.getD idx 0 ≤ 32767 := by
        intro idx
        by_cases hi : idx < 2 * fc
        · have e : idx = 2 * (idx / 2) + idx % 2 := by omega
          have := hin (idx / 2) (by omega) (idx % 2) (by omega)
          rw [← e] at this
          rw [getD_of_getElem? _ _ _ this]
          exact clampInt16_mem _
        · rw [List.getD_eq_default _ _ (by omega)]
          omega
      obtain ⟨r, hr, hrl, hrin⟩ := ih (soundAfter g s fc).1 b hrest hbl hbr
      rw [if_pos hplay, hb]
      simp only []
      rw [hr]
      refine ⟨_, rfl, hrl, ?_⟩
      intro j hj ch hc
      simp only [List.foldl_cons]
      rw [hrin j hj ch hc, getD_of_getElem? _ _ _ (hin j hj ch hc)]
    · obtain ⟨r, hr, hrl, hrin⟩ := ih g buf hrest hlen hbuf
      rw [if_neg hplay, hr]
      refine ⟨_, rfl, hrl, ?_⟩
      intro j hj ch hc
      simp only [List.foldl_cons]
      rw [hrin j hj ch hc, contribution_not_playing s j ch hplay, add_zero,
        clampInt16_of_mem _ (hbuf _)]

/-- Clamped addition is plain addition as long as the absolute values add up
to a 16-bit value. -/
theorem foldl_clamp_eq_sum (c : mo_sound → Int) :
    ∀ (l : List mo_sound) (acc : Int),
      acc.natAbs + (l.map (fun s => (c s).natAbs)).sum ≤ 32767 →
      l.foldl (fun a s => clampInt16 (a + c s)) acc = acc + (l.map c).sum := by
  intro l
  induction l with
  | nil => intro acc _; simp
  | cons s rest ih =>
    intro acc h
    simp only [List.map_cons, List.sum_cons] at h
    simp only [List.foldl_cons, List.map_cons, List.sum_cons]
    rw [clampInt16_of_mem (acc + c s) (by omega), ih (acc + c s) (by omega)]
    ring

/-- The callback at volume 1 for sounds whose sources are not mono, when the
absolute values of the sounds' samples add up to a 16-bit value at every output
sample: the output is the sum of the samples. -/
theorem callback_unit_sum (fuel fc : Nat) (ctx : mo_context) (pFrames : List Int)
    (hdev : ctx.deviceChannels = 2)
    (hgroups : ctx.soundGroups.length = MO_SOUND_GROUP_COUNT)
    (hgrp : ∀ s ∈ ctx.ppSounds, s.group < MO_SOUND_GROUP_COUNT)
    (hwf : ∀ s ∈ ctx.ppSounds, s.wellFormed)
    (hch : ∀ s ∈ ctx.ppSounds, s.pSource.channels ≠ 1)
    (hdata : ∀ s ∈ ctx.ppSounds, ∀ x ∈ s.pSource.pSampleData, -32768 ≤ x ∧ x ≤ 32767)
    (hvol : ∀ s ∈ ctx.ppSounds, effectiveVolume ctx.soundGroups s = F32.ofInt 1)
    (hsum : ∀ j < fc, ∀ ch < 2,
      (ctx.ppSounds.map (fun s => (contribution s j ch).natAbs)).sum ≤ 32767)
    (hfc : fc < 2 ^ 31) (hbuf : pFrames.length = 2 * fc) (hfuel : fc < fuel) :
    ∃ c out, mo_on_send_frames__mal fuel ctx fc pFrames = .ok (c, out, fc)
      ∧ out.length = 2 * fc
      ∧ ∀ j < fc, ∀ ch < 2,
          out[2 * j + ch]? = some ((ctx.ppSounds.map (fun s => contribution s j ch)).sum) := by
  have hz : ∀ idx, -32768 ≤ (List.replicate (2 * fc) (0 : Int)).getD idx 0
      ∧ (List.replicate (2 * fc) (0 : Int)).getD idx 0 ≤ 32767 := by
    intro idx
    apply getD_mem_range
    intro x hx
    rw [List.eq_of_mem_replicate hx]
    omega
  obtain ⟨r, hr, hrl, hrin⟩ := mixEach_unit fuel fc (effectiveVolume ctx.soundGroups)
    (by omega) hfuel ctx.ppSounds ctx.isSoundMarkedForDeletion (List.replicate (2 * fc) 0)
    (fun s hs => ⟨hwf s hs, hch s hs, hvol s hs, hdata s hs⟩) (by simp) hz
  obtain ⟨sounds, g', out⟩ := r
  refine ⟨{ ctx with ppSounds := sounds, isSoundMarkedForDeletion := g' }, out, ?_, hrl, ?_⟩
  · rw [mo_on_send_frames__mal_eq_mixRegistry fuel ctx fc pFrames hgroups hgrp]
    unfold mixRegistry
    rw [hdev, zeroFrames_exact fc pFrames hfc hbuf]
    simp only []
    rw [hr]
  · intro j hj ch hc
    rw [hrin j hj ch hc, getD_replicate_of_lt _ _ _ _ (by omega),
      foldl_clamp_eq_sum _ _ _ (by simpa using hsum j hj ch hc), zero_add]

/-- C28, as the code has it: for sounds whose sources are not mono, all at the
effective volume 1, such that at every output sample the absolute values of
the samples they contribute add up to at most 32767, the callback
`mo_on_send_frames__mal` produces the same output buffer for the registry and
for every permutation of it, and every output sample is the sum of the
contributions. -/
theorem C28_order_independent_without_saturation (fuel fc : Nat) (ctx : mo_context)
    (sounds : List mo_sound) (pFrames : List Int)
    (hdev : ctx.deviceChannels = 2)
    (hgroups : ctx.soundGroups.length = MO_SOUND_GROUP_COUNT)
    (hgrp : ∀ s ∈ ctx.ppSounds, s.group < MO_SOUND_GROUP_COUNT)
    (hwf : ∀ s ∈ ctx.ppSounds, s.wellFormed)
    (hch : ∀ s ∈ ctx.ppSounds, s.pSource.channels ≠ 1)
    (hdata : ∀ s ∈ ctx.ppSounds, ∀ x ∈ s.pSource.pSampleData, -32768 ≤ x ∧ x ≤ 32767)
    (hvol : ∀ s ∈ ctx.ppSounds, effectiveVolume ctx.soundGroups s = F32.ofInt 1)
    (hsum : ∀ j < fc, ∀ ch < 2,
      (ctx.ppSounds.map (fun s => (contribution s j ch).natAbs)).sum ≤ 32767)
    (hfc : fc < 2 ^ 31) (hbuf : pFrames.length = 2 * fc) (hfuel : fc < fuel)
    (hperm : sounds.Perm ctx.ppSounds) :
    ∃ c1 c2 out,
      mo_on_send_frames__mal fuel ctx fc pFrames = .ok (c1, out, fc)
      ∧ mo_on_send_frames__mal fuel { ctx with ppSounds := sounds } fc pFrames
          = .ok (c2, out, fc)
      ∧ out.length = 2 * fc
      ∧ ∀ j < fc, ∀ ch < 2,
          out[2 * j + ch]? = some ((ctx.ppSounds.map (fun s => contribution s j ch)).sum) := by
  obtain ⟨c1, out1, h1, l1, v1⟩ := callback_unit_sum fuel fc ctx pFrames hdev hgroups hgrp hwf
    hch hdata hvol hsum hfc hbuf hfuel
  have hmem : ∀ s, s ∈ sounds → s ∈ ctx.ppSounds := fun s hs => hperm.mem_iff.mp hs
  obtain ⟨c2, out2, h2, l2, v2⟩ := callback_unit_sum fuel fc { ctx with ppSounds := sounds }
    pFrames hdev hgroups (fun s hs => hgrp s (hmem s hs)) (fun s hs => hwf s (hmem s hs))
    (fun s hs => hch s (hmem s hs)) (fun s hs => hdata s (hmem s hs))
    (fun s hs => hvol s (hmem s hs))
    (fun j hj ch hc => by
      have := (hperm.map (fun s => (contribution s j ch).natAbs)).sum_eq
      simp only [] at this ⊢
      rw [this]
      exact hsum j hj ch hc)
    hfc hbuf hfuel
  have heq : out2 = out1 := by
    apply List.ext_getElem?
    intro idx
    by_cases hi : idx < 2 * fc
    · have e : idx = 2 * (idx / 2) + idx % 2 := by omega
      rw [e, v1 (idx / 2) (by omega) (idx % 2) (by omega),
        v2 (idx / 2) (by omega) (idx % 2) (by omega)]
      simp only []
      rw [(hperm.map (fun s => contribution s (idx / 2) (idx % 2))).sum_eq]
    · rw [List.getElem?_eq_none (by omega), List.getElem?_eq_none (by omega)]
  rw [heq] at h2
  exact ⟨c1, c2, out1, h1, h2, l1, v1⟩

/-- C28, on a concrete input: the sounds with the constant samples 10000,
20000 and -2000, in two orders, give 28000 in both samples of the frame. -/
theorem C28_witness :
    List.Perm [constantSound 20000, constantSound 10000, constantSound (-2000)]
      [constantSound 10000, constantSound 20000, constantSound (-2000)]
    ∧ (∀ j < 1, ∀ ch < 2,
        ((contextWith [constantSound 10000, constantSound 20000,
            constantSound (-2000)]).ppSounds.map
          (fun s => (contribution s j ch).natAbs)).sum ≤ 32767)
    ∧ (∃ c1 c2 out,
        mo_on_send_frames__mal 2
            (contextWith [constantSound 10000, constantSound 20000, constantSound (-2000)])
            1 [7, 7] = .ok (c1, out, 1)
        ∧ mo_on_send_frames__mal 2
            { contextWith [constantSound 10000, constantSound 20000, constantSound (-2000)] with
              ppSounds := [constantSound 20000, constantSound 10000, constantSound (-2000)] }
            1 [7, 7] = .ok (c2, out, 1)
        ∧ out.length = 2 * 1
        ∧ ∀ j < 1, ∀ ch < 2,
            out[2 * j + ch]?
              = some (((contextWith [constantSound 10000, constantSound 20000,
                  constantSound (-2000)]).ppSounds.map (fun s => contribution s j ch)).sum))
    ∧ (mo_on_send_frames__mal 2
        (contextWith [constantSound 20000, constantSound 10000, constantSound (-2000)])
        1 [7, 7]).map (fun r => r.2.1) = .ok [28000, 28000] :=
  ⟨List.Perm.swap _ _ _, by decide!,
    C28_order_independent_without_saturation 2 1
      (contextWith [constantSound 10000, constantSound 20000, constantSound (-2000)])
      [constantSound 20000, constantSound 10000, constantSound (-2000)] [7, 7]
      rfl rfl (by decide) (by decide!) (by decide) (by decide!) (by decide!) (by decide!)
      (by decide) rfl (by decide) (List.Perm.swap _ _ _),
    by decide!⟩


/-- C28 (the order of the registry changes the output): three playing stereo
sounds at volume 1 with the constant samples 30000, 30000 and -30000.  In the
order (30000, 30000, -30000) the second sound saturates the sum at 32767 and
the output is 2767; in the order (30000, -30000, 30000) no partial sum
saturates and the output is 30000.  And two sounds with the samples 1, at
volume 1/2, and -1, at volume 1: in this order 0 + 0.5 is truncated to 0 and
the output is -1; in the other order -1 + 0.5 is truncated to 0. -/
theorem C28_output_depends_on_registry_order :
    List.Perm [constantSound 30000, constantSound (-30000), constantSound 30000]
      [constantSound 30000, constantSound 30000, constantSound (-30000)]
    ∧ (mo_on_send_frames__mal 2
        (contextWith [constantSound 30000, constantSound 30000, constantSound (-30000)])
        1 [0, 0]).map (fun r => r.2.1) = .ok [2767, 2767]
    ∧ (mo_on_send_frames__mal 2
        (contextWith [constantSound 30000, constantSound (-30000), constantSound 30000])
        1 [0, 0]).map (fun r => r.2.1) = .ok [30000, 30000]
    ∧ (mo_on_send_frames__mal 2 (contextWith [halfVolumeSound, constantSound (-1)])
        1 [0, 0]).map (fun r => r.2.1) = .ok [-1, -1]
    ∧ (mo_on_send_frames__mal 2 (contextWith [constantSound (-1), halfVolumeSound])
        1 [0, 0]).map (fun r => r.2.1) = .ok [0, 0] :=
  ⟨(List.Perm.swap _ _ _).cons _, by decide!, by decide!, by decide!, by decide!⟩

/-! ## Calls on a device -/

/-- C21 (misuse is rejected, and nothing changes): a call of
`mal_device_start` on a device whose mutex is free returns
`MAL_DEVICE_ALREADY_STARTING` in the state `MAL_STATE_STARTING`,
`MAL_DEVICE_ALREADY_STARTED` in `MAL_STATE_STARTED`, `MAL_DEVICE_BUSY` in
`MAL_STATE_STOPPING` and `MAL_DEVICE_NOT_INITIALIZED` in
`MAL_STATE_UNINITIALIZED`; a call of `mal_device_stop` returns
`MAL_DEVICE_ALREADY_STOPPING` in `MAL_STATE_STOPPING`,
`MAL_DEVICE_ALREADY_STOPPED` in `MAL_STATE_STOPPED`, `MAL_DEVICE_BUSY` in
`MAL_STATE_STARTING` and `MAL_DEVICE_NOT_INITIALIZED` in
`MAL_STATE_UNINITIALIZED`.  In each case the call returns within 7 steps and
the device after the call is the device before it: the state is unchanged and
the mutex is free again. -/
theorem C21_misuse_rejected_without_side_effect (b : Backend) (d : mal_device) (fuel : Nat)
    (hlock : d.lock = false) (hfuel : 7 ≤ fuel) :
    (d.state = MAL_STATE_STARTING →
      callAlone b fuel d (.start .checkUninitialized)
        = .ok (d, .start (.returned MAL_DEVICE_ALREADY_STARTING)))
    ∧ (d.state = MAL_STATE_STARTED →
      callAlone b fuel d (.start .checkUninitialized)
        = .ok (d, .start (.returned MAL_DEVICE_ALREADY_STARTED)))
    ∧ (d.state = MAL_STATE_STOPPING →
      callAlone b fuel d (.start .checkUninitialized)
        = .ok (d, .start (.returned MAL_DEVICE_BUSY)))
    ∧ (d.state = MAL_STATE_UNINITIALIZED →
      callAlone b fuel d (.start .checkUninitialized)
        = .ok (d, .start (.returned MAL_DEVICE_NOT_INITIALIZED)))
    ∧ (d.state = MAL_STATE_STOPPING →
      callAlone b fuel d (.stop .checkUninitialized)
        = .ok (d, .stop (.returned MAL_DEVICE_ALREADY_STOPPING)))
    ∧ (d.state = MAL_STATE_STOPPED →
      callAlone b fuel d (.stop .checkUninitialized)
        = .ok (d, .stop (.returned MAL_DEVICE_ALREADY_STOPPED)))
    ∧ (d.state = MAL_STATE_STARTING →
      callAlone b fuel d (.stop .checkUninitialized)
        = .ok (d, .stop (.returned MAL_DEVICE_BUSY)))
    ∧ (d.state = MAL_STATE_UNINITIALIZED →
      callAlone b fuel d (.stop .checkUninitialized)
        = .ok (d, .stop (.returned MAL_DEVICE_NOT_INITIALIZED))) := by
  obtain ⟨k, rfl⟩ : ∃ k, fuel = k + 7 := ⟨fuel - 7, by omega⟩
  obtain ⟨api, state, workResult, lock, wakeupEvent, startEvent, stopEvent, breakFlag⟩ := d
  simp only [] at hlock
  subst hlock
  refine ⟨?_, ?_, ?_, ?_, ?_, ?_, ?_, ?_⟩ <;> intro hs <;> simp only [] at hs <;> subst hs <;>
    simp [callAlone, clientStep, mal_device_start, mal_device_stop,
      MAL_STATE_UNINITIALIZED, MAL_STATE_STOPPED, MAL_STATE_STARTED, MAL_STATE_STARTING,
      MAL_STATE_STOPPING]

/-- C21, on concrete inputs: `mal_device_stop` on a stopped device and
`mal_device_start` on a started device. -/
theorem C21_witness :
    (stoppedDevice .mal_api_null).lock = false
    ∧ (startedDevice .mal_api_null).lock = false
    ∧ callAlone goodBackend 7 (stoppedDevice .mal_api_null) (.stop .checkUninitialized)
        = .ok (stoppedDevice .mal_api_null, .stop (.returned MAL_DEVICE_ALREADY_STOPPED))
    ∧ callAlone goodBackend 7 (startedDevice .mal_api_null) (.start .checkUninitialized)
        = .ok (startedDevice .mal_api_null, .start (.returned MAL_DEVICE_ALREADY_STARTED)) :=
  ⟨by decide, by decide,
    (C21_misuse_rejected_without_side_effect goodBackend (stoppedDevice .mal_api_null) 7
      (by decide) (by decide)).2.2.2.2.2.1 (by decide),
    (C21_misuse_rejected_without_side_effect goodBackend (startedDevice .mal_api_null) 7
      (by decide) (by decide)).2.1 (by decide)⟩

/-- C22 (the OpenSL|ES branch returns `MAL_ERROR`): for a stopped device of the
backend without a worker thread, `mal_device_start` sets the state to
`MAL_STATE_STARTED` and returns `MAL_ERROR`, whatever the start routine of the
backend returns: the branch does not assign `result`.  On the started device
`mal_device_stop`, the backend stopping, leaves the state `MAL_STATE_STOPPED`
and returns `MAL_ERROR` as well.  For a device with a worker thread the two
calls return `MAL_SUCCESS`: the start with the result that the worker
recorded, the stop after the worker has left the main loop and has signalled
the stop event.  A call of `mal_device_stop` that sets the flag
`breakFromMainLoop` before the worker has entered the main loop does not
return: the main loop clears the flag when it is entered, and in the
configuration `stopLost` the client cannot move and every step of the worker
leaves the system as it is. -/
theorem C22_sles_start_and_stop_return_error :
    (∀ b : Backend, callAlone b 12 (stoppedDevice .mal_api_sles) (.start .checkUninitialized)
      = .ok (startedDevice .mal_api_sles, .start (.returned MAL_ERROR)))
    ∧ callAlone goodBackend 12 (startedDevice .mal_api_sles) (.stop .checkUninitialized)
      = .ok (stoppedDevice .mal_api_sles, .stop (.returned MAL_ERROR))
    ∧ MAL_ERROR ≠ MAL_SUCCESS
    ∧ System.run goodBackend
        (List.replicate 8 (.client 0) ++ List.replicate 10 .worker ++ List.replicate 3 (.client 0))
        (startRequest (stoppedDevice .mal_api_null) idleWorker)
      = .ok { dev := startedDevice .mal_api_null, worker := some runningWorker,
              clients := [.start (.returned MAL_SUCCESS)] }
    ∧ System.run goodBackend
        (List.replicate 8 (.client 0) ++ List.replicate 5 .worker ++ List.replicate 2 (.client 0))
        { dev := startedDevice .mal_api_null, worker := some runningWorker,
          clients := [.stop .checkUninitialized] }
      = .ok { dev := { stoppedDevice .mal_api_null with breakFromMainLoop := true },
              worker := some idleWorker,
              clients := [.stop (.returned MAL_SUCCESS)] }
    ∧ System.run goodBackend
        (List.replicate 8 (.client 0) ++ List.replicate 8 .worker ++ List.replicate 3 (.client 0))
        (startRequest (stoppedDevice .mal_api_null) idleWorker)
      = .ok { stopAfterStart with clients := [.start (.returned MAL_SUCCESS)] }
    ∧ System.run goodBackend (List.replicate 8 (.client 0) ++ [.worker]) stopAfterStart
      = .ok stopLost
    ∧ stopLost.step goodBackend (.client 0) = .ok none
    ∧ stopLost.step goodBackend .worker = .ok (some stopLost) := by
  refine ⟨?_, by decide, by decide, by decide, by decide, by decide, by decide, by decide,
    by decide⟩
  intro b
  simp [callAlone, clientStep, mal_device_start, stoppedDevice, startedDevice, zeroDevice,
    MAL_STATE_UNINITIALIZED, MAL_STATE_STOPPED, MAL_STATE_STARTED, MAL_STATE_STARTING]

/-- C24 (the configuration is read before it is compared with NULL):
`mal_device_init` with a device and with NULL for `pConfig` reads
`pConfig->onLogCallback` before the test `pConfig == NULL`, whatever the
environment.  With NULL for `pDevice` it returns `MAL_INVALID_ARGS`; with a
configuration of 0 channels or of sample rate 0 it returns `MAL_INVALID_ARGS`
and leaves the device zeroed, in the state `MAL_STATE_UNINITIALIZED` and
holding nothing. -/
theorem C24_null_config_is_dereferenced :
    (∀ (env : InitEnv) (o : DeviceObject),
      mal_device_init env (some o) none = .error .nullDereference)
    ∧ (∀ (env : InitEnv) (pConfig : Option mal_device_config),
      mal_device_init env none pConfig = .ok (.returned MAL_INVALID_ARGS, none))
    ∧ (∀ (env : InitEnv) (o : DeviceObject) (format sampleRate bufferSizeInFrames periods : Nat),
      mal_device_init env (some o)
          (some { format := format, channels := 0, sampleRate := sampleRate,
                  bufferSizeInFrames := bufferSizeInFrames, periods := periods })
        = .ok (.returned MAL_INVALID_ARGS, some zeroObject))
    ∧ (∀ (env : InitEnv) (o : DeviceObject) (format channels bufferSizeInFrames periods : Nat),
      mal_device_init env (some o)
          (some { format := format, channels := channels, sampleRate := 0,
                  bufferSizeInFrames := bufferSizeInFrames, periods := periods })
        = .ok (.returned MAL_INVALID_ARGS, some zeroObject))
    ∧ zeroObject.dev.state = MAL_STATE_UNINITIALIZED
    ∧ zeroObject.resources = [] := by
  refine ⟨fun _ _ => rfl, fun _ _ => rfl, ?_, ?_, rfl, rfl⟩
  · intro env o format sampleRate bufferSizeInFrames periods
    simp [mal_device_init]
  · intro env o format channels bufferSizeInFrames periods
    simp [mal_device_init]

/-! ## A start that the backend refuses -/

theorem refusedValid_bound (early : Bool) (i j : Nat) (hv : refusedValid early i j = true) :
    i ≤ 11 ∧ j ≤ 12 := by
  unfold refusedValid at hv
  simp only [Bool.or_eq_true, Bool.and_eq_true, decide_eq_true_eq, beq_iff_eq] at hv
  omega

set_option maxHeartbeats 4000000 in
theorem refused_client_step (b : Backend) (d : mal_device) (early : Bool)
    (hapi : d.api ≠ .mal_api_sles) (i j : Nat) (hv : refusedValid early i j = true) :
    (refusedAfter d (mal_device__start_backend b d.api) early i j).step b (.client 0)
      = .ok (if i < 8 ∨ (i = 8 ∧ 8 ≤ j) ∨ i = 9 ∨ i = 10 then
          some (refusedAfter d (mal_device__start_backend b d.api) early (i + 1) j)
          else none) := by
  obtain ⟨hi, hj⟩ := refusedValid_bound early i j hv
  cases early <;> interval_cases i <;> interval_cases j <;> first
    | (exfalso; revert hv; decide)
    | simp [refusedAfter, System.step, clientStep, mal_device_start, startPath, refusalPath,
        System.workerReturned, hapi, MAL_STATE_UNINITIALIZED, MAL_STATE_STOPPED,
        MAL_STATE_STARTING, MAL_STATE_STARTED]

set_option maxHeartbeats 4000000 in
theorem refused_worker_step (b : Backend) (d : mal_device) (early : Bool)
    (he : mal_device__start_backend b d.api ≠ MAL_SUCCESS) (i j : Nat)
    (hv : refusedValid early i j = true) :
    (refusedAfter d (mal_device__start_backend b d.api) early i j).step b .worker
      = .ok (if j = 0 ∨ (j = 1 ∧ 8 ≤ i) ∨ (2 ≤ j ∧ j ≤ 11) then
          some (refusedAfter d (mal_device__start_backend b d.api) early i (j + 1))
          else none) := by
  obtain ⟨hi, hj⟩ := refusedValid_bound early i j hv
  cases early <;> interval_cases i <;> interval_cases j <;> first
    | (exfalso; revert hv; decide)
    | simp [refusedAfter, System.step, mal_worker_thread, startPath, refusalPath,
        he, MAL_STATE_UNINITIALIZED, MAL_STATE_STOPPED,
        MAL_STATE_STARTING, MAL_STATE_STARTED]

theorem refused_other_step (b : Backend) (d : mal_device) (e : Int) (early : Bool)
    (i j k : Nat) :
    (refusedAfter d e early i j).step b (.client (k + 1)) = .ok none := by
  simp [refusedAfter, System.step]

theorem refusedValid_client (early : Bool) (i j : Nat) (hv : refusedValid early i j = true)
    (h : i < 8 ∨ (i = 8 ∧ 8 ≤ j) ∨ i = 9 ∨ i = 10) : refusedValid early (i + 1) j = true := by
  unfold refusedValid at hv ⊢
  cases early <;>
    simp only [Bool.or_eq_true, Bool.and_eq_true, decide_eq_true_eq, beq_iff_eq, Bool.true_or,
      Bool.false_or, Bool.and_true] at hv ⊢ <;> omega

theorem refusedValid_worker (early : Bool) (i j : Nat) (hv : refusedValid early i j = true)
    (h : j = 0 ∨ (j = 1 ∧ 8 ≤ i) ∨ (2 ≤ j ∧ j ≤ 11)) : refusedValid early i (j + 1) = true := by
  unfold refusedValid at hv ⊢
  cases early <;>
    simp only [Bool.or_eq_true, Bool.and_eq_true, decide_eq_true_eq, beq_iff_eq, Bool.true_or,
      Bool.false_or, Bool.and_true] at hv ⊢ <;> omega

/-- Every schedule takes the system from one of the configurations
`refusedAfter` to another one, by as many steps as the counts differ. -/
theorem refused_run (b : Backend) (d : mal_device) (early : Bool)
    (hapi : d.api ≠ .mal_api_sles) (he : mal_device__start_backend b d.api ≠ MAL_SUCCESS)
    (sched : List Thread) :
    ∀ i j, refusedValid early i j = true →
      ∃ i' j', refusedValid early i' j' = true
        ∧ System.run b sched (refusedAfter d (mal_device__start_backend b d.api) early i j)
            = .ok (refusedAfter d (mal_device__start_backend b d.api) early i' j')
        ∧ System.moves b sched (refusedAfter d (mal_device__start_backend b d.api) early i j)
            + (i + j) = i' + j' := by
  induction sched with
  | nil => intro i j hv; exact ⟨i, j, hv, rfl, by simp [System.moves]⟩
  | cons t rest ih =>
    intro i j hv
    cases t with
    | worker =>
      unfold System.run System.moves
      rw [refused_worker_step b d early he i j hv]
      by_cases h : j = 0 ∨ (j = 1 ∧ 8 ≤ i) ∨ (2 ≤ j ∧ j ≤ 11)
      · rw [if_pos h]
        obtain ⟨i', j', hv', hr, hm⟩ := ih i (j + 1) (refusedValid_worker early i j hv h)
        exact ⟨i', j', hv', hr, by simp only []; omega⟩
      · rw [if_neg h]
        exact ih i j hv
    | client k =>
      cases k with
      | zero =>
        unfold System.run System.moves
        rw [refused_client_step b d early hapi i j hv]
        by_cases h : i < 8 ∨ (i = 8 ∧ 8 ≤ j) ∨ i = 9 ∨ i = 10
        · rw [if_pos h]
          obtain ⟨i', j', hv', hr, hm⟩ := ih (i + 1) j (refusedValid_client early i j hv h)
          exact ⟨i', j', hv', hr, by simp only []; omega⟩
        · rw [if_neg h]
          exact ih i j hv
      | succ k =>
        unfold System.run System.moves
        rw [refused_other_step]
        exact ih i j hv

theorem refusedAfter_first (d : mal_device) (e : Int) (early : Bool)
    (hstate : d.state = MAL_STATE_STOPPED) (hlock : d.lock = false)
    (hwake : d.wakeupEvent = false) (hstart : d.startEvent = false) :
    refusedAfter d e early 0 (if early then 0 else 1)
      = startRequest d (if early then settlingWorker else idleWorker) := by
  obtain ⟨api, state, workResult, lock, wakeupEvent, startEvent, stopEvent, breakFlag⟩ := d
  simp only [] at hstate hlock hwake hstart
  subst hstate hlock hwake hstart
  cases early <;>
    simp [refusedAfter, startRequest, idleWorker, settlingWorker, startPath, refusalPath,
      MAL_STATE_STOPPED]

theorem refusedAfter_last (d : mal_device) (e : Int) (early : Bool)
    (hstate : d.state = MAL_STATE_STOPPED) (hlock : d.lock = false)
    (hwake : d.wakeupEvent = false) (hstart : d.startEvent = false) :
    refusedAfter d e early 11 12 = startRefused d e := by
  obtain ⟨api, state, workResult, lock, wakeupEvent, startEvent, stopEvent, breakFlag⟩ := d
  simp only [] at hstate hlock hwake hstart
  subst hstate hlock hwake hstart
  simp [refusedAfter, startRefused, idleWorker, startPath, refusalPath, MAL_STATE_STOPPED]

theorem refusedAfter_state (d : mal_device) (e : Int) (early : Bool) (i j : Nat) :
    (refusedAfter d e early i j).dev.state ≠ MAL_STATE_STARTED := by
  simp only [refusedAfter]
  split
  · decide
  · split <;> decide

theorem start_accepted (b : Backend) (d : mal_device)
    (hstate : d.state = MAL_STATE_STOPPED) (hlock : d.lock = false) :
    System.run b (List.replicate 6 (.client 0)) (startRequest d idleWorker)
      = .ok (startAccepted d) := by
  obtain ⟨api, state, workResult, lock, wakeupEvent, startEvent, stopEvent, breakFlag⟩ := d
  simp only [] at hstate hlock
  subst hstate hlock
  simp [System.run, System.step, clientStep, mal_device_start, startRequest, startAccepted,
    System.workerReturned, MAL_STATE_UNINITIALIZED, MAL_STATE_STOPPED,
    MAL_STATE_STARTING, MAL_STATE_STARTED]

/-- C23 (a refused start): a device with a worker thread (every backend but
OpenSL|ES) in the state `MAL_STATE_STOPPED` on which no call is in progress
(the mutex is free and neither the wakeup event nor the start event is
signalled; `workResult`, the stop event and the flag `breakFromMainLoop` are
as earlier calls have left them), the worker in its wait for the wakeup
event or about to signal the stop event before that wait, and a call of
`mal_device_start`, the start routine of the backend failing with the code
`e = mal_device__start_backend b d.api`.  In whatever order the two threads
move: no step fails an assertion; the state is never `MAL_STATE_STARTED`; at
most 22 steps are taken (23 when the worker had yet to signal the stop
event); and as long as the system is not in the configuration
`startRefused d e`, one of the threads can move.  In `startRefused d e` the
worker has recorded `e` in `workResult`, the call has returned `e`, which is
not `MAL_SUCCESS`, the state is `MAL_STATE_STOPPED`, the mutex is free, no
wakeup or start event is signalled and the worker is in its wait again.  A
later call of `mal_device_start` finds a start request like the first one,
passes the three tests of the state and sets the state to
`MAL_STATE_STARTING`. -/
theorem C23_refused_start_returns_to_stopped (b : Backend) (d : mal_device) (w : Worker)
    (sched : List Thread)
    (hstate : d.state = MAL_STATE_STOPPED) (hlock : d.lock = false)
    (hwake : d.wakeupEvent = false) (hstart : d.startEvent = false)
    (hw : w = idleWorker ∨ w = settlingWorker)
    (hapi : d.api ≠ .mal_api_sles)
    (he : mal_device__start_backend b d.api ≠ MAL_SUCCESS) :
    (∃ s, System.run b sched (startRequest d w) = .ok s
      ∧ s.dev.state ≠ MAL_STATE_STARTED
      ∧ System.moves b sched (startRequest d w) ≤ (if w = idleWorker then 22 else 23)
      ∧ (s = startRefused d (mal_device__start_backend b d.api)
          ∨ ∃ t s', s.step b t = .ok (some s')))
    ∧ (startRefused d (mal_device__start_backend b d.api)).dev.workResult
        = mal_device__start_backend b d.api
    ∧ (startRefused d (mal_device__start_backend b d.api)).clients
        = [.start (.returned (mal_device__start_backend b d.api))]
    ∧ (startRefused d (mal_device__start_backend b d.api)).dev.state = MAL_STATE_STOPPED
    ∧ (startRefused d (mal_device__start_backend b d.api)).dev.lock = false
    ∧ (startRefused d (mal_device__start_backend b d.api)).dev.wakeupEvent = false
    ∧ (startRefused d (mal_device__start_backend b d.api)).dev.startEvent = false
    ∧ (startRefused d (mal_device__start_backend b d.api)).worker = some idleWorker
    ∧ { startRefused d (mal_device__start_backend b d.api) with
          clients := [.start .checkUninitialized] }
        = startRequest (startRefused d (mal_device__start_backend b d.api)).dev idleWorker
    ∧ ∀ b' : Backend,
        System.run b' (List.replicate 6 (.client 0))
            (startRequest (startRefused d (mal_device__start_backend b d.api)).dev idleWorker)
          = .ok (startAccepted (startRefused d (mal_device__start_backend b d.api)).dev) := by
  refine ⟨?_, rfl, rfl, hstate, hlock, hwake, hstart, rfl, rfl,
    fun b' => start_accepted b' _ hstate hlock⟩
  have key : ∀ early : Bool, w = (if early then settlingWorker else idleWorker) →
      ∃ s, System.run b sched (startRequest d w) = .ok s
        ∧ s.dev.state ≠ MAL_STATE_STARTED
        ∧ System.moves b sched (startRequest d w) + (if early then 0 else 1) ≤ 23
        ∧ (s = startRefused d (mal_device__start_backend b d.api)
            ∨ ∃ t s', s.step b t = .ok (some s')) := by
    intro early hwe
    have hv0 : refusedValid early 0 (if early then 0 else 1) = true := by
      cases early <;> decide
    obtain ⟨i, j, hv, hr, hm⟩ := refused_run b d early hapi he sched 0 _ hv0
    rw [refusedAfter_first d _ early hstate hlock hwake hstart, ← hwe] at hr hm
    obtain ⟨hi, hj⟩ := refusedValid_bound early i j hv
    refine ⟨_, hr, refusedAfter_state _ _ _ _ _, by omega, ?_⟩
    by_cases hlast : i = 11 ∧ j = 12
    · left
      obtain ⟨rfl, rfl⟩ := hlast
      exact refusedAfter_last d _ early hstate hlock hwake hstart
    · right
      by_cases hc : i < 8 ∨ (i = 8 ∧ 8 ≤ j) ∨ i = 9 ∨ i = 10
      · exact ⟨.client 0, _, by rw [refused_client_step b d early hapi i j hv, if_pos hc]⟩
      · have hwm : j = 0 ∨ (j = 1 ∧ 8 ≤ i) ∨ (2 ≤ j ∧ j ≤ 11) := by
          unfold refusedValid at hv
          simp only [Bool.or_eq_true, Bool.and_eq_true, decide_eq_true_eq, beq_iff_eq] at hv
          omega
        exact ⟨.worker, _, by rw [refused_worker_step b d early he i j hv, if_pos hwm]⟩
  rcases hw with rfl | rfl
  · obtain ⟨s, h1, h2, h3, h4⟩ := key false rfl
    refine ⟨s, h1, h2, ?_, h4⟩
    rw [if_pos rfl]
    simp only [Bool.false_eq_true, if_false] at h3
    omega
  · obtain ⟨s, h1, h2, h3, h4⟩ := key true rfl
    refine ⟨s, h1, h2, ?_, h4⟩
    rw [if_neg (by decide)]
    simp only [if_true] at h3
    omega

/-- C23, on concrete inputs: a device of the DirectSound backend after
`mal_device_init`, a start and a stop, so that the flag `breakFromMainLoop` is
set, and a start that the backend refuses with
`MAL_FAILED_TO_START_BACKEND_DEVICE`.  The schedule `refusedSchedule` takes
the 22 steps and ends in `startRefused`; with the worker about to signal the
stop event, one step more is taken. -/
theorem C23_witness :
    ((cycledDevice .mal_api_dsound).state = MAL_STATE_STOPPED
      ∧ (cycledDevice .mal_api_dsound).lock = false
      ∧ (cycledDevice .mal_api_dsound).wakeupEvent = false
      ∧ (cycledDevice .mal_api_dsound).startEvent = false
      ∧ (cycledDevice .mal_api_dsound).api ≠ .mal_api_sles
      ∧ mal_device__start_backend refusingBackend (cycledDevice .mal_api_dsound).api
          ≠ MAL_SUCCESS)
    ∧ (∃ s, System.run refusingBackend refusedSchedule
            (startRequest (cycledDevice .mal_api_dsound) idleWorker) = .ok s
        ∧ s.dev.state ≠ MAL_STATE_STARTED
        ∧ System.moves refusingBackend refusedSchedule
            (startRequest (cycledDevice .mal_api_dsound) idleWorker)
          ≤ (if idleWorker = idleWorker then 22 else 23)
        ∧ (s = startRefused (cycledDevice .mal_api_dsound)
                (mal_device__start_backend refusingBackend (cycledDevice .mal_api_dsound).api)
            ∨ ∃ t s', s.step refusingBackend t = .ok (some s')))
    ∧ (∃ s, System.run refusingBackend (.worker :: refusedSchedule)
            (startRequest (cycledDevice .mal_api_dsound) settlingWorker) = .ok s
        ∧ s.dev.state ≠ MAL_STATE_STARTED
        ∧ System.moves refusingBackend (.worker :: refusedSchedule)
            (startRequest (cycledDevice .mal_api_dsound) settlingWorker)
          ≤ (if settlingWorker = idleWorker then 22 else 23)
        ∧ (s = startRefused (cycledDevice .mal_api_dsound)
                (mal_device__start_backend refusingBackend (cycledDevice .mal_api_dsound).api)
            ∨ ∃ t s', s.step refusingBackend t = .ok (some s')))
    ∧ System.run refusingBackend refusedSchedule
          (startRequest (cycledDevice .mal_api_dsound) idleWorker)
        = .ok (startRefused (cycledDevice .mal_api_dsound) MAL_FAILED_TO_START_BACKEND_DEVICE)
    ∧ System.moves refusingBackend refusedSchedule
          (startRequest (cycledDevice .mal_api_dsound) idleWorker) = 22
    ∧ System.run refusingBackend (.worker :: refusedSchedule)
          (startRequest (cycledDevice .mal_api_dsound) settlingWorker)
        = .ok (startRefused (cycledDevice .mal_api_dsound) MAL_FAILED_TO_START_BACKEND_DEVICE)
    ∧ System.moves refusingBackend (.worker :: refusedSchedule)
          (startRequest (cycledDevice .mal_api_dsound) settlingWorker) = 23
    ∧ (mal_device_init dsoundEnv (some zeroObject) (some stereoConfig)).map System.ofInit
        = .ok (some (initWaiting .mal_api_dsound))
    ∧ System.run goodBackend (List.replicate 5 .worker ++ List.replicate 2 (.client 0))
          (initWaiting .mal_api_dsound)
        = .ok (initDone .mal_api_dsound)
    ∧ { initDone .mal_api_dsound with clients := [.start .checkUninitialized] }
        = startRequest (stoppedDevice .mal_api_dsound) idleWorker
    ∧ System.run goodBackend
          (List.replicate 8 (.client 0) ++ List.replicate 10 .worker
            ++ List.replicate 3 (.client 0))
          (startRequest (stoppedDevice .mal_api_dsound) idleWorker)
        = .ok { dev := startedDevice .mal_api_dsound, worker := some runningWorker,
                clients := [.start (.returned MAL_SUCCESS)] }
    ∧ System.run goodBackend
          (List.replicate 8 (.client 0) ++ List.replicate 5 .worker
            ++ List.replicate 2 (.client 0))
          { dev := startedDevice .mal_api_dsound, worker := some runningWorker,
            clients := [.stop .checkUninitialized] }
        = .ok { dev := cycledDevice .mal_api_dsound, worker := some idleWorker,
                clients := [.stop (.returned MAL_SUCCESS)] } :=
  ⟨by decide,
    (C23_refused_start_returns_to_stopped refusingBackend (cycledDevice .mal_api_dsound)
      idleWorker refusedSchedule (by decide) (by decide) (by decide) (by decide)
      (Or.inl rfl) (by decide) (by decide)).1,
    (C23_refused_start_returns_to_stopped refusingBackend (cycledDevice .mal_api_dsound)
      settlingWorker (.worker :: refusedSchedule) (by decide) (by decide) (by decide) (by decide)
      (Or.inr rfl) (by decide) (by decide)).1,
    by decide, by decide, by decide, by decide, by decide, by decide, by decide, by decide,
    by decide⟩
/-! ## The mutex of a device -/

theorem mal_device_start_lock (d d' : mal_device) (pc pc' : StartAt)
    (h : mal_device_start d pc = some (d', pc')) :
    (pc.holdsLock = pc'.holdsLock ∧ d'.lock = d.lock)
      ∨ (pc.holdsLock = false ∧ pc'.holdsLock = true ∧ d.lock = false ∧ d'.lock = true)
      ∨ (pc.holdsLock = true ∧ pc'.holdsLock = false ∧ d'.lock = false) := by
  cases pc <;> simp only [mal_device_start] at h <;> (try split at h) <;>
    simp only [Option.some.injEq, Prod.mk.injEq, reduceCtorEq] at h <;>
    obtain ⟨rfl, rfl⟩ := h <;> simp_all [StartAt.holdsLock]

theorem mal_device_stop_lock (b : Backend) (d d' : mal_device) (pc pc' : StopAt)
    (h : mal_device_stop b d pc = some (d', pc')) :
    (pc.holdsLock = pc'.holdsLock ∧ d'.lock = d.lock)
      ∨ (pc.holdsLock = false ∧ pc'.holdsLock = true ∧ d.lock = false ∧ d'.lock = true)
      ∨ (pc.holdsLock = true ∧ pc'.holdsLock = false ∧ d'.lock = false) := by
  cases pc <;> simp only [mal_device_stop] at h <;> (try split at h) <;>
    simp only [Option.some.injEq, Prod.mk.injEq, reduceCtorEq] at h <;>
    obtain ⟨rfl, rfl⟩ := h <;> simp_all [StopAt.holdsLock]

theorem clientStep_lock (b : Backend) (wr : Bool) (d d' : mal_device) (c c' : Client)
    (hc : c.isStartOrStop = true) (h : clientStep b wr d c = .ok (some (d', c'))) :
    c'.isStartOrStop = true
      ∧ ((c.holdsLock = c'.holdsLock ∧ d'.lock = d.lock)
        ∨ (c.holdsLock = false ∧ c'.holdsLock = true ∧ d.lock = false ∧ d'.lock = true)
        ∨ (c.holdsLock = true ∧ c'.holdsLock = false ∧ d'.lock = false)) := by
  cases c with
  | init pc => simp [Client.isStartOrStop] at hc
  | uninit pc => simp [Client.isStartOrStop] at hc
  | start pc =>
    simp only [clientStep] at h
    cases hs : mal_device_start d pc with
    | none => rw [hs] at h; simp at h
    | some r =>
      obtain ⟨d1, pc1⟩ := r
      rw [hs] at h
      simp only [Except.ok.injEq, Option.some.injEq, Prod.mk.injEq] at h
      obtain ⟨rfl, rfl⟩ := h
      exact ⟨rfl, mal_device_start_lock d d1 pc pc1 hs⟩
  | stop pc =>
    simp only [clientStep] at h
    cases hs : mal_device_stop b d pc with
    | none => rw [hs] at h; simp at h
    | some r =>
      obtain ⟨d1, pc1⟩ := r
      rw [hs] at h
      simp only [Except.ok.injEq, Option.some.injEq, Prod.mk.injEq] at h
      obtain ⟨rfl, rfl⟩ := h
      exact ⟨rfl, mal_device_stop_lock b d d1 pc pc1 hs⟩

theorem mal_worker_thread_lock (b : Backend) (d d' : mal_device) (w w' : Worker)
    (h : mal_worker_thread b d w = .ok (some (d', w'))) : d'.lock = d.lock := by
  unfold mal_worker_thread at h
  split at h <;> (try split at h) <;>
    simp only [Except.ok.injEq, Option.some.injEq, Prod.mk.injEq, reduceCtorEq] at h <;>
    obtain ⟨rfl, -⟩ := h <;> rfl

theorem countP_set_client (p : Client → Bool) (c' : Client) :
    ∀ (l : List Client) (i : Nat) (c : Client), l[i]? = some c →
      (l.set i c').countP p + (if p c then 1 else 0)
        = l.countP p + (if p c' then 1 else 0) := by
  intro l
  induction l with
  | nil => intro i c h; simp at h
  | cons a rest ih =>
    intro i c h
    cases i with
    | zero =>
      simp only [List.getElem?_cons_zero, Option.some.injEq] at h
      subst h
      simp only [List.set_cons_zero, List.countP_cons]
      omega
    | succ i =>
      simp only [List.getElem?_cons_succ] at h
      have := ih i c h
      simp only [List.set_cons_succ, List.countP_cons]
      omega

theorem countP_le_one_unique (p : Client → Bool) :
    ∀ (l : List Client) (i j : Nat) (a c : Client), l.countP p ≤ 1 →
      l[i]? = some a → l[j]? = some c → p a = true → p c = true → i = j := by
  intro l
  induction l with
  | nil => intro i j a c _ h; simp at h
  | cons x rest ih =>
    intro i j a c hcount hi hj ha hc
    simp only [List.countP_cons] at hcount
    have hmem : ∀ (k : Nat) (y : Client), rest[k]? = some y → p y = true →
        1 ≤ rest.countP p := by
      intro k y hk hy
      exact List.countP_pos_iff.mpr ⟨y, List.getElem?_mem hk, hy⟩
    cases i with
    | zero =>
      cases j with
      | zero => rfl
      | succ j =>
        simp only [List.getElem?_cons_zero, Option.some.injEq] at hi
        simp only [List.getElem?_cons_succ] at hj
        subst hi
        have := hmem j c hj hc
        simp only [ha, if_true] at hcount
        omega
    | succ i =>
      cases j with
      | zero =>
        simp only [List.getElem?_cons_zero, Option.some.injEq] at hj
        simp only [List.getElem?_cons_succ] at hi
        subst hj
        have := hmem i a hi ha
        simp only [hc, if_true] at hcount
        omega
      | succ j =>
        simp only [List.getElem?_cons_succ] at hi hj
        have : rest.countP p ≤ 1 := by omega
        rw [ih i j a c this hi hj ha hc]

/-- As many clients are inside the mutex as the mutex says, and every client
is inside a call of `mal_device_start` or `mal_device_stop`. -/
theorem mutex_step (b : Backend) (s s' : System) (t : Thread)
    (h : s.step b t = .ok (some s'))
    (hcount : s.clients.countP Client.holdsLock = if s.dev.lock then 1 else 0)
    (hkind : ∀ c ∈ s.clients, c.isStartOrStop = true) :
    s'.clients.countP Client.holdsLock = (if s'.dev.lock then 1 else 0)
      ∧ ∀ c ∈ s'.clients, c.isStartOrStop = true := by
  cases t with
  | worker =>
    simp only [System.step] at h
    cases hw : s.worker with
    | none => rw [hw] at h; simp at h
    | some w =>
      rw [hw] at h
      simp only [] at h
      cases hr : mal_worker_thread b s.dev w with
      | error e => rw [hr] at h; simp at h
      | ok r =>
        rw [hr] at h
        cases r with
        | none => simp at h
        | some r =>
          obtain ⟨d, w'⟩ := r
          simp only [Except.ok.injEq, Option.some.injEq] at h
          subst h
          have hl := mal_worker_thread_lock b s.dev d w w' hr
          simp only [hl]
          exact ⟨hcount, hkind⟩
  | client i =>
    simp only [System.step] at h
    cases hc : s.clients[i]? with
    | none => rw [hc] at h; simp at h
    | some c =>
      rw [hc] at h
      simp only [] at h
      cases hr : clientStep b s.workerReturned s.dev c with
      | error e => rw [hr] at h; simp at h
      | ok r =>
        rw [hr] at h
        cases r with
        | none => simp at h
        | some r =>
          obtain ⟨d, c'⟩ := r
          simp only [Except.ok.injEq, Option.some.injEq] at h
          subst h
          have hmem : c ∈ s.clients := List.getElem?_mem hc
          obtain ⟨hk', hl⟩ := clientStep_lock b _ s.dev d c c' (hkind c hmem) hr
          have hset := countP_set_client Client.holdsLock c' s.clients i c hc
          have hpos : c.holdsLock = true → 1 ≤ s.clients.countP Client.holdsLock :=
            fun hh => List.countP_pos_iff.mpr ⟨c, hmem, hh⟩
          refine ⟨?_, ?_⟩
          · simp only []
            rcases hl with ⟨h1, h2⟩ | ⟨h1, h2, h3, h4⟩ | ⟨h1, h2, h3⟩
            · rw [h1] at hset
              rw [h2]
              omega
            · rw [h1, h2] at hset
              rw [h3] at hcount
              rw [h4]
              simp only [if_true, Bool.false_eq_true, if_false] at hset hcount ⊢
              omega
            · rw [h1, h2] at hset
              have := hpos h1
              rw [h3]
              simp only [if_true, Bool.false_eq_true, if_false] at hset ⊢
              split at hcount <;> omega
          · intro x hx
            simp only [] at hx
            rcases List.mem_or_eq_of_mem_set hx with hx | hx
            · exact hkind x hx
            · rw [hx]; exact hk'

theorem mutex_run (b : Backend) (sched : List Thread) :
    ∀ (s s' : System), System.run b sched s = .ok s' →
      s.clients.countP Client.holdsLock = (if s.dev.lock then 1 else 0) →
      (∀ c ∈ s.clients, c.isStartOrStop = true) →
      s'.clients.countP Client.holdsLock = (if s'.dev.lock then 1 else 0)
        ∧ ∀ c ∈ s'.clients, c.isStartOrStop = true := by
  induction sched with
  | nil =>
    intro s s' h hcount hkind
    simp only [System.run, Except.ok.injEq] at h
    subst h
    exact ⟨hcount, hkind⟩
  | cons t rest ih =>
    intro s s' h hcount hkind
    simp only [System.run] at h
    cases hs : s.step b t with
    | error e => rw [hs] at h; simp at h
    | ok r =>
      rw [hs] at h
      cases r with
      | none => exact ih s s' h hcount hkind
      | some s1 =>
        obtain ⟨h1, h2⟩ := mutex_step b s s1 t hs hcount hkind
        exact ih s1 s' h h1 h2

theorem countP_holdsLock_entry (l : List Client)
    (h : ∀ c ∈ l, c = .start .checkUninitialized ∨ c = .stop .checkUninitialized) :
    l.countP Client.holdsLock = 0 ∧ ∀ c ∈ l, c.isStartOrStop = true := by
  constructor
  · rw [List.countP_eq_zero]
    intro c hc
    rcases h c hc with rfl | rfl <;> simp [Client.holdsLock, StartAt.holdsLock, StopAt.holdsLock]
  · intro c hc
    rcases h c hc with rfl | rfl <;> rfl

/-- C25, as the code has it: `mal_device_start` and `mal_device_stop` hold the
mutex of the device from their `mal_mutex_lock`, which follows the test for
`MAL_STATE_UNINITIALIZED`, to their `mal_mutex_unlock`, that is for the three
tests of the state that decide the call, for the change of the state and for
the signal and the wait.  For a device with any number of clients that enter
`mal_device_start` or `mal_device_stop` while the mutex is free, with or
without a worker thread, in every configuration that the threads can reach,
in whatever order they move: no two clients are between `mal_mutex_lock` and
`mal_mutex_unlock`, and while a client is there the mutex is held. -/
theorem C25_start_and_stop_exclude_each_other (b : Backend) (sched : List Thread)
    (s s' : System)
    (hclients : ∀ c ∈ s.clients, c = .start .checkUninitialized ∨ c = .stop .checkUninitialized)
    (hlock : s.dev.lock = false)
    (hrun : System.run b sched s = .ok s') :
    (∀ (i j : Nat) (ci cj : Client), s'.clients[i]? = some ci → s'.clients[j]? = some cj →
        ci.holdsLock = true → cj.holdsLock = true → i = j)
    ∧ (∀ c ∈ s'.clients, c.holdsLock = true → s'.dev.lock = true) := by
  obtain ⟨h0, hk⟩ := countP_holdsLock_entry s.clients hclients
  obtain ⟨hcount, _⟩ := mutex_run b sched s s' hrun (by rw [h0, hlock]; rfl) hk
  constructor
  · intro i j ci cj hi hj hci hcj
    exact countP_le_one_unique Client.holdsLock s'.clients i j ci cj
      (by rw [hcount]; split <;> omega) hi hj hci hcj
  · intro c hc hh
    have : 0 < s'.clients.countP Client.holdsLock := List.countP_pos_iff.mpr ⟨c, hc, hh⟩
    rw [hcount] at this
    by_contra hne
    simp only [hne, Bool.false_eq_true, if_false, lt_irrefl] at this

/-- C25, on a concrete input: two clients call `mal_device_start` on a stopped
device.  When the first one has set the state to `MAL_STATE_STARTING`, the
second one has passed the test for `MAL_STATE_UNINITIALIZED` and cannot move:
it waits for the mutex. -/
theorem C25_witness :
    System.run goodBackend
        [.client 0, .client 1, .client 0, .client 1, .client 0, .client 0, .client 0, .client 0,
         .client 1]
        twoStarts = .ok twoStartsLater
    ∧ twoStartsLater.step goodBackend (.client 1) = .ok none
    ∧ (∀ (i j : Nat) (ci cj : Client), twoStartsLater.clients[i]? = some ci → twoStartsLater.clients[j]? = some cj →
        ci.holdsLock = true → cj.holdsLock = true → i = j)
    ∧ (∀ c ∈ twoStartsLater.clients, c.holdsLock = true → twoStartsLater.dev.lock = true) :=
  ⟨by decide, by decide,
    C25_start_and_stop_exclude_each_other goodBackend
      [.client 0, .client 1, .client 0, .client 1, .client 0, .client 0, .client 0, .client 0,
       .client 1]
      twoStarts twoStartsLater (by decide) (by decide) (by decide)⟩

/-- C25 (`mal_device_uninit` changes the state without the mutex): a stopped
device, one client in `mal_device_start` and one in `mal_device_uninit`.  The
first client takes the mutex and finds the state `MAL_STATE_STOPPED` in its
three tests; the second client, which never takes the mutex, finds the device
initialised and not started and sets the state to `MAL_STATE_UNINITIALIZED`;
the first client, still holding the mutex, then sets the state to
`MAL_STATE_STARTING`. -/
theorem C25_uninit_interleaves_with_start :
    System.run goodBackend
        [.client 0, .client 0, .client 0, .client 0, .client 0] startAndUninit
      = .ok { dev := { stoppedDevice .mal_api_null with lock := true },
              worker := some idleWorker,
              clients := [.start .setStarting, .uninit .checkInitialized] }
    ∧ System.run goodBackend
        [.client 0, .client 0, .client 0, .client 0, .client 0, .client 1, .client 1, .client 1]
        startAndUninit
      = .ok { dev := { stoppedDevice .mal_api_null with lock := true,
                                                        state := MAL_STATE_UNINITIALIZED },
              worker := some idleWorker,
              clients := [.start .setStarting, .uninit .chooseBackend] }
    ∧ System.run goodBackend
        [.client 0, .client 0, .client 0, .client 0, .client 0, .client 1, .client 1, .client 1,
         .client 0]
        startAndUninit
      = .ok { dev := { stoppedDevice .mal_api_null with lock := true,
                                                        state := MAL_STATE_STARTING },
              worker := some idleWorker,
              clients := [.start .chooseBackend, .uninit .chooseBackend] } := by
  decide
end Mintaro
